import Mathlib

/-!
Fixed-width 24/40/48/56-bit integer types of go-intx.

A shallow embedding of the Go packages `int24`, `int40`, `int48` and `int56`
(`24/main.go`, `40/main.go`, `48/main.go`, `56/main.go`) together with the parts of
Go's `strconv` that they call, followed by theorems about them.

Conventions of the embedding
* a Go `byte` is a `Fin 256`; a `[]byte`, a `[n]byte` and a `string` are a `List Byte`;
* a value of an unsigned machine type is a `Nat`, a value of a signed machine type is
  an `Int`; every conversion and every operation that can wrap is written with an
  explicit reduction modulo `2^32` or `2^64`;
* a Go function returning `(T, error)` returns a pair `T × Option GoError`,
  `none` standing for the `nil` error;
* a method with a pointer receiver takes the receiver's old value and returns the new one;
* code that can panic returns a `Run`.
-/

namespace Intx

/-! ## Machine integers -/

/-- A Go `byte`. -/
abbrev Byte := Fin 256

/-- The conversion `byte(x)` of an unsigned machine integer: the low eight bits. -/
def byte (x : Nat) : Byte := ⟨x % 256, Nat.mod_lt x (by decide)⟩

/-- The conversion `uint32(x)`: the 32-bit pattern of `x` read as unsigned. -/
def toUint32 (x : Int) : Nat := (x % 2 ^ 32).toNat

/-- The conversion `uint64(x)`: the 64-bit pattern of `x` read as unsigned. -/
def toUint64 (x : Int) : Nat := (x % 2 ^ 64).toNat

/-- The conversion `int32(x)`: the 32-bit pattern of `x` read in two's complement. -/
def toInt32 (x : Int) : Int := (x + 2 ^ 31) % 2 ^ 32 - 2 ^ 31

/-- The conversion `int64(x)`: the 64-bit pattern of `x` read in two's complement. -/
def toInt64 (x : Int) : Int := (x + 2 ^ 63) % 2 ^ 64 - 2 ^ 63

/-- Left shift `x << k` on `uint32`. -/
def shlUint32 (x k : Nat) : Nat := (x <<< k) % 2 ^ 32

/-- Left shift `x << k` on `uint64`. -/
def shlUint64 (x k : Nat) : Nat := (x <<< k) % 2 ^ 64

/-- Left shift `x << k` on `int32`: the pattern is shifted and read back in two's complement. -/
def shlInt32 (x : Int) (k : Nat) : Int := toInt32 ((toUint32 x <<< k : Nat) : Int)

/-- Left shift `x << k` on `int64`. -/
def shlInt64 (x : Int) (k : Nat) : Int := toInt64 ((toUint64 x <<< k : Nat) : Int)

/-- Bitwise or `x | y` on `int32`, taken on the two's complement patterns. -/
def orInt32 (x y : Int) : Int := toInt32 ((toUint32 x ||| toUint32 y : Nat) : Int)

/-- Bitwise or `x | y` on `int64`, taken on the two's complement patterns. -/
def orInt64 (x y : Int) : Int := toInt64 ((toUint64 x ||| toUint64 y : Nat) : Int)

/-- The untyped constant expression `^c` of Go: the bitwise complement of an integer constant. -/
def bitNot (c : Int) : Int := -c - 1

/-! ## Errors, panics -/

/-- The two sentinel errors of `strconv`: `ErrSyntax` and `ErrRange`. -/
inductive StrconvErr where
  | syntaxError
  | rangeError
deriving DecidableEq, Repr

/-- The error values the packages can return. Each package-level variable made by
`errors.New` is its own value; `NumError` is `*strconv.NumError` with its three fields. -/
inductive GoError where
  | ErrInt24OutOfRange
  | ErrUint24OutOfRange
  | ErrInt24InvalidByteLength
  | ErrInt24EmptyData
  | ErrInt40OutOfRange
  | ErrUint40OutOfRange
  | ErrInt40InvalidByteLength
  | ErrInt40EmptyData
  | ErrInt48OutOfRange
  | ErrUint48OutOfRange
  | ErrInt48InvalidByteLength
  | ErrInt48EmptyData
  | ErrInt56OutOfRange
  | ErrUint56OutOfRange
  | ErrInt56InvalidByteLength
  | ErrInt56EmptyData
  | NumError (Func : String) (Num : List Byte) (Err : StrconvErr)
deriving DecidableEq, Repr

/-- The message given to `errors.New` for each package-level error variable
(`none` for a `*strconv.NumError`, whose text is built by `strconv`). -/
def GoError.message : GoError → Option String
  | .ErrInt24OutOfRange => some "value exceeds range for Int24"
  | .ErrUint24OutOfRange => some "value exceeds maximum for Uint24"
  | .ErrInt24InvalidByteLength => some "invalid byte length"
  | .ErrInt24EmptyData => some "empty data"
  | .ErrInt40OutOfRange => some "value exceeds range for Int40"
  | .ErrUint40OutOfRange => some "value exceeds maximum for Uint40"
  | .ErrInt40InvalidByteLength => some "invalid byte length"
  | .ErrInt40EmptyData => some "empty data"
  | .ErrInt48OutOfRange => some "value exceeds range for Int48"
  | .ErrUint48OutOfRange => some "value exceeds maximum for Uint48"
  | .ErrInt48InvalidByteLength => some "invalid byte length"
  | .ErrInt48EmptyData => some "empty data"
  | .ErrInt56OutOfRange => some "value exceeds range for Int56"
  | .ErrUint56OutOfRange => some "value exceeds maximum for Uint56"
  | .ErrInt56InvalidByteLength => some "invalid byte length"
  | .ErrInt56EmptyData => some "empty data"
  | .NumError _ _ _ => none

/-- The value carried by a panic: the string given to `panic`, or the run-time error of a
slice expression `s[lo:hi]` whose bounds are out of range. -/
inductive PanicValue where
  | text (s : String)
  | sliceBounds (lo hi : Nat)
deriving DecidableEq, Repr

/-- The outcome of running code that may panic. -/
inductive Run (α : Type) where
  | ret (a : α)
  | panic (p : PanicValue)
deriving DecidableEq, Repr

/-- The slice expression `s[lo:hi]` on a byte slice; it panics unless `lo ≤ hi ≤ len(s)`. -/
def sliceBytes (s : List Byte) (lo hi : Nat) : Run (List Byte) :=
  if lo ≤ hi ∧ hi ≤ s.length then .ret ((s.drop lo).take (hi - lo)) else .panic (.sliceBounds lo hi)

/-! ## The parts of `strconv` used by the packages (base 10, bit size 64) -/

namespace strconv

/-- The helper `lower(c)` of `strconv`: `c | (x - X)`, that is `c | 0x20`. -/
def lower (c : Byte) : Nat := c.val ||| 0x20

/-- The loop of `strconv.ParseUint(s, 10, 64)` over the bytes still to read, `n` being the value
read so far and `s0` the whole input (kept for the error). A digit is a byte from 0x30 to 0x39; a
letter is given the value `lower(c) - 0x61 + 10`, which base 10 rejects; anything else is a
syntax error. `cutoff` is `maxUint64/10 + 1` and `maxVal` is `2^64 - 1`. -/
def ParseUintLoop (s0 : List Byte) : Nat → List Byte → Nat × Option GoError
  | n, [] => (n, none)
  | n, c :: cs =>
    let d? : Option Nat :=
      if 0x30 ≤ c.val ∧ c.val ≤ 0x39 then some (c.val - 0x30)
      else if 0x61 ≤ lower c ∧ lower c ≤ 0x7A then some (lower c - 0x61 + 10)
      else none
    match d? with
    | none => (0, some (.NumError "ParseUint" s0 .syntaxError))
    | some d =>
      if d ≥ 10 then (0, some (.NumError "ParseUint" s0 .syntaxError))
      else if n ≥ (2 ^ 64 - 1) / 10 + 1 then (2 ^ 64 - 1, some (.NumError "ParseUint" s0 .rangeError))
      else
        let n10 := (n * 10) % 2 ^ 64
        let n1 := (n10 + d) % 2 ^ 64
        if n1 < n10 ∨ n1 > 2 ^ 64 - 1 then (2 ^ 64 - 1, some (.NumError "ParseUint" s0 .rangeError))
        else ParseUintLoop s0 n1 cs

/-- The function `strconv.ParseUint(s, 10, 64)`. -/
def ParseUint (s : List Byte) : Nat × Option GoError :=
  if s = [] then (0, some (.NumError "ParseUint" s .syntaxError))
  else ParseUintLoop s 0 s

/-- The function `strconv.ParseInt(s, 10, 64)`: an optional leading sign, then `ParseUint`; a
syntax error of `ParseUint` is returned with `Func` and `Num` overwritten, a range error is
replaced by the one of the signed bounds. -/
def ParseInt (s : List Byte) : Int × Option GoError :=
  match s with
  | [] => (0, some (.NumError "ParseInt" s .syntaxError))
  | c :: rest =>
    let neg : Bool := decide (c.val = 0x2D)
    let s1 := if c.val = 0x2B ∨ c.val = 0x2D then rest else s
    match ParseUint s1 with
    | (_, some (.NumError _ _ .syntaxError)) => (0, some (.NumError "ParseInt" s .syntaxError))
    | (un, _) =>
      if neg = false ∧ un ≥ 2 ^ 63 then (2 ^ 63 - 1, some (.NumError "ParseInt" s .rangeError))
      else if neg = true ∧ un > 2 ^ 63 then (-(2 ^ 63), some (.NumError "ParseInt" s .rangeError))
      else
        let n := toInt64 (un : Int)
        (if neg then toInt64 (-n) else n, none)

/-- The decimal digits of `u`, most significant first, `fuel` bounding their number. -/
def formatDigits : Nat → Nat → List Byte
  | 0, _ => []
  | fuel + 1, u =>
    if u < 10 then [byte (0x30 + u)]
    else formatDigits fuel (u / 10) ++ [byte (0x30 + u % 10)]

/-- The function `formatBits(dst, u, 10, neg, true)` of `strconv` on an empty `dst`: `u` is
negated (as a `uint64`) when `neg` is set, its decimal digits are written and a minus sign is
put in front. A `uint64` has at most 20 decimal digits. -/
def formatBits (u : Nat) (neg : Bool) : List Byte :=
  let u := if neg then (2 ^ 64 - u) % 2 ^ 64 else u
  (if neg then [(0x2D : Byte)] else []) ++ formatDigits 20 u

/-- The function `strconv.AppendInt(nil, i, 10)`; the table it uses for `0 ≤ i < 100` holds the
same digits as `formatBits` writes. -/
def AppendInt (i : Int) : List Byte := formatBits (toUint64 i) (decide (i < 0))

/-- The function `strconv.AppendUint(nil, u, 10)`. -/
def AppendUint (u : Nat) : List Byte := formatBits u false

end strconv

/-! ## Package `int24` (`24/main.go`) -/

/-- The type `Int24`: a 24-bit signed integer; the field `value` is an `int32`. -/
structure Int24 where
  value : Int
deriving DecidableEq, Repr

/-- The function `NewInt24`: rejects `val < -0x800000 || val > 0x7FFFFF`. -/
def NewInt24 (val : Int) : Int24 × Option GoError :=
  if val < -0x800000 ∨ val > 0x7FFFFF then (⟨0⟩, some .ErrInt24OutOfRange)
  else (⟨toInt32 val⟩, none)

/-- The function `MustInt24`: the same check, with a panic in place of the error. -/
def MustInt24 (val : Int) : Run Int24 :=
  if val < -0x800000 ∨ val > 0x7FFFFF then .panic (.text "value exceeds range for Int24")
  else .ret ⟨toInt32 val⟩

/-- The method `Int24.Int64`. -/
def Int24.Int64 (i : Int24) : Int := toInt64 i.value

/-- The method `Int24.ToBytes`: `val := uint32(i.value)`, then the 3 bytes from the top. -/
def Int24.ToBytes (i : Int24) : List Byte :=
  let val := toUint32 i.value
  [byte (val >>> 16), byte (val >>> 8), byte val]

/-- The method `Int24.ToLittleEndianBytes`. -/
def Int24.ToLittleEndianBytes (i : Int24) : List Byte :=
  let val := toUint32 i.value
  [byte val, byte (val >>> 8), byte (val >>> 16)]

/-- The function `FromInt24Bytes`: the length check, the bytes or-ed together as `int32`, then
`val |= ^0x7FFFFF` when `b[0]&0x80 != 0`. -/
def FromInt24Bytes (b : List Byte) : Int24 × Option GoError :=
  if h : b.length ≠ 3 then (⟨0⟩, some .ErrInt24InvalidByteLength)
  else
    let val := orInt32 (orInt32 (shlInt32 (b[0].val : Int) 16) (shlInt32 (b[1].val : Int) 8)) (b[2].val : Int)
    let val := if b[0].val &&& 0x80 ≠ 0 then orInt32 val (bitNot 0x7FFFFF) else val
    (⟨val⟩, none)

/-- The function `FromInt24LittleEndianBytes`: as `FromInt24Bytes` with the bytes taken from the
last to the first; the sign is read in `b[2]`. -/
def FromInt24LittleEndianBytes (b : List Byte) : Int24 × Option GoError :=
  if h : b.length ≠ 3 then (⟨0⟩, some .ErrInt24InvalidByteLength)
  else
    let val := orInt32 (orInt32 (shlInt32 (b[2].val : Int) 16) (shlInt32 (b[1].val : Int) 8)) (b[0].val : Int)
    let val := if b[2].val &&& 0x80 ≠ 0 then orInt32 val (bitNot 0x7FFFFF) else val
    (⟨val⟩, none)

/-- The method `Int24.String`. -/
def Int24.String (i : Int24) : List Byte := strconv.AppendInt (toInt64 i.value)

/-- The method `Int24.MarshalJSON`. -/
def Int24.MarshalJSON (i : Int24) : List Byte × Option GoError := (strconv.AppendInt (toInt64 i.value), none)

/-- The method `Int24.UnmarshalJSON`, on a receiver holding `i`: the result holds the receiver
after the call and the error returned. The quotes are removed by the slice expression
`data[1 : len(data)-1]`. -/
def Int24.UnmarshalJSON (i : Int24) (data : List Byte) : Run (Int24 × Option GoError) :=
  if data.length = 0 then .ret (i, some .ErrInt24EmptyData)
  else
    match (if data[0]? = some 0x22 ∧ data[data.length - 1]? = some 0x22
           then sliceBytes data 1 (data.length - 1) else .ret data) with
    | .panic p => .panic p
    | .ret data =>
      match strconv.ParseInt data with
      | (_, some err) => .ret (i, some err)
      | (val, none) =>
        match NewInt24 val with
        | (_, some err) => .ret (i, some err)
        | (newI, none) => .ret (newI, none)

/-- The method `Int24.MarshalBinary`. -/
def Int24.MarshalBinary (i : Int24) : List Byte × Option GoError := (i.ToBytes, none)

/-- The method `Int24.UnmarshalBinary`, on a receiver holding `i`. -/
def Int24.UnmarshalBinary (i : Int24) (data : List Byte) : Int24 × Option GoError :=
  match FromInt24Bytes data with
  | (_, some err) => (i, some err)
  | (newI, none) => (newI, none)

/-- The type `Uint24`: a 24-bit unsigned integer; the field `value` is a `uint32`. -/
structure Uint24 where
  value : Nat
deriving DecidableEq, Repr

/-- The function `NewUint24`: rejects `val > 0xFFFFFF`. -/
def NewUint24 (val : Nat) : Uint24 × Option GoError :=
  if val > 0xFFFFFF then (⟨0⟩, some .ErrUint24OutOfRange)
  else (⟨toUint32 (val : Int)⟩, none)

/-- The function `MustUint24`: the same check, with a panic in place of the error. -/
def MustUint24 (val : Nat) : Run Uint24 :=
  if val > 0xFFFFFF then .panic (.text "value exceeds range for Uint24")
  else .ret ⟨toUint32 (val : Int)⟩

/-- The method `Uint24.Uint64`. -/
def Uint24.Uint64 (u : Uint24) : Nat := toUint64 (u.value : Int)

/-- The method `Uint24.ToBytes`. -/
def Uint24.ToBytes (u : Uint24) : List Byte :=
  [byte (u.value >>> 16), byte (u.value >>> 8), byte u.value]

/-- The method `Uint24.ToLittleEndianBytes`. -/
def Uint24.ToLittleEndianBytes (u : Uint24) : List Byte :=
  [byte u.value, byte (u.value >>> 8), byte (u.value >>> 16)]

/-- The function `FromUint24Bytes`; its length error is `ErrInt24InvalidByteLength`. -/
def FromUint24Bytes (b : List Byte) : Uint24 × Option GoError :=
  if h : b.length ≠ 3 then (⟨0⟩, some .ErrInt24InvalidByteLength)
  else
    let value := shlUint32 b[0].val 16 ||| shlUint32 b[1].val 8 ||| b[2].val
    (⟨value⟩, none)

/-- The function `FromUint24LittleEndianBytes`. -/
def FromUint24LittleEndianBytes (b : List Byte) : Uint24 × Option GoError :=
  if h : b.length ≠ 3 then (⟨0⟩, some .ErrInt24InvalidByteLength)
  else
    let value := shlUint32 b[2].val 16 ||| shlUint32 b[1].val 8 ||| b[0].val
    (⟨value⟩, none)

/-- The method `Uint24.String`. -/
def Uint24.String (u : Uint24) : List Byte := strconv.AppendUint (toUint64 (u.value : Int))

/-- The method `Uint24.MarshalJSON`. -/
def Uint24.MarshalJSON (u : Uint24) : List Byte × Option GoError := (strconv.AppendUint (toUint64 (u.value : Int)), none)

/-- The method `Uint24.UnmarshalJSON`, on a receiver holding `u`; its empty-data error is
`ErrInt24EmptyData`. -/
def Uint24.UnmarshalJSON (u : Uint24) (data : List Byte) : Run (Uint24 × Option GoError) :=
  if data.length = 0 then .ret (u, some .ErrInt24EmptyData)
  else
    match (if data[0]? = some 0x22 ∧ data[data.length - 1]? = some 0x22
           then sliceBytes data 1 (data.length - 1) else .ret data) with
    | .panic p => .panic p
    | .ret data =>
      match strconv.ParseUint data with
      | (_, some err) => .ret (u, some err)
      | (val, none) =>
        match NewUint24 val with
        | (_, some err) => .ret (u, some err)
        | (newU, none) => .ret (newU, none)

/-- The method `Uint24.MarshalBinary`. -/
def Uint24.MarshalBinary (u : Uint24) : List Byte × Option GoError := (u.ToBytes, none)

/-- The method `Uint24.UnmarshalBinary`, on a receiver holding `u`. -/
def Uint24.UnmarshalBinary (u : Uint24) (data : List Byte) : Uint24 × Option GoError :=
  match FromUint24Bytes data with
  | (_, some err) => (u, some err)
  | (newU, none) => (newU, none)

/-! ## Package `int40` (`40/main.go`) -/

/-- The type `Int40`: a 40-bit signed integer; the field `value` is an `int64`. -/
structure Int40 where
  value : Int
deriving DecidableEq, Repr

/-- The function `NewInt40`: rejects `val < -0x8000000000 || val > 0x7FFFFFFFFF`. -/
def NewInt40 (val : Int) : Int40 × Option GoError :=
  if val < -0x8000000000 ∨ val > 0x7FFFFFFFFF then (⟨0⟩, some .ErrInt40OutOfRange)
  else (⟨val⟩, none)

/-- The function `MustInt40`: the same check, with a panic in place of the error. -/
def MustInt40 (val : Int) : Run Int40 :=
  if val < -0x8000000000 ∨ val > 0x7FFFFFFFFF then .panic (.text "value exceeds range for Int40")
  else .ret ⟨val⟩

/-- The method `Int40.Int64`. -/
def Int40.Int64 (i : Int40) : Int := i.value

/-- The method `Int40.ToBytes`: `val := uint64(i.value)`, then the 5 bytes from the top. -/
def Int40.ToBytes (i : Int40) : List Byte :=
  let val := toUint64 i.value
  [byte (val >>> 32), byte (val >>> 24), byte (val >>> 16), byte (val >>> 8), byte val]

/-- The method `Int40.ToLittleEndianBytes`. -/
def Int40.ToLittleEndianBytes (i : Int40) : List Byte :=
  let val := toUint64 i.value
  [byte val, byte (val >>> 8), byte (val >>> 16), byte (val >>> 24), byte (val >>> 32)]

/-- The function `FromInt40Bytes`: the length check, the bytes or-ed together as `int64`, then
`val |= ^0x7FFFFFFFFF` when `b[0]&0x80 != 0`. -/
def FromInt40Bytes (b : List Byte) : Int40 × Option GoError :=
  if h : b.length ≠ 5 then (⟨0⟩, some .ErrInt40InvalidByteLength)
  else
    let val := orInt64 (orInt64 (orInt64 (orInt64 (shlInt64 (b[0].val : Int) 32) (shlInt64 (b[1].val : Int) 24)) (shlInt64 (b[2].val : Int) 16)) (shlInt64 (b[3].val : Int) 8)) (b[4].val : Int)
    let val := if b[0].val &&& 0x80 ≠ 0 then orInt64 val (bitNot 0x7FFFFFFFFF) else val
    (⟨val⟩, none)

/-- The function `FromInt40LittleEndianBytes`: as `FromInt40Bytes` with the bytes taken from the
last to the first; the sign is read in `b[4]`. -/
def FromInt40LittleEndianBytes (b : List Byte) : Int40 × Option GoError :=
  if h : b.length ≠ 5 then (⟨0⟩, some .ErrInt40InvalidByteLength)
  else
    let val := orInt64 (orInt64 (orInt64 (orInt64 (shlInt64 (b[4].val : Int) 32) (shlInt64 (b[3].val : Int) 24)) (shlInt64 (b[2].val : Int) 16)) (shlInt64 (b[1].val : Int) 8)) (b[0].val : Int)
    let val := if b[4].val &&& 0x80 ≠ 0 then orInt64 val (bitNot 0x7FFFFFFFFF) else val
    (⟨val⟩, none)

/-- The method `Int40.String`. -/
def Int40.String (i : Int40) : List Byte := strconv.AppendInt (i.value)

/-- The method `Int40.MarshalJSON`. -/
def Int40.MarshalJSON (i : Int40) : List Byte × Option GoError := (strconv.AppendInt (i.value), none)

/-- The method `Int40.UnmarshalJSON`, on a receiver holding `i`: the result holds the receiver
after the call and the error returned. The quotes are removed by the slice expression
`data[1 : len(data)-1]`. -/
def Int40.UnmarshalJSON (i : Int40) (data : List Byte) : Run (Int40 × Option GoError) :=
  if data.length = 0 then .ret (i, some .ErrInt40EmptyData)
  else
    match (if data[0]? = some 0x22 ∧ data[data.length - 1]? = some 0x22
           then sliceBytes data 1 (data.length - 1) else .ret data) with
    | .panic p => .panic p
    | .ret data =>
      match strconv.ParseInt data with
      | (_, some err) => .ret (i, some err)
      | (val, none) =>
        match NewInt40 val with
        | (_, some err) => .ret (i, some err)
        | (newI, none) => .ret (newI, none)

/-- The method `Int40.MarshalBinary`. -/
def Int40.MarshalBinary (i : Int40) : List Byte × Option GoError := (i.ToBytes, none)

/-- The method `Int40.UnmarshalBinary`, on a receiver holding `i`. -/
def Int40.UnmarshalBinary (i : Int40) (data : List Byte) : Int40 × Option GoError :=
  match FromInt40Bytes data with
  | (_, some err) => (i, some err)
  | (newI, none) => (newI, none)

/-- The type `Uint40`: a 40-bit unsigned integer; the field `value` is a `uint64`. -/
structure Uint40 where
  value : Nat
deriving DecidableEq, Repr

/-- The function `NewUint40`: rejects `val > 0xFFFFFFFFFF`. -/
def NewUint40 (val : Nat) : Uint40 × Option GoError :=
  if val > 0xFFFFFFFFFF then (⟨0⟩, some .ErrUint40OutOfRange)
  else (⟨val⟩, none)

/-- The function `MustUint40`: the same check, with a panic in place of the error. -/
def MustUint40 (val : Nat) : Run Uint40 :=
  if val > 0xFFFFFFFFFF then .panic (.text "value exceeds maximum for Uint40")
  else .ret ⟨val⟩

/-- The method `Uint40.Uint64`. -/
def Uint40.Uint64 (u : Uint40) : Nat := u.value

/-- The method `Uint40.ToBytes`. -/
def Uint40.ToBytes (u : Uint40) : List Byte :=
  [byte (u.value >>> 32), byte (u.value >>> 24), byte (u.value >>> 16), byte (u.value >>> 8), byte u.value]

/-- The method `Uint40.ToLittleEndianBytes`. -/
def Uint40.ToLittleEndianBytes (u : Uint40) : List Byte :=
  [byte u.value, byte (u.value >>> 8), byte (u.value >>> 16), byte (u.value >>> 24), byte (u.value >>> 32)]

/-- The function `FromUint40Bytes`; its length error is `ErrInt40InvalidByteLength`. -/
def FromUint40Bytes (b : List Byte) : Uint40 × Option GoError :=
  if h : b.length ≠ 5 then (⟨0⟩, some .ErrInt40InvalidByteLength)
  else
    let value := shlUint64 b[0].val 32 ||| shlUint64 b[1].val 24 ||| shlUint64 b[2].val 16 ||| shlUint64 b[3].val 8 ||| b[4].val
    (⟨value⟩, none)

/-- The function `FromUint40LittleEndianBytes`. -/
def FromUint40LittleEndianBytes (b : List Byte) : Uint40 × Option GoError :=
  if h : b.length ≠ 5 then (⟨0⟩, some .ErrInt40InvalidByteLength)
  else
    let value := shlUint64 b[4].val 32 ||| shlUint64 b[3].val 24 ||| shlUint64 b[2].val 16 ||| shlUint64 b[1].val 8 ||| b[0].val
    (⟨value⟩, none)

/-- The method `Uint40.String`. -/
def Uint40.String (u : Uint40) : List Byte := strconv.AppendUint (u.value)

/-- The method `Uint40.MarshalJSON`. -/
def Uint40.MarshalJSON (u : Uint40) : List Byte × Option GoError := (strconv.AppendUint (u.value), none)

/-- The method `Uint40.UnmarshalJSON`, on a receiver holding `u`; its empty-data error is
`ErrInt40EmptyData`. -/
def Uint40.UnmarshalJSON (u : Uint40) (data : List Byte) : Run (Uint40 × Option GoError) :=
  if data.length = 0 then .ret (u, some .ErrInt40EmptyData)
  else
    match (if data[0]? = some 0x22 ∧ data[data.length - 1]? = some 0x22
           then sliceBytes data 1 (data.length - 1) else .ret data) with
    | .panic p => .panic p
    | .ret data =>
      match strconv.ParseUint data with
      | (_, some err) => .ret (u, some err)
      | (val, none) =>
        match NewUint40 val with
        | (_, some err) => .ret (u, some err)
        | (newU, none) => .ret (newU, none)

/-- The method `Uint40.MarshalBinary`. -/
def Uint40.MarshalBinary (u : Uint40) : List Byte × Option GoError := (u.ToBytes, none)

/-- The method `Uint40.UnmarshalBinary`, on a receiver holding `u`. -/
def Uint40.UnmarshalBinary (u : Uint40) (data : List Byte) : Uint40 × Option GoError :=
  match FromUint40Bytes data with
  | (_, some err) => (u, some err)
  | (newU, none) => (newU, none)

/-! ## Package `int48` (`48/main.go`) -/

/-- The type `Int48`: a 48-bit signed integer; the field `value` is an `int64`. -/
structure Int48 where
  value : Int
deriving DecidableEq, Repr

/-- The function `NewInt48`: rejects `val < -0x800000000000 || val > 0x7FFFFFFFFFFF`. -/
def NewInt48 (val : Int) : Int48 × Option GoError :=
  if val < -0x800000000000 ∨ val > 0x7FFFFFFFFFFF then (⟨0⟩, some .ErrInt48OutOfRange)
  else (⟨val⟩, none)

/-- The function `MustInt48`: the same check, with a panic in place of the error. -/
def MustInt48 (val : Int) : Run Int48 :=
  if val < -0x800000000000 ∨ val > 0x7FFFFFFFFFFF then .panic (.text "value exceeds range for Int48")
  else .ret ⟨val⟩

/-- The method `Int48.Int64`. -/
def Int48.Int64 (i : Int48) : Int := i.value

/-- The method `Int48.ToBytes`: `val := uint64(i.value)`, then the 6 bytes from the top. -/
def Int48.ToBytes (i : Int48) : List Byte :=
  let val := toUint64 i.value
  [byte (val >>> 40), byte (val >>> 32), byte (val >>> 24), byte (val >>> 16), byte (val >>> 8), byte val]

/-- The method `Int48.ToLittleEndianBytes`. -/
def Int48.ToLittleEndianBytes (i : Int48) : List Byte :=
  let val := toUint64 i.value
  [byte val, byte (val >>> 8), byte (val >>> 16), byte (val >>> 24), byte (val >>> 32), byte (val >>> 40)]

/-- The function `FromInt48Bytes`: the length check, the bytes or-ed together as `int64`, then
`val |= ^0x7FFFFFFFFFFF` when `b[0]&0x80 != 0`. -/
def FromInt48Bytes (b : List Byte) : Int48 × Option GoError :=
  if h : b.length ≠ 6 then (⟨0⟩, some .ErrInt48InvalidByteLength)
  else
    let val := orInt64 (orInt64 (orInt64 (orInt64 (orInt64 (shlInt64 (b[0].val : Int) 40) (shlInt64 (b[1].val : Int) 32)) (shlInt64 (b[2].val : Int) 24)) (shlInt64 (b[3].val : Int) 16)) (shlInt64 (b[4].val : Int) 8)) (b[5].val : Int)
    let val := if b[0].val &&& 0x80 ≠ 0 then orInt64 val (bitNot 0x7FFFFFFFFFFF) else val
    (⟨val⟩, none)

/-- The function `FromInt48LittleEndianBytes`: as `FromInt48Bytes` with the bytes taken from the
last to the first; the sign is read in `b[5]`. -/
def FromInt48LittleEndianBytes (b : List Byte) : Int48 × Option GoError :=
  if h : b.length ≠ 6 then (⟨0⟩, some .ErrInt48InvalidByteLength)
  else
    let val := orInt64 (orInt64 (orInt64 (orInt64 (orInt64 (shlInt64 (b[5].val : Int) 40) (shlInt64 (b[4].val : Int) 32)) (shlInt64 (b[3].val : Int) 24)) (shlInt64 (b[2].val : Int) 16)) (shlInt64 (b[1].val : Int) 8)) (b[0].val : Int)
    let val := if b[5].val &&& 0x80 ≠ 0 then orInt64 val (bitNot 0x7FFFFFFFFFFF) else val
    (⟨val⟩, none)

/-- The method `Int48.String`. -/
def Int48.String (i : Int48) : List Byte := strconv.AppendInt (i.value)

/-- The method `Int48.MarshalJSON`. -/
def Int48.MarshalJSON (i : Int48) : List Byte × Option GoError := (strconv.AppendInt (i.value), none)

/-- The method `Int48.UnmarshalJSON`, on a receiver holding `i`: the result holds the receiver
after the call and the error returned. The quotes are removed by the slice expression
`data[1 : len(data)-1]`. -/
def Int48.UnmarshalJSON (i : Int48) (data : List Byte) : Run (Int48 × Option GoError) :=
  if data.length = 0 then .ret (i, some .ErrInt48EmptyData)
  else
    match (if data[0]? = some 0x22 ∧ data[data.length - 1]? = some 0x22
           then sliceBytes data 1 (data.length - 1) else .ret data) with
    | .panic p => .panic p
    | .ret data =>
      match strconv.ParseInt data with
      | (_, some err) => .ret (i, some err)
      | (val, none) =>
        match NewInt48 val with
        | (_, some err) => .ret (i, some err)
        | (newI, none) => .ret (newI, none)

/-- The method `Int48.MarshalBinary`. -/
def Int48.MarshalBinary (i : Int48) : List Byte × Option GoError := (i.ToBytes, none)

/-- The method `Int48.UnmarshalBinary`, on a receiver holding `i`. -/
def Int48.UnmarshalBinary (i : Int48) (data : List Byte) : Int48 × Option GoError :=
  match FromInt48Bytes data with
  | (_, some err) => (i, some err)
  | (newI, none) => (newI, none)

/-- The type `Uint48`: a 48-bit unsigned integer; the field `value` is a `uint64`. -/
structure Uint48 where
  value : Nat
deriving DecidableEq, Repr

/-- The function `NewUint48`: rejects `val > 0xFFFFFFFFFFFF`. -/
def NewUint48 (val : Nat) : Uint48 × Option GoError :=
  if val > 0xFFFFFFFFFFFF then (⟨0⟩, some .ErrUint48OutOfRange)
  else (⟨val⟩, none)

/-- The function `MustUint48`: the same check, with a panic in place of the error. -/
def MustUint48 (val : Nat) : Run Uint48 :=
  if val > 0xFFFFFFFFFFFF then .panic (.text "value exceeds maximum for Uint48")
  else .ret ⟨val⟩

/-- The method `Uint48.Uint64`. -/
def Uint48.Uint64 (u : Uint48) : Nat := u.value

/-- The method `Uint48.ToBytes`. -/
def Uint48.ToBytes (u : Uint48) : List Byte :=
  [byte (u.value >>> 40), byte (u.value >>> 32), byte (u.value >>> 24), byte (u.value >>> 16), byte (u.value >>> 8), byte u.value]

/-- The method `Uint48.ToLittleEndianBytes`. -/
def Uint48.ToLittleEndianBytes (u : Uint48) : List Byte :=
  [byte u.value, byte (u.value >>> 8), byte (u.value >>> 16), byte (u.value >>> 24), byte (u.value >>> 32), byte (u.value >>> 40)]

/-- The function `FromUint48Bytes`; its length error is `ErrInt48InvalidByteLength`. -/
def FromUint48Bytes (b : List Byte) : Uint48 × Option GoError :=
  if h : b.length ≠ 6 then (⟨0⟩, some .ErrInt48InvalidByteLength)
  else
    let value := shlUint64 b[0].val 40 ||| shlUint64 b[1].val 32 ||| shlUint64 b[2].val 24 ||| shlUint64 b[3].val 16 ||| shlUint64 b[4].val 8 ||| b[5].val
    (⟨value⟩, none)

/-- The function `FromUint48LittleEndianBytes`. -/
def FromUint48LittleEndianBytes (b : List Byte) : Uint48 × Option GoError :=
  if h : b.length ≠ 6 then (⟨0⟩, some .ErrInt48InvalidByteLength)
  else
    let value := shlUint64 b[5].val 40 ||| shlUint64 b[4].val 32 ||| shlUint64 b[3].val 24 ||| shlUint64 b[2].val 16 ||| shlUint64 b[1].val 8 ||| b[0].val
    (⟨value⟩, none)

/-- The method `Uint48.String`. -/
def Uint48.String (u : Uint48) : List Byte := strconv.AppendUint (u.value)

/-- The method `Uint48.MarshalJSON`. -/
def Uint48.MarshalJSON (u : Uint48) : List Byte × Option GoError := (strconv.AppendUint (u.value), none)

/-- The method `Uint48.UnmarshalJSON`, on a receiver holding `u`; its empty-data error is
`ErrInt48EmptyData`. -/
def Uint48.UnmarshalJSON (u : Uint48) (data : List Byte) : Run (Uint48 × Option GoError) :=
  if data.length = 0 then .ret (u, some .ErrInt48EmptyData)
  else
    match (if data[0]? = some 0x22 ∧ data[data.length - 1]? = some 0x22
           then sliceBytes data 1 (data.length - 1) else .ret data) with
    | .panic p => .panic p
    | .ret data =>
      match strconv.ParseUint data with
      | (_, some err) => .ret (u, some err)
      | (val, none) =>
        match NewUint48 val with
        | (_, some err) => .ret (u, some err)
        | (newU, none) => .ret (newU, none)

/-- The method `Uint48.MarshalBinary`. -/
def Uint48.MarshalBinary (u : Uint48) : List Byte × Option GoError := (u.ToBytes, none)

/-- The method `Uint48.UnmarshalBinary`, on a receiver holding `u`. -/
def Uint48.UnmarshalBinary (u : Uint48) (data : List Byte) : Uint48 × Option GoError :=
  match FromUint48Bytes data with
  | (_, some err) => (u, some err)
  | (newU, none) => (newU, none)

/-! ## Package `int56` (`56/main.go`) -/

/-- The type `Int56`: a 56-bit signed integer; the field `value` is an `int64`. -/
structure Int56 where
  value : Int
deriving DecidableEq, Repr

/-- The function `NewInt56`: rejects `val < -0x80000000000000 || val > 0x7FFFFFFFFFFFFF`. -/
def NewInt56 (val : Int) : Int56 × Option GoError :=
  if val < -0x80000000000000 ∨ val > 0x7FFFFFFFFFFFFF then (⟨0⟩, some .ErrInt56OutOfRange)
  else (⟨val⟩, none)

/-- The function `MustInt56`: the same check, with a panic in place of the error. -/
def MustInt56 (val : Int) : Run Int56 :=
  if val < -0x80000000000000 ∨ val > 0x7FFFFFFFFFFFFF then .panic (.text "value exceeds range for Int56")
  else .ret ⟨val⟩

/-- The method `Int56.Int64`. -/
def Int56.Int64 (i : Int56) : Int := i.value

/-- The method `Int56.ToBytes`: `val := uint64(i.value)`, then the 7 bytes from the top. -/
def Int56.ToBytes (i : Int56) : List Byte :=
  let val := toUint64 i.value
  [byte (val >>> 48), byte (val >>> 40), byte (val >>> 32), byte (val >>> 24), byte (val >>> 16), byte (val >>> 8), byte val]

/-- The method `Int56.ToLittleEndianBytes`. -/
def Int56.ToLittleEndianBytes (i : Int56) : List Byte :=
  let val := toUint64 i.value
  [byte val, byte (val >>> 8), byte (val >>> 16), byte (val >>> 24), byte (val >>> 32), byte (val >>> 40), byte (val >>> 48)]

/-- The function `FromInt56Bytes`: the length check, the bytes or-ed together as `int64`, then
`val |= ^0x7FFFFFFFFFFFFF` when `b[0]&0x80 != 0`. -/
def FromInt56Bytes (b : List Byte) : Int56 × Option GoError :=
  if h : b.length ≠ 7 then (⟨0⟩, some .ErrInt56InvalidByteLength)
  else
    let val := orInt64 (orInt64 (orInt64 (orInt64 (orInt64 (orInt64 (shlInt64 (b[0].val : Int) 48) (shlInt64 (b[1].val : Int) 40)) (shlInt64 (b[2].val : Int) 32)) (shlInt64 (b[3].val : Int) 24)) (shlInt64 (b[4].val : Int) 16)) (shlInt64 (b[5].val : Int) 8)) (b[6].val : Int)
    let val := if b[0].val &&& 0x80 ≠ 0 then orInt64 val (bitNot 0x7FFFFFFFFFFFFF) else val
    (⟨val⟩, none)

/-- The function `FromInt56LittleEndianBytes`: as `FromInt56Bytes` with the bytes taken from the
last to the first; the sign is read in `b[6]`. -/
def FromInt56LittleEndianBytes (b : List Byte) : Int56 × Option GoError :=
  if h : b.length ≠ 7 then (⟨0⟩, some .ErrInt56InvalidByteLength)
  else
    let val := orInt64 (orInt64 (orInt64 (orInt64 (orInt64 (orInt64 (shlInt64 (b[6].val : Int) 48) (shlInt64 (b[5].val : Int) 40)) (shlInt64 (b[4].val : Int) 32)) (shlInt64 (b[3].val : Int) 24)) (shlInt64 (b[2].val : Int) 16)) (shlInt64 (b[1].val : Int) 8)) (b[0].val : Int)
    let val := if b[6].val &&& 0x80 ≠ 0 then orInt64 val (bitNot 0x7FFFFFFFFFFFFF) else val
    (⟨val⟩, none)

/-- The method `Int56.String`. -/
def Int56.String (i : Int56) : List Byte := strconv.AppendInt (i.value)

/-- The method `Int56.MarshalJSON`. -/
def Int56.MarshalJSON (i : Int56) : List Byte × Option GoError := (strconv.AppendInt (i.value), none)

/-- The method `Int56.UnmarshalJSON`, on a receiver holding `i`: the result holds the receiver
after the call and the error returned. The quotes are removed by the slice expression
`data[1 : len(data)-1]`. -/
def Int56.UnmarshalJSON (i : Int56) (data : List Byte) : Run (Int56 × Option GoError) :=
  if data.length = 0 then .ret (i, some .ErrInt56EmptyData)
  else
    match (if data[0]? = some 0x22 ∧ data[data.length - 1]? = some 0x22
           then sliceBytes data 1 (data.length - 1) else .ret data) with
    | .panic p => .panic p
    | .ret data =>
      match strconv.ParseInt data with
      | (_, some err) => .ret (i, some err)
      | (val, none) =>
        match NewInt56 val with
        | (_, some err) => .ret (i, some err)
        | (newI, none) => .ret (newI, none)

/-- The method `Int56.MarshalBinary`. -/
def Int56.MarshalBinary (i : Int56) : List Byte × Option GoError := (i.ToBytes, none)

/-- The method `Int56.UnmarshalBinary`, on a receiver holding `i`. -/
def Int56.UnmarshalBinary (i : Int56) (data : List Byte) : Int56 × Option GoError :=
  match FromInt56Bytes data with
  | (_, some err) => (i, some err)
  | (newI, none) => (newI, none)

/-- The type `Uint56`: a 56-bit unsigned integer; the field `value` is a `uint64`. -/
structure Uint56 where
  value : Nat
deriving DecidableEq, Repr

/-- The function `NewUint56`: rejects `val > 0xFFFFFFFFFFFFFF`. -/
def NewUint56 (val : Nat) : Uint56 × Option GoError :=
  if val > 0xFFFFFFFFFFFFFF then (⟨0⟩, some .ErrUint56OutOfRange)
  else (⟨val⟩, none)

/-- The function `MustUint56`: the same check, with a panic in place of the error. -/
def MustUint56 (val : Nat) : Run Uint56 :=
  if val > 0xFFFFFFFFFFFFFF then .panic (.text "value exceeds maximum for Uint56")
  else .ret ⟨val⟩

/-- The method `Uint56.Uint64`. -/
def Uint56.Uint64 (u : Uint56) : Nat := u.value

/-- The method `Uint56.ToBytes`. -/
def Uint56.ToBytes (u : Uint56) : List Byte :=
  [byte (u.value >>> 48), byte (u.value >>> 40), byte (u.value >>> 32), byte (u.value >>> 24), byte (u.value >>> 16), byte (u.value >>> 8), byte u.value]

/-- The method `Uint56.ToLittleEndianBytes`. -/
def Uint56.ToLittleEndianBytes (u : Uint56) : List Byte :=
  [byte u.value, byte (u.value >>> 8), byte (u.value >>> 16), byte (u.value >>> 24), byte (u.value >>> 32), byte (u.value >>> 40), byte (u.value >>> 48)]

/-- The function `FromUint56Bytes`; its length error is `ErrInt56InvalidByteLength`. -/
def FromUint56Bytes (b : List Byte) : Uint56 × Option GoError :=
  if h : b.length ≠ 7 then (⟨0⟩, some .ErrInt56InvalidByteLength)
  else
    let value := shlUint64 b[0].val 48 ||| shlUint64 b[1].val 40 ||| shlUint64 b[2].val 32 ||| shlUint64 b[3].val 24 ||| shlUint64 b[4].val 16 ||| shlUint64 b[5].val 8 ||| b[6].val
    (⟨value⟩, none)

/-- The function `FromUint56LittleEndianBytes`. -/
def FromUint56LittleEndianBytes (b : List Byte) : Uint56 × Option GoError :=
  if h : b.length ≠ 7 then (⟨0⟩, some .ErrInt56InvalidByteLength)
  else
    let value := shlUint64 b[6].val 48 ||| shlUint64 b[5].val 40 ||| shlUint64 b[4].val 32 ||| shlUint64 b[3].val 24 ||| shlUint64 b[2].val 16 ||| shlUint64 b[1].val 8 ||| b[0].val
    (⟨value⟩, none)

/-- The method `Uint56.String`. -/
def Uint56.String (u : Uint56) : List Byte := strconv.AppendUint (u.value)

/-- The method `Uint56.MarshalJSON`. -/
def Uint56.MarshalJSON (u : Uint56) : List Byte × Option GoError := (strconv.AppendUint (u.value), none)

/-- The method `Uint56.UnmarshalJSON`, on a receiver holding `u`; its empty-data error is
`ErrInt56EmptyData`. -/
def Uint56.UnmarshalJSON (u : Uint56) (data : List Byte) : Run (Uint56 × Option GoError) :=
  if data.length = 0 then .ret (u, some .ErrInt56EmptyData)
  else
    match (if data[0]? = some 0x22 ∧ data[data.length - 1]? = some 0x22
           then sliceBytes data 1 (data.length - 1) else .ret data) with
    | .panic p => .panic p
    | .ret data =>
      match strconv.ParseUint data with
      | (_, some err) => .ret (u, some err)
      | (val, none) =>
        match NewUint56 val with
        | (_, some err) => .ret (u, some err)
        | (newU, none) => .ret (newU, none)

/-- The method `Uint56.MarshalBinary`. -/
def Uint56.MarshalBinary (u : Uint56) : List Byte × Option GoError := (u.ToBytes, none)

/-- The method `Uint56.UnmarshalBinary`, on a receiver holding `u`. -/
def Uint56.UnmarshalBinary (u : Uint56) (data : List Byte) : Uint56 × Option GoError :=
  match FromUint56Bytes data with
  | (_, some err) => (u, some err)
  | (newU, none) => (newU, none)

/-! ## Reference notions used to state the properties -/

/-- The `W/8` base-256 digits of `v mod 2^W`, most significant first: digit `i` is
`floor((v mod 2^W) / 256^(W/8-1-i)) mod 256`. -/
def wireDigits (W : Nat) (v : Int) : List Byte :=
  (List.range (W / 8)).map (fun i => byte ((v % 2 ^ W).toNat / 256 ^ (W / 8 - 1 - i)))

/-- The big-endian magnitude of a byte sequence `b` of length `n`: the sum of
`b[i] * 256^(n-1-i)`. -/
def bigEndianMagnitude : List Byte → Nat
  | [] => 0
  | x :: xs => x.val * 256 ^ xs.length + bigEndianMagnitude xs

/-- The little-endian magnitude of a byte sequence `b`: the sum of `b[i] * 256^i`. -/
def littleEndianMagnitude : List Byte → Nat
  | [] => 0
  | x :: xs => x.val + 256 * littleEndianMagnitude xs

/-! ## Reference notions for the payloads of `UnmarshalJSON` -/

/-- Whether a byte is a decimal digit, `0` to `9`. -/
def isDigit (c : Byte) : Bool := decide (0x30 ≤ c.val ∧ c.val ≤ 0x39)

/-- The number written by a sequence of decimal digits, most significant first. -/
def digitsValue (ds : List Byte) : Nat := ds.foldl (fun n c => n * 10 + (c.val - 0x30)) 0

/-- A payload with one pair of enclosing double quotes removed, when it has one: the quotes are
the first and the last byte of a payload of at least two bytes. -/
def quoteStripped (data : List Byte) : List Byte :=
  if 2 ≤ data.length ∧ data[0]? = some 0x22 ∧ data[data.length - 1]? = some 0x22
  then (data.drop 1).take (data.length - 2) else data

/-- The text of a signed decimal integer without its sign: one leading `+` or `-` is dropped. -/
def unsignedPart (s : List Byte) : List Byte :=
  match s with
  | [] => []
  | c :: rest => if c.val = 0x2B ∨ c.val = 0x2D then rest else s

/-- The texts that `strconv.ParseUint` reads as a 64-bit unsigned decimal integer: one digit or
more, of value at most `2^64 - 1`. -/
def isDecimalUint64 (s : List Byte) : Bool :=
  !s.isEmpty && s.all isDigit && decide (digitsValue s ≤ 2 ^ 64 - 1)

/-- The texts that `strconv.ParseInt` reads as a 64-bit signed decimal integer: an optional sign
`+` or `-`, then one digit or more, of value at most `2^63` after `-` and `2^63 - 1` otherwise. -/
def isDecimalInt64 (s : List Byte) : Bool :=
  !(unsignedPart s).isEmpty && (unsignedPart s).all isDigit &&
    decide (digitsValue (unsignedPart s) ≤ (if s.head? = some 0x2D then 2 ^ 63 else 2 ^ 63 - 1))

/-! ## Reference notions for the data model and the sign extension -/

/-- The sign extension as the specification words it, in an `int32`: the magnitude `m` or-ed
with the bitwise complement of the `W`-bit all-ones mask `2^W - 1`. -/
def documentedSignExtend32 (W m : Nat) : Int := orInt32 (m : Int) (bitNot (2 ^ W - 1))

/-- The sign extension as the specification words it, in an `int64`: the magnitude `m` or-ed
with the bitwise complement of the `W`-bit all-ones mask `2^W - 1`. -/
def documentedSignExtend64 (W m : Nat) : Int := orInt64 (m : Int) (bitNot (2 ^ W - 1))

/-- The values of `Int24` reachable from the zero value through the public operations that create
or overwrite a value, whether the call succeeds or fails: the value returned by `NewInt24`,
`MustInt24` (when it returns), `FromInt24Bytes`, `FromInt24LittleEndianBytes`, and the receiver after
`UnmarshalJSON` (when it returns) and after `UnmarshalBinary` on a reachable receiver. -/
inductive ReachableInt24 : Int24 → Prop where
  | zero : ReachableInt24 ⟨0⟩
  | new (val : Int) : ReachableInt24 (NewInt24 val).1
  | must (val : Int) (x : Int24) : MustInt24 val = Run.ret x → ReachableInt24 x
  | fromBytes (b : List Byte) : ReachableInt24 (FromInt24Bytes b).1
  | fromLittleEndianBytes (b : List Byte) : ReachableInt24 (FromInt24LittleEndianBytes b).1
  | unmarshalJSON (r : Int24) (data : List Byte) (r1 : Int24) (err : Option GoError) :
      ReachableInt24 r → Int24.UnmarshalJSON r data = Run.ret (r1, err) → ReachableInt24 r1
  | unmarshalBinary (r : Int24) (data : List Byte) :
      ReachableInt24 r → ReachableInt24 (Int24.UnmarshalBinary r data).1

/-- The values of `Uint24` reachable from the zero value through the public operations that create
or overwrite a value, whether the call succeeds or fails: the value returned by `NewUint24`,
`MustUint24` (when it returns), `FromUint24Bytes`, `FromUint24LittleEndianBytes`, and the receiver after
`UnmarshalJSON` (when it returns) and after `UnmarshalBinary` on a reachable receiver. -/
inductive ReachableUint24 : Uint24 → Prop where
  | zero : ReachableUint24 ⟨0⟩
  | new (val : Nat) : ReachableUint24 (NewUint24 val).1
  | must (val : Nat) (x : Uint24) : MustUint24 val = Run.ret x → ReachableUint24 x
  | fromBytes (b : List Byte) : ReachableUint24 (FromUint24Bytes b).1
  | fromLittleEndianBytes (b : List Byte) : ReachableUint24 (FromUint24LittleEndianBytes b).1
  | unmarshalJSON (r : Uint24) (data : List Byte) (r1 : Uint24) (err : Option GoError) :
      ReachableUint24 r → Uint24.UnmarshalJSON r data = Run.ret (r1, err) → ReachableUint24 r1
  | unmarshalBinary (r : Uint24) (data : List Byte) :
      ReachableUint24 r → ReachableUint24 (Uint24.UnmarshalBinary r data).1

/-- The values of `Int40` reachable from the zero value through the public operations that create
or overwrite a value, whether the call succeeds or fails: the value returned by `NewInt40`,
`MustInt40` (when it returns), `FromInt40Bytes`, `FromInt40LittleEndianBytes`, and the receiver after
`UnmarshalJSON` (when it returns) and after `UnmarshalBinary` on a reachable receiver. -/
inductive ReachableInt40 : Int40 → Prop where
  | zero : ReachableInt40 ⟨0⟩
  | new (val : Int) : ReachableInt40 (NewInt40 val).1
  | must (val : Int) (x : Int40) : MustInt40 val = Run.ret x → ReachableInt40 x
  | fromBytes (b : List Byte) : ReachableInt40 (FromInt40Bytes b).1
  | fromLittleEndianBytes (b : List Byte) : ReachableInt40 (FromInt40LittleEndianBytes b).1
  | unmarshalJSON (r : Int40) (data : List Byte) (r1 : Int40) (err : Option GoError) :
      ReachableInt40 r → Int40.UnmarshalJSON r data = Run.ret (r1, err) → ReachableInt40 r1
  | unmarshalBinary (r : Int40) (data : List Byte) :
      ReachableInt40 r → ReachableInt40 (Int40.UnmarshalBinary r data).1

/-- The values of `Uint40` reachable from the zero value through the public operations that create
or overwrite a value, whether the call succeeds or fails: the value returned by `NewUint40`,
`MustUint40` (when it returns), `FromUint40Bytes`, `FromUint40LittleEndianBytes`, and the receiver after
`UnmarshalJSON` (when it returns) and after `UnmarshalBinary` on a reachable receiver. -/
inductive ReachableUint40 : Uint40 → Prop where
  | zero : ReachableUint40 ⟨0⟩
  | new (val : Nat) : ReachableUint40 (NewUint40 val).1
  | must (val : Nat) (x : Uint40) : MustUint40 val = Run.ret x → ReachableUint40 x
  | fromBytes (b : List Byte) : ReachableUint40 (FromUint40Bytes b).1
  | fromLittleEndianBytes (b : List Byte) : ReachableUint40 (FromUint40LittleEndianBytes b).1
  | unmarshalJSON (r : Uint40) (data : List Byte) (r1 : Uint40) (err : Option GoError) :
      ReachableUint40 r → Uint40.UnmarshalJSON r data = Run.ret (r1, err) → ReachableUint40 r1
  | unmarshalBinary (r : Uint40) (data : List Byte) :
      ReachableUint40 r → ReachableUint40 (Uint40.UnmarshalBinary r data).1

/-- The values of `Int48` reachable from the zero value through the public operations that create
or overwrite a value, whether the call succeeds or fails: the value returned by `NewInt48`,
`MustInt48` (when it returns), `FromInt48Bytes`, `FromInt48LittleEndianBytes`, and the receiver after
`UnmarshalJSON` (when it returns) and after `UnmarshalBinary` on a reachable receiver. -/
inductive ReachableInt48 : Int48 → Prop where
  | zero : ReachableInt48 ⟨0⟩
  | new (val : Int) : ReachableInt48 (NewInt48 val).1
  | must (val : Int) (x : Int48) : MustInt48 val = Run.ret x → ReachableInt48 x
  | fromBytes (b : List Byte) : ReachableInt48 (FromInt48Bytes b).1
  | fromLittleEndianBytes (b : List Byte) : ReachableInt48 (FromInt48LittleEndianBytes b).1
  | unmarshalJSON (r : Int48) (data : List Byte) (r1 : Int48) (err : Option GoError) :
      ReachableInt48 r → Int48.UnmarshalJSON r data = Run.ret (r1, err) → ReachableInt48 r1
  | unmarshalBinary (r : Int48) (data : List Byte) :
      ReachableInt48 r → ReachableInt48 (Int48.UnmarshalBinary r data).1

/-- The values of `Uint48` reachable from the zero value through the public operations that create
or overwrite a value, whether the call succeeds or fails: the value returned by `NewUint48`,
`MustUint48` (when it returns), `FromUint48Bytes`, `FromUint48LittleEndianBytes`, and the receiver after
`UnmarshalJSON` (when it returns) and after `UnmarshalBinary` on a reachable receiver. -/
inductive ReachableUint48 : Uint48 → Prop where
  | zero : ReachableUint48 ⟨0⟩
  | new (val : Nat) : ReachableUint48 (NewUint48 val).1
  | must (val : Nat) (x : Uint48) : MustUint48 val = Run.ret x → ReachableUint48 x
  | fromBytes (b : List Byte) : ReachableUint48 (FromUint48Bytes b).1
  | fromLittleEndianBytes (b : List Byte) : ReachableUint48 (FromUint48LittleEndianBytes b).1
  | unmarshalJSON (r : Uint48) (data : List Byte) (r1 : Uint48) (err : Option GoError) :
      ReachableUint48 r → Uint48.UnmarshalJSON r data = Run.ret (r1, err) → ReachableUint48 r1
  | unmarshalBinary (r : Uint48) (data : List Byte) :
      ReachableUint48 r → ReachableUint48 (Uint48.UnmarshalBinary r data).1

/-- The values of `Int56` reachable from the zero value through the public operations that create
or overwrite a value, whether the call succeeds or fails: the value returned by `NewInt56`,
`MustInt56` (when it returns), `FromInt56Bytes`, `FromInt56LittleEndianBytes`, and the receiver after
`UnmarshalJSON` (when it returns) and after `UnmarshalBinary` on a reachable receiver. -/
inductive ReachableInt56 : Int56 → Prop where
  | zero : ReachableInt56 ⟨0⟩
  | new (val : Int) : ReachableInt56 (NewInt56 val).1
  | must (val : Int) (x : Int56) : MustInt56 val = Run.ret x → ReachableInt56 x
  | fromBytes (b : List Byte) : ReachableInt56 (FromInt56Bytes b).1
  | fromLittleEndianBytes (b : List Byte) : ReachableInt56 (FromInt56LittleEndianBytes b).1
  | unmarshalJSON (r : Int56) (data : List Byte) (r1 : Int56) (err : Option GoError) :
      ReachableInt56 r → Int56.UnmarshalJSON r data = Run.ret (r1, err) → ReachableInt56 r1
  | unmarshalBinary (r : Int56) (data : List Byte) :
      ReachableInt56 r → ReachableInt56 (Int56.UnmarshalBinary r data).1

/-- The values of `Uint56` reachable from the zero value through the public operations that create
or overwrite a value, whether the call succeeds or fails: the value returned by `NewUint56`,
`MustUint56` (when it returns), `FromUint56Bytes`, `FromUint56LittleEndianBytes`, and the receiver after
`UnmarshalJSON` (when it returns) and after `UnmarshalBinary` on a reachable receiver. -/
inductive ReachableUint56 : Uint56 → Prop where
  | zero : ReachableUint56 ⟨0⟩
  | new (val : Nat) : ReachableUint56 (NewUint56 val).1
  | must (val : Nat) (x : Uint56) : MustUint56 val = Run.ret x → ReachableUint56 x
  | fromBytes (b : List Byte) : ReachableUint56 (FromUint56Bytes b).1
  | fromLittleEndianBytes (b : List Byte) : ReachableUint56 (FromUint56LittleEndianBytes b).1
  | unmarshalJSON (r : Uint56) (data : List Byte) (r1 : Uint56) (err : Option GoError) :
      ReachableUint56 r → Uint56.UnmarshalJSON r data = Run.ret (r1, err) → ReachableUint56 r1
  | unmarshalBinary (r : Uint56) (data : List Byte) :
      ReachableUint56 r → ReachableUint56 (Uint56.UnmarshalBinary r data).1

/-! ## Reference order on byte sequences -/

/-- The strict lexicographic order on byte sequences: the first differing byte decides, and a
proper initial part comes before the whole. -/
def lexLess : List Byte → List Byte → Bool
  | [], [] => false
  | [], _ :: _ => true
  | _ :: _, [] => false
  | a :: as, b :: bs => decide (a.val < b.val) || (decide (a.val = b.val) && lexLess as bs)

/-! ## Auxiliary facts on machine integers -/

theorem or_split (k a c r s : Nat) (hr : r < 2 ^ k) (hs : s < 2 ^ k) :
    (2 ^ k * a + r) ||| (2 ^ k * c + s) = 2 ^ k * (a ||| c) + (r ||| s) := by
  apply Nat.eq_of_testBit_eq
  intro j
  rw [Nat.testBit_or, Nat.testBit_mul_pow_two_add a hr, Nat.testBit_mul_pow_two_add c hs,
    Nat.testBit_mul_pow_two_add (a ||| c) (Nat.or_lt_two_pow hr hs)]
  by_cases hj : j < k <;> simp [hj, Nat.testBit_or]

theorem or_eq_add (k x y : Nat) (hx : x % 2 ^ k = 0) (hy : y < 2 ^ k) : x ||| y = x + y := by
  have h := or_split k (x / 2 ^ k) 0 0 y (Nat.two_pow_pos k) hy
  have e : 2 ^ k * (x / 2 ^ k) = x := Nat.mul_div_cancel' (Nat.dvd_of_mod_eq_zero hx)
  simpa [e] using h

theorem or_high (k c r : Nat) (hr : r < 2 ^ k) (hc : 1 ||| c = c) :
    (2 ^ k + r) ||| (2 ^ k * c) = 2 ^ k * c + r := by
  have h := or_split k 1 c r 0 hr (Nat.two_pow_pos k)
  simpa [hc] using h

set_option maxRecDepth 100000 in
theorem byte_and_0x80 : ∀ b : Byte, (b.val &&& 0x80 ≠ 0) ↔ 128 ≤ b.val := by decide

theorem byte_val (x : Nat) : (byte x).val = x % 256 := rfl

theorem toUint32_natCast (n : Nat) (h : n < 2 ^ 32) : toUint32 (n : Int) = n := by
  unfold toUint32; omega

theorem toUint64_natCast (n : Nat) (h : n < 2 ^ 64) : toUint64 (n : Int) = n := by
  unfold toUint64; omega

theorem toInt32_natCast (n : Nat) (h : n < 2 ^ 31) : toInt32 (n : Int) = n := by
  unfold toInt32; omega

theorem toInt64_natCast (n : Nat) (h : n < 2 ^ 63) : toInt64 (n : Int) = n := by
  unfold toInt64; omega

theorem shlInt32_natCast (n k : Nat) (h : n * 2 ^ k < 2 ^ 31) :
    shlInt32 (n : Int) k = ((n * 2 ^ k : Nat) : Int) := by
  have hn : n < 2 ^ 32 := by
    have : n ≤ n * 2 ^ k := Nat.le_mul_of_pos_right n (Nat.two_pow_pos k)
    omega
  unfold shlInt32
  rw [toUint32_natCast n hn, Nat.shiftLeft_eq, toInt32_natCast _ h]

theorem shlInt64_natCast (n k : Nat) (h : n * 2 ^ k < 2 ^ 63) :
    shlInt64 (n : Int) k = ((n * 2 ^ k : Nat) : Int) := by
  have hn : n < 2 ^ 64 := by
    have : n ≤ n * 2 ^ k := Nat.le_mul_of_pos_right n (Nat.two_pow_pos k)
    omega
  unfold shlInt64
  rw [toUint64_natCast n hn, Nat.shiftLeft_eq, toInt64_natCast _ h]

theorem orInt32_natCast (k x y : Nat) (hx : x % 2 ^ k = 0) (hy : y < 2 ^ k) (h : x + y < 2 ^ 31) :
    orInt32 (x : Int) (y : Int) = ((x + y : Nat) : Int) := by
  unfold orInt32
  rw [toUint32_natCast x (by omega), toUint32_natCast y (by omega), or_eq_add k x y hx hy,
    toInt32_natCast _ h]

theorem orInt64_natCast (k x y : Nat) (hx : x % 2 ^ k = 0) (hy : y < 2 ^ k) (h : x + y < 2 ^ 63) :
    orInt64 (x : Int) (y : Int) = ((x + y : Nat) : Int) := by
  unfold orInt64
  rw [toUint64_natCast x (by omega), toUint64_natCast y (by omega), or_eq_add k x y hx hy,
    toInt64_natCast _ h]

theorem shlUint32_small (n k : Nat) (h : n * 2 ^ k < 2 ^ 32) : shlUint32 n k = n * 2 ^ k := by
  unfold shlUint32
  rw [Nat.shiftLeft_eq, Nat.mod_eq_of_lt h]

theorem shlUint64_small (n k : Nat) (h : n * 2 ^ k < 2 ^ 64) : shlUint64 n k = n * 2 ^ k := by
  unfold shlUint64
  rw [Nat.shiftLeft_eq, Nat.mod_eq_of_lt h]

theorem toUint32_bitNot_0x7FFFFF : toUint32 (bitNot 0x7FFFFF) = 2 ^ 23 * 511 := by decide

/-- Sign extension of a 24-bit pattern whose top bit is set, in an `int32`. -/
theorem signExtend24 (m : Nat) (hlo : 2 ^ 23 ≤ m) (hhi : m < 2 ^ 24) :
    orInt32 (m : Int) (bitNot 0x7FFFFF) = (m : Int) - 2 ^ 24 := by
  have hor := or_high 23 511 (m - 2 ^ 23) (by omega) (by decide)
  have e : 2 ^ 23 + (m - 2 ^ 23) = m := by omega
  rw [e] at hor
  unfold orInt32
  rw [toUint32_natCast m (by omega), toUint32_bitNot_0x7FFFFF, hor]
  unfold toInt32
  omega

/-! ### Width 24 -/
theorem decodeInt24_chain (x0 x1 x2 : Nat) (h0 : x0 < 256) (h1 : x1 < 256) (h2 : x2 < 256) :
    orInt32 (orInt32 (shlInt32 (x0 : Int) 16) (shlInt32 (x1 : Int) 8)) (x2 : Int) = ((x0 * 2 ^ 16 + x1 * 2 ^ 8 + x2 : Nat) : Int) := by
  rw [shlInt32_natCast x0 16 (by omega),
    shlInt32_natCast x1 8 (by omega),
    orInt32_natCast 16 (x0 * 2 ^ 16) (x1 * 2 ^ 8) (by omega) (by omega) (by omega),
    orInt32_natCast 8 (x0 * 2 ^ 16 + x1 * 2 ^ 8) (x2) (by omega) (by omega) (by omega)]
theorem decodeUint24_chain (x0 x1 x2 : Nat) (h0 : x0 < 256) (h1 : x1 < 256) (h2 : x2 < 256) :
    shlUint32 x0 16 ||| shlUint32 x1 8 ||| x2 = x0 * 2 ^ 16 + x1 * 2 ^ 8 + x2 := by
  rw [shlUint32_small x0 16 (by omega),
    shlUint32_small x1 8 (by omega),
    or_eq_add 16 (x0 * 2 ^ 16) (x1 * 2 ^ 8) (by omega) (by omega),
    or_eq_add 8 (x0 * 2 ^ 16 + x1 * 2 ^ 8) (x2) (by omega) (by omega)]
theorem FromInt24Bytes_eq (b0 b1 b2 : Byte) :
    FromInt24Bytes [b0, b1, b2] =
      (⟨if b0.val < 128 then ((b0.val * 2 ^ 16 + b1.val * 2 ^ 8 + b2.val : Nat) : Int)
        else ((b0.val * 2 ^ 16 + b1.val * 2 ^ 8 + b2.val : Nat) : Int) - 2 ^ 24⟩, none) := by
  have hc := decodeInt24_chain b0.val b1.val b2.val b0.isLt b1.isLt b2.isLt
  have hs := byte_and_0x80 b0
  unfold FromInt24Bytes
  rw [dif_neg (by simp)]
  simp only [List.getElem_cons_zero, List.getElem_cons_succ]
  rw [hc]
  by_cases h : b0.val < 128
  · rw [if_neg (by rw [hs]; omega), if_pos h]
  · rw [if_pos (hs.mpr (by omega)), if_neg h, signExtend24 _ (by omega) (by omega)]
theorem FromInt24LittleEndianBytes_eq (b0 b1 b2 : Byte) :
    FromInt24LittleEndianBytes [b0, b1, b2] = FromInt24Bytes [b2, b1, b0] := by
  unfold FromInt24LittleEndianBytes FromInt24Bytes
  rw [dif_neg (by simp), dif_neg (by simp)]
  simp only [List.getElem_cons_zero, List.getElem_cons_succ]
theorem FromUint24Bytes_eq (b0 b1 b2 : Byte) :
    FromUint24Bytes [b0, b1, b2] = (⟨b0.val * 2 ^ 16 + b1.val * 2 ^ 8 + b2.val⟩, none) := by
  have hc := decodeUint24_chain b0.val b1.val b2.val b0.isLt b1.isLt b2.isLt
  unfold FromUint24Bytes
  rw [dif_neg (by simp)]
  simp only [List.getElem_cons_zero, List.getElem_cons_succ]
  rw [hc]
theorem FromUint24LittleEndianBytes_eq (b0 b1 b2 : Byte) :
    FromUint24LittleEndianBytes [b0, b1, b2] = FromUint24Bytes [b2, b1, b0] := by
  unfold FromUint24LittleEndianBytes FromUint24Bytes
  rw [dif_neg (by simp), dif_neg (by simp)]
  simp only [List.getElem_cons_zero, List.getElem_cons_succ]

/-! ### Width 40 -/
theorem toUint64_bitNot_0x7FFFFFFFFF : toUint64 (bitNot 0x7FFFFFFFFF) = 2 ^ 39 * 33554431 := by decide
/-- Sign extension of a 40-bit pattern whose top bit is set, in an `int64`. -/
theorem signExtend40 (m : Nat) (hlo : 2 ^ 39 ≤ m) (hhi : m < 2 ^ 40) :
    orInt64 (m : Int) (bitNot 0x7FFFFFFFFF) = (m : Int) - 2 ^ 40 := by
  have hor := or_high 39 33554431 (m - 2 ^ 39) (by omega) (by decide)
  have e : 2 ^ 39 + (m - 2 ^ 39) = m := by omega
  rw [e] at hor
  unfold orInt64
  rw [toUint64_natCast m (by omega), toUint64_bitNot_0x7FFFFFFFFF, hor]
  unfold toInt64
  omega
theorem decodeInt40_chain (x0 x1 x2 x3 x4 : Nat) (h0 : x0 < 256) (h1 : x1 < 256) (h2 : x2 < 256) (h3 : x3 < 256) (h4 : x4 < 256) :
    orInt64 (orInt64 (orInt64 (orInt64 (shlInt64 (x0 : Int) 32) (shlInt64 (x1 : Int) 24)) (shlInt64 (x2 : Int) 16)) (shlInt64 (x3 : Int) 8)) (x4 : Int) = ((x0 * 2 ^ 32 + x1 * 2 ^ 24 + x2 * 2 ^ 16 + x3 * 2 ^ 8 + x4 : Nat) : Int) := by
  rw [shlInt64_natCast x0 32 (by omega),
    shlInt64_natCast x1 24 (by omega),
    shlInt64_natCast x2 16 (by omega),
    shlInt64_natCast x3 8 (by omega),
    orInt64_natCast 32 (x0 * 2 ^ 32) (x1 * 2 ^ 24) (by omega) (by omega) (by omega),
    orInt64_natCast 24 (x0 * 2 ^ 32 + x1 * 2 ^ 24) (x2 * 2 ^ 16) (by omega) (by omega) (by omega),
    orInt64_natCast 16 (x0 * 2 ^ 32 + x1 * 2 ^ 24 + x2 * 2 ^ 16) (x3 * 2 ^ 8) (by omega) (by omega) (by omega),
    orInt64_natCast 8 (x0 * 2 ^ 32 + x1 * 2 ^ 24 + x2 * 2 ^ 16 + x3 * 2 ^ 8) (x4) (by omega) (by omega) (by omega)]
theorem decodeUint40_chain (x0 x1 x2 x3 x4 : Nat) (h0 : x0 < 256) (h1 : x1 < 256) (h2 : x2 < 256) (h3 : x3 < 256) (h4 : x4 < 256) :
    shlUint64 x0 32 ||| shlUint64 x1 24 ||| shlUint64 x2 16 ||| shlUint64 x3 8 ||| x4 = x0 * 2 ^ 32 + x1 * 2 ^ 24 + x2 * 2 ^ 16 + x3 * 2 ^ 8 + x4 := by
  rw [shlUint64_small x0 32 (by omega),
    shlUint64_small x1 24 (by omega),
    shlUint64_small x2 16 (by omega),
    shlUint64_small x3 8 (by omega),
    or_eq_add 32 (x0 * 2 ^ 32) (x1 * 2 ^ 24) (by omega) (by omega),
    or_eq_add 24 (x0 * 2 ^ 32 + x1 * 2 ^ 24) (x2 * 2 ^ 16) (by omega) (by omega),
    or_eq_add 16 (x0 * 2 ^ 32 + x1 * 2 ^ 24 + x2 * 2 ^ 16) (x3 * 2 ^ 8) (by omega) (by omega),
    or_eq_add 8 (x0 * 2 ^ 32 + x1 * 2 ^ 24 + x2 * 2 ^ 16 + x3 * 2 ^ 8) (x4) (by omega) (by omega)]
theorem FromInt40Bytes_eq (b0 b1 b2 b3 b4 : Byte) :
    FromInt40Bytes [b0, b1, b2, b3, b4] =
      (⟨if b0.val < 128 then ((b0.val * 2 ^ 32 + b1.val * 2 ^ 24 + b2.val * 2 ^ 16 + b3.val * 2 ^ 8 + b4.val : Nat) : Int)
        else ((b0.val * 2 ^ 32 + b1.val * 2 ^ 24 + b2.val * 2 ^ 16 + b3.val * 2 ^ 8 + b4.val : Nat) : Int) - 2 ^ 40⟩, none) := by
  have hc := decodeInt40_chain b0.val b1.val b2.val b3.val b4.val b0.isLt b1.isLt b2.isLt b3.isLt b4.isLt
  have hs := byte_and_0x80 b0
  unfold FromInt40Bytes
  rw [dif_neg (by simp)]
  simp only [List.getElem_cons_zero, List.getElem_cons_succ]
  rw [hc]
  by_cases h : b0.val < 128
  · rw [if_neg (by rw [hs]; omega), if_pos h]
  · rw [if_pos (hs.mpr (by omega)), if_neg h, signExtend40 _ (by omega) (by omega)]
theorem FromInt40LittleEndianBytes_eq (b0 b1 b2 b3 b4 : Byte) :
    FromInt40LittleEndianBytes [b0, b1, b2, b3, b4] = FromInt40Bytes [b4, b3, b2, b1, b0] := by
  unfold FromInt40LittleEndianBytes FromInt40Bytes
  rw [dif_neg (by simp), dif_neg (by simp)]
  simp only [List.getElem_cons_zero, List.getElem_cons_succ]
theorem FromUint40Bytes_eq (b0 b1 b2 b3 b4 : Byte) :
    FromUint40Bytes [b0, b1, b2, b3, b4] = (⟨b0.val * 2 ^ 32 + b1.val * 2 ^ 24 + b2.val * 2 ^ 16 + b3.val * 2 ^ 8 + b4.val⟩, none) := by
  have hc := decodeUint40_chain b0.val b1.val b2.val b3.val b4.val b0.isLt b1.isLt b2.isLt b3.isLt b4.isLt
  unfold FromUint40Bytes
  rw [dif_neg (by simp)]
  simp only [List.getElem_cons_zero, List.getElem_cons_succ]
  rw [hc]
theorem FromUint40LittleEndianBytes_eq (b0 b1 b2 b3 b4 : Byte) :
    FromUint40LittleEndianBytes [b0, b1, b2, b3, b4] = FromUint40Bytes [b4, b3, b2, b1, b0] := by
  unfold FromUint40LittleEndianBytes FromUint40Bytes
  rw [dif_neg (by simp), dif_neg (by simp)]
  simp only [List.getElem_cons_zero, List.getElem_cons_succ]

/-! ### Width 48 -/
theorem toUint64_bitNot_0x7FFFFFFFFFFF : toUint64 (bitNot 0x7FFFFFFFFFFF) = 2 ^ 47 * 131071 := by decide
/-- Sign extension of a 48-bit pattern whose top bit is set, in an `int64`. -/
theorem signExtend48 (m : Nat) (hlo : 2 ^ 47 ≤ m) (hhi : m < 2 ^ 48) :
    orInt64 (m : Int) (bitNot 0x7FFFFFFFFFFF) = (m : Int) - 2 ^ 48 := by
  have hor := or_high 47 131071 (m - 2 ^ 47) (by omega) (by decide)
  have e : 2 ^ 47 + (m - 2 ^ 47) = m := by omega
  rw [e] at hor
  unfold orInt64
  rw [toUint64_natCast m (by omega), toUint64_bitNot_0x7FFFFFFFFFFF, hor]
  unfold toInt64
  omega
theorem decodeInt48_chain (x0 x1 x2 x3 x4 x5 : Nat) (h0 : x0 < 256) (h1 : x1 < 256) (h2 : x2 < 256) (h3 : x3 < 256) (h4 : x4 < 256) (h5 : x5 < 256) :
    orInt64 (orInt64 (orInt64 (orInt64 (orInt64 (shlInt64 (x0 : Int) 40) (shlInt64 (x1 : Int) 32)) (shlInt64 (x2 : Int) 24)) (shlInt64 (x3 : Int) 16)) (shlInt64 (x4 : Int) 8)) (x5 : Int) = ((x0 * 2 ^ 40 + x1 * 2 ^ 32 + x2 * 2 ^ 24 + x3 * 2 ^ 16 + x4 * 2 ^ 8 + x5 : Nat) : Int) := by
  rw [shlInt64_natCast x0 40 (by omega),
    shlInt64_natCast x1 32 (by omega),
    shlInt64_natCast x2 24 (by omega),
    shlInt64_natCast x3 16 (by omega),
    shlInt64_natCast x4 8 (by omega),
    orInt64_natCast 40 (x0 * 2 ^ 40) (x1 * 2 ^ 32) (by omega) (by omega) (by omega),
    orInt64_natCast 32 (x0 * 2 ^ 40 + x1 * 2 ^ 32) (x2 * 2 ^ 24) (by omega) (by omega) (by omega),
    orInt64_natCast 24 (x0 * 2 ^ 40 + x1 * 2 ^ 32 + x2 * 2 ^ 24) (x3 * 2 ^ 16) (by omega) (by omega) (by omega),
    orInt64_natCast 16 (x0 * 2 ^ 40 + x1 * 2 ^ 32 + x2 * 2 ^ 24 + x3 * 2 ^ 16) (x4 * 2 ^ 8) (by omega) (by omega) (by omega),
    orInt64_natCast 8 (x0 * 2 ^ 40 + x1 * 2 ^ 32 + x2 * 2 ^ 24 + x3 * 2 ^ 16 + x4 * 2 ^ 8) (x5) (by omega) (by omega) (by omega)]
theorem decodeUint48_chain (x0 x1 x2 x3 x4 x5 : Nat) (h0 : x0 < 256) (h1 : x1 < 256) (h2 : x2 < 256) (h3 : x3 < 256) (h4 : x4 < 256) (h5 : x5 < 256) :
    shlUint64 x0 40 ||| shlUint64 x1 32 ||| shlUint64 x2 24 ||| shlUint64 x3 16 ||| shlUint64 x4 8 ||| x5 = x0 * 2 ^ 40 + x1 * 2 ^ 32 + x2 * 2 ^ 24 + x3 * 2 ^ 16 + x4 * 2 ^ 8 + x5 := by
  rw [shlUint64_small x0 40 (by omega),
    shlUint64_small x1 32 (by omega),
    shlUint64_small x2 24 (by omega),
    shlUint64_small x3 16 (by omega),
    shlUint64_small x4 8 (by omega),
    or_eq_add 40 (x0 * 2 ^ 40) (x1 * 2 ^ 32) (by omega) (by omega),
    or_eq_add 32 (x0 * 2 ^ 40 + x1 * 2 ^ 32) (x2 * 2 ^ 24) (by omega) (by omega),
    or_eq_add 24 (x0 * 2 ^ 40 + x1 * 2 ^ 32 + x2 * 2 ^ 24) (x3 * 2 ^ 16) (by omega) (by omega),
    or_eq_add 16 (x0 * 2 ^ 40 + x1 * 2 ^ 32 + x2 * 2 ^ 24 + x3 * 2 ^ 16) (x4 * 2 ^ 8) (by omega) (by omega),
    or_eq_add 8 (x0 * 2 ^ 40 + x1 * 2 ^ 32 + x2 * 2 ^ 24 + x3 * 2 ^ 16 + x4 * 2 ^ 8) (x5) (by omega) (by omega)]
theorem FromInt48Bytes_eq (b0 b1 b2 b3 b4 b5 : Byte) :
    FromInt48Bytes [b0, b1, b2, b3, b4, b5] =
      (⟨if b0.val < 128 then ((b0.val * 2 ^ 40 + b1.val * 2 ^ 32 + b2.val * 2 ^ 24 + b3.val * 2 ^ 16 + b4.val * 2 ^ 8 + b5.val : Nat) : Int)
        else ((b0.val * 2 ^ 40 + b1.val * 2 ^ 32 + b2.val * 2 ^ 24 + b3.val * 2 ^ 16 + b4.val * 2 ^ 8 + b5.val : Nat) : Int) - 2 ^ 48⟩, none) := by
  have hc := decodeInt48_chain b0.val b1.val b2.val b3.val b4.val b5.val b0.isLt b1.isLt b2.isLt b3.isLt b4.isLt b5.isLt
  have hs := byte_and_0x80 b0
  unfold FromInt48Bytes
  rw [dif_neg (by simp)]
  simp only [List.getElem_cons_zero, List.getElem_cons_succ]
  rw [hc]
  by_cases h : b0.val < 128
  · rw [if_neg (by rw [hs]; omega), if_pos h]
  · rw [if_pos (hs.mpr (by omega)), if_neg h, signExtend48 _ (by omega) (by omega)]
theorem FromInt48LittleEndianBytes_eq (b0 b1 b2 b3 b4 b5 : Byte) :
    FromInt48LittleEndianBytes [b0, b1, b2, b3, b4, b5] = FromInt48Bytes [b5, b4, b3, b2, b1, b0] := by
  unfold FromInt48LittleEndianBytes FromInt48Bytes
  rw [dif_neg (by simp), dif_neg (by simp)]
  simp only [List.getElem_cons_zero, List.getElem_cons_succ]
theorem FromUint48Bytes_eq (b0 b1 b2 b3 b4 b5 : Byte) :
    FromUint48Bytes [b0, b1, b2, b3, b4, b5] = (⟨b0.val * 2 ^ 40 + b1.val * 2 ^ 32 + b2.val * 2 ^ 24 + b3.val * 2 ^ 16 + b4.val * 2 ^ 8 + b5.val⟩, none) := by
  have hc := decodeUint48_chain b0.val b1.val b2.val b3.val b4.val b5.val b0.isLt b1.isLt b2.isLt b3.isLt b4.isLt b5.isLt
  unfold FromUint48Bytes
  rw [dif_neg (by simp)]
  simp only [List.getElem_cons_zero, List.getElem_cons_succ]
  rw [hc]
theorem FromUint48LittleEndianBytes_eq (b0 b1 b2 b3 b4 b5 : Byte) :
    FromUint48LittleEndianBytes [b0, b1, b2, b3, b4, b5] = FromUint48Bytes [b5, b4, b3, b2, b1, b0] := by
  unfold FromUint48LittleEndianBytes FromUint48Bytes
  rw [dif_neg (by simp), dif_neg (by simp)]
  simp only [List.getElem_cons_zero, List.getElem_cons_succ]

/-! ### Width 56 -/
theorem toUint64_bitNot_0x7FFFFFFFFFFFFF : toUint64 (bitNot 0x7FFFFFFFFFFFFF) = 2 ^ 55 * 511 := by decide
/-- Sign extension of a 56-bit pattern whose top bit is set, in an `int64`. -/
theorem signExtend56 (m : Nat) (hlo : 2 ^ 55 ≤ m) (hhi : m < 2 ^ 56) :
    orInt64 (m : Int) (bitNot 0x7FFFFFFFFFFFFF) = (m : Int) - 2 ^ 56 := by
  have hor := or_high 55 511 (m - 2 ^ 55) (by omega) (by decide)
  have e : 2 ^ 55 + (m - 2 ^ 55) = m := by omega
  rw [e] at hor
  unfold orInt64
  rw [toUint64_natCast m (by omega), toUint64_bitNot_0x7FFFFFFFFFFFFF, hor]
  unfold toInt64
  omega
theorem decodeInt56_chain (x0 x1 x2 x3 x4 x5 x6 : Nat) (h0 : x0 < 256) (h1 : x1 < 256) (h2 : x2 < 256) (h3 : x3 < 256) (h4 : x4 < 256) (h5 : x5 < 256) (h6 : x6 < 256) :
    orInt64 (orInt64 (orInt64 (orInt64 (orInt64 (orInt64 (shlInt64 (x0 : Int) 48) (shlInt64 (x1 : Int) 40)) (shlInt64 (x2 : Int) 32)) (shlInt64 (x3 : Int) 24)) (shlInt64 (x4 : Int) 16)) (shlInt64 (x5 : Int) 8)) (x6 : Int) = ((x0 * 2 ^ 48 + x1 * 2 ^ 40 + x2 * 2 ^ 32 + x3 * 2 ^ 24 + x4 * 2 ^ 16 + x5 * 2 ^ 8 + x6 : Nat) : Int) := by
  rw [shlInt64_natCast x0 48 (by omega),
    shlInt64_natCast x1 40 (by omega),
    shlInt64_natCast x2 32 (by omega),
    shlInt64_natCast x3 24 (by omega),
    shlInt64_natCast x4 16 (by omega),
    shlInt64_natCast x5 8 (by omega),
    orInt64_natCast 48 (x0 * 2 ^ 48) (x1 * 2 ^ 40) (by omega) (by omega) (by omega),
    orInt64_natCast 40 (x0 * 2 ^ 48 + x1 * 2 ^ 40) (x2 * 2 ^ 32) (by omega) (by omega) (by omega),
    orInt64_natCast 32 (x0 * 2 ^ 48 + x1 * 2 ^ 40 + x2 * 2 ^ 32) (x3 * 2 ^ 24) (by omega) (by omega) (by omega),
    orInt64_natCast 24 (x0 * 2 ^ 48 + x1 * 2 ^ 40 + x2 * 2 ^ 32 + x3 * 2 ^ 24) (x4 * 2 ^ 16) (by omega) (by omega) (by omega),
    orInt64_natCast 16 (x0 * 2 ^ 48 + x1 * 2 ^ 40 + x2 * 2 ^ 32 + x3 * 2 ^ 24 + x4 * 2 ^ 16) (x5 * 2 ^ 8) (by omega) (by omega) (by omega),
    orInt64_natCast 8 (x0 * 2 ^ 48 + x1 * 2 ^ 40 + x2 * 2 ^ 32 + x3 * 2 ^ 24 + x4 * 2 ^ 16 + x5 * 2 ^ 8) (x6) (by omega) (by omega) (by omega)]
theorem decodeUint56_chain (x0 x1 x2 x3 x4 x5 x6 : Nat) (h0 : x0 < 256) (h1 : x1 < 256) (h2 : x2 < 256) (h3 : x3 < 256) (h4 : x4 < 256) (h5 : x5 < 256) (h6 : x6 < 256) :
    shlUint64 x0 48 ||| shlUint64 x1 40 ||| shlUint64 x2 32 ||| shlUint64 x3 24 ||| shlUint64 x4 16 ||| shlUint64 x5 8 ||| x6 = x0 * 2 ^ 48 + x1 * 2 ^ 40 + x2 * 2 ^ 32 + x3 * 2 ^ 24 + x4 * 2 ^ 16 + x5 * 2 ^ 8 + x6 := by
  rw [shlUint64_small x0 48 (by omega),
    shlUint64_small x1 40 (by omega),
    shlUint64_small x2 32 (by omega),
    shlUint64_small x3 24 (by omega),
    shlUint64_small x4 16 (by omega),
    shlUint64_small x5 8 (by omega),
    or_eq_add 48 (x0 * 2 ^ 48) (x1 * 2 ^ 40) (by omega) (by omega),
    or_eq_add 40 (x0 * 2 ^ 48 + x1 * 2 ^ 40) (x2 * 2 ^ 32) (by omega) (by omega),
    or_eq_add 32 (x0 * 2 ^ 48 + x1 * 2 ^ 40 + x2 * 2 ^ 32) (x3 * 2 ^ 24) (by omega) (by omega),
    or_eq_add 24 (x0 * 2 ^ 48 + x1 * 2 ^ 40 + x2 * 2 ^ 32 + x3 * 2 ^ 24) (x4 * 2 ^ 16) (by omega) (by omega),
    or_eq_add 16 (x0 * 2 ^ 48 + x1 * 2 ^ 40 + x2 * 2 ^ 32 + x3 * 2 ^ 24 + x4 * 2 ^ 16) (x5 * 2 ^ 8) (by omega) (by omega),
    or_eq_add 8 (x0 * 2 ^ 48 + x1 * 2 ^ 40 + x2 * 2 ^ 32 + x3 * 2 ^ 24 + x4 * 2 ^ 16 + x5 * 2 ^ 8) (x6) (by omega) (by omega)]
theorem FromInt56Bytes_eq (b0 b1 b2 b3 b4 b5 b6 : Byte) :
    FromInt56Bytes [b0, b1, b2, b3, b4, b5, b6] =
      (⟨if b0.val < 128 then ((b0.val * 2 ^ 48 + b1.val * 2 ^ 40 + b2.val * 2 ^ 32 + b3.val * 2 ^ 24 + b4.val * 2 ^ 16 + b5.val * 2 ^ 8 + b6.val : Nat) : Int)
        else ((b0.val * 2 ^ 48 + b1.val * 2 ^ 40 + b2.val * 2 ^ 32 + b3.val * 2 ^ 24 + b4.val * 2 ^ 16 + b5.val * 2 ^ 8 + b6.val : Nat) : Int) - 2 ^ 56⟩, none) := by
  have hc := decodeInt56_chain b0.val b1.val b2.val b3.val b4.val b5.val b6.val b0.isLt b1.isLt b2.isLt b3.isLt b4.isLt b5.isLt b6.isLt
  have hs := byte_and_0x80 b0
  unfold FromInt56Bytes
  rw [dif_neg (by simp)]
  simp only [List.getElem_cons_zero, List.getElem_cons_succ]
  rw [hc]
  by_cases h : b0.val < 128
  · rw [if_neg (by rw [hs]; omega), if_pos h]
  · rw [if_pos (hs.mpr (by omega)), if_neg h, signExtend56 _ (by omega) (by omega)]
theorem FromInt56LittleEndianBytes_eq (b0 b1 b2 b3 b4 b5 b6 : Byte) :
    FromInt56LittleEndianBytes [b0, b1, b2, b3, b4, b5, b6] = FromInt56Bytes [b6, b5, b4, b3, b2, b1, b0] := by
  unfold FromInt56LittleEndianBytes FromInt56Bytes
  rw [dif_neg (by simp), dif_neg (by simp)]
  simp only [List.getElem_cons_zero, List.getElem_cons_succ]
theorem FromUint56Bytes_eq (b0 b1 b2 b3 b4 b5 b6 : Byte) :
    FromUint56Bytes [b0, b1, b2, b3, b4, b5, b6] = (⟨b0.val * 2 ^ 48 + b1.val * 2 ^ 40 + b2.val * 2 ^ 32 + b3.val * 2 ^ 24 + b4.val * 2 ^ 16 + b5.val * 2 ^ 8 + b6.val⟩, none) := by
  have hc := decodeUint56_chain b0.val b1.val b2.val b3.val b4.val b5.val b6.val b0.isLt b1.isLt b2.isLt b3.isLt b4.isLt b5.isLt b6.isLt
  unfold FromUint56Bytes
  rw [dif_neg (by simp)]
  simp only [List.getElem_cons_zero, List.getElem_cons_succ]
  rw [hc]
theorem FromUint56LittleEndianBytes_eq (b0 b1 b2 b3 b4 b5 b6 : Byte) :
    FromUint56LittleEndianBytes [b0, b1, b2, b3, b4, b5, b6] = FromUint56Bytes [b6, b5, b4, b3, b2, b1, b0] := by
  unfold FromUint56LittleEndianBytes FromUint56Bytes
  rw [dif_neg (by simp), dif_neg (by simp)]
  simp only [List.getElem_cons_zero, List.getElem_cons_succ]

/-! ## Facts on the `strconv` functions -/

namespace strconv

theorem ParseUintLoop_digit (s0 : List Byte) (n d : Nat) (cs : List Byte) (hd : d < 10)
    (hn : n * 10 + d < 2 ^ 64) :
    ParseUintLoop s0 n (byte (0x30 + d) :: cs) = ParseUintLoop s0 (n * 10 + d) cs := by
  have hb : (byte (0x30 + d)).val = 0x30 + d := by rw [byte_val]; omega
  have h1 : 0x30 ≤ 0x30 + d ∧ 0x30 + d ≤ 0x39 := by omega
  have h2 : ¬ (0x30 + d - 0x30 ≥ 10) := by omega
  have h3 : ¬ (n ≥ (2 ^ 64 - 1) / 10 + 1) := by omega
  have h4 : (n * 10) % 2 ^ 64 = n * 10 := Nat.mod_eq_of_lt (by omega)
  have h5 : (n * 10 + (0x30 + d - 0x30)) % 2 ^ 64 = n * 10 + d := by omega
  have h6 : ¬ (n * 10 + d < n * 10 ∨ n * 10 + d > 2 ^ 64 - 1) := by omega
  rw [ParseUintLoop]
  simp only [hb]
  rw [if_pos h1]
  simp only []
  rw [if_neg h2, if_neg h3, h4, h5, if_neg h6]

theorem ParseUintLoop_formatDigits (s0 : List Byte) (fuel : Nat) :
    ∀ (u : Nat) (cs : List Byte), u < 10 ^ fuel → u < 2 ^ 64 →
      ParseUintLoop s0 0 (formatDigits fuel u ++ cs) = ParseUintLoop s0 u cs := by
  induction fuel with
  | zero => intro u cs h _; simp at h; subst h; simp [formatDigits]
  | succ fuel ih =>
    intro u cs h h64
    rw [formatDigits]
    by_cases hu : u < 10
    · rw [if_pos hu, List.singleton_append, ParseUintLoop_digit s0 0 u cs hu (by omega)]
      simp
    · rw [if_neg hu, List.append_assoc, List.singleton_append,
        ih (u / 10) _ (by rw [Nat.pow_succ] at h; omega) (by omega),
        ParseUintLoop_digit s0 (u / 10) (u % 10) cs (by omega) (by omega)]
      congr 1
      omega

theorem formatDigits_head (fuel : Nat) :
    ∀ u : Nat, ∃ c rest, formatDigits (fuel + 1) u = c :: rest ∧ 0x30 ≤ c.val ∧ c.val ≤ 0x39 := by
  induction fuel with
  | zero =>
    intro u
    rw [formatDigits]
    by_cases hu : u < 10
    · exact ⟨_, [], by rw [if_pos hu], by rw [byte_val]; omega, by rw [byte_val]; omega⟩
    · exact ⟨_, [], by rw [if_neg hu]; rfl, by rw [byte_val]; omega, by rw [byte_val]; omega⟩
  | succ fuel ih =>
    intro u
    rw [formatDigits]
    by_cases hu : u < 10
    · exact ⟨_, [], by rw [if_pos hu], by rw [byte_val]; omega, by rw [byte_val]; omega⟩
    · obtain ⟨c, rest, hc, h1, h2⟩ := ih (u / 10)
      exact ⟨c, rest ++ [byte (0x30 + u % 10)], by rw [if_neg hu, hc]; rfl, h1, h2⟩

theorem ParseUint_AppendUint (u : Nat) (h : u < 2 ^ 64) : ParseUint (AppendUint u) = (u, none) := by
  obtain ⟨c, rest, hc, _, _⟩ := formatDigits_head 19 u
  have hne : AppendUint u ≠ [] := by
    simp [AppendUint, formatBits, hc]
  have hp := ParseUintLoop_formatDigits (AppendUint u) 20 u [] (by omega) h
  rw [List.append_nil] at hp
  rw [ParseUint, if_neg hne]
  simpa [AppendUint, formatBits, ParseUintLoop] using hp

theorem AppendUint_head (u : Nat) :
    ∃ c rest, AppendUint u = c :: rest ∧ 0x30 ≤ c.val ∧ c.val ≤ 0x39 := by
  obtain ⟨c, rest, hc, h1, h2⟩ := formatDigits_head 19 u
  exact ⟨c, rest, by simp [AppendUint, formatBits, hc], h1, h2⟩

theorem AppendInt_nonneg (i : Int) (h0 : 0 ≤ i) (h : i < 2 ^ 63) :
    AppendInt i = AppendUint i.toNat := by
  have e : toUint64 i = i.toNat := by unfold toUint64; omega
  have hn : decide (i < 0) = false := by simp; omega
  rw [AppendInt, AppendUint, e, hn]

theorem AppendInt_neg (i : Int) (h0 : i < 0) (h : -(2 ^ 63) ≤ i) :
    AppendInt i = (0x2D : Byte) :: AppendUint (-i).toNat := by
  have e : (2 ^ 64 - toUint64 i) % 2 ^ 64 = (-i).toNat := by unfold toUint64; omega
  have hn : decide (i < 0) = true := by simp; omega
  rw [AppendInt, AppendUint, hn]
  simp only [formatBits, if_true, e, Bool.false_eq_true, if_false, List.nil_append,
    List.singleton_append]

theorem ParseInt_neg (u : Nat) (s : List Byte) (hp : ParseUint s = (u, none)) (hu : u ≤ 2 ^ 63) :
    ParseInt ((0x2D : Byte) :: s) = (-(u : Int), none) := by
  have e : toInt64 (-(toInt64 (u : Int))) = -(u : Int) := by unfold toInt64; omega
  have h1 : ¬ (u > 2 ^ 63) := by omega
  have a1 : ((0x2D : Byte).val = 0x2B ∨ (0x2D : Byte).val = 0x2D) := Or.inr rfl
  have a2 : decide ((0x2D : Byte).val = 0x2D) = true := by decide
  rw [ParseInt]
  simp only [a1, a2, if_true, hp]
  simp only [true_and, h1, if_false, e, Bool.true_eq_false, false_and]

theorem ParseInt_digit (u : Nat) (c : Byte) (s : List Byte) (hp : ParseUint (c :: s) = (u, none))
    (hu : u < 2 ^ 63) (hc : 0x30 ≤ c.val) :
    ParseInt (c :: s) = ((u : Int), none) := by
  have e : toInt64 (u : Int) = (u : Int) := by unfold toInt64; omega
  have h1 : ¬ (u ≥ 2 ^ 63) := by omega
  have h2 : ¬ (c.val = 0x2B ∨ c.val = 0x2D) := by omega
  have h3 : decide (c.val = 0x2D) = false := by simp; omega
  rw [ParseInt]
  simp only [h2, h3, if_false, hp]
  simp only [true_and, h1, if_false, false_and, Bool.false_eq_true, e]

theorem ParseInt_AppendInt (i : Int) (hlo : -(2 ^ 63) ≤ i) (hhi : i < 2 ^ 63) :
    ParseInt (AppendInt i) = (i, none) := by
  by_cases h0 : i < 0
  · rw [AppendInt_neg i h0 hlo,
      ParseInt_neg (-i).toNat _ (ParseUint_AppendUint (-i).toNat (by omega)) (by omega)]
    congr 1
    omega
  · obtain ⟨c, rest, hc, h1, _⟩ := AppendUint_head i.toNat
    have hp := ParseUint_AppendUint i.toNat (by omega)
    rw [AppendInt_nonneg i (by omega) hhi]
    rw [hc] at hp ⊢
    rw [ParseInt_digit i.toNat c rest hp (by omega) h1]
    congr 1
    omega

theorem AppendInt_head (i : Int) (hlo : -(2 ^ 63) ≤ i) (hhi : i < 2 ^ 63) :
    ∃ c rest, AppendInt i = c :: rest ∧ c.val ≠ 0x22 := by
  by_cases h0 : i < 0
  · exact ⟨0x2D, _, AppendInt_neg i h0 hlo, by decide⟩
  · obtain ⟨c, rest, hc, h1, _⟩ := AppendUint_head i.toNat
    exact ⟨c, rest, by rw [AppendInt_nonneg i (by omega) hhi, hc], by omega⟩

end strconv

/-- The quote test of `UnmarshalJSON` leaves alone a payload whose first byte is not a quote. -/
theorem unquote_of_head (c : Byte) (rest : List Byte) (hc : c.val ≠ 0x22) :
    (if (c :: rest)[0]? = some 0x22 ∧ (c :: rest)[(c :: rest).length - 1]? = some 0x22
      then sliceBytes (c :: rest) 1 ((c :: rest).length - 1) else Run.ret (c :: rest))
      = Run.ret (c :: rest) := by
  have h : ¬ ((c :: rest)[0]? = some 0x22 ∧ (c :: rest)[(c :: rest).length - 1]? = some 0x22) := by
    intro hh
    have h0 := hh.1
    simp only [List.getElem?_cons_zero, Option.some.injEq] at h0
    exact hc (by rw [h0]; rfl)
  rw [if_neg h]

/-! ### Width 24: construction, encoding, round trips -/
theorem length_eq_three (b : List Byte) (h : b.length = 3) :
    ∃ b0 b1 b2, b = [b0, b1, b2] := by
  rcases b with _ | ⟨b0, _ | ⟨b1, _ | ⟨b2, _ | ⟨x, t⟩⟩⟩⟩ <;> simp at h
  exact ⟨b0, b1, b2, rfl⟩
theorem NewInt24_in (v : Int) (hlo : -(2 ^ 23) ≤ v) (hhi : v ≤ 2 ^ 23 - 1) :
    NewInt24 v = (⟨v⟩, none) := by
  have e : toInt32 v = v := by unfold toInt32; omega
  rw [NewInt24, if_neg (by omega), e]

theorem NewInt24_out (v : Int) (h : ¬ (-(2 ^ 23) ≤ v ∧ v ≤ 2 ^ 23 - 1)) :
    NewInt24 v = (⟨0⟩, some .ErrInt24OutOfRange) := by
  rw [NewInt24, if_pos (by omega)]

theorem NewInt24_ok_iff (v : Int) :
    (NewInt24 v).2 = none ↔ (-(2 ^ 23) ≤ v ∧ v ≤ 2 ^ 23 - 1) := by
  by_cases h : -(2 ^ 23) ≤ v ∧ v ≤ 2 ^ 23 - 1
  · rw [NewInt24_in v h.1 h.2]; exact ⟨fun _ => h, fun _ => rfl⟩
  · rw [NewInt24_out v h]; exact ⟨fun hh => by simp at hh, fun hh => absurd hh h⟩
theorem NewUint24_in (v : Nat) (hhi : v ≤ 2 ^ 24 - 1) :
    NewUint24 v = (⟨v⟩, none) := by
  have e : toUint32 (v : Int) = v := toUint32_natCast v (by omega)
  rw [NewUint24, if_neg (by omega), e]

theorem NewUint24_out (v : Nat) (h : ¬ v ≤ 2 ^ 24 - 1) :
    NewUint24 v = (⟨0⟩, some .ErrUint24OutOfRange) := by
  rw [NewUint24, if_pos (by omega)]

theorem NewUint24_ok_iff (v : Nat) : (NewUint24 v).2 = none ↔ v ≤ 2 ^ 24 - 1 := by
  by_cases h : v ≤ 2 ^ 24 - 1
  · rw [NewUint24_in v h]; exact ⟨fun _ => h, fun _ => rfl⟩
  · rw [NewUint24_out v h]; exact ⟨fun hh => by simp at hh, fun hh => absurd hh h⟩
theorem Int24_ToBytes_eq (v : Int) (hlo : -(2 ^ 23) ≤ v) (hhi : v ≤ 2 ^ 23 - 1) :
    (Int24.mk v).ToBytes = [byte ((v % 2 ^ 24).toNat / 256 ^ 2), byte ((v % 2 ^ 24).toNat / 256 ^ 1), byte ((v % 2 ^ 24).toNat / 256 ^ 0)] := by
  unfold Int24.ToBytes
  simp only [List.cons.injEq, and_true]
  refine ⟨?_, ?_, ?_⟩ <;>
    (apply Fin.ext; simp only [byte_val, Nat.shiftRight_eq_div_pow, toUint32]; omega)

theorem Uint24_ToBytes_eq (v : Nat) :
    (Uint24.mk v).ToBytes = [byte (v / 256 ^ 2), byte (v / 256 ^ 1), byte (v / 256 ^ 0)] := by
  unfold Uint24.ToBytes
  simp only [List.cons.injEq, and_true]
  refine ⟨?_, ?_, ?_⟩ <;>
    (apply Fin.ext; simp only [byte_val, Nat.shiftRight_eq_div_pow]; omega)

theorem wireDigits_24 (v : Int) :
    wireDigits 24 v = [byte ((v % 2 ^ 24).toNat / 256 ^ 2), byte ((v % 2 ^ 24).toNat / 256 ^ 1), byte ((v % 2 ^ 24).toNat / 256 ^ 0)] := rfl
theorem roundTrip_Int24 (v : Int) (hlo : -(2 ^ 23) ≤ v) (hhi : v ≤ 2 ^ 23 - 1) :
    FromInt24Bytes (Int24.mk v).ToBytes = (⟨v⟩, none) := by
  unfold Int24.ToBytes
  simp only []
  rw [FromInt24Bytes_eq]
  simp only [byte_val, Nat.shiftRight_eq_div_pow, toUint32]
  congr 2
  split <;> omega

theorem roundTripLE_Int24 (v : Int) (hlo : -(2 ^ 23) ≤ v) (hhi : v ≤ 2 ^ 23 - 1) :
    FromInt24LittleEndianBytes (Int24.mk v).ToLittleEndianBytes = (⟨v⟩, none) := by
  unfold Int24.ToLittleEndianBytes
  simp only []
  rw [FromInt24LittleEndianBytes_eq]
  exact roundTrip_Int24 v hlo hhi

theorem roundTrip_Uint24 (v : Nat) (hhi : v ≤ 2 ^ 24 - 1) :
    FromUint24Bytes (Uint24.mk v).ToBytes = (⟨v⟩, none) := by
  unfold Uint24.ToBytes
  rw [FromUint24Bytes_eq]
  simp only [byte_val, Nat.shiftRight_eq_div_pow]
  congr 2
  omega

theorem roundTripLE_Uint24 (v : Nat) (hhi : v ≤ 2 ^ 24 - 1) :
    FromUint24LittleEndianBytes (Uint24.mk v).ToLittleEndianBytes = (⟨v⟩, none) := by
  unfold Uint24.ToLittleEndianBytes
  rw [FromUint24LittleEndianBytes_eq]
  exact roundTrip_Uint24 v hhi
theorem jsonRoundTrip_Int24 (r : Int24) (v : Int) (hlo : -(2 ^ 23) ≤ v) (hhi : v ≤ 2 ^ 23 - 1) :
    r.UnmarshalJSON (Int24.mk v).MarshalJSON.1 = .ret (⟨v⟩, none) := by
  have e : toInt64 v = v := by unfold toInt64; omega
  obtain ⟨c, rest, hc, hq⟩ := strconv.AppendInt_head v (by omega) (by omega)
  have hp := strconv.ParseInt_AppendInt v (by omega) (by omega)
  rw [hc] at hp
  unfold Int24.MarshalJSON Int24.UnmarshalJSON
  simp only [e, hc]
  rw [if_neg (by simp), unquote_of_head c rest hq]
  simp only [hp, NewInt24_in v hlo hhi]

theorem jsonRoundTrip_Uint24 (r : Uint24) (v : Nat) (hhi : v ≤ 2 ^ 24 - 1) :
    r.UnmarshalJSON (Uint24.mk v).MarshalJSON.1 = .ret (⟨v⟩, none) := by
  have e : toUint64 (v : Int) = v := toUint64_natCast v (by omega)
  obtain ⟨c, rest, hc, h1, _⟩ := strconv.AppendUint_head v
  have hp := strconv.ParseUint_AppendUint v (by omega)
  rw [hc] at hp
  unfold Uint24.MarshalJSON Uint24.UnmarshalJSON
  simp only [e, hc]
  rw [if_neg (by simp), unquote_of_head c rest (by omega)]
  simp only [hp, NewUint24_in v hhi]

/-! ### Width 40: construction, encoding, round trips -/
theorem length_eq_five (b : List Byte) (h : b.length = 5) :
    ∃ b0 b1 b2 b3 b4, b = [b0, b1, b2, b3, b4] := by
  rcases b with _ | ⟨b0, _ | ⟨b1, _ | ⟨b2, _ | ⟨b3, _ | ⟨b4, _ | ⟨x, t⟩⟩⟩⟩⟩⟩ <;> simp at h
  exact ⟨b0, b1, b2, b3, b4, rfl⟩
theorem NewInt40_in (v : Int) (hlo : -(2 ^ 39) ≤ v) (hhi : v ≤ 2 ^ 39 - 1) :
    NewInt40 v = (⟨v⟩, none) := by
  rw [NewInt40, if_neg (by omega)]

theorem NewInt40_out (v : Int) (h : ¬ (-(2 ^ 39) ≤ v ∧ v ≤ 2 ^ 39 - 1)) :
    NewInt40 v = (⟨0⟩, some .ErrInt40OutOfRange) := by
  rw [NewInt40, if_pos (by omega)]

theorem NewInt40_ok_iff (v : Int) :
    (NewInt40 v).2 = none ↔ (-(2 ^ 39) ≤ v ∧ v ≤ 2 ^ 39 - 1) := by
  by_cases h : -(2 ^ 39) ≤ v ∧ v ≤ 2 ^ 39 - 1
  · rw [NewInt40_in v h.1 h.2]; exact ⟨fun _ => h, fun _ => rfl⟩
  · rw [NewInt40_out v h]; exact ⟨fun hh => by simp at hh, fun hh => absurd hh h⟩
theorem NewUint40_in (v : Nat) (hhi : v ≤ 2 ^ 40 - 1) :
    NewUint40 v = (⟨v⟩, none) := by
  rw [NewUint40, if_neg (by omega)]

theorem NewUint40_out (v : Nat) (h : ¬ v ≤ 2 ^ 40 - 1) :
    NewUint40 v = (⟨0⟩, some .ErrUint40OutOfRange) := by
  rw [NewUint40, if_pos (by omega)]

theorem NewUint40_ok_iff (v : Nat) : (NewUint40 v).2 = none ↔ v ≤ 2 ^ 40 - 1 := by
  by_cases h : v ≤ 2 ^ 40 - 1
  · rw [NewUint40_in v h]; exact ⟨fun _ => h, fun _ => rfl⟩
  · rw [NewUint40_out v h]; exact ⟨fun hh => by simp at hh, fun hh => absurd hh h⟩
theorem Int40_ToBytes_eq (v : Int) (hlo : -(2 ^ 39) ≤ v) (hhi : v ≤ 2 ^ 39 - 1) :
    (Int40.mk v).ToBytes = [byte ((v % 2 ^ 40).toNat / 256 ^ 4), byte ((v % 2 ^ 40).toNat / 256 ^ 3), byte ((v % 2 ^ 40).toNat / 256 ^ 2), byte ((v % 2 ^ 40).toNat / 256 ^ 1), byte ((v % 2 ^ 40).toNat / 256 ^ 0)] := by
  unfold Int40.ToBytes
  simp only [List.cons.injEq, and_true]
  refine ⟨?_, ?_, ?_, ?_, ?_⟩ <;>
    (apply Fin.ext; simp only [byte_val, Nat.shiftRight_eq_div_pow, toUint64]; omega)

theorem Uint40_ToBytes_eq (v : Nat) :
    (Uint40.mk v).ToBytes = [byte (v / 256 ^ 4), byte (v / 256 ^ 3), byte (v / 256 ^ 2), byte (v / 256 ^ 1), byte (v / 256 ^ 0)] := by
  unfold Uint40.ToBytes
  simp only [List.cons.injEq, and_true]
  refine ⟨?_, ?_, ?_, ?_, ?_⟩ <;>
    (apply Fin.ext; simp only [byte_val, Nat.shiftRight_eq_div_pow]; omega)

theorem wireDigits_40 (v : Int) :
    wireDigits 40 v = [byte ((v % 2 ^ 40).toNat / 256 ^ 4), byte ((v % 2 ^ 40).toNat / 256 ^ 3), byte ((v % 2 ^ 40).toNat / 256 ^ 2), byte ((v % 2 ^ 40).toNat / 256 ^ 1), byte ((v % 2 ^ 40).toNat / 256 ^ 0)] := rfl
theorem roundTrip_Int40 (v : Int) (hlo : -(2 ^ 39) ≤ v) (hhi : v ≤ 2 ^ 39 - 1) :
    FromInt40Bytes (Int40.mk v).ToBytes = (⟨v⟩, none) := by
  unfold Int40.ToBytes
  simp only []
  rw [FromInt40Bytes_eq]
  simp only [byte_val, Nat.shiftRight_eq_div_pow, toUint64]
  congr 2
  split <;> omega

theorem roundTripLE_Int40 (v : Int) (hlo : -(2 ^ 39) ≤ v) (hhi : v ≤ 2 ^ 39 - 1) :
    FromInt40LittleEndianBytes (Int40.mk v).ToLittleEndianBytes = (⟨v⟩, none) := by
  unfold Int40.ToLittleEndianBytes
  simp only []
  rw [FromInt40LittleEndianBytes_eq]
  exact roundTrip_Int40 v hlo hhi

theorem roundTrip_Uint40 (v : Nat) (hhi : v ≤ 2 ^ 40 - 1) :
    FromUint40Bytes (Uint40.mk v).ToBytes = (⟨v⟩, none) := by
  unfold Uint40.ToBytes
  rw [FromUint40Bytes_eq]
  simp only [byte_val, Nat.shiftRight_eq_div_pow]
  congr 2
  omega

theorem roundTripLE_Uint40 (v : Nat) (hhi : v ≤ 2 ^ 40 - 1) :
    FromUint40LittleEndianBytes (Uint40.mk v).ToLittleEndianBytes = (⟨v⟩, none) := by
  unfold Uint40.ToLittleEndianBytes
  rw [FromUint40LittleEndianBytes_eq]
  exact roundTrip_Uint40 v hhi
theorem jsonRoundTrip_Int40 (r : Int40) (v : Int) (hlo : -(2 ^ 39) ≤ v) (hhi : v ≤ 2 ^ 39 - 1) :
    r.UnmarshalJSON (Int40.mk v).MarshalJSON.1 = .ret (⟨v⟩, none) := by
  have e : toInt64 v = v := by unfold toInt64; omega
  obtain ⟨c, rest, hc, hq⟩ := strconv.AppendInt_head v (by omega) (by omega)
  have hp := strconv.ParseInt_AppendInt v (by omega) (by omega)
  rw [hc] at hp
  unfold Int40.MarshalJSON Int40.UnmarshalJSON
  simp only [hc]
  rw [if_neg (by simp), unquote_of_head c rest hq]
  simp only [hp, NewInt40_in v hlo hhi]

theorem jsonRoundTrip_Uint40 (r : Uint40) (v : Nat) (hhi : v ≤ 2 ^ 40 - 1) :
    r.UnmarshalJSON (Uint40.mk v).MarshalJSON.1 = .ret (⟨v⟩, none) := by
  have e : toUint64 (v : Int) = v := toUint64_natCast v (by omega)
  obtain ⟨c, rest, hc, h1, _⟩ := strconv.AppendUint_head v
  have hp := strconv.ParseUint_AppendUint v (by omega)
  rw [hc] at hp
  unfold Uint40.MarshalJSON Uint40.UnmarshalJSON
  simp only [hc]
  rw [if_neg (by simp), unquote_of_head c rest (by omega)]
  simp only [hp, NewUint40_in v hhi]

/-! ### Width 48: construction, encoding, round trips -/
theorem length_eq_six (b : List Byte) (h : b.length = 6) :
    ∃ b0 b1 b2 b3 b4 b5, b = [b0, b1, b2, b3, b4, b5] := by
  rcases b with _ | ⟨b0, _ | ⟨b1, _ | ⟨b2, _ | ⟨b3, _ | ⟨b4, _ | ⟨b5, _ | ⟨x, t⟩⟩⟩⟩⟩⟩⟩ <;> simp at h
  exact ⟨b0, b1, b2, b3, b4, b5, rfl⟩
theorem NewInt48_in (v : Int) (hlo : -(2 ^ 47) ≤ v) (hhi : v ≤ 2 ^ 47 - 1) :
    NewInt48 v = (⟨v⟩, none) := by
  rw [NewInt48, if_neg (by omega)]

theorem NewInt48_out (v : Int) (h : ¬ (-(2 ^ 47) ≤ v ∧ v ≤ 2 ^ 47 - 1)) :
    NewInt48 v = (⟨0⟩, some .ErrInt48OutOfRange) := by
  rw [NewInt48, if_pos (by omega)]

theorem NewInt48_ok_iff (v : Int) :
    (NewInt48 v).2 = none ↔ (-(2 ^ 47) ≤ v ∧ v ≤ 2 ^ 47 - 1) := by
  by_cases h : -(2 ^ 47) ≤ v ∧ v ≤ 2 ^ 47 - 1
  · rw [NewInt48_in v h.1 h.2]; exact ⟨fun _ => h, fun _ => rfl⟩
  · rw [NewInt48_out v h]; exact ⟨fun hh => by simp at hh, fun hh => absurd hh h⟩
theorem NewUint48_in (v : Nat) (hhi : v ≤ 2 ^ 48 - 1) :
    NewUint48 v = (⟨v⟩, none) := by
  rw [NewUint48, if_neg (by omega)]

theorem NewUint48_out (v : Nat) (h : ¬ v ≤ 2 ^ 48 - 1) :
    NewUint48 v = (⟨0⟩, some .ErrUint48OutOfRange) := by
  rw [NewUint48, if_pos (by omega)]

theorem NewUint48_ok_iff (v : Nat) : (NewUint48 v).2 = none ↔ v ≤ 2 ^ 48 - 1 := by
  by_cases h : v ≤ 2 ^ 48 - 1
  · rw [NewUint48_in v h]; exact ⟨fun _ => h, fun _ => rfl⟩
  · rw [NewUint48_out v h]; exact ⟨fun hh => by simp at hh, fun hh => absurd hh h⟩
theorem Int48_ToBytes_eq (v : Int) (hlo : -(2 ^ 47) ≤ v) (hhi : v ≤ 2 ^ 47 - 1) :
    (Int48.mk v).ToBytes = [byte ((v % 2 ^ 48).toNat / 256 ^ 5), byte ((v % 2 ^ 48).toNat / 256 ^ 4), byte ((v % 2 ^ 48).toNat / 256 ^ 3), byte ((v % 2 ^ 48).toNat / 256 ^ 2), byte ((v % 2 ^ 48).toNat / 256 ^ 1), byte ((v % 2 ^ 48).toNat / 256 ^ 0)] := by
  unfold Int48.ToBytes
  simp only [List.cons.injEq, and_true]
  refine ⟨?_, ?_, ?_, ?_, ?_, ?_⟩ <;>
    (apply Fin.ext; simp only [byte_val, Nat.shiftRight_eq_div_pow, toUint64]; omega)

theorem Uint48_ToBytes_eq (v : Nat) :
    (Uint48.mk v).ToBytes = [byte (v / 256 ^ 5), byte (v / 256 ^ 4), byte (v / 256 ^ 3), byte (v / 256 ^ 2), byte (v / 256 ^ 1), byte (v / 256 ^ 0)] := by
  unfold Uint48.ToBytes
  simp only [List.cons.injEq, and_true]
  refine ⟨?_, ?_, ?_, ?_, ?_, ?_⟩ <;>
    (apply Fin.ext; simp only [byte_val, Nat.shiftRight_eq_div_pow]; omega)

theorem wireDigits_48 (v : Int) :
    wireDigits 48 v = [byte ((v % 2 ^ 48).toNat / 256 ^ 5), byte ((v % 2 ^ 48).toNat / 256 ^ 4), byte ((v % 2 ^ 48).toNat / 256 ^ 3), byte ((v % 2 ^ 48).toNat / 256 ^ 2), byte ((v % 2 ^ 48).toNat / 256 ^ 1), byte ((v % 2 ^ 48).toNat / 256 ^ 0)] := rfl
theorem roundTrip_Int48 (v : Int) (hlo : -(2 ^ 47) ≤ v) (hhi : v ≤ 2 ^ 47 - 1) :
    FromInt48Bytes (Int48.mk v).ToBytes = (⟨v⟩, none) := by
  unfold Int48.ToBytes
  simp only []
  rw [FromInt48Bytes_eq]
  simp only [byte_val, Nat.shiftRight_eq_div_pow, toUint64]
  congr 2
  split <;> omega

theorem roundTripLE_Int48 (v : Int) (hlo : -(2 ^ 47) ≤ v) (hhi : v ≤ 2 ^ 47 - 1) :
    FromInt48LittleEndianBytes (Int48.mk v).ToLittleEndianBytes = (⟨v⟩, none) := by
  unfold Int48.ToLittleEndianBytes
  simp only []
  rw [FromInt48LittleEndianBytes_eq]
  exact roundTrip_Int48 v hlo hhi

theorem roundTrip_Uint48 (v : Nat) (hhi : v ≤ 2 ^ 48 - 1) :
    FromUint48Bytes (Uint48.mk v).ToBytes = (⟨v⟩, none) := by
  unfold Uint48.ToBytes
  rw [FromUint48Bytes_eq]
  simp only [byte_val, Nat.shiftRight_eq_div_pow]
  congr 2
  omega

theorem roundTripLE_Uint48 (v : Nat) (hhi : v ≤ 2 ^ 48 - 1) :
    FromUint48LittleEndianBytes (Uint48.mk v).ToLittleEndianBytes = (⟨v⟩, none) := by
  unfold Uint48.ToLittleEndianBytes
  rw [FromUint48LittleEndianBytes_eq]
  exact roundTrip_Uint48 v hhi
theorem jsonRoundTrip_Int48 (r : Int48) (v : Int) (hlo : -(2 ^ 47) ≤ v) (hhi : v ≤ 2 ^ 47 - 1) :
    r.UnmarshalJSON (Int48.mk v).MarshalJSON.1 = .ret (⟨v⟩, none) := by
  have e : toInt64 v = v := by unfold toInt64; omega
  obtain ⟨c, rest, hc, hq⟩ := strconv.AppendInt_head v (by omega) (by omega)
  have hp := strconv.ParseInt_AppendInt v (by omega) (by omega)
  rw [hc] at hp
  unfold Int48.MarshalJSON Int48.UnmarshalJSON
  simp only [hc]
  rw [if_neg (by simp), unquote_of_head c rest hq]
  simp only [hp, NewInt48_in v hlo hhi]

theorem jsonRoundTrip_Uint48 (r : Uint48) (v : Nat) (hhi : v ≤ 2 ^ 48 - 1) :
    r.UnmarshalJSON (Uint48.mk v).MarshalJSON.1 = .ret (⟨v⟩, none) := by
  have e : toUint64 (v : Int) = v := toUint64_natCast v (by omega)
  obtain ⟨c, rest, hc, h1, _⟩ := strconv.AppendUint_head v
  have hp := strconv.ParseUint_AppendUint v (by omega)
  rw [hc] at hp
  unfold Uint48.MarshalJSON Uint48.UnmarshalJSON
  simp only [hc]
  rw [if_neg (by simp), unquote_of_head c rest (by omega)]
  simp only [hp, NewUint48_in v hhi]

/-! ### Width 56: construction, encoding, round trips -/
theorem length_eq_seven (b : List Byte) (h : b.length = 7) :
    ∃ b0 b1 b2 b3 b4 b5 b6, b = [b0, b1, b2, b3, b4, b5, b6] := by
  rcases b with _ | ⟨b0, _ | ⟨b1, _ | ⟨b2, _ | ⟨b3, _ | ⟨b4, _ | ⟨b5, _ | ⟨b6, _ | ⟨x, t⟩⟩⟩⟩⟩⟩⟩⟩ <;> simp at h
  exact ⟨b0, b1, b2, b3, b4, b5, b6, rfl⟩
theorem NewInt56_in (v : Int) (hlo : -(2 ^ 55) ≤ v) (hhi : v ≤ 2 ^ 55 - 1) :
    NewInt56 v = (⟨v⟩, none) := by
  rw [NewInt56, if_neg (by omega)]

theorem NewInt56_out (v : Int) (h : ¬ (-(2 ^ 55) ≤ v ∧ v ≤ 2 ^ 55 - 1)) :
    NewInt56 v = (⟨0⟩, some .ErrInt56OutOfRange) := by
  rw [NewInt56, if_pos (by omega)]

theorem NewInt56_ok_iff (v : Int) :
    (NewInt56 v).2 = none ↔ (-(2 ^ 55) ≤ v ∧ v ≤ 2 ^ 55 - 1) := by
  by_cases h : -(2 ^ 55) ≤ v ∧ v ≤ 2 ^ 55 - 1
  · rw [NewInt56_in v h.1 h.2]; exact ⟨fun _ => h, fun _ => rfl⟩
  · rw [NewInt56_out v h]; exact ⟨fun hh => by simp at hh, fun hh => absurd hh h⟩
theorem NewUint56_in (v : Nat) (hhi : v ≤ 2 ^ 56 - 1) :
    NewUint56 v = (⟨v⟩, none) := by
  rw [NewUint56, if_neg (by omega)]

theorem NewUint56_out (v : Nat) (h : ¬ v ≤ 2 ^ 56 - 1) :
    NewUint56 v = (⟨0⟩, some .ErrUint56OutOfRange) := by
  rw [NewUint56, if_pos (by omega)]

theorem NewUint56_ok_iff (v : Nat) : (NewUint56 v).2 = none ↔ v ≤ 2 ^ 56 - 1 := by
  by_cases h : v ≤ 2 ^ 56 - 1
  · rw [NewUint56_in v h]; exact ⟨fun _ => h, fun _ => rfl⟩
  · rw [NewUint56_out v h]; exact ⟨fun hh => by simp at hh, fun hh => absurd hh h⟩
theorem Int56_ToBytes_eq (v : Int) (hlo : -(2 ^ 55) ≤ v) (hhi : v ≤ 2 ^ 55 - 1) :
    (Int56.mk v).ToBytes = [byte ((v % 2 ^ 56).toNat / 256 ^ 6), byte ((v % 2 ^ 56).toNat / 256 ^ 5), byte ((v % 2 ^ 56).toNat / 256 ^ 4), byte ((v % 2 ^ 56).toNat / 256 ^ 3), byte ((v % 2 ^ 56).toNat / 256 ^ 2), byte ((v % 2 ^ 56).toNat / 256 ^ 1), byte ((v % 2 ^ 56).toNat / 256 ^ 0)] := by
  unfold Int56.ToBytes
  simp only [List.cons.injEq, and_true]
  refine ⟨?_, ?_, ?_, ?_, ?_, ?_, ?_⟩ <;>
    (apply Fin.ext; simp only [byte_val, Nat.shiftRight_eq_div_pow, toUint64]; omega)

theorem Uint56_ToBytes_eq (v : Nat) :
    (Uint56.mk v).ToBytes = [byte (v / 256 ^ 6), byte (v / 256 ^ 5), byte (v / 256 ^ 4), byte (v / 256 ^ 3), byte (v / 256 ^ 2), byte (v / 256 ^ 1), byte (v / 256 ^ 0)] := by
  unfold Uint56.ToBytes
  simp only [List.cons.injEq, and_true]
  refine ⟨?_, ?_, ?_, ?_, ?_, ?_, ?_⟩ <;>
    (apply Fin.ext; simp only [byte_val, Nat.shiftRight_eq_div_pow]; omega)

theorem wireDigits_56 (v : Int) :
    wireDigits 56 v = [byte ((v % 2 ^ 56).toNat / 256 ^ 6), byte ((v % 2 ^ 56).toNat / 256 ^ 5), byte ((v % 2 ^ 56).toNat / 256 ^ 4), byte ((v % 2 ^ 56).toNat / 256 ^ 3), byte ((v % 2 ^ 56).toNat / 256 ^ 2), byte ((v % 2 ^ 56).toNat / 256 ^ 1), byte ((v % 2 ^ 56).toNat / 256 ^ 0)] := rfl
theorem roundTrip_Int56 (v : Int) (hlo : -(2 ^ 55) ≤ v) (hhi : v ≤ 2 ^ 55 - 1) :
    FromInt56Bytes (Int56.mk v).ToBytes = (⟨v⟩, none) := by
  unfold Int56.ToBytes
  simp only []
  rw [FromInt56Bytes_eq]
  simp only [byte_val, Nat.shiftRight_eq_div_pow, toUint64]
  congr 2
  split <;> omega

theorem roundTripLE_Int56 (v : Int) (hlo : -(2 ^ 55) ≤ v) (hhi : v ≤ 2 ^ 55 - 1) :
    FromInt56LittleEndianBytes (Int56.mk v).ToLittleEndianBytes = (⟨v⟩, none) := by
  unfold Int56.ToLittleEndianBytes
  simp only []
  rw [FromInt56LittleEndianBytes_eq]
  exact roundTrip_Int56 v hlo hhi

theorem roundTrip_Uint56 (v : Nat) (hhi : v ≤ 2 ^ 56 - 1) :
    FromUint56Bytes (Uint56.mk v).ToBytes = (⟨v⟩, none) := by
  unfold Uint56.ToBytes
  rw [FromUint56Bytes_eq]
  simp only [byte_val, Nat.shiftRight_eq_div_pow]
  congr 2
  omega

theorem roundTripLE_Uint56 (v : Nat) (hhi : v ≤ 2 ^ 56 - 1) :
    FromUint56LittleEndianBytes (Uint56.mk v).ToLittleEndianBytes = (⟨v⟩, none) := by
  unfold Uint56.ToLittleEndianBytes
  rw [FromUint56LittleEndianBytes_eq]
  exact roundTrip_Uint56 v hhi
theorem jsonRoundTrip_Int56 (r : Int56) (v : Int) (hlo : -(2 ^ 55) ≤ v) (hhi : v ≤ 2 ^ 55 - 1) :
    r.UnmarshalJSON (Int56.mk v).MarshalJSON.1 = .ret (⟨v⟩, none) := by
  have e : toInt64 v = v := by unfold toInt64; omega
  obtain ⟨c, rest, hc, hq⟩ := strconv.AppendInt_head v (by omega) (by omega)
  have hp := strconv.ParseInt_AppendInt v (by omega) (by omega)
  rw [hc] at hp
  unfold Int56.MarshalJSON Int56.UnmarshalJSON
  simp only [hc]
  rw [if_neg (by simp), unquote_of_head c rest hq]
  simp only [hp, NewInt56_in v hlo hhi]

theorem jsonRoundTrip_Uint56 (r : Uint56) (v : Nat) (hhi : v ≤ 2 ^ 56 - 1) :
    r.UnmarshalJSON (Uint56.mk v).MarshalJSON.1 = .ret (⟨v⟩, none) := by
  have e : toUint64 (v : Int) = v := toUint64_natCast v (by omega)
  obtain ⟨c, rest, hc, h1, _⟩ := strconv.AppendUint_head v
  have hp := strconv.ParseUint_AppendUint v (by omega)
  rw [hc] at hp
  unfold Uint56.MarshalJSON Uint56.UnmarshalJSON
  simp only [hc]
  rw [if_neg (by simp), unquote_of_head c rest (by omega)]
  simp only [hp, NewUint56_in v hhi]

/-! ### Width 24: decoding -/
theorem bigEndianMagnitude_three (b0 b1 b2 : Byte) :
    bigEndianMagnitude [b0, b1, b2] = b0.val * 2 ^ 16 + b1.val * 2 ^ 8 + b2.val := by
  simp only [bigEndianMagnitude, List.length_cons, List.length_nil]
  norm_num
  omega

theorem littleEndianMagnitude_three (b0 b1 b2 : Byte) :
    littleEndianMagnitude [b0, b1, b2] = b2.val * 2 ^ 16 + b1.val * 2 ^ 8 + b0.val := by
  simp only [littleEndianMagnitude]
  omega
theorem FromInt24Bytes_len (b : List Byte) (h : b.length ≠ 3) :
    FromInt24Bytes b = (⟨0⟩, some .ErrInt24InvalidByteLength) := by
  unfold FromInt24Bytes
  rw [dif_pos h]
theorem FromInt24LittleEndianBytes_len (b : List Byte) (h : b.length ≠ 3) :
    FromInt24LittleEndianBytes b = (⟨0⟩, some .ErrInt24InvalidByteLength) := by
  unfold FromInt24LittleEndianBytes
  rw [dif_pos h]
theorem FromInt24LittleEndianBytes_reverse (b : List Byte) :
    FromInt24LittleEndianBytes b = FromInt24Bytes b.reverse := by
  by_cases h : b.length = 3
  · obtain ⟨b0, b1, b2, rfl⟩ := length_eq_three b h
    exact FromInt24LittleEndianBytes_eq b0 b1 b2
  · rw [FromInt24LittleEndianBytes_len b h, FromInt24Bytes_len b.reverse (by rw [List.length_reverse]; exact h)]
theorem FromUint24Bytes_len (b : List Byte) (h : b.length ≠ 3) :
    FromUint24Bytes b = (⟨0⟩, some .ErrInt24InvalidByteLength) := by
  unfold FromUint24Bytes
  rw [dif_pos h]
theorem FromUint24LittleEndianBytes_len (b : List Byte) (h : b.length ≠ 3) :
    FromUint24LittleEndianBytes b = (⟨0⟩, some .ErrInt24InvalidByteLength) := by
  unfold FromUint24LittleEndianBytes
  rw [dif_pos h]
theorem FromUint24LittleEndianBytes_reverse (b : List Byte) :
    FromUint24LittleEndianBytes b = FromUint24Bytes b.reverse := by
  by_cases h : b.length = 3
  · obtain ⟨b0, b1, b2, rfl⟩ := length_eq_three b h
    exact FromUint24LittleEndianBytes_eq b0 b1 b2
  · rw [FromUint24LittleEndianBytes_len b h, FromUint24Bytes_len b.reverse (by rw [List.length_reverse]; exact h)]
theorem FromInt24Bytes_spec (b : List Byte) (h : b.length = 3) :
    FromInt24Bytes b =
      (⟨if bigEndianMagnitude b < 2 ^ 23 then (bigEndianMagnitude b : Int)
        else (bigEndianMagnitude b : Int) - 2 ^ 24⟩, none) ∧ bigEndianMagnitude b < 2 ^ 24 := by
  obtain ⟨b0, b1, b2, rfl⟩ := length_eq_three b h
  rw [FromInt24Bytes_eq, bigEndianMagnitude_three]
  have hb := b0.isLt
  have hb1 := b1.isLt
  have hb2 := b2.isLt
  refine ⟨?_, by omega⟩
  congr 2
  split <;> split <;> omega

theorem FromUint24Bytes_spec (b : List Byte) (h : b.length = 3) :
    FromUint24Bytes b = (⟨bigEndianMagnitude b⟩, none) ∧ bigEndianMagnitude b < 2 ^ 24 := by
  obtain ⟨b0, b1, b2, rfl⟩ := length_eq_three b h
  rw [FromUint24Bytes_eq, bigEndianMagnitude_three]
  have hb := b0.isLt
  have hb1 := b1.isLt
  have hb2 := b2.isLt
  exact ⟨rfl, by omega⟩

theorem FromInt24Bytes_range (b : List Byte) (h : b.length = 3) :
    ∃ v : Int, FromInt24Bytes b = (⟨v⟩, none) ∧ -(2 ^ 23) ≤ v ∧ v ≤ 2 ^ 23 - 1 := by
  obtain ⟨h1, h2⟩ := FromInt24Bytes_spec b h
  refine ⟨_, h1, ?_, ?_⟩ <;> split <;> omega

theorem FromUint24Bytes_range (b : List Byte) (h : b.length = 3) :
    ∃ v : Nat, FromUint24Bytes b = (⟨v⟩, none) ∧ v ≤ 2 ^ 24 - 1 := by
  obtain ⟨h1, h2⟩ := FromUint24Bytes_spec b h
  exact ⟨_, h1, by omega⟩

theorem FromInt24LittleEndianBytes_range (b : List Byte) (h : b.length = 3) :
    ∃ v : Int, FromInt24LittleEndianBytes b = (⟨v⟩, none) ∧ -(2 ^ 23) ≤ v ∧ v ≤ 2 ^ 23 - 1 := by
  rw [FromInt24LittleEndianBytes_reverse]
  exact FromInt24Bytes_range b.reverse (by rw [List.length_reverse]; exact h)

theorem FromUint24LittleEndianBytes_range (b : List Byte) (h : b.length = 3) :
    ∃ v : Nat, FromUint24LittleEndianBytes b = (⟨v⟩, none) ∧ v ≤ 2 ^ 24 - 1 := by
  rw [FromUint24LittleEndianBytes_reverse]
  exact FromUint24Bytes_range b.reverse (by rw [List.length_reverse]; exact h)

theorem Int24_Int64_mk (v : Int) (hlo : -(2 ^ 23) ≤ v) (hhi : v ≤ 2 ^ 23 - 1) :
    (Int24.mk v).Int64 = v := by
  show toInt64 v = v; unfold toInt64; omega

theorem Uint24_Uint64_mk (v : Nat) (hhi : v ≤ 2 ^ 24 - 1) :
    (Uint24.mk v).Uint64 = v := by
  exact toUint64_natCast v (by omega)

/-! ### Width 40: decoding -/
theorem bigEndianMagnitude_five (b0 b1 b2 b3 b4 : Byte) :
    bigEndianMagnitude [b0, b1, b2, b3, b4] = b0.val * 2 ^ 32 + b1.val * 2 ^ 24 + b2.val * 2 ^ 16 + b3.val * 2 ^ 8 + b4.val := by
  simp only [bigEndianMagnitude, List.length_cons, List.length_nil]
  norm_num
  omega

theorem littleEndianMagnitude_five (b0 b1 b2 b3 b4 : Byte) :
    littleEndianMagnitude [b0, b1, b2, b3, b4] = b4.val * 2 ^ 32 + b3.val * 2 ^ 24 + b2.val * 2 ^ 16 + b1.val * 2 ^ 8 + b0.val := by
  simp only [littleEndianMagnitude]
  omega
theorem FromInt40Bytes_len (b : List Byte) (h : b.length ≠ 5) :
    FromInt40Bytes b = (⟨0⟩, some .ErrInt40InvalidByteLength) := by
  unfold FromInt40Bytes
  rw [dif_pos h]
theorem FromInt40LittleEndianBytes_len (b : List Byte) (h : b.length ≠ 5) :
    FromInt40LittleEndianBytes b = (⟨0⟩, some .ErrInt40InvalidByteLength) := by
  unfold FromInt40LittleEndianBytes
  rw [dif_pos h]
theorem FromInt40LittleEndianBytes_reverse (b : List Byte) :
    FromInt40LittleEndianBytes b = FromInt40Bytes b.reverse := by
  by_cases h : b.length = 5
  · obtain ⟨b0, b1, b2, b3, b4, rfl⟩ := length_eq_five b h
    exact FromInt40LittleEndianBytes_eq b0 b1 b2 b3 b4
  · rw [FromInt40LittleEndianBytes_len b h, FromInt40Bytes_len b.reverse (by rw [List.length_reverse]; exact h)]
theorem FromUint40Bytes_len (b : List Byte) (h : b.length ≠ 5) :
    FromUint40Bytes b = (⟨0⟩, some .ErrInt40InvalidByteLength) := by
  unfold FromUint40Bytes
  rw [dif_pos h]
theorem FromUint40LittleEndianBytes_len (b : List Byte) (h : b.length ≠ 5) :
    FromUint40LittleEndianBytes b = (⟨0⟩, some .ErrInt40InvalidByteLength) := by
  unfold FromUint40LittleEndianBytes
  rw [dif_pos h]
theorem FromUint40LittleEndianBytes_reverse (b : List Byte) :
    FromUint40LittleEndianBytes b = FromUint40Bytes b.reverse := by
  by_cases h : b.length = 5
  · obtain ⟨b0, b1, b2, b3, b4, rfl⟩ := length_eq_five b h
    exact FromUint40LittleEndianBytes_eq b0 b1 b2 b3 b4
  · rw [FromUint40LittleEndianBytes_len b h, FromUint40Bytes_len b.reverse (by rw [List.length_reverse]; exact h)]
theorem FromInt40Bytes_spec (b : List Byte) (h : b.length = 5) :
    FromInt40Bytes b =
      (⟨if bigEndianMagnitude b < 2 ^ 39 then (bigEndianMagnitude b : Int)
        else (bigEndianMagnitude b : Int) - 2 ^ 40⟩, none) ∧ bigEndianMagnitude b < 2 ^ 40 := by
  obtain ⟨b0, b1, b2, b3, b4, rfl⟩ := length_eq_five b h
  rw [FromInt40Bytes_eq, bigEndianMagnitude_five]
  have hb := b0.isLt
  have hb1 := b1.isLt
  have hb2 := b2.isLt
  have hb3 := b3.isLt
  have hb4 := b4.isLt
  refine ⟨?_, by omega⟩
  congr 2
  split <;> split <;> omega

theorem FromUint40Bytes_spec (b : List Byte) (h : b.length = 5) :
    FromUint40Bytes b = (⟨bigEndianMagnitude b⟩, none) ∧ bigEndianMagnitude b < 2 ^ 40 := by
  obtain ⟨b0, b1, b2, b3, b4, rfl⟩ := length_eq_five b h
  rw [FromUint40Bytes_eq, bigEndianMagnitude_five]
  have hb := b0.isLt
  have hb1 := b1.isLt
  have hb2 := b2.isLt
  have hb3 := b3.isLt
  have hb4 := b4.isLt
  exact ⟨rfl, by omega⟩

theorem FromInt40Bytes_range (b : List Byte) (h : b.length = 5) :
    ∃ v : Int, FromInt40Bytes b = (⟨v⟩, none) ∧ -(2 ^ 39) ≤ v ∧ v ≤ 2 ^ 39 - 1 := by
  obtain ⟨h1, h2⟩ := FromInt40Bytes_spec b h
  refine ⟨_, h1, ?_, ?_⟩ <;> split <;> omega

theorem FromUint40Bytes_range (b : List Byte) (h : b.length = 5) :
    ∃ v : Nat, FromUint40Bytes b = (⟨v⟩, none) ∧ v ≤ 2 ^ 40 - 1 := by
  obtain ⟨h1, h2⟩ := FromUint40Bytes_spec b h
  exact ⟨_, h1, by omega⟩

theorem FromInt40LittleEndianBytes_range (b : List Byte) (h : b.length = 5) :
    ∃ v : Int, FromInt40LittleEndianBytes b = (⟨v⟩, none) ∧ -(2 ^ 39) ≤ v ∧ v ≤ 2 ^ 39 - 1 := by
  rw [FromInt40LittleEndianBytes_reverse]
  exact FromInt40Bytes_range b.reverse (by rw [List.length_reverse]; exact h)

theorem FromUint40LittleEndianBytes_range (b : List Byte) (h : b.length = 5) :
    ∃ v : Nat, FromUint40LittleEndianBytes b = (⟨v⟩, none) ∧ v ≤ 2 ^ 40 - 1 := by
  rw [FromUint40LittleEndianBytes_reverse]
  exact FromUint40Bytes_range b.reverse (by rw [List.length_reverse]; exact h)

theorem Int40_Int64_mk (v : Int) (_hlo : -(2 ^ 39) ≤ v) (_hhi : v ≤ 2 ^ 39 - 1) :
    (Int40.mk v).Int64 = v := by
  rfl

theorem Uint40_Uint64_mk (v : Nat) (_hhi : v ≤ 2 ^ 40 - 1) :
    (Uint40.mk v).Uint64 = v := by
  rfl

/-! ### Width 48: decoding -/
theorem bigEndianMagnitude_six (b0 b1 b2 b3 b4 b5 : Byte) :
    bigEndianMagnitude [b0, b1, b2, b3, b4, b5] = b0.val * 2 ^ 40 + b1.val * 2 ^ 32 + b2.val * 2 ^ 24 + b3.val * 2 ^ 16 + b4.val * 2 ^ 8 + b5.val := by
  simp only [bigEndianMagnitude, List.length_cons, List.length_nil]
  norm_num
  omega

theorem littleEndianMagnitude_six (b0 b1 b2 b3 b4 b5 : Byte) :
    littleEndianMagnitude [b0, b1, b2, b3, b4, b5] = b5.val * 2 ^ 40 + b4.val * 2 ^ 32 + b3.val * 2 ^ 24 + b2.val * 2 ^ 16 + b1.val * 2 ^ 8 + b0.val := by
  simp only [littleEndianMagnitude]
  omega
theorem FromInt48Bytes_len (b : List Byte) (h : b.length ≠ 6) :
    FromInt48Bytes b = (⟨0⟩, some .ErrInt48InvalidByteLength) := by
  unfold FromInt48Bytes
  rw [dif_pos h]
theorem FromInt48LittleEndianBytes_len (b : List Byte) (h : b.length ≠ 6) :
    FromInt48LittleEndianBytes b = (⟨0⟩, some .ErrInt48InvalidByteLength) := by
  unfold FromInt48LittleEndianBytes
  rw [dif_pos h]
theorem FromInt48LittleEndianBytes_reverse (b : List Byte) :
    FromInt48LittleEndianBytes b = FromInt48Bytes b.reverse := by
  by_cases h : b.length = 6
  · obtain ⟨b0, b1, b2, b3, b4, b5, rfl⟩ := length_eq_six b h
    exact FromInt48LittleEndianBytes_eq b0 b1 b2 b3 b4 b5
  · rw [FromInt48LittleEndianBytes_len b h, FromInt48Bytes_len b.reverse (by rw [List.length_reverse]; exact h)]
theorem FromUint48Bytes_len (b : List Byte) (h : b.length ≠ 6) :
    FromUint48Bytes b = (⟨0⟩, some .ErrInt48InvalidByteLength) := by
  unfold FromUint48Bytes
  rw [dif_pos h]
theorem FromUint48LittleEndianBytes_len (b : List Byte) (h : b.length ≠ 6) :
    FromUint48LittleEndianBytes b = (⟨0⟩, some .ErrInt48InvalidByteLength) := by
  unfold FromUint48LittleEndianBytes
  rw [dif_pos h]
theorem FromUint48LittleEndianBytes_reverse (b : List Byte) :
    FromUint48LittleEndianBytes b = FromUint48Bytes b.reverse := by
  by_cases h : b.length = 6
  · obtain ⟨b0, b1, b2, b3, b4, b5, rfl⟩ := length_eq_six b h
    exact FromUint48LittleEndianBytes_eq b0 b1 b2 b3 b4 b5
  · rw [FromUint48LittleEndianBytes_len b h, FromUint48Bytes_len b.reverse (by rw [List.length_reverse]; exact h)]
theorem FromInt48Bytes_spec (b : List Byte) (h : b.length = 6) :
    FromInt48Bytes b =
      (⟨if bigEndianMagnitude b < 2 ^ 47 then (bigEndianMagnitude b : Int)
        else (bigEndianMagnitude b : Int) - 2 ^ 48⟩, none) ∧ bigEndianMagnitude b < 2 ^ 48 := by
  obtain ⟨b0, b1, b2, b3, b4, b5, rfl⟩ := length_eq_six b h
  rw [FromInt48Bytes_eq, bigEndianMagnitude_six]
  have hb := b0.isLt
  have hb1 := b1.isLt
  have hb2 := b2.isLt
  have hb3 := b3.isLt
  have hb4 := b4.isLt
  have hb5 := b5.isLt
  refine ⟨?_, by omega⟩
  congr 2
  split <;> split <;> omega

theorem FromUint48Bytes_spec (b : List Byte) (h : b.length = 6) :
    FromUint48Bytes b = (⟨bigEndianMagnitude b⟩, none) ∧ bigEndianMagnitude b < 2 ^ 48 := by
  obtain ⟨b0, b1, b2, b3, b4, b5, rfl⟩ := length_eq_six b h
  rw [FromUint48Bytes_eq, bigEndianMagnitude_six]
  have hb := b0.isLt
  have hb1 := b1.isLt
  have hb2 := b2.isLt
  have hb3 := b3.isLt
  have hb4 := b4.isLt
  have hb5 := b5.isLt
  exact ⟨rfl, by omega⟩

theorem FromInt48Bytes_range (b : List Byte) (h : b.length = 6) :
    ∃ v : Int, FromInt48Bytes b = (⟨v⟩, none) ∧ -(2 ^ 47) ≤ v ∧ v ≤ 2 ^ 47 - 1 := by
  obtain ⟨h1, h2⟩ := FromInt48Bytes_spec b h
  refine ⟨_, h1, ?_, ?_⟩ <;> split <;> omega

theorem FromUint48Bytes_range (b : List Byte) (h : b.length = 6) :
    ∃ v : Nat, FromUint48Bytes b = (⟨v⟩, none) ∧ v ≤ 2 ^ 48 - 1 := by
  obtain ⟨h1, h2⟩ := FromUint48Bytes_spec b h
  exact ⟨_, h1, by omega⟩

theorem FromInt48LittleEndianBytes_range (b : List Byte) (h : b.length = 6) :
    ∃ v : Int, FromInt48LittleEndianBytes b = (⟨v⟩, none) ∧ -(2 ^ 47) ≤ v ∧ v ≤ 2 ^ 47 - 1 := by
  rw [FromInt48LittleEndianBytes_reverse]
  exact FromInt48Bytes_range b.reverse (by rw [List.length_reverse]; exact h)

theorem FromUint48LittleEndianBytes_range (b : List Byte) (h : b.length = 6) :
    ∃ v : Nat, FromUint48LittleEndianBytes b = (⟨v⟩, none) ∧ v ≤ 2 ^ 48 - 1 := by
  rw [FromUint48LittleEndianBytes_reverse]
  exact FromUint48Bytes_range b.reverse (by rw [List.length_reverse]; exact h)

theorem Int48_Int64_mk (v : Int) (_hlo : -(2 ^ 47) ≤ v) (_hhi : v ≤ 2 ^ 47 - 1) :
    (Int48.mk v).Int64 = v := by
  rfl

theorem Uint48_Uint64_mk (v : Nat) (_hhi : v ≤ 2 ^ 48 - 1) :
    (Uint48.mk v).Uint64 = v := by
  rfl

/-! ### Width 56: decoding -/
theorem bigEndianMagnitude_seven (b0 b1 b2 b3 b4 b5 b6 : Byte) :
    bigEndianMagnitude [b0, b1, b2, b3, b4, b5, b6] = b0.val * 2 ^ 48 + b1.val * 2 ^ 40 + b2.val * 2 ^ 32 + b3.val * 2 ^ 24 + b4.val * 2 ^ 16 + b5.val * 2 ^ 8 + b6.val := by
  simp only [bigEndianMagnitude, List.length_cons, List.length_nil]
  norm_num
  omega

theorem littleEndianMagnitude_seven (b0 b1 b2 b3 b4 b5 b6 : Byte) :
    littleEndianMagnitude [b0, b1, b2, b3, b4, b5, b6] = b6.val * 2 ^ 48 + b5.val * 2 ^ 40 + b4.val * 2 ^ 32 + b3.val * 2 ^ 24 + b2.val * 2 ^ 16 + b1.val * 2 ^ 8 + b0.val := by
  simp only [littleEndianMagnitude]
  omega
theorem FromInt56Bytes_len (b : List Byte) (h : b.length ≠ 7) :
    FromInt56Bytes b = (⟨0⟩, some .ErrInt56InvalidByteLength) := by
  unfold FromInt56Bytes
  rw [dif_pos h]
theorem FromInt56LittleEndianBytes_len (b : List Byte) (h : b.length ≠ 7) :
    FromInt56LittleEndianBytes b = (⟨0⟩, some .ErrInt56InvalidByteLength) := by
  unfold FromInt56LittleEndianBytes
  rw [dif_pos h]
theorem FromInt56LittleEndianBytes_reverse (b : List Byte) :
    FromInt56LittleEndianBytes b = FromInt56Bytes b.reverse := by
  by_cases h : b.length = 7
  · obtain ⟨b0, b1, b2, b3, b4, b5, b6, rfl⟩ := length_eq_seven b h
    exact FromInt56LittleEndianBytes_eq b0 b1 b2 b3 b4 b5 b6
  · rw [FromInt56LittleEndianBytes_len b h, FromInt56Bytes_len b.reverse (by rw [List.length_reverse]; exact h)]
theorem FromUint56Bytes_len (b : List Byte) (h : b.length ≠ 7) :
    FromUint56Bytes b = (⟨0⟩, some .ErrInt56InvalidByteLength) := by
  unfold FromUint56Bytes
  rw [dif_pos h]
theorem FromUint56LittleEndianBytes_len (b : List Byte) (h : b.length ≠ 7) :
    FromUint56LittleEndianBytes b = (⟨0⟩, some .ErrInt56InvalidByteLength) := by
  unfold FromUint56LittleEndianBytes
  rw [dif_pos h]
theorem FromUint56LittleEndianBytes_reverse (b : List Byte) :
    FromUint56LittleEndianBytes b = FromUint56Bytes b.reverse := by
  by_cases h : b.length = 7
  · obtain ⟨b0, b1, b2, b3, b4, b5, b6, rfl⟩ := length_eq_seven b h
    exact FromUint56LittleEndianBytes_eq b0 b1 b2 b3 b4 b5 b6
  · rw [FromUint56LittleEndianBytes_len b h, FromUint56Bytes_len b.reverse (by rw [List.length_reverse]; exact h)]
theorem FromInt56Bytes_spec (b : List Byte) (h : b.length = 7) :
    FromInt56Bytes b =
      (⟨if bigEndianMagnitude b < 2 ^ 55 then (bigEndianMagnitude b : Int)
        else (bigEndianMagnitude b : Int) - 2 ^ 56⟩, none) ∧ bigEndianMagnitude b < 2 ^ 56 := by
  obtain ⟨b0, b1, b2, b3, b4, b5, b6, rfl⟩ := length_eq_seven b h
  rw [FromInt56Bytes_eq, bigEndianMagnitude_seven]
  have hb := b0.isLt
  have hb1 := b1.isLt
  have hb2 := b2.isLt
  have hb3 := b3.isLt
  have hb4 := b4.isLt
  have hb5 := b5.isLt
  have hb6 := b6.isLt
  refine ⟨?_, by omega⟩
  congr 2
  split <;> split <;> omega

theorem FromUint56Bytes_spec (b : List Byte) (h : b.length = 7) :
    FromUint56Bytes b = (⟨bigEndianMagnitude b⟩, none) ∧ bigEndianMagnitude b < 2 ^ 56 := by
  obtain ⟨b0, b1, b2, b3, b4, b5, b6, rfl⟩ := length_eq_seven b h
  rw [FromUint56Bytes_eq, bigEndianMagnitude_seven]
  have hb := b0.isLt
  have hb1 := b1.isLt
  have hb2 := b2.isLt
  have hb3 := b3.isLt
  have hb4 := b4.isLt
  have hb5 := b5.isLt
  have hb6 := b6.isLt
  exact ⟨rfl, by omega⟩

theorem FromInt56Bytes_range (b : List Byte) (h : b.length = 7) :
    ∃ v : Int, FromInt56Bytes b = (⟨v⟩, none) ∧ -(2 ^ 55) ≤ v ∧ v ≤ 2 ^ 55 - 1 := by
  obtain ⟨h1, h2⟩ := FromInt56Bytes_spec b h
  refine ⟨_, h1, ?_, ?_⟩ <;> split <;> omega

theorem FromUint56Bytes_range (b : List Byte) (h : b.length = 7) :
    ∃ v : Nat, FromUint56Bytes b = (⟨v⟩, none) ∧ v ≤ 2 ^ 56 - 1 := by
  obtain ⟨h1, h2⟩ := FromUint56Bytes_spec b h
  exact ⟨_, h1, by omega⟩

theorem FromInt56LittleEndianBytes_range (b : List Byte) (h : b.length = 7) :
    ∃ v : Int, FromInt56LittleEndianBytes b = (⟨v⟩, none) ∧ -(2 ^ 55) ≤ v ∧ v ≤ 2 ^ 55 - 1 := by
  rw [FromInt56LittleEndianBytes_reverse]
  exact FromInt56Bytes_range b.reverse (by rw [List.length_reverse]; exact h)

theorem FromUint56LittleEndianBytes_range (b : List Byte) (h : b.length = 7) :
    ∃ v : Nat, FromUint56LittleEndianBytes b = (⟨v⟩, none) ∧ v ≤ 2 ^ 56 - 1 := by
  rw [FromUint56LittleEndianBytes_reverse]
  exact FromUint56Bytes_range b.reverse (by rw [List.length_reverse]; exact h)

theorem Int56_Int64_mk (v : Int) (_hlo : -(2 ^ 55) ≤ v) (_hhi : v ≤ 2 ^ 55 - 1) :
    (Int56.mk v).Int64 = v := by
  rfl

theorem Uint56_Uint64_mk (v : Nat) (_hhi : v ≤ 2 ^ 56 - 1) :
    (Uint56.mk v).Uint64 = v := by
  rfl

theorem wireDigits_natCast_24 (v : Nat) (hhi : v ≤ 2 ^ 24 - 1) :
    [byte (v / 256 ^ 2), byte (v / 256 ^ 1), byte (v / 256 ^ 0)] =
      [byte (((v : Int) % 2 ^ 24).toNat / 256 ^ 2), byte (((v : Int) % 2 ^ 24).toNat / 256 ^ 1), byte (((v : Int) % 2 ^ 24).toNat / 256 ^ 0)] := by
  have e : ((v : Int) % 2 ^ 24).toNat = v := by omega
  rw [e]

theorem signed_as_unsigned_neg_24 (v : Int) (hlo : -(2 ^ 23) ≤ v) (hneg : v < 0) :
    (NewInt24 v).1.ToBytes = (NewUint24 (v + 2 ^ 24).toNat).1.ToBytes := by
  have e : (v % 2 ^ 24).toNat = (v + 2 ^ 24).toNat := by omega
  rw [NewInt24_in v hlo (by omega), NewUint24_in _ (by omega)]
  dsimp only
  rw [Int24_ToBytes_eq v hlo (by omega), Uint24_ToBytes_eq, e]

theorem signed_as_unsigned_nonneg_24 (v : Int) (hpos : 0 ≤ v) (hhi : v ≤ 2 ^ 23 - 1) :
    (NewInt24 v).1.ToBytes = (NewUint24 v.toNat).1.ToBytes := by
  have e : (v % 2 ^ 24).toNat = v.toNat := by omega
  rw [NewInt24_in v (by omega) hhi, NewUint24_in _ (by omega)]
  dsimp only
  rw [Int24_ToBytes_eq v (by omega) hhi, Uint24_ToBytes_eq, e]

theorem wireDigits_natCast_40 (v : Nat) (hhi : v ≤ 2 ^ 40 - 1) :
    [byte (v / 256 ^ 4), byte (v / 256 ^ 3), byte (v / 256 ^ 2), byte (v / 256 ^ 1), byte (v / 256 ^ 0)] =
      [byte (((v : Int) % 2 ^ 40).toNat / 256 ^ 4), byte (((v : Int) % 2 ^ 40).toNat / 256 ^ 3), byte (((v : Int) % 2 ^ 40).toNat / 256 ^ 2), byte (((v : Int) % 2 ^ 40).toNat / 256 ^ 1), byte (((v : Int) % 2 ^ 40).toNat / 256 ^ 0)] := by
  have e : ((v : Int) % 2 ^ 40).toNat = v := by omega
  rw [e]

theorem signed_as_unsigned_neg_40 (v : Int) (hlo : -(2 ^ 39) ≤ v) (hneg : v < 0) :
    (NewInt40 v).1.ToBytes = (NewUint40 (v + 2 ^ 40).toNat).1.ToBytes := by
  have e : (v % 2 ^ 40).toNat = (v + 2 ^ 40).toNat := by omega
  rw [NewInt40_in v hlo (by omega), NewUint40_in _ (by omega)]
  dsimp only
  rw [Int40_ToBytes_eq v hlo (by omega), Uint40_ToBytes_eq, e]

theorem signed_as_unsigned_nonneg_40 (v : Int) (hpos : 0 ≤ v) (hhi : v ≤ 2 ^ 39 - 1) :
    (NewInt40 v).1.ToBytes = (NewUint40 v.toNat).1.ToBytes := by
  have e : (v % 2 ^ 40).toNat = v.toNat := by omega
  rw [NewInt40_in v (by omega) hhi, NewUint40_in _ (by omega)]
  dsimp only
  rw [Int40_ToBytes_eq v (by omega) hhi, Uint40_ToBytes_eq, e]

theorem wireDigits_natCast_48 (v : Nat) (hhi : v ≤ 2 ^ 48 - 1) :
    [byte (v / 256 ^ 5), byte (v / 256 ^ 4), byte (v / 256 ^ 3), byte (v / 256 ^ 2), byte (v / 256 ^ 1), byte (v / 256 ^ 0)] =
      [byte (((v : Int) % 2 ^ 48).toNat / 256 ^ 5), byte (((v : Int) % 2 ^ 48).toNat / 256 ^ 4), byte (((v : Int) % 2 ^ 48).toNat / 256 ^ 3), byte (((v : Int) % 2 ^ 48).toNat / 256 ^ 2), byte (((v : Int) % 2 ^ 48).toNat / 256 ^ 1), byte (((v : Int) % 2 ^ 48).toNat / 256 ^ 0)] := by
  have e : ((v : Int) % 2 ^ 48).toNat = v := by omega
  rw [e]

theorem signed_as_unsigned_neg_48 (v : Int) (hlo : -(2 ^ 47) ≤ v) (hneg : v < 0) :
    (NewInt48 v).1.ToBytes = (NewUint48 (v + 2 ^ 48).toNat).1.ToBytes := by
  have e : (v % 2 ^ 48).toNat = (v + 2 ^ 48).toNat := by omega
  rw [NewInt48_in v hlo (by omega), NewUint48_in _ (by omega)]
  dsimp only
  rw [Int48_ToBytes_eq v hlo (by omega), Uint48_ToBytes_eq, e]

theorem signed_as_unsigned_nonneg_48 (v : Int) (hpos : 0 ≤ v) (hhi : v ≤ 2 ^ 47 - 1) :
    (NewInt48 v).1.ToBytes = (NewUint48 v.toNat).1.ToBytes := by
  have e : (v % 2 ^ 48).toNat = v.toNat := by omega
  rw [NewInt48_in v (by omega) hhi, NewUint48_in _ (by omega)]
  dsimp only
  rw [Int48_ToBytes_eq v (by omega) hhi, Uint48_ToBytes_eq, e]

theorem wireDigits_natCast_56 (v : Nat) (hhi : v ≤ 2 ^ 56 - 1) :
    [byte (v / 256 ^ 6), byte (v / 256 ^ 5), byte (v / 256 ^ 4), byte (v / 256 ^ 3), byte (v / 256 ^ 2), byte (v / 256 ^ 1), byte (v / 256 ^ 0)] =
      [byte (((v : Int) % 2 ^ 56).toNat / 256 ^ 6), byte (((v : Int) % 2 ^ 56).toNat / 256 ^ 5), byte (((v : Int) % 2 ^ 56).toNat / 256 ^ 4), byte (((v : Int) % 2 ^ 56).toNat / 256 ^ 3), byte (((v : Int) % 2 ^ 56).toNat / 256 ^ 2), byte (((v : Int) % 2 ^ 56).toNat / 256 ^ 1), byte (((v : Int) % 2 ^ 56).toNat / 256 ^ 0)] := by
  have e : ((v : Int) % 2 ^ 56).toNat = v := by omega
  rw [e]

theorem signed_as_unsigned_neg_56 (v : Int) (hlo : -(2 ^ 55) ≤ v) (hneg : v < 0) :
    (NewInt56 v).1.ToBytes = (NewUint56 (v + 2 ^ 56).toNat).1.ToBytes := by
  have e : (v % 2 ^ 56).toNat = (v + 2 ^ 56).toNat := by omega
  rw [NewInt56_in v hlo (by omega), NewUint56_in _ (by omega)]
  dsimp only
  rw [Int56_ToBytes_eq v hlo (by omega), Uint56_ToBytes_eq, e]

theorem signed_as_unsigned_nonneg_56 (v : Int) (hpos : 0 ≤ v) (hhi : v ≤ 2 ^ 55 - 1) :
    (NewInt56 v).1.ToBytes = (NewUint56 v.toNat).1.ToBytes := by
  have e : (v % 2 ^ 56).toNat = v.toNat := by omega
  rw [NewInt56_in v (by omega) hhi, NewUint56_in _ (by omega)]
  dsimp only
  rw [Int56_ToBytes_eq v (by omega) hhi, Uint56_ToBytes_eq, e]

/-! ## Facts on the payloads of `UnmarshalJSON` and on the decimal texts of `strconv` -/

theorem unquote_eq (data : List Byte) (h : data ≠ []) :
    (if data[0]? = some 0x22 ∧ data[data.length - 1]? = some 0x22
      then sliceBytes data 1 (data.length - 1) else Run.ret data)
      = if data = [0x22] then Run.panic (.sliceBounds 1 0) else Run.ret (quoteStripped data) := by
  rcases data with _ | ⟨c, _ | ⟨d, rest⟩⟩
  · exact absurd rfl h
  · by_cases hc : c = 0x22
    · subst hc; rfl
    · have h1 : ¬ ([c] = [(0x22 : Byte)]) := by simpa using hc
      have h2 : ¬ (([c] : List Byte)[0]? = some 0x22 ∧ ([c] : List Byte)[[c].length - 1]? = some 0x22) := by
        simpa using hc
      rw [if_neg h1, if_neg h2]
      simp [quoteStripped]
  · have h1 : ¬ (c :: d :: rest = [(0x22 : Byte)]) := by simp
    rw [if_neg h1]
    by_cases hq : (c :: d :: rest)[0]? = some 0x22 ∧
        (c :: d :: rest)[(c :: d :: rest).length - 1]? = some 0x22
    · have h2 : 2 ≤ (c :: d :: rest).length ∧ (c :: d :: rest)[0]? = some 0x22 ∧
          (c :: d :: rest)[(c :: d :: rest).length - 1]? = some 0x22 := ⟨by simp, hq.1, hq.2⟩
      rw [if_pos hq, quoteStripped, if_pos h2, sliceBytes, if_pos (by simp)]
      simp
    · have h2 : ¬ (2 ≤ (c :: d :: rest).length ∧ (c :: d :: rest)[0]? = some 0x22 ∧
          (c :: d :: rest)[(c :: d :: rest).length - 1]? = some 0x22) := fun hh => hq hh.2
      rw [if_neg hq, quoteStripped, if_neg h2]

theorem quoteStripped_quoted (m : List Byte) :
    quoteStripped ((0x22 : Byte) :: (m ++ [0x22])) = m := by
  have h : 2 ≤ ((0x22 : Byte) :: (m ++ [0x22])).length ∧
      ((0x22 : Byte) :: (m ++ [0x22]))[0]? = some 0x22 ∧
      ((0x22 : Byte) :: (m ++ [0x22]))[((0x22 : Byte) :: (m ++ [0x22])).length - 1]? = some 0x22 := by
    refine ⟨by simp, by simp, ?_⟩
    simp [List.getElem?_cons, List.getElem?_append_right]
  rw [quoteStripped, if_pos h]
  simp

theorem quoteStripped_of_head (c : Byte) (rest : List Byte) (hc : c ≠ 0x22) :
    quoteStripped (c :: rest) = c :: rest := by
  rw [quoteStripped, if_neg]
  intro hh
  have h0 := hh.2.1
  simp only [List.getElem?_cons_zero, Option.some.injEq] at h0
  exact hc h0

theorem isDecimalUint64_iff (s : List Byte) :
    isDecimalUint64 s = true ↔
      (s ≠ [] ∧ (∀ b ∈ s, isDigit b = true) ∧ digitsValue s ≤ 2 ^ 64 - 1) := by
  simp [isDecimalUint64, List.isEmpty_iff, and_assoc]

theorem isDecimalInt64_iff (s : List Byte) :
    isDecimalInt64 s = true ↔
      (unsignedPart s ≠ [] ∧ (∀ b ∈ unsignedPart s, isDigit b = true) ∧
        digitsValue (unsignedPart s) ≤ (if s.head? = some 0x2D then 2 ^ 63 else 2 ^ 63 - 1)) := by
  simp [isDecimalInt64, List.isEmpty_iff, and_assoc]

namespace strconv

theorem isDigit_iff (c : Byte) : isDigit c = true ↔ (0x30 ≤ c.val ∧ c.val ≤ 0x39) := by
  simp [isDigit]

theorem ParseUintLoop_cons_nondigit (s0 : List Byte) (n : Nat) (c : Byte) (cs : List Byte)
    (hc : isDigit c = false) :
    ParseUintLoop s0 n (c :: cs) = (0, some (.NumError "ParseUint" s0 .syntaxError)) := by
  have h1 : ¬ (0x30 ≤ c.val ∧ c.val ≤ 0x39) := by
    intro h; rw [(isDigit_iff c).mpr h] at hc; exact absurd hc (by decide)
  rw [ParseUintLoop]
  simp only [if_neg h1]
  by_cases h2 : 0x61 ≤ lower c ∧ lower c ≤ 0x7A
  · have h3 : lower c - 0x61 + 10 ≥ 10 := by omega
    simp only [if_pos h2, if_pos h3]
  · simp only [if_neg h2]

theorem ParseUintLoop_cons_digit (s0 : List Byte) (n : Nat) (c : Byte) (cs : List Byte)
    (hc : isDigit c = true) (hn : n < 2 ^ 64) :
    ParseUintLoop s0 n (c :: cs) =
      if n * 10 + (c.val - 0x30) < 2 ^ 64 then ParseUintLoop s0 (n * 10 + (c.val - 0x30)) cs
      else (2 ^ 64 - 1, some (.NumError "ParseUint" s0 .rangeError)) := by
  have h1 := (isDigit_iff c).mp hc
  have h2 : ¬ (c.val - 0x30 ≥ 10) := by omega
  rw [ParseUintLoop]
  simp only [if_pos h1, if_neg h2]
  by_cases h3 : n ≥ (2 ^ 64 - 1) / 10 + 1
  · rw [if_pos h3, if_neg (by omega)]
  · have h4 : (n * 10) % 2 ^ 64 = n * 10 := Nat.mod_eq_of_lt (by omega)
    rw [if_neg h3, h4]
    by_cases h5 : n * 10 + (c.val - 0x30) < 2 ^ 64
    · have h6 : (n * 10 + (c.val - 0x30)) % 2 ^ 64 = n * 10 + (c.val - 0x30) :=
        Nat.mod_eq_of_lt h5
      rw [h6, if_neg (by omega), if_pos h5]
    · rw [if_pos (by omega), if_neg h5]

theorem foldl_digits_ge (cs : List Byte) :
    ∀ n : Nat, n ≤ cs.foldl (fun n c => n * 10 + (c.val - 0x30)) n := by
  induction cs with
  | nil => intro n; exact Nat.le_refl n
  | cons c cs ih =>
    intro n
    have h := ih (n * 10 + (c.val - 0x30))
    simp only [List.foldl_cons]
    omega

theorem ParseUintLoop_digits (s0 : List Byte) (cs : List Byte) :
    ∀ n : Nat, n < 2 ^ 64 → (∀ b ∈ cs, isDigit b = true) →
      ParseUintLoop s0 n cs =
        if cs.foldl (fun n c => n * 10 + (c.val - 0x30)) n < 2 ^ 64
        then (cs.foldl (fun n c => n * 10 + (c.val - 0x30)) n, none)
        else (2 ^ 64 - 1, some (.NumError "ParseUint" s0 .rangeError)) := by
  induction cs with
  | nil => intro n hn _; rw [ParseUintLoop, List.foldl_nil, if_pos hn]
  | cons c cs ih =>
    intro n hn hd
    have hc := hd c (List.mem_cons_self c cs)
    rw [ParseUintLoop_cons_digit s0 n c cs hc hn, List.foldl_cons]
    by_cases h : n * 10 + (c.val - 0x30) < 2 ^ 64
    · rw [if_pos h, ih _ h (fun b hb => hd b (List.mem_cons_of_mem c hb))]
    · have hge := foldl_digits_ge cs (n * 10 + (c.val - 0x30))
      rw [if_neg h, if_neg (by omega)]

theorem ParseUintLoop_nondigit (s0 : List Byte) (cs : List Byte) :
    ∀ n : Nat, n < 2 ^ 64 → (∃ b ∈ cs, isDigit b = false) →
      ∃ v err, ParseUintLoop s0 n cs = (v, some err) := by
  induction cs with
  | nil => intro n _ h; obtain ⟨b, hb, _⟩ := h; simp at hb
  | cons c cs ih =>
    intro n hn h
    by_cases hc : isDigit c = true
    · rw [ParseUintLoop_cons_digit s0 n c cs hc hn]
      by_cases h1 : n * 10 + (c.val - 0x30) < 2 ^ 64
      · rw [if_pos h1]
        apply ih _ h1
        obtain ⟨b, hb, hbd⟩ := h
        rcases List.mem_cons.mp hb with rfl | hb
        · rw [hc] at hbd; exact absurd hbd (by decide)
        · exact ⟨b, hb, hbd⟩
      · rw [if_neg h1]; exact ⟨_, _, rfl⟩
    · rw [ParseUintLoop_cons_nondigit s0 n c cs (by simpa using hc)]
      exact ⟨_, _, rfl⟩

theorem ParseUintLoop_err_shape (s0 : List Byte) (cs : List Byte) :
    ∀ (n : Nat) (v : Nat) (err : GoError), n < 2 ^ 64 → ParseUintLoop s0 n cs = (v, some err) →
      (v = 0 ∧ err = .NumError "ParseUint" s0 .syntaxError) ∨
      (v = 2 ^ 64 - 1 ∧ err = .NumError "ParseUint" s0 .rangeError) := by
  induction cs with
  | nil => intro n v err _ h; simp [ParseUintLoop] at h
  | cons c cs ih =>
    intro n v err hn h
    by_cases hc : isDigit c = true
    · rw [ParseUintLoop_cons_digit s0 n c cs hc hn] at h
      by_cases h1 : n * 10 + (c.val - 0x30) < 2 ^ 64
      · rw [if_pos h1] at h; exact ih _ v err h1 h
      · rw [if_neg h1] at h
        simp only [Prod.mk.injEq, Option.some.injEq] at h
        exact Or.inr ⟨h.1.symm, h.2.symm⟩
    · rw [ParseUintLoop_cons_nondigit s0 n c cs (by simpa using hc)] at h
      simp only [Prod.mk.injEq, Option.some.injEq] at h
      exact Or.inl ⟨h.1.symm, h.2.symm⟩

/-- Every error of `ParseUint` is a `NumError` of `ParseUint` on the input: a syntax error with
the value 0 or a range error with the value `2^64 - 1`. -/
theorem ParseUint_err_shape (s : List Byte) (v : Nat) (err : GoError)
    (h : ParseUint s = (v, some err)) :
    (v = 0 ∧ err = .NumError "ParseUint" s .syntaxError) ∨
    (v = 2 ^ 64 - 1 ∧ err = .NumError "ParseUint" s .rangeError) := by
  rw [ParseUint] at h
  by_cases hs : s = []
  · rw [if_pos hs] at h
    simp only [Prod.mk.injEq, Option.some.injEq] at h
    exact Or.inl ⟨h.1.symm, h.2.symm⟩
  · rw [if_neg hs] at h
    exact ParseUintLoop_err_shape s s 0 v err (by decide) h

theorem ParseUint_err_NumError (s : List Byte) (v : Nat) (err : GoError)
    (h : ParseUint s = (v, some err)) : ∃ e, err = .NumError "ParseUint" s e := by
  rcases ParseUint_err_shape s v err h with ⟨_, rfl⟩ | ⟨_, rfl⟩
  · exact ⟨_, rfl⟩
  · exact ⟨_, rfl⟩

/-- The value of `ParseUint` on a non-empty sequence of digits. -/
theorem ParseUint_digits (s : List Byte) (hs : s ≠ []) (hd : ∀ b ∈ s, isDigit b = true) :
    ParseUint s =
      if digitsValue s < 2 ^ 64 then (digitsValue s, none)
      else (2 ^ 64 - 1, some (.NumError "ParseUint" s .rangeError)) := by
  rw [ParseUint, if_neg hs, ParseUintLoop_digits s s 0 (by decide) hd]
  rfl

/-- The function `ParseUint` fails on the empty input and on an input holding a byte that is
not a digit. -/
theorem ParseUint_invalid (s : List Byte) (h : s = [] ∨ ∃ b ∈ s, isDigit b = false) :
    ∃ v err, ParseUint s = (v, some err) := by
  rw [ParseUint]
  by_cases hs : s = []
  · rw [if_pos hs]; exact ⟨_, _, rfl⟩
  · rw [if_neg hs]
    exact ParseUintLoop_nondigit s s 0 (by decide) (h.resolve_left hs)

theorem ParseInt_of_syntaxError (c : Byte) (rest : List Byte) (v : Nat) (f : String)
    (n : List Byte)
    (h : ParseUint (unsignedPart (c :: rest)) = (v, some (.NumError f n .syntaxError))) :
    ParseInt (c :: rest) = (0, some (.NumError "ParseInt" (c :: rest) .syntaxError)) := by
  simp only [unsignedPart] at h
  rw [ParseInt]
  simp only [h]

theorem ParseInt_of_rangeError (c : Byte) (rest : List Byte) (f : String) (n : List Byte)
    (h : ParseUint (unsignedPart (c :: rest)) = (2 ^ 64 - 1, some (.NumError f n .rangeError))) :
    ∃ v, ParseInt (c :: rest) = (v, some (.NumError "ParseInt" (c :: rest) .rangeError)) := by
  simp only [unsignedPart] at h
  rw [ParseInt]
  simp only [h]
  by_cases hneg : c.val = 0x2D
  · have a : decide (c.val = 0x2D) = true := by simpa using hneg
    simp only [a, Bool.true_eq_false, false_and, if_false]
    rw [if_pos ⟨trivial, by decide⟩]
    exact ⟨_, rfl⟩
  · have a : decide (c.val = 0x2D) = false := by simpa using hneg
    simp only [a]
    rw [if_pos ⟨trivial, by decide⟩]
    exact ⟨_, rfl⟩

theorem ParseInt_of_ok (c : Byte) (rest : List Byte) (un : Nat)
    (h : ParseUint (unsignedPart (c :: rest)) = (un, none)) :
    ParseInt (c :: rest) =
      if c.val = 0x2D then
        (if un > 2 ^ 63 then (-(2 ^ 63), some (.NumError "ParseInt" (c :: rest) .rangeError))
         else (toInt64 (-(toInt64 (un : Int))), none))
      else
        (if un ≥ 2 ^ 63 then (2 ^ 63 - 1, some (.NumError "ParseInt" (c :: rest) .rangeError))
         else (toInt64 (un : Int), none)) := by
  simp only [unsignedPart] at h
  rw [ParseInt]
  simp only [h]
  by_cases hneg : c.val = 0x2D
  · have a : decide (c.val = 0x2D) = true := by simpa using hneg
    simp only [a]
    rw [if_pos hneg]
    simp only [Bool.true_eq_false, false_and, if_false, true_and, if_true]
  · have a : decide (c.val = 0x2D) = false := by simpa using hneg
    simp only [a]
    rw [if_neg hneg]
    simp only [Bool.false_eq_true, false_and, if_false, true_and]

/-- Every error of `ParseInt` is a `NumError` of `ParseInt` on the input. -/
theorem ParseInt_err_NumError (s : List Byte) (v : Int) (err : GoError)
    (h : ParseInt s = (v, some err)) : ∃ e, err = .NumError "ParseInt" s e := by
  rcases s with _ | ⟨c, rest⟩
  · rw [ParseInt] at h
    simp only [Prod.mk.injEq, Option.some.injEq] at h
    exact ⟨_, h.2.symm⟩
  · rcases hp : ParseUint (unsignedPart (c :: rest)) with ⟨un, _ | perr⟩
    · rw [ParseInt_of_ok c rest un hp] at h
      split at h <;> split at h <;> simp only [Prod.mk.injEq, Option.some.injEq] at h
      · exact ⟨_, h.2.symm⟩
      · exact absurd h.2 (by simp)
      · exact ⟨_, h.2.symm⟩
      · exact absurd h.2 (by simp)
    · rcases ParseUint_err_shape _ un perr hp with ⟨_, rfl⟩ | ⟨rfl, rfl⟩
      · rw [ParseInt_of_syntaxError c rest un _ _ hp] at h
        simp only [Prod.mk.injEq, Option.some.injEq] at h
        exact ⟨_, h.2.symm⟩
      · obtain ⟨w, hw⟩ := ParseInt_of_rangeError c rest _ _ hp
        rw [hw] at h
        simp only [Prod.mk.injEq, Option.some.injEq] at h
        exact ⟨_, h.2.symm⟩

theorem ParseUint_decimal (s : List Byte) (h : isDecimalUint64 s = true) :
    ParseUint s = (digitsValue s, none) := by
  obtain ⟨h1, h2, h3⟩ := (isDecimalUint64_iff s).mp h
  rw [ParseUint_digits s h1 h2, if_pos (by omega)]

theorem ParseUint_not_decimal (s : List Byte) (h0 : isDecimalUint64 s = false) :
    ∃ v e, ParseUint s = (v, some (.NumError "ParseUint" s e)) := by
  have h : ¬ (s ≠ [] ∧ (∀ b ∈ s, isDigit b = true) ∧ digitsValue s ≤ 2 ^ 64 - 1) := by
    rw [← isDecimalUint64_iff, h0]; decide
  by_cases h1 : s = [] ∨ ∃ b ∈ s, isDigit b = false
  · obtain ⟨v, err, hp⟩ := ParseUint_invalid s h1
    rcases ParseUint_err_shape s v err hp with ⟨_, rfl⟩ | ⟨_, rfl⟩
    · exact ⟨_, _, hp⟩
    · exact ⟨_, _, hp⟩
  · have hs : s ≠ [] := fun hh => h1 (Or.inl hh)
    have hd : ∀ b ∈ s, isDigit b = true := by
      intro b hb
      by_contra hbd
      exact h1 (Or.inr ⟨b, hb, by simpa using hbd⟩)
    have hv : ¬ digitsValue s ≤ 2 ^ 64 - 1 := fun hh => h ⟨hs, hd, hh⟩
    rw [ParseUint_digits s hs hd, if_neg (by omega)]
    exact ⟨_, _, rfl⟩

theorem head_eq_minus (c : Byte) (rest : List Byte) :
    ((c :: rest).head? = some (0x2D : Byte)) ↔ c.val = 0x2D := by
  simp only [List.head?_cons, Option.some.injEq]
  constructor
  · intro h; rw [h]; rfl
  · intro h; exact Fin.ext h

theorem ParseInt_decimal (s : List Byte) (h : isDecimalInt64 s = true) :
    ParseInt s = (if s.head? = some 0x2D then -(digitsValue (unsignedPart s) : Int)
                  else (digitsValue (unsignedPart s) : Int), none) := by
  obtain ⟨h1, h2, h3⟩ := (isDecimalInt64_iff s).mp h
  rcases s with _ | ⟨c, rest⟩
  · exact absurd rfl h1
  · have hp := ParseUint_digits _ h1 h2
    by_cases hneg : c.val = 0x2D
    · have hh := (head_eq_minus c rest).mpr hneg
      rw [if_pos hh] at h3 ⊢
      rw [if_pos (by omega)] at hp
      have e : toInt64 (-(toInt64 ((digitsValue (unsignedPart (c :: rest)) : Nat) : Int))) =
          -((digitsValue (unsignedPart (c :: rest)) : Nat) : Int) := by
        unfold toInt64; omega
      rw [ParseInt_of_ok c rest _ hp, if_pos hneg, if_neg (by omega), e]
    · have hh : ¬ ((c :: rest).head? = some (0x2D : Byte)) :=
        fun hh => hneg ((head_eq_minus c rest).mp hh)
      rw [if_neg hh] at h3 ⊢
      rw [if_pos (by omega)] at hp
      have e : toInt64 ((digitsValue (unsignedPart (c :: rest)) : Nat) : Int) =
          ((digitsValue (unsignedPart (c :: rest)) : Nat) : Int) := by
        unfold toInt64; omega
      rw [ParseInt_of_ok c rest _ hp, if_neg hneg, if_neg (by omega), e]

theorem ParseInt_not_decimal (s : List Byte) (h0 : isDecimalInt64 s = false) :
    ∃ v e, ParseInt s = (v, some (.NumError "ParseInt" s e)) := by
  have h : ¬ (unsignedPart s ≠ [] ∧ (∀ b ∈ unsignedPart s, isDigit b = true) ∧
      digitsValue (unsignedPart s) ≤ (if s.head? = some 0x2D then 2 ^ 63 else 2 ^ 63 - 1)) := by
    rw [← isDecimalInt64_iff, h0]; decide
  rcases s with _ | ⟨c, rest⟩
  · exact ⟨_, _, rfl⟩
  · by_cases h1 : unsignedPart (c :: rest) = [] ∨ ∃ b ∈ unsignedPart (c :: rest), isDigit b = false
    · obtain ⟨v, err, hp⟩ := ParseUint_invalid _ h1
      rcases ParseUint_err_shape _ v err hp with ⟨_, rfl⟩ | ⟨rfl, rfl⟩
      · exact ⟨_, _, ParseInt_of_syntaxError c rest v _ _ hp⟩
      · obtain ⟨w, hw⟩ := ParseInt_of_rangeError c rest _ _ hp
        exact ⟨_, _, hw⟩
    · have hs : unsignedPart (c :: rest) ≠ [] := fun hh => h1 (Or.inl hh)
      have hd : ∀ b ∈ unsignedPart (c :: rest), isDigit b = true := by
        intro b hb
        by_contra hbd
        exact h1 (Or.inr ⟨b, hb, by simpa using hbd⟩)
      have hv : ¬ digitsValue (unsignedPart (c :: rest)) ≤
          (if (c :: rest).head? = some 0x2D then 2 ^ 63 else 2 ^ 63 - 1) :=
        fun hh => h ⟨hs, hd, hh⟩
      have hp := ParseUint_digits _ hs hd
      by_cases hbig : digitsValue (unsignedPart (c :: rest)) < 2 ^ 64
      · rw [if_pos hbig] at hp
        rw [ParseInt_of_ok c rest _ hp]
        by_cases hneg : c.val = 0x2D
        · rw [if_pos ((head_eq_minus c rest).mpr hneg)] at hv
          rw [if_pos hneg, if_pos (by omega)]
          exact ⟨_, _, rfl⟩
        · rw [if_neg (fun hh => hneg ((head_eq_minus c rest).mp hh))] at hv
          rw [if_neg hneg, if_pos (by omega)]
          exact ⟨_, _, rfl⟩
      · rw [if_neg hbig] at hp
        obtain ⟨w, hw⟩ := ParseInt_of_rangeError c rest _ _ hp
        exact ⟨_, _, hw⟩

theorem isDigit_byte (d : Nat) (hd : d < 10) : isDigit (byte (0x30 + d)) = true := by
  rw [isDigit_iff, byte_val]; omega

theorem digitsValue_append_singleton (xs : List Byte) (c : Byte) :
    digitsValue (xs ++ [c]) = digitsValue xs * 10 + (c.val - 0x30) := by
  simp [digitsValue, List.foldl_append]

theorem formatDigits_all_digits (fuel : Nat) :
    ∀ u : Nat, ∀ c ∈ formatDigits fuel u, isDigit c = true := by
  induction fuel with
  | zero => intro u c hc; simp [formatDigits] at hc
  | succ fuel ih =>
    intro u c hc
    rw [formatDigits] at hc
    by_cases hu : u < 10
    · rw [if_pos hu] at hc
      rw [List.mem_singleton.mp hc]
      exact isDigit_byte u hu
    · rw [if_neg hu] at hc
      rcases List.mem_append.mp hc with h | h
      · exact ih _ c h
      · rw [List.mem_singleton.mp h]
        exact isDigit_byte _ (by omega)

theorem formatDigits_value (fuel : Nat) :
    ∀ u : Nat, u < 10 ^ fuel → digitsValue (formatDigits fuel u) = u := by
  induction fuel with
  | zero => intro u h; simp at h; subst h; rfl
  | succ fuel ih =>
    intro u h
    rw [formatDigits]
    by_cases hu : u < 10
    · rw [if_pos hu]
      have hb : (byte (0x30 + u)).val = 0x30 + u := by rw [byte_val]; omega
      simp only [digitsValue, List.foldl_cons, List.foldl_nil, hb]
      omega
    · have hb : (byte (0x30 + u % 10)).val = 0x30 + u % 10 := by rw [byte_val]; omega
      rw [if_neg hu, digitsValue_append_singleton,
        ih (u / 10) (by rw [Nat.pow_succ] at h; omega), hb]
      omega

theorem formatDigits_head_ne_zero (fuel : Nat) :
    ∀ u : Nat, 0 < u → u < 10 ^ fuel → (formatDigits fuel u).head? ≠ some (0x30 : Byte) := by
  induction fuel with
  | zero => intro u h0 h; simp at h; omega
  | succ fuel ih =>
    intro u h0 h
    rw [formatDigits]
    by_cases hu : u < 10
    · rw [if_pos hu]
      intro hh
      simp only [List.head?_cons, Option.some.injEq] at hh
      have hv := congrArg Fin.val hh
      rw [byte_val] at hv
      have : (0x30 : Byte).val = 0x30 := rfl
      omega
    · rw [if_neg hu]
      have hlt : u / 10 < 10 ^ fuel := by rw [Nat.pow_succ] at h; omega
      rcases fuel with _ | fuel
      · simp at hlt; omega
      · obtain ⟨c, rest, hc, _, _⟩ := formatDigits_head fuel (u / 10)
        have := ih (u / 10) (by omega) hlt
        rw [hc] at this ⊢
        exact this

/-- The text written by `AppendUint` for a `uint64`: one digit or more, digits only, no leading
zero unless the value is zero, and the digits write the value. -/
theorem AppendUint_spec (u : Nat) (h : u < 2 ^ 64) :
    AppendUint u ≠ [] ∧ (∀ c ∈ AppendUint u, isDigit c = true) ∧
      (u ≠ 0 → (AppendUint u).head? ≠ some (0x30 : Byte)) ∧ digitsValue (AppendUint u) = u := by
  have e : AppendUint u = formatDigits 20 u := by simp [AppendUint, formatBits]
  obtain ⟨c, rest, hc, _, _⟩ := formatDigits_head 19 u
  rw [e]
  refine ⟨by rw [hc]; simp, formatDigits_all_digits 20 u, ?_, formatDigits_value 20 u (by omega)⟩
  intro hu
  exact formatDigits_head_ne_zero 20 u (by omega) (by omega)

theorem AppendUint_zero : AppendUint 0 = [(0x30 : Byte)] := by decide

/-- No byte written by `AppendInt` is a double quote. -/
theorem AppendInt_no_quote (i : Int) : (0x22 : Byte) ∉ AppendInt i := by
  intro h
  have hd : ∀ c ∈ formatDigits 20
      (if decide (i < 0) = true then (2 ^ 64 - toUint64 i) % 2 ^ 64 else toUint64 i),
      isDigit c = true := formatDigits_all_digits 20 _
  simp only [AppendInt, formatBits] at h
  rcases List.mem_append.mp h with h1 | h1
  · by_cases hn : decide (i < 0) = true
    · rw [if_pos hn] at h1
      exact absurd (List.mem_singleton.mp h1) (by decide)
    · rw [if_neg hn] at h1
      simp at h1
  · have := hd _ h1
    exact absurd this (by decide)

/-- No byte written by `AppendUint` is a double quote. -/
theorem AppendUint_no_quote (u : Nat) : (0x22 : Byte) ∉ AppendUint u := by
  intro h
  have e : AppendUint u = formatDigits 20 u := by simp [AppendUint, formatBits]
  rw [e] at h
  exact absurd (formatDigits_all_digits 20 u _ h) (by decide)

/-- The text written by `AppendInt` for an `int64`: a minus sign exactly for a negative value,
then the digits of the absolute value as `AppendUint` writes them. -/
theorem AppendInt_eq (i : Int) (hlo : -(2 ^ 63) ≤ i) (hhi : i < 2 ^ 63) :
    AppendInt i = (if i < 0 then [(0x2D : Byte)] else []) ++ AppendUint i.natAbs := by
  by_cases h0 : i < 0
  · have e : (-i).toNat = i.natAbs := by omega
    rw [AppendInt_neg i h0 hlo, if_pos h0, e]
    rfl
  · have e : i.toNat = i.natAbs := by omega
    rw [AppendInt_nonneg i (by omega) hhi, if_neg h0, e]
    rfl

/-- The text written by `AppendUint` for a `uint64` is its canonical decimal rendering, and
`ParseUint` reads it back. -/
theorem AppendUint_canonical (u : Nat) (h : u < 2 ^ 64) :
    (u = 0 → AppendUint u = [(0x30 : Byte)]) ∧ AppendUint u ≠ [] ∧
      (∀ c ∈ AppendUint u, isDigit c = true) ∧
      (u ≠ 0 → (AppendUint u).head? ≠ some (0x30 : Byte)) ∧ digitsValue (AppendUint u) = u ∧
      ParseUint (AppendUint u) = (u, none) := by
  obtain ⟨h1, h2, h3, h4⟩ := AppendUint_spec u h
  exact ⟨fun h0 => by rw [h0]; exact AppendUint_zero, h1, h2, h3, h4, ParseUint_AppendUint u h⟩

/-- The text written by `AppendInt` for an `int64` is its canonical decimal rendering, and
`ParseInt` reads it back. -/
theorem AppendInt_canonical (v : Int) (hlo : -(2 ^ 63) ≤ v) (hhi : v < 2 ^ 63) :
    (v = 0 → AppendInt v = [(0x30 : Byte)]) ∧
      (∃ ds, AppendInt v = (if v < 0 then [(0x2D : Byte)] else []) ++ ds ∧ ds ≠ [] ∧
        (∀ c ∈ ds, isDigit c = true) ∧ (v ≠ 0 → ds.head? ≠ some (0x30 : Byte)) ∧
        digitsValue ds = v.natAbs) ∧
      ParseInt (AppendInt v) = (v, none) := by
  obtain ⟨h1, h2, h3, h4⟩ := AppendUint_spec v.natAbs (by omega)
  refine ⟨fun h0 => by rw [h0]; decide, ⟨AppendUint v.natAbs, AppendInt_eq v hlo hhi, h1, h2, ?_, h4⟩,
    ParseInt_AppendInt v hlo hhi⟩
  intro hv
  exact h3 (by omega)

theorem ParseInt_single_quote : (ParseInt (quoteStripped [0x22])).2 ≠ none := by decide

theorem ParseUint_single_quote : (ParseUint (quoteStripped [0x22])).2 ≠ none := by decide

end strconv

/-! ### Width 24: text and binary marshalling -/
theorem Int24_UnmarshalJSON_nil (r : Int24) :
    Int24.UnmarshalJSON r [] = .ret (r, some .ErrInt24EmptyData) := rfl

theorem Int24_UnmarshalJSON_quote (r : Int24) :
    Int24.UnmarshalJSON r [0x22] = .panic (.sliceBounds 1 0) := rfl

theorem Int24_UnmarshalJSON_parse_err (r : Int24) (data : List Byte) (v : Int) (err : GoError)
    (h1 : data ≠ []) (h2 : data ≠ [0x22])
    (hp : strconv.ParseInt (quoteStripped data) = (v, some err)) :
    Int24.UnmarshalJSON r data = .ret (r, some err) := by
  unfold Int24.UnmarshalJSON
  rw [if_neg (by simpa using h1), unquote_eq data h1, if_neg h2]
  simp only [hp]

theorem Int24_UnmarshalJSON_parse_in (r : Int24) (data : List Byte) (v : Int)
    (h1 : data ≠ []) (h2 : data ≠ [0x22])
    (hp : strconv.ParseInt (quoteStripped data) = (v, none)) (hlo : -(2 ^ 23) ≤ v) (hhi : v ≤ 2 ^ 23 - 1) :
    Int24.UnmarshalJSON r data = .ret (⟨v⟩, none) := by
  unfold Int24.UnmarshalJSON
  rw [if_neg (by simpa using h1), unquote_eq data h1, if_neg h2]
  simp only [hp, NewInt24_in v hlo hhi]

theorem Int24_UnmarshalJSON_parse_out (r : Int24) (data : List Byte) (v : Int)
    (h1 : data ≠ []) (h2 : data ≠ [0x22])
    (hp : strconv.ParseInt (quoteStripped data) = (v, none)) (h : ¬ (-(2 ^ 23) ≤ v ∧ v ≤ 2 ^ 23 - 1)) :
    Int24.UnmarshalJSON r data = .ret (r, some .ErrInt24OutOfRange) := by
  unfold Int24.UnmarshalJSON
  rw [if_neg (by simpa using h1), unquote_eq data h1, if_neg h2]
  simp only [hp, NewInt24_out v h]

theorem Int24_UnmarshalJSON_returns (r : Int24) (data : List Byte) (h2 : data ≠ [0x22]) :
    ∃ res, Int24.UnmarshalJSON r data = .ret res := by
  by_cases h1 : data = []
  · subst h1; exact ⟨_, rfl⟩
  · rcases hp : strconv.ParseInt (quoteStripped data) with ⟨v, _ | err⟩
    · by_cases h : -(2 ^ 23) ≤ v ∧ v ≤ 2 ^ 23 - 1
      · exact ⟨_, Int24_UnmarshalJSON_parse_in r data v h1 h2 hp h.1 h.2⟩
      · exact ⟨_, Int24_UnmarshalJSON_parse_out r data v h1 h2 hp h⟩
    · exact ⟨_, Int24_UnmarshalJSON_parse_err r data v err h1 h2 hp⟩

theorem Int24_UnmarshalJSON_empty_iff (r : Int24) (data : List Byte) :
    (∃ r1, Int24.UnmarshalJSON r data = .ret (r1, some .ErrInt24EmptyData)) ↔ data.length = 0 := by
  constructor
  · rintro ⟨r1, hr⟩
    by_contra hne
    have h1 : data ≠ [] := by simpa using hne
    by_cases h2 : data = [0x22]
    · subst h2
      rw [Int24_UnmarshalJSON_quote] at hr
      exact absurd hr (by simp)
    · rcases hp : strconv.ParseInt (quoteStripped data) with ⟨v, _ | err⟩
      · by_cases h : -(2 ^ 23) ≤ v ∧ v ≤ 2 ^ 23 - 1
        · rw [Int24_UnmarshalJSON_parse_in r data v h1 h2 hp h.1 h.2] at hr
          simp at hr
        · rw [Int24_UnmarshalJSON_parse_out r data v h1 h2 hp h] at hr
          simp at hr
      · rw [Int24_UnmarshalJSON_parse_err r data v err h1 h2 hp] at hr
        obtain ⟨e, rfl⟩ := strconv.ParseInt_err_NumError _ v err hp
        simp at hr
  · intro h
    have h1 : data = [] := by simpa using h
    subst h1
    exact ⟨r, rfl⟩

theorem Int24_String_eq (v : Int) (hlo : -(2 ^ 23) ≤ v) (hhi : v ≤ 2 ^ 23 - 1) :
    (Int24.mk v).String = strconv.AppendInt v := by
  unfold Int24.String
  have e : toInt64 v = v := by unfold toInt64; omega
  rw [e]

theorem jsonQuoted_Int24 (r : Int24) (v : Int) (hlo : -(2 ^ 23) ≤ v) (hhi : v ≤ 2 ^ 23 - 1) :
    Int24.UnmarshalJSON r ((0x22 : Byte) :: ((Int24.mk v).MarshalJSON.1 ++ [0x22])) =
      .ret (⟨v⟩, none) := by
  have hs : (Int24.mk v).MarshalJSON.1 = strconv.AppendInt v := Int24_String_eq v hlo hhi
  have hp := strconv.ParseInt_AppendInt v (by omega) (by omega)
  rw [hs]
  apply Int24_UnmarshalJSON_parse_in r _ v (by simp) (by simp) _ hlo hhi
  rw [quoteStripped_quoted]
  exact hp

theorem binaryRoundTrip_Int24 (r : Int24) (v : Int) (hlo : -(2 ^ 23) ≤ v) (hhi : v ≤ 2 ^ 23 - 1) :
    Int24.UnmarshalBinary r (Int24.mk v).MarshalBinary.1 = (⟨v⟩, none) := by
  unfold Int24.UnmarshalBinary Int24.MarshalBinary
  simp only [roundTrip_Int24 v hlo hhi]
theorem Uint24_UnmarshalJSON_nil (r : Uint24) :
    Uint24.UnmarshalJSON r [] = .ret (r, some .ErrInt24EmptyData) := rfl

theorem Uint24_UnmarshalJSON_quote (r : Uint24) :
    Uint24.UnmarshalJSON r [0x22] = .panic (.sliceBounds 1 0) := rfl

theorem Uint24_UnmarshalJSON_parse_err (r : Uint24) (data : List Byte) (v : Nat) (err : GoError)
    (h1 : data ≠ []) (h2 : data ≠ [0x22])
    (hp : strconv.ParseUint (quoteStripped data) = (v, some err)) :
    Uint24.UnmarshalJSON r data = .ret (r, some err) := by
  unfold Uint24.UnmarshalJSON
  rw [if_neg (by simpa using h1), unquote_eq data h1, if_neg h2]
  simp only [hp]

theorem Uint24_UnmarshalJSON_parse_in (r : Uint24) (data : List Byte) (v : Nat)
    (h1 : data ≠ []) (h2 : data ≠ [0x22])
    (hp : strconv.ParseUint (quoteStripped data) = (v, none)) (hhi : v ≤ 2 ^ 24 - 1) :
    Uint24.UnmarshalJSON r data = .ret (⟨v⟩, none) := by
  unfold Uint24.UnmarshalJSON
  rw [if_neg (by simpa using h1), unquote_eq data h1, if_neg h2]
  simp only [hp, NewUint24_in v hhi]

theorem Uint24_UnmarshalJSON_parse_out (r : Uint24) (data : List Byte) (v : Nat)
    (h1 : data ≠ []) (h2 : data ≠ [0x22])
    (hp : strconv.ParseUint (quoteStripped data) = (v, none)) (h : ¬ v ≤ 2 ^ 24 - 1) :
    Uint24.UnmarshalJSON r data = .ret (r, some .ErrUint24OutOfRange) := by
  unfold Uint24.UnmarshalJSON
  rw [if_neg (by simpa using h1), unquote_eq data h1, if_neg h2]
  simp only [hp, NewUint24_out v h]

theorem Uint24_UnmarshalJSON_returns (r : Uint24) (data : List Byte) (h2 : data ≠ [0x22]) :
    ∃ res, Uint24.UnmarshalJSON r data = .ret res := by
  by_cases h1 : data = []
  · subst h1; exact ⟨_, rfl⟩
  · rcases hp : strconv.ParseUint (quoteStripped data) with ⟨v, _ | err⟩
    · by_cases h : v ≤ 2 ^ 24 - 1
      · exact ⟨_, Uint24_UnmarshalJSON_parse_in r data v h1 h2 hp h⟩
      · exact ⟨_, Uint24_UnmarshalJSON_parse_out r data v h1 h2 hp h⟩
    · exact ⟨_, Uint24_UnmarshalJSON_parse_err r data v err h1 h2 hp⟩

theorem Uint24_UnmarshalJSON_empty_iff (r : Uint24) (data : List Byte) :
    (∃ r1, Uint24.UnmarshalJSON r data = .ret (r1, some .ErrInt24EmptyData)) ↔ data.length = 0 := by
  constructor
  · rintro ⟨r1, hr⟩
    by_contra hne
    have h1 : data ≠ [] := by simpa using hne
    by_cases h2 : data = [0x22]
    · subst h2
      rw [Uint24_UnmarshalJSON_quote] at hr
      exact absurd hr (by simp)
    · rcases hp : strconv.ParseUint (quoteStripped data) with ⟨v, _ | err⟩
      · by_cases h : v ≤ 2 ^ 24 - 1
        · rw [Uint24_UnmarshalJSON_parse_in r data v h1 h2 hp h] at hr
          simp at hr
        · rw [Uint24_UnmarshalJSON_parse_out r data v h1 h2 hp h] at hr
          simp at hr
      · rw [Uint24_UnmarshalJSON_parse_err r data v err h1 h2 hp] at hr
        obtain ⟨e, rfl⟩ := strconv.ParseUint_err_NumError _ v err hp
        simp at hr
  · intro h
    have h1 : data = [] := by simpa using h
    subst h1
    exact ⟨r, rfl⟩

theorem Uint24_String_eq (v : Nat) (hhi : v ≤ 2 ^ 24 - 1) :
    (Uint24.mk v).String = strconv.AppendUint v := by
  unfold Uint24.String
  have e : toUint64 (v : Int) = v := toUint64_natCast v (by omega)
  rw [e]

theorem jsonQuoted_Uint24 (r : Uint24) (v : Nat) (hhi : v ≤ 2 ^ 24 - 1) :
    Uint24.UnmarshalJSON r ((0x22 : Byte) :: ((Uint24.mk v).MarshalJSON.1 ++ [0x22])) =
      .ret (⟨v⟩, none) := by
  have hs : (Uint24.mk v).MarshalJSON.1 = strconv.AppendUint v := Uint24_String_eq v hhi
  have hp := strconv.ParseUint_AppendUint v (by omega)
  rw [hs]
  apply Uint24_UnmarshalJSON_parse_in r _ v (by simp) (by simp) _ hhi
  rw [quoteStripped_quoted]
  exact hp

theorem binaryRoundTrip_Uint24 (r : Uint24) (v : Nat) (hhi : v ≤ 2 ^ 24 - 1) :
    Uint24.UnmarshalBinary r (Uint24.mk v).MarshalBinary.1 = (⟨v⟩, none) := by
  unfold Uint24.UnmarshalBinary Uint24.MarshalBinary
  simp only [roundTrip_Uint24 v hhi]
theorem FromUint24LittleEndianBytes_spec (b : List Byte) (h : b.length = 3) :
    FromUint24LittleEndianBytes b = (⟨littleEndianMagnitude b⟩, none) ∧
      littleEndianMagnitude b < 2 ^ 24 := by
  obtain ⟨b0, b1, b2, rfl⟩ := length_eq_three b h
  rw [FromUint24LittleEndianBytes_eq, FromUint24Bytes_eq, littleEndianMagnitude_three]
  have hb := b0.isLt
  have hb1 := b1.isLt
  have hb2 := b2.isLt
  exact ⟨rfl, by omega⟩

/-! ### Width 40: text and binary marshalling -/
theorem Int40_UnmarshalJSON_nil (r : Int40) :
    Int40.UnmarshalJSON r [] = .ret (r, some .ErrInt40EmptyData) := rfl

theorem Int40_UnmarshalJSON_quote (r : Int40) :
    Int40.UnmarshalJSON r [0x22] = .panic (.sliceBounds 1 0) := rfl

theorem Int40_UnmarshalJSON_parse_err (r : Int40) (data : List Byte) (v : Int) (err : GoError)
    (h1 : data ≠ []) (h2 : data ≠ [0x22])
    (hp : strconv.ParseInt (quoteStripped data) = (v, some err)) :
    Int40.UnmarshalJSON r data = .ret (r, some err) := by
  unfold Int40.UnmarshalJSON
  rw [if_neg (by simpa using h1), unquote_eq data h1, if_neg h2]
  simp only [hp]

theorem Int40_UnmarshalJSON_parse_in (r : Int40) (data : List Byte) (v : Int)
    (h1 : data ≠ []) (h2 : data ≠ [0x22])
    (hp : strconv.ParseInt (quoteStripped data) = (v, none)) (hlo : -(2 ^ 39) ≤ v) (hhi : v ≤ 2 ^ 39 - 1) :
    Int40.UnmarshalJSON r data = .ret (⟨v⟩, none) := by
  unfold Int40.UnmarshalJSON
  rw [if_neg (by simpa using h1), unquote_eq data h1, if_neg h2]
  simp only [hp, NewInt40_in v hlo hhi]

theorem Int40_UnmarshalJSON_parse_out (r : Int40) (data : List Byte) (v : Int)
    (h1 : data ≠ []) (h2 : data ≠ [0x22])
    (hp : strconv.ParseInt (quoteStripped data) = (v, none)) (h : ¬ (-(2 ^ 39) ≤ v ∧ v ≤ 2 ^ 39 - 1)) :
    Int40.UnmarshalJSON r data = .ret (r, some .ErrInt40OutOfRange) := by
  unfold Int40.UnmarshalJSON
  rw [if_neg (by simpa using h1), unquote_eq data h1, if_neg h2]
  simp only [hp, NewInt40_out v h]

theorem Int40_UnmarshalJSON_returns (r : Int40) (data : List Byte) (h2 : data ≠ [0x22]) :
    ∃ res, Int40.UnmarshalJSON r data = .ret res := by
  by_cases h1 : data = []
  · subst h1; exact ⟨_, rfl⟩
  · rcases hp : strconv.ParseInt (quoteStripped data) with ⟨v, _ | err⟩
    · by_cases h : -(2 ^ 39) ≤ v ∧ v ≤ 2 ^ 39 - 1
      · exact ⟨_, Int40_UnmarshalJSON_parse_in r data v h1 h2 hp h.1 h.2⟩
      · exact ⟨_, Int40_UnmarshalJSON_parse_out r data v h1 h2 hp h⟩
    · exact ⟨_, Int40_UnmarshalJSON_parse_err r data v err h1 h2 hp⟩

theorem Int40_UnmarshalJSON_empty_iff (r : Int40) (data : List Byte) :
    (∃ r1, Int40.UnmarshalJSON r data = .ret (r1, some .ErrInt40EmptyData)) ↔ data.length = 0 := by
  constructor
  · rintro ⟨r1, hr⟩
    by_contra hne
    have h1 : data ≠ [] := by simpa using hne
    by_cases h2 : data = [0x22]
    · subst h2
      rw [Int40_UnmarshalJSON_quote] at hr
      exact absurd hr (by simp)
    · rcases hp : strconv.ParseInt (quoteStripped data) with ⟨v, _ | err⟩
      · by_cases h : -(2 ^ 39) ≤ v ∧ v ≤ 2 ^ 39 - 1
        · rw [Int40_UnmarshalJSON_parse_in r data v h1 h2 hp h.1 h.2] at hr
          simp at hr
        · rw [Int40_UnmarshalJSON_parse_out r data v h1 h2 hp h] at hr
          simp at hr
      · rw [Int40_UnmarshalJSON_parse_err r data v err h1 h2 hp] at hr
        obtain ⟨e, rfl⟩ := strconv.ParseInt_err_NumError _ v err hp
        simp at hr
  · intro h
    have h1 : data = [] := by simpa using h
    subst h1
    exact ⟨r, rfl⟩

theorem Int40_String_eq (v : Int) (_hlo : -(2 ^ 39) ≤ v) (_hhi : v ≤ 2 ^ 39 - 1) :
    (Int40.mk v).String = strconv.AppendInt v := by
  unfold Int40.String
  rfl

theorem jsonQuoted_Int40 (r : Int40) (v : Int) (hlo : -(2 ^ 39) ≤ v) (hhi : v ≤ 2 ^ 39 - 1) :
    Int40.UnmarshalJSON r ((0x22 : Byte) :: ((Int40.mk v).MarshalJSON.1 ++ [0x22])) =
      .ret (⟨v⟩, none) := by
  have hs : (Int40.mk v).MarshalJSON.1 = strconv.AppendInt v := Int40_String_eq v hlo hhi
  have hp := strconv.ParseInt_AppendInt v (by omega) (by omega)
  rw [hs]
  apply Int40_UnmarshalJSON_parse_in r _ v (by simp) (by simp) _ hlo hhi
  rw [quoteStripped_quoted]
  exact hp

theorem binaryRoundTrip_Int40 (r : Int40) (v : Int) (hlo : -(2 ^ 39) ≤ v) (hhi : v ≤ 2 ^ 39 - 1) :
    Int40.UnmarshalBinary r (Int40.mk v).MarshalBinary.1 = (⟨v⟩, none) := by
  unfold Int40.UnmarshalBinary Int40.MarshalBinary
  simp only [roundTrip_Int40 v hlo hhi]
theorem Uint40_UnmarshalJSON_nil (r : Uint40) :
    Uint40.UnmarshalJSON r [] = .ret (r, some .ErrInt40EmptyData) := rfl

theorem Uint40_UnmarshalJSON_quote (r : Uint40) :
    Uint40.UnmarshalJSON r [0x22] = .panic (.sliceBounds 1 0) := rfl

theorem Uint40_UnmarshalJSON_parse_err (r : Uint40) (data : List Byte) (v : Nat) (err : GoError)
    (h1 : data ≠ []) (h2 : data ≠ [0x22])
    (hp : strconv.ParseUint (quoteStripped data) = (v, some err)) :
    Uint40.UnmarshalJSON r data = .ret (r, some err) := by
  unfold Uint40.UnmarshalJSON
  rw [if_neg (by simpa using h1), unquote_eq data h1, if_neg h2]
  simp only [hp]

theorem Uint40_UnmarshalJSON_parse_in (r : Uint40) (data : List Byte) (v : Nat)
    (h1 : data ≠ []) (h2 : data ≠ [0x22])
    (hp : strconv.ParseUint (quoteStripped data) = (v, none)) (hhi : v ≤ 2 ^ 40 - 1) :
    Uint40.UnmarshalJSON r data = .ret (⟨v⟩, none) := by
  unfold Uint40.UnmarshalJSON
  rw [if_neg (by simpa using h1), unquote_eq data h1, if_neg h2]
  simp only [hp, NewUint40_in v hhi]

theorem Uint40_UnmarshalJSON_parse_out (r : Uint40) (data : List Byte) (v : Nat)
    (h1 : data ≠ []) (h2 : data ≠ [0x22])
    (hp : strconv.ParseUint (quoteStripped data) = (v, none)) (h : ¬ v ≤ 2 ^ 40 - 1) :
    Uint40.UnmarshalJSON r data = .ret (r, some .ErrUint40OutOfRange) := by
  unfold Uint40.UnmarshalJSON
  rw [if_neg (by simpa using h1), unquote_eq data h1, if_neg h2]
  simp only [hp, NewUint40_out v h]

theorem Uint40_UnmarshalJSON_returns (r : Uint40) (data : List Byte) (h2 : data ≠ [0x22]) :
    ∃ res, Uint40.UnmarshalJSON r data = .ret res := by
  by_cases h1 : data = []
  · subst h1; exact ⟨_, rfl⟩
  · rcases hp : strconv.ParseUint (quoteStripped data) with ⟨v, _ | err⟩
    · by_cases h : v ≤ 2 ^ 40 - 1
      · exact ⟨_, Uint40_UnmarshalJSON_parse_in r data v h1 h2 hp h⟩
      · exact ⟨_, Uint40_UnmarshalJSON_parse_out r data v h1 h2 hp h⟩
    · exact ⟨_, Uint40_UnmarshalJSON_parse_err r data v err h1 h2 hp⟩

theorem Uint40_UnmarshalJSON_empty_iff (r : Uint40) (data : List Byte) :
    (∃ r1, Uint40.UnmarshalJSON r data = .ret (r1, some .ErrInt40EmptyData)) ↔ data.length = 0 := by
  constructor
  · rintro ⟨r1, hr⟩
    by_contra hne
    have h1 : data ≠ [] := by simpa using hne
    by_cases h2 : data = [0x22]
    · subst h2
      rw [Uint40_UnmarshalJSON_quote] at hr
      exact absurd hr (by simp)
    · rcases hp : strconv.ParseUint (quoteStripped data) with ⟨v, _ | err⟩
      · by_cases h : v ≤ 2 ^ 40 - 1
        · rw [Uint40_UnmarshalJSON_parse_in r data v h1 h2 hp h] at hr
          simp at hr
        · rw [Uint40_UnmarshalJSON_parse_out r data v h1 h2 hp h] at hr
          simp at hr
      · rw [Uint40_UnmarshalJSON_parse_err r data v err h1 h2 hp] at hr
        obtain ⟨e, rfl⟩ := strconv.ParseUint_err_NumError _ v err hp
        simp at hr
  · intro h
    have h1 : data = [] := by simpa using h
    subst h1
    exact ⟨r, rfl⟩

theorem Uint40_String_eq (v : Nat) (_hhi : v ≤ 2 ^ 40 - 1) :
    (Uint40.mk v).String = strconv.AppendUint v := by
  unfold Uint40.String
  rfl

theorem jsonQuoted_Uint40 (r : Uint40) (v : Nat) (hhi : v ≤ 2 ^ 40 - 1) :
    Uint40.UnmarshalJSON r ((0x22 : Byte) :: ((Uint40.mk v).MarshalJSON.1 ++ [0x22])) =
      .ret (⟨v⟩, none) := by
  have hs : (Uint40.mk v).MarshalJSON.1 = strconv.AppendUint v := Uint40_String_eq v hhi
  have hp := strconv.ParseUint_AppendUint v (by omega)
  rw [hs]
  apply Uint40_UnmarshalJSON_parse_in r _ v (by simp) (by simp) _ hhi
  rw [quoteStripped_quoted]
  exact hp

theorem binaryRoundTrip_Uint40 (r : Uint40) (v : Nat) (hhi : v ≤ 2 ^ 40 - 1) :
    Uint40.UnmarshalBinary r (Uint40.mk v).MarshalBinary.1 = (⟨v⟩, none) := by
  unfold Uint40.UnmarshalBinary Uint40.MarshalBinary
  simp only [roundTrip_Uint40 v hhi]
theorem FromUint40LittleEndianBytes_spec (b : List Byte) (h : b.length = 5) :
    FromUint40LittleEndianBytes b = (⟨littleEndianMagnitude b⟩, none) ∧
      littleEndianMagnitude b < 2 ^ 40 := by
  obtain ⟨b0, b1, b2, b3, b4, rfl⟩ := length_eq_five b h
  rw [FromUint40LittleEndianBytes_eq, FromUint40Bytes_eq, littleEndianMagnitude_five]
  have hb := b0.isLt
  have hb1 := b1.isLt
  have hb2 := b2.isLt
  have hb3 := b3.isLt
  have hb4 := b4.isLt
  exact ⟨rfl, by omega⟩

/-! ### Width 48: text and binary marshalling -/
theorem Int48_UnmarshalJSON_nil (r : Int48) :
    Int48.UnmarshalJSON r [] = .ret (r, some .ErrInt48EmptyData) := rfl

theorem Int48_UnmarshalJSON_quote (r : Int48) :
    Int48.UnmarshalJSON r [0x22] = .panic (.sliceBounds 1 0) := rfl

theorem Int48_UnmarshalJSON_parse_err (r : Int48) (data : List Byte) (v : Int) (err : GoError)
    (h1 : data ≠ []) (h2 : data ≠ [0x22])
    (hp : strconv.ParseInt (quoteStripped data) = (v, some err)) :
    Int48.UnmarshalJSON r data = .ret (r, some err) := by
  unfold Int48.UnmarshalJSON
  rw [if_neg (by simpa using h1), unquote_eq data h1, if_neg h2]
  simp only [hp]

theorem Int48_UnmarshalJSON_parse_in (r : Int48) (data : List Byte) (v : Int)
    (h1 : data ≠ []) (h2 : data ≠ [0x22])
    (hp : strconv.ParseInt (quoteStripped data) = (v, none)) (hlo : -(2 ^ 47) ≤ v) (hhi : v ≤ 2 ^ 47 - 1) :
    Int48.UnmarshalJSON r data = .ret (⟨v⟩, none) := by
  unfold Int48.UnmarshalJSON
  rw [if_neg (by simpa using h1), unquote_eq data h1, if_neg h2]
  simp only [hp, NewInt48_in v hlo hhi]

theorem Int48_UnmarshalJSON_parse_out (r : Int48) (data : List Byte) (v : Int)
    (h1 : data ≠ []) (h2 : data ≠ [0x22])
    (hp : strconv.ParseInt (quoteStripped data) = (v, none)) (h : ¬ (-(2 ^ 47) ≤ v ∧ v ≤ 2 ^ 47 - 1)) :
    Int48.UnmarshalJSON r data = .ret (r, some .ErrInt48OutOfRange) := by
  unfold Int48.UnmarshalJSON
  rw [if_neg (by simpa using h1), unquote_eq data h1, if_neg h2]
  simp only [hp, NewInt48_out v h]

theorem Int48_UnmarshalJSON_returns (r : Int48) (data : List Byte) (h2 : data ≠ [0x22]) :
    ∃ res, Int48.UnmarshalJSON r data = .ret res := by
  by_cases h1 : data = []
  · subst h1; exact ⟨_, rfl⟩
  · rcases hp : strconv.ParseInt (quoteStripped data) with ⟨v, _ | err⟩
    · by_cases h : -(2 ^ 47) ≤ v ∧ v ≤ 2 ^ 47 - 1
      · exact ⟨_, Int48_UnmarshalJSON_parse_in r data v h1 h2 hp h.1 h.2⟩
      · exact ⟨_, Int48_UnmarshalJSON_parse_out r data v h1 h2 hp h⟩
    · exact ⟨_, Int48_UnmarshalJSON_parse_err r data v err h1 h2 hp⟩

theorem Int48_UnmarshalJSON_empty_iff (r : Int48) (data : List Byte) :
    (∃ r1, Int48.UnmarshalJSON r data = .ret (r1, some .ErrInt48EmptyData)) ↔ data.length = 0 := by
  constructor
  · rintro ⟨r1, hr⟩
    by_contra hne
    have h1 : data ≠ [] := by simpa using hne
    by_cases h2 : data = [0x22]
    · subst h2
      rw [Int48_UnmarshalJSON_quote] at hr
      exact absurd hr (by simp)
    · rcases hp : strconv.ParseInt (quoteStripped data) with ⟨v, _ | err⟩
      · by_cases h : -(2 ^ 47) ≤ v ∧ v ≤ 2 ^ 47 - 1
        · rw [Int48_UnmarshalJSON_parse_in r data v h1 h2 hp h.1 h.2] at hr
          simp at hr
        · rw [Int48_UnmarshalJSON_parse_out r data v h1 h2 hp h] at hr
          simp at hr
      · rw [Int48_UnmarshalJSON_parse_err r data v err h1 h2 hp] at hr
        obtain ⟨e, rfl⟩ := strconv.ParseInt_err_NumError _ v err hp
        simp at hr
  · intro h
    have h1 : data = [] := by simpa using h
    subst h1
    exact ⟨r, rfl⟩

theorem Int48_String_eq (v : Int) (_hlo : -(2 ^ 47) ≤ v) (_hhi : v ≤ 2 ^ 47 - 1) :
    (Int48.mk v).String = strconv.AppendInt v := by
  unfold Int48.String
  rfl

theorem jsonQuoted_Int48 (r : Int48) (v : Int) (hlo : -(2 ^ 47) ≤ v) (hhi : v ≤ 2 ^ 47 - 1) :
    Int48.UnmarshalJSON r ((0x22 : Byte) :: ((Int48.mk v).MarshalJSON.1 ++ [0x22])) =
      .ret (⟨v⟩, none) := by
  have hs : (Int48.mk v).MarshalJSON.1 = strconv.AppendInt v := Int48_String_eq v hlo hhi
  have hp := strconv.ParseInt_AppendInt v (by omega) (by omega)
  rw [hs]
  apply Int48_UnmarshalJSON_parse_in r _ v (by simp) (by simp) _ hlo hhi
  rw [quoteStripped_quoted]
  exact hp

theorem binaryRoundTrip_Int48 (r : Int48) (v : Int) (hlo : -(2 ^ 47) ≤ v) (hhi : v ≤ 2 ^ 47 - 1) :
    Int48.UnmarshalBinary r (Int48.mk v).MarshalBinary.1 = (⟨v⟩, none) := by
  unfold Int48.UnmarshalBinary Int48.MarshalBinary
  simp only [roundTrip_Int48 v hlo hhi]
theorem Uint48_UnmarshalJSON_nil (r : Uint48) :
    Uint48.UnmarshalJSON r [] = .ret (r, some .ErrInt48EmptyData) := rfl

theorem Uint48_UnmarshalJSON_quote (r : Uint48) :
    Uint48.UnmarshalJSON r [0x22] = .panic (.sliceBounds 1 0) := rfl

theorem Uint48_UnmarshalJSON_parse_err (r : Uint48) (data : List Byte) (v : Nat) (err : GoError)
    (h1 : data ≠ []) (h2 : data ≠ [0x22])
    (hp : strconv.ParseUint (quoteStripped data) = (v, some err)) :
    Uint48.UnmarshalJSON r data = .ret (r, some err) := by
  unfold Uint48.UnmarshalJSON
  rw [if_neg (by simpa using h1), unquote_eq data h1, if_neg h2]
  simp only [hp]

theorem Uint48_UnmarshalJSON_parse_in (r : Uint48) (data : List Byte) (v : Nat)
    (h1 : data ≠ []) (h2 : data ≠ [0x22])
    (hp : strconv.ParseUint (quoteStripped data) = (v, none)) (hhi : v ≤ 2 ^ 48 - 1) :
    Uint48.UnmarshalJSON r data = .ret (⟨v⟩, none) := by
  unfold Uint48.UnmarshalJSON
  rw [if_neg (by simpa using h1), unquote_eq data h1, if_neg h2]
  simp only [hp, NewUint48_in v hhi]

theorem Uint48_UnmarshalJSON_parse_out (r : Uint48) (data : List Byte) (v : Nat)
    (h1 : data ≠ []) (h2 : data ≠ [0x22])
    (hp : strconv.ParseUint (quoteStripped data) = (v, none)) (h : ¬ v ≤ 2 ^ 48 - 1) :
    Uint48.UnmarshalJSON r data = .ret (r, some .ErrUint48OutOfRange) := by
  unfold Uint48.UnmarshalJSON
  rw [if_neg (by simpa using h1), unquote_eq data h1, if_neg h2]
  simp only [hp, NewUint48_out v h]

theorem Uint48_UnmarshalJSON_returns (r : Uint48) (data : List Byte) (h2 : data ≠ [0x22]) :
    ∃ res, Uint48.UnmarshalJSON r data = .ret res := by
  by_cases h1 : data = []
  · subst h1; exact ⟨_, rfl⟩
  · rcases hp : strconv.ParseUint (quoteStripped data) with ⟨v, _ | err⟩
    · by_cases h : v ≤ 2 ^ 48 - 1
      · exact ⟨_, Uint48_UnmarshalJSON_parse_in r data v h1 h2 hp h⟩
      · exact ⟨_, Uint48_UnmarshalJSON_parse_out r data v h1 h2 hp h⟩
    · exact ⟨_, Uint48_UnmarshalJSON_parse_err r data v err h1 h2 hp⟩

theorem Uint48_UnmarshalJSON_empty_iff (r : Uint48) (data : List Byte) :
    (∃ r1, Uint48.UnmarshalJSON r data = .ret (r1, some .ErrInt48EmptyData)) ↔ data.length = 0 := by
  constructor
  · rintro ⟨r1, hr⟩
    by_contra hne
    have h1 : data ≠ [] := by simpa using hne
    by_cases h2 : data = [0x22]
    · subst h2
      rw [Uint48_UnmarshalJSON_quote] at hr
      exact absurd hr (by simp)
    · rcases hp : strconv.ParseUint (quoteStripped data) with ⟨v, _ | err⟩
      · by_cases h : v ≤ 2 ^ 48 - 1
        · rw [Uint48_UnmarshalJSON_parse_in r data v h1 h2 hp h] at hr
          simp at hr
        · rw [Uint48_UnmarshalJSON_parse_out r data v h1 h2 hp h] at hr
          simp at hr
      · rw [Uint48_UnmarshalJSON_parse_err r data v err h1 h2 hp] at hr
        obtain ⟨e, rfl⟩ := strconv.ParseUint_err_NumError _ v err hp
        simp at hr
  · intro h
    have h1 : data = [] := by simpa using h
    subst h1
    exact ⟨r, rfl⟩

theorem Uint48_String_eq (v : Nat) (_hhi : v ≤ 2 ^ 48 - 1) :
    (Uint48.mk v).String = strconv.AppendUint v := by
  unfold Uint48.String
  rfl

theorem jsonQuoted_Uint48 (r : Uint48) (v : Nat) (hhi : v ≤ 2 ^ 48 - 1) :
    Uint48.UnmarshalJSON r ((0x22 : Byte) :: ((Uint48.mk v).MarshalJSON.1 ++ [0x22])) =
      .ret (⟨v⟩, none) := by
  have hs : (Uint48.mk v).MarshalJSON.1 = strconv.AppendUint v := Uint48_String_eq v hhi
  have hp := strconv.ParseUint_AppendUint v (by omega)
  rw [hs]
  apply Uint48_UnmarshalJSON_parse_in r _ v (by simp) (by simp) _ hhi
  rw [quoteStripped_quoted]
  exact hp

theorem binaryRoundTrip_Uint48 (r : Uint48) (v : Nat) (hhi : v ≤ 2 ^ 48 - 1) :
    Uint48.UnmarshalBinary r (Uint48.mk v).MarshalBinary.1 = (⟨v⟩, none) := by
  unfold Uint48.UnmarshalBinary Uint48.MarshalBinary
  simp only [roundTrip_Uint48 v hhi]
theorem FromUint48LittleEndianBytes_spec (b : List Byte) (h : b.length = 6) :
    FromUint48LittleEndianBytes b = (⟨littleEndianMagnitude b⟩, none) ∧
      littleEndianMagnitude b < 2 ^ 48 := by
  obtain ⟨b0, b1, b2, b3, b4, b5, rfl⟩ := length_eq_six b h
  rw [FromUint48LittleEndianBytes_eq, FromUint48Bytes_eq, littleEndianMagnitude_six]
  have hb := b0.isLt
  have hb1 := b1.isLt
  have hb2 := b2.isLt
  have hb3 := b3.isLt
  have hb4 := b4.isLt
  have hb5 := b5.isLt
  exact ⟨rfl, by omega⟩

/-! ### Width 56: text and binary marshalling -/
theorem Int56_UnmarshalJSON_nil (r : Int56) :
    Int56.UnmarshalJSON r [] = .ret (r, some .ErrInt56EmptyData) := rfl

theorem Int56_UnmarshalJSON_quote (r : Int56) :
    Int56.UnmarshalJSON r [0x22] = .panic (.sliceBounds 1 0) := rfl

theorem Int56_UnmarshalJSON_parse_err (r : Int56) (data : List Byte) (v : Int) (err : GoError)
    (h1 : data ≠ []) (h2 : data ≠ [0x22])
    (hp : strconv.ParseInt (quoteStripped data) = (v, some err)) :
    Int56.UnmarshalJSON r data = .ret (r, some err) := by
  unfold Int56.UnmarshalJSON
  rw [if_neg (by simpa using h1), unquote_eq data h1, if_neg h2]
  simp only [hp]

theorem Int56_UnmarshalJSON_parse_in (r : Int56) (data : List Byte) (v : Int)
    (h1 : data ≠ []) (h2 : data ≠ [0x22])
    (hp : strconv.ParseInt (quoteStripped data) = (v, none)) (hlo : -(2 ^ 55) ≤ v) (hhi : v ≤ 2 ^ 55 - 1) :
    Int56.UnmarshalJSON r data = .ret (⟨v⟩, none) := by
  unfold Int56.UnmarshalJSON
  rw [if_neg (by simpa using h1), unquote_eq data h1, if_neg h2]
  simp only [hp, NewInt56_in v hlo hhi]

theorem Int56_UnmarshalJSON_parse_out (r : Int56) (data : List Byte) (v : Int)
    (h1 : data ≠ []) (h2 : data ≠ [0x22])
    (hp : strconv.ParseInt (quoteStripped data) = (v, none)) (h : ¬ (-(2 ^ 55) ≤ v ∧ v ≤ 2 ^ 55 - 1)) :
    Int56.UnmarshalJSON r data = .ret (r, some .ErrInt56OutOfRange) := by
  unfold Int56.UnmarshalJSON
  rw [if_neg (by simpa using h1), unquote_eq data h1, if_neg h2]
  simp only [hp, NewInt56_out v h]

theorem Int56_UnmarshalJSON_returns (r : Int56) (data : List Byte) (h2 : data ≠ [0x22]) :
    ∃ res, Int56.UnmarshalJSON r data = .ret res := by
  by_cases h1 : data = []
  · subst h1; exact ⟨_, rfl⟩
  · rcases hp : strconv.ParseInt (quoteStripped data) with ⟨v, _ | err⟩
    · by_cases h : -(2 ^ 55) ≤ v ∧ v ≤ 2 ^ 55 - 1
      · exact ⟨_, Int56_UnmarshalJSON_parse_in r data v h1 h2 hp h.1 h.2⟩
      · exact ⟨_, Int56_UnmarshalJSON_parse_out r data v h1 h2 hp h⟩
    · exact ⟨_, Int56_UnmarshalJSON_parse_err r data v err h1 h2 hp⟩

theorem Int56_UnmarshalJSON_empty_iff (r : Int56) (data : List Byte) :
    (∃ r1, Int56.UnmarshalJSON r data = .ret (r1, some .ErrInt56EmptyData)) ↔ data.length = 0 := by
  constructor
  · rintro ⟨r1, hr⟩
    by_contra hne
    have h1 : data ≠ [] := by simpa using hne
    by_cases h2 : data = [0x22]
    · subst h2
      rw [Int56_UnmarshalJSON_quote] at hr
      exact absurd hr (by simp)
    · rcases hp : strconv.ParseInt (quoteStripped data) with ⟨v, _ | err⟩
      · by_cases h : -(2 ^ 55) ≤ v ∧ v ≤ 2 ^ 55 - 1
        · rw [Int56_UnmarshalJSON_parse_in r data v h1 h2 hp h.1 h.2] at hr
          simp at hr
        · rw [Int56_UnmarshalJSON_parse_out r data v h1 h2 hp h] at hr
          simp at hr
      · rw [Int56_UnmarshalJSON_parse_err r data v err h1 h2 hp] at hr
        obtain ⟨e, rfl⟩ := strconv.ParseInt_err_NumError _ v err hp
        simp at hr
  · intro h
    have h1 : data = [] := by simpa using h
    subst h1
    exact ⟨r, rfl⟩

theorem Int56_String_eq (v : Int) (_hlo : -(2 ^ 55) ≤ v) (_hhi : v ≤ 2 ^ 55 - 1) :
    (Int56.mk v).String = strconv.AppendInt v := by
  unfold Int56.String
  rfl

theorem jsonQuoted_Int56 (r : Int56) (v : Int) (hlo : -(2 ^ 55) ≤ v) (hhi : v ≤ 2 ^ 55 - 1) :
    Int56.UnmarshalJSON r ((0x22 : Byte) :: ((Int56.mk v).MarshalJSON.1 ++ [0x22])) =
      .ret (⟨v⟩, none) := by
  have hs : (Int56.mk v).MarshalJSON.1 = strconv.AppendInt v := Int56_String_eq v hlo hhi
  have hp := strconv.ParseInt_AppendInt v (by omega) (by omega)
  rw [hs]
  apply Int56_UnmarshalJSON_parse_in r _ v (by simp) (by simp) _ hlo hhi
  rw [quoteStripped_quoted]
  exact hp

theorem binaryRoundTrip_Int56 (r : Int56) (v : Int) (hlo : -(2 ^ 55) ≤ v) (hhi : v ≤ 2 ^ 55 - 1) :
    Int56.UnmarshalBinary r (Int56.mk v).MarshalBinary.1 = (⟨v⟩, none) := by
  unfold Int56.UnmarshalBinary Int56.MarshalBinary
  simp only [roundTrip_Int56 v hlo hhi]
theorem Uint56_UnmarshalJSON_nil (r : Uint56) :
    Uint56.UnmarshalJSON r [] = .ret (r, some .ErrInt56EmptyData) := rfl

theorem Uint56_UnmarshalJSON_quote (r : Uint56) :
    Uint56.UnmarshalJSON r [0x22] = .panic (.sliceBounds 1 0) := rfl

theorem Uint56_UnmarshalJSON_parse_err (r : Uint56) (data : List Byte) (v : Nat) (err : GoError)
    (h1 : data ≠ []) (h2 : data ≠ [0x22])
    (hp : strconv.ParseUint (quoteStripped data) = (v, some err)) :
    Uint56.UnmarshalJSON r data = .ret (r, some err) := by
  unfold Uint56.UnmarshalJSON
  rw [if_neg (by simpa using h1), unquote_eq data h1, if_neg h2]
  simp only [hp]

theorem Uint56_UnmarshalJSON_parse_in (r : Uint56) (data : List Byte) (v : Nat)
    (h1 : data ≠ []) (h2 : data ≠ [0x22])
    (hp : strconv.ParseUint (quoteStripped data) = (v, none)) (hhi : v ≤ 2 ^ 56 - 1) :
    Uint56.UnmarshalJSON r data = .ret (⟨v⟩, none) := by
  unfold Uint56.UnmarshalJSON
  rw [if_neg (by simpa using h1), unquote_eq data h1, if_neg h2]
  simp only [hp, NewUint56_in v hhi]

theorem Uint56_UnmarshalJSON_parse_out (r : Uint56) (data : List Byte) (v : Nat)
    (h1 : data ≠ []) (h2 : data ≠ [0x22])
    (hp : strconv.ParseUint (quoteStripped data) = (v, none)) (h : ¬ v ≤ 2 ^ 56 - 1) :
    Uint56.UnmarshalJSON r data = .ret (r, some .ErrUint56OutOfRange) := by
  unfold Uint56.UnmarshalJSON
  rw [if_neg (by simpa using h1), unquote_eq data h1, if_neg h2]
  simp only [hp, NewUint56_out v h]

theorem Uint56_UnmarshalJSON_returns (r : Uint56) (data : List Byte) (h2 : data ≠ [0x22]) :
    ∃ res, Uint56.UnmarshalJSON r data = .ret res := by
  by_cases h1 : data = []
  · subst h1; exact ⟨_, rfl⟩
  · rcases hp : strconv.ParseUint (quoteStripped data) with ⟨v, _ | err⟩
    · by_cases h : v ≤ 2 ^ 56 - 1
      · exact ⟨_, Uint56_UnmarshalJSON_parse_in r data v h1 h2 hp h⟩
      · exact ⟨_, Uint56_UnmarshalJSON_parse_out r data v h1 h2 hp h⟩
    · exact ⟨_, Uint56_UnmarshalJSON_parse_err r data v err h1 h2 hp⟩

theorem Uint56_UnmarshalJSON_empty_iff (r : Uint56) (data : List Byte) :
    (∃ r1, Uint56.UnmarshalJSON r data = .ret (r1, some .ErrInt56EmptyData)) ↔ data.length = 0 := by
  constructor
  · rintro ⟨r1, hr⟩
    by_contra hne
    have h1 : data ≠ [] := by simpa using hne
    by_cases h2 : data = [0x22]
    · subst h2
      rw [Uint56_UnmarshalJSON_quote] at hr
      exact absurd hr (by simp)
    · rcases hp : strconv.ParseUint (quoteStripped data) with ⟨v, _ | err⟩
      · by_cases h : v ≤ 2 ^ 56 - 1
        · rw [Uint56_UnmarshalJSON_parse_in r data v h1 h2 hp h] at hr
          simp at hr
        · rw [Uint56_UnmarshalJSON_parse_out r data v h1 h2 hp h] at hr
          simp at hr
      · rw [Uint56_UnmarshalJSON_parse_err r data v err h1 h2 hp] at hr
        obtain ⟨e, rfl⟩ := strconv.ParseUint_err_NumError _ v err hp
        simp at hr
  · intro h
    have h1 : data = [] := by simpa using h
    subst h1
    exact ⟨r, rfl⟩

theorem Uint56_String_eq (v : Nat) (_hhi : v ≤ 2 ^ 56 - 1) :
    (Uint56.mk v).String = strconv.AppendUint v := by
  unfold Uint56.String
  rfl

theorem jsonQuoted_Uint56 (r : Uint56) (v : Nat) (hhi : v ≤ 2 ^ 56 - 1) :
    Uint56.UnmarshalJSON r ((0x22 : Byte) :: ((Uint56.mk v).MarshalJSON.1 ++ [0x22])) =
      .ret (⟨v⟩, none) := by
  have hs : (Uint56.mk v).MarshalJSON.1 = strconv.AppendUint v := Uint56_String_eq v hhi
  have hp := strconv.ParseUint_AppendUint v (by omega)
  rw [hs]
  apply Uint56_UnmarshalJSON_parse_in r _ v (by simp) (by simp) _ hhi
  rw [quoteStripped_quoted]
  exact hp

theorem binaryRoundTrip_Uint56 (r : Uint56) (v : Nat) (hhi : v ≤ 2 ^ 56 - 1) :
    Uint56.UnmarshalBinary r (Uint56.mk v).MarshalBinary.1 = (⟨v⟩, none) := by
  unfold Uint56.UnmarshalBinary Uint56.MarshalBinary
  simp only [roundTrip_Uint56 v hhi]
theorem FromUint56LittleEndianBytes_spec (b : List Byte) (h : b.length = 7) :
    FromUint56LittleEndianBytes b = (⟨littleEndianMagnitude b⟩, none) ∧
      littleEndianMagnitude b < 2 ^ 56 := by
  obtain ⟨b0, b1, b2, b3, b4, b5, b6, rfl⟩ := length_eq_seven b h
  rw [FromUint56LittleEndianBytes_eq, FromUint56Bytes_eq, littleEndianMagnitude_seven]
  have hb := b0.isLt
  have hb1 := b1.isLt
  have hb2 := b2.isLt
  have hb3 := b3.isLt
  have hb4 := b4.isLt
  have hb5 := b5.isLt
  have hb6 := b6.isLt
  exact ⟨rfl, by omega⟩

/-! ### Width 24: constructors, binary unmarshalling, reachable values, sign bit -/
theorem MustInt24_in (v : Int) (hlo : -(2 ^ 23) ≤ v) (hhi : v ≤ 2 ^ 23 - 1) :
    MustInt24 v = .ret ⟨v⟩ := by
  have e : toInt32 v = v := by unfold toInt32; omega
  rw [MustInt24, if_neg (by omega), e]

theorem MustInt24_out (v : Int) (h : ¬ (-(2 ^ 23) ≤ v ∧ v ≤ 2 ^ 23 - 1)) :
    MustInt24 v = .panic (.text "value exceeds range for Int24") := by
  rw [MustInt24, if_pos (by omega)]

theorem Int24_UnmarshalBinary_ok (r : Int24) (data : List Byte) (h : data.length = 3) :
    Int24.UnmarshalBinary r data = FromInt24Bytes data := by
  obtain ⟨v, hv, _⟩ := FromInt24Bytes_range data h
  unfold Int24.UnmarshalBinary
  simp only [hv]

theorem Int24_UnmarshalBinary_len (r : Int24) (data : List Byte) (h : data.length ≠ 3) :
    Int24.UnmarshalBinary r data = (r, some .ErrInt24InvalidByteLength) := by
  unfold Int24.UnmarshalBinary
  simp only [FromInt24Bytes_len data h]

/-- What `UnmarshalJSON` returns: an error with the receiver as it was, or a nil error with an
in-range value. -/
theorem Int24_UnmarshalJSON_result (r : Int24) (data : List Byte) (r1 : Int24) (err : Option GoError)
    (hr : Int24.UnmarshalJSON r data = .ret (r1, err)) :
    (err ≠ none ∧ r1 = r) ∨ (err = none ∧ ∃ v : Int, (-(2 ^ 23) ≤ v ∧ v ≤ 2 ^ 23 - 1) ∧ r1 = ⟨v⟩) := by
  by_cases h1 : data = []
  · subst h1
    rw [Int24_UnmarshalJSON_nil] at hr
    simp only [Run.ret.injEq, Prod.mk.injEq] at hr
    exact Or.inl ⟨by rw [← hr.2]; simp, hr.1.symm⟩
  · by_cases h2 : data = [0x22]
    · subst h2
      rw [Int24_UnmarshalJSON_quote] at hr
      exact absurd hr (by simp)
    · rcases hp : strconv.ParseInt (quoteStripped data) with ⟨v, _ | perr⟩
      · by_cases h : -(2 ^ 23) ≤ v ∧ v ≤ 2 ^ 23 - 1
        · rw [Int24_UnmarshalJSON_parse_in r data v h1 h2 hp h.1 h.2] at hr
          simp only [Run.ret.injEq, Prod.mk.injEq] at hr
          exact Or.inr ⟨hr.2.symm, v, h, hr.1.symm⟩
        · rw [Int24_UnmarshalJSON_parse_out r data v h1 h2 hp h] at hr
          simp only [Run.ret.injEq, Prod.mk.injEq] at hr
          exact Or.inl ⟨by rw [← hr.2]; simp, hr.1.symm⟩
      · rw [Int24_UnmarshalJSON_parse_err r data v perr h1 h2 hp] at hr
        simp only [Run.ret.injEq, Prod.mk.injEq] at hr
        exact Or.inl ⟨by rw [← hr.2]; simp, hr.1.symm⟩

theorem ReachableInt24_range (x : Int24) (h : ReachableInt24 x) :
    -(2 ^ 23) ≤ x.value ∧ x.value ≤ 2 ^ 23 - 1 := by
  induction h with
  | zero => simp
  | new v =>
    by_cases h : -(2 ^ 23) ≤ v ∧ v ≤ 2 ^ 23 - 1
    · rw [NewInt24_in v h.1 h.2]; exact h
    · rw [NewInt24_out v h]; simp
  | must v x hm =>
    by_cases h : -(2 ^ 23) ≤ v ∧ v ≤ 2 ^ 23 - 1
    · rw [MustInt24_in v h.1 h.2] at hm
      simp only [Run.ret.injEq] at hm
      rw [← hm]; exact h
    · rw [MustInt24_out v h] at hm
      exact absurd hm (by simp)
  | fromBytes b =>
    by_cases h : b.length = 3
    · obtain ⟨v, hv, hr⟩ := FromInt24Bytes_range b h
      rw [hv]; exact hr
    · rw [FromInt24Bytes_len b h]; simp
  | fromLittleEndianBytes b =>
    by_cases h : b.length = 3
    · obtain ⟨v, hv, hr⟩ := FromInt24LittleEndianBytes_range b h
      rw [hv]; exact hr
    · rw [FromInt24LittleEndianBytes_len b h]; simp
  | unmarshalJSON r data r1 err _ hu ih =>
    rcases Int24_UnmarshalJSON_result r data r1 err hu with ⟨_, rfl⟩ | ⟨_, v, hv, rfl⟩
    · exact ih
    · exact hv
  | unmarshalBinary r data _ ih =>
    by_cases h : data.length = 3
    · obtain ⟨v, hv, hr⟩ := FromInt24Bytes_range data h
      rw [Int24_UnmarshalBinary_ok r data h, hv]; exact hr
    · rw [Int24_UnmarshalBinary_len r data h]; exact ih
theorem MustUint24_in (v : Nat) (hhi : v ≤ 2 ^ 24 - 1) :
    MustUint24 v = .ret ⟨v⟩ := by
  have e : toUint32 (v : Int) = v := toUint32_natCast v (by omega)
  rw [MustUint24, if_neg (by omega), e]

theorem MustUint24_out (v : Nat) (h : ¬ (v ≤ 2 ^ 24 - 1)) :
    MustUint24 v = .panic (.text "value exceeds range for Uint24") := by
  rw [MustUint24, if_pos (by omega)]

theorem Uint24_UnmarshalBinary_ok (r : Uint24) (data : List Byte) (h : data.length = 3) :
    Uint24.UnmarshalBinary r data = FromUint24Bytes data := by
  obtain ⟨v, hv, _⟩ := FromUint24Bytes_range data h
  unfold Uint24.UnmarshalBinary
  simp only [hv]

theorem Uint24_UnmarshalBinary_len (r : Uint24) (data : List Byte) (h : data.length ≠ 3) :
    Uint24.UnmarshalBinary r data = (r, some .ErrInt24InvalidByteLength) := by
  unfold Uint24.UnmarshalBinary
  simp only [FromUint24Bytes_len data h]

/-- What `UnmarshalJSON` returns: an error with the receiver as it was, or a nil error with an
in-range value. -/
theorem Uint24_UnmarshalJSON_result (r : Uint24) (data : List Byte) (r1 : Uint24) (err : Option GoError)
    (hr : Uint24.UnmarshalJSON r data = .ret (r1, err)) :
    (err ≠ none ∧ r1 = r) ∨ (err = none ∧ ∃ v : Nat, (v ≤ 2 ^ 24 - 1) ∧ r1 = ⟨v⟩) := by
  by_cases h1 : data = []
  · subst h1
    rw [Uint24_UnmarshalJSON_nil] at hr
    simp only [Run.ret.injEq, Prod.mk.injEq] at hr
    exact Or.inl ⟨by rw [← hr.2]; simp, hr.1.symm⟩
  · by_cases h2 : data = [0x22]
    · subst h2
      rw [Uint24_UnmarshalJSON_quote] at hr
      exact absurd hr (by simp)
    · rcases hp : strconv.ParseUint (quoteStripped data) with ⟨v, _ | perr⟩
      · by_cases h : v ≤ 2 ^ 24 - 1
        · rw [Uint24_UnmarshalJSON_parse_in r data v h1 h2 hp h] at hr
          simp only [Run.ret.injEq, Prod.mk.injEq] at hr
          exact Or.inr ⟨hr.2.symm, v, h, hr.1.symm⟩
        · rw [Uint24_UnmarshalJSON_parse_out r data v h1 h2 hp h] at hr
          simp only [Run.ret.injEq, Prod.mk.injEq] at hr
          exact Or.inl ⟨by rw [← hr.2]; simp, hr.1.symm⟩
      · rw [Uint24_UnmarshalJSON_parse_err r data v perr h1 h2 hp] at hr
        simp only [Run.ret.injEq, Prod.mk.injEq] at hr
        exact Or.inl ⟨by rw [← hr.2]; simp, hr.1.symm⟩

theorem ReachableUint24_range (x : Uint24) (h : ReachableUint24 x) :
    x.value ≤ 2 ^ 24 - 1 := by
  induction h with
  | zero => simp
  | new v =>
    by_cases h : v ≤ 2 ^ 24 - 1
    · rw [NewUint24_in v h]; exact h
    · rw [NewUint24_out v h]; simp
  | must v x hm =>
    by_cases h : v ≤ 2 ^ 24 - 1
    · rw [MustUint24_in v h] at hm
      simp only [Run.ret.injEq] at hm
      rw [← hm]; exact h
    · rw [MustUint24_out v h] at hm
      exact absurd hm (by simp)
  | fromBytes b =>
    by_cases h : b.length = 3
    · obtain ⟨v, hv, hr⟩ := FromUint24Bytes_range b h
      rw [hv]; exact hr
    · rw [FromUint24Bytes_len b h]; simp
  | fromLittleEndianBytes b =>
    by_cases h : b.length = 3
    · obtain ⟨v, hv, hr⟩ := FromUint24LittleEndianBytes_range b h
      rw [hv]; exact hr
    · rw [FromUint24LittleEndianBytes_len b h]; simp
  | unmarshalJSON r data r1 err _ hu ih =>
    rcases Uint24_UnmarshalJSON_result r data r1 err hu with ⟨_, rfl⟩ | ⟨_, v, hv, rfl⟩
    · exact ih
    · exact hv
  | unmarshalBinary r data _ ih =>
    by_cases h : data.length = 3
    · obtain ⟨v, hv, hr⟩ := FromUint24Bytes_range data h
      rw [Uint24_UnmarshalBinary_ok r data h, hv]; exact hr
    · rw [Uint24_UnmarshalBinary_len r data h]; exact ih
theorem toUint32_bitNot_full_24 : toUint32 (bitNot (2 ^ 24 - 1)) = 2 ^ 32 - 2 ^ 24 := by
  decide

/-- The documented sign extension of a 24-bit pattern subtracts `2^24`. -/
theorem documentedSignExtend32_24 (m : Nat) (h : m < 2 ^ 24) :
    documentedSignExtend32 24 m = (m : Int) - 2 ^ 24 := by
  have hor := or_eq_add 24 (2 ^ 32 - 2 ^ 24) m (by decide) h
  unfold documentedSignExtend32 orInt32
  rw [toUint32_natCast m (by omega), toUint32_bitNot_full_24, Nat.lor_comm, hor]
  unfold toInt32
  omega

theorem bigEndianMagnitude_reverse_three (b : List Byte) (h : b.length = 3) :
    bigEndianMagnitude b.reverse = littleEndianMagnitude b := by
  obtain ⟨b0, b1, b2, rfl⟩ := length_eq_three b h
  show bigEndianMagnitude [b2, b1, b0] = _
  rw [bigEndianMagnitude_three, littleEndianMagnitude_three]

theorem FromInt24LittleEndianBytes_spec (b : List Byte) (h : b.length = 3) :
    FromInt24LittleEndianBytes b =
      (⟨if littleEndianMagnitude b < 2 ^ 23 then (littleEndianMagnitude b : Int)
        else (littleEndianMagnitude b : Int) - 2 ^ 24⟩, none) ∧
      littleEndianMagnitude b < 2 ^ 24 := by
  have h1 := FromInt24Bytes_spec b.reverse (by rw [List.length_reverse]; exact h)
  rw [bigEndianMagnitude_reverse_three b h] at h1
  rw [FromInt24LittleEndianBytes_reverse]
  exact h1

/-- Decoding then encoding gives back the bytes, for `Int24`. -/
theorem encodeDecode_Int24 (b0 b1 b2 : Byte) :
    (FromInt24Bytes [b0, b1, b2]).1.ToBytes = [b0, b1, b2] := by
  have hs := FromInt24Bytes_eq b0 b1 b2
  have hb := b0.isLt
  have hb1 := b1.isLt
  have hb2 := b2.isLt
  rw [hs]
  dsimp only
  by_cases h : b0.val < 128
  · rw [if_pos h, Int24_ToBytes_eq _ (by omega) (by omega)]
    simp only [List.cons.injEq, and_true]
    refine ⟨?_, ?_, ?_⟩ <;> (apply Fin.ext; rw [byte_val]; omega)
  · rw [if_neg h, Int24_ToBytes_eq _ (by omega) (by omega)]
    simp only [List.cons.injEq, and_true]
    refine ⟨?_, ?_, ?_⟩ <;> (apply Fin.ext; rw [byte_val]; omega)

/-- Decoding then encoding gives back the bytes, for `Uint24`. -/
theorem encodeDecode_Uint24 (b0 b1 b2 : Byte) :
    (FromUint24Bytes [b0, b1, b2]).1.ToBytes = [b0, b1, b2] := by
  have hs := FromUint24Bytes_eq b0 b1 b2
  have hb := b0.isLt
  have hb1 := b1.isLt
  have hb2 := b2.isLt
  rw [hs]
  dsimp only
  rw [Uint24_ToBytes_eq]
  simp only [List.cons.injEq, and_true]
  refine ⟨?_, ?_, ?_⟩ <;> (apply Fin.ext; rw [byte_val]; omega)
theorem encodeDecode_list_Int24 (b : List Byte) (h : b.length = 3) :
    (FromInt24Bytes b).1.ToBytes = b ∧
      (FromInt24LittleEndianBytes b).1.ToLittleEndianBytes = b := by
  obtain ⟨b0, b1, b2, rfl⟩ := length_eq_three b h
  refine ⟨encodeDecode_Int24 b0 b1 b2, ?_⟩
  rw [FromInt24LittleEndianBytes_eq]
  show ((FromInt24Bytes [b2, b1, b0]).1.ToBytes).reverse = _
  rw [encodeDecode_Int24]
  rfl

theorem FromInt24Bytes_injective (b1 b2 : List Byte) (h1 : b1.length = 3) (h2 : b2.length = 3)
    (h : FromInt24Bytes b1 = FromInt24Bytes b2) : b1 = b2 := by
  rw [← (encodeDecode_list_Int24 b1 h1).1, ← (encodeDecode_list_Int24 b2 h2).1, h]

theorem FromInt24LittleEndianBytes_injective (b1 b2 : List Byte) (h1 : b1.length = 3)
    (h2 : b2.length = 3) (h : FromInt24LittleEndianBytes b1 = FromInt24LittleEndianBytes b2) :
    b1 = b2 := by
  rw [← (encodeDecode_list_Int24 b1 h1).2, ← (encodeDecode_list_Int24 b2 h2).2, h]
theorem encodeDecode_list_Uint24 (b : List Byte) (h : b.length = 3) :
    (FromUint24Bytes b).1.ToBytes = b ∧
      (FromUint24LittleEndianBytes b).1.ToLittleEndianBytes = b := by
  obtain ⟨b0, b1, b2, rfl⟩ := length_eq_three b h
  refine ⟨encodeDecode_Uint24 b0 b1 b2, ?_⟩
  rw [FromUint24LittleEndianBytes_eq]
  show ((FromUint24Bytes [b2, b1, b0]).1.ToBytes).reverse = _
  rw [encodeDecode_Uint24]
  rfl

theorem FromUint24Bytes_injective (b1 b2 : List Byte) (h1 : b1.length = 3) (h2 : b2.length = 3)
    (h : FromUint24Bytes b1 = FromUint24Bytes b2) : b1 = b2 := by
  rw [← (encodeDecode_list_Uint24 b1 h1).1, ← (encodeDecode_list_Uint24 b2 h2).1, h]

theorem FromUint24LittleEndianBytes_injective (b1 b2 : List Byte) (h1 : b1.length = 3)
    (h2 : b2.length = 3) (h : FromUint24LittleEndianBytes b1 = FromUint24LittleEndianBytes b2) :
    b1 = b2 := by
  rw [← (encodeDecode_list_Uint24 b1 h1).2, ← (encodeDecode_list_Uint24 b2 h2).2, h]

/-! ### Width 40: constructors, binary unmarshalling, reachable values, sign bit -/
theorem MustInt40_in (v : Int) (hlo : -(2 ^ 39) ≤ v) (hhi : v ≤ 2 ^ 39 - 1) :
    MustInt40 v = .ret ⟨v⟩ := by
  rw [MustInt40, if_neg (by omega)]

theorem MustInt40_out (v : Int) (h : ¬ (-(2 ^ 39) ≤ v ∧ v ≤ 2 ^ 39 - 1)) :
    MustInt40 v = .panic (.text "value exceeds range for Int40") := by
  rw [MustInt40, if_pos (by omega)]

theorem Int40_UnmarshalBinary_ok (r : Int40) (data : List Byte) (h : data.length = 5) :
    Int40.UnmarshalBinary r data = FromInt40Bytes data := by
  obtain ⟨v, hv, _⟩ := FromInt40Bytes_range data h
  unfold Int40.UnmarshalBinary
  simp only [hv]

theorem Int40_UnmarshalBinary_len (r : Int40) (data : List Byte) (h : data.length ≠ 5) :
    Int40.UnmarshalBinary r data = (r, some .ErrInt40InvalidByteLength) := by
  unfold Int40.UnmarshalBinary
  simp only [FromInt40Bytes_len data h]

/-- What `UnmarshalJSON` returns: an error with the receiver as it was, or a nil error with an
in-range value. -/
theorem Int40_UnmarshalJSON_result (r : Int40) (data : List Byte) (r1 : Int40) (err : Option GoError)
    (hr : Int40.UnmarshalJSON r data = .ret (r1, err)) :
    (err ≠ none ∧ r1 = r) ∨ (err = none ∧ ∃ v : Int, (-(2 ^ 39) ≤ v ∧ v ≤ 2 ^ 39 - 1) ∧ r1 = ⟨v⟩) := by
  by_cases h1 : data = []
  · subst h1
    rw [Int40_UnmarshalJSON_nil] at hr
    simp only [Run.ret.injEq, Prod.mk.injEq] at hr
    exact Or.inl ⟨by rw [← hr.2]; simp, hr.1.symm⟩
  · by_cases h2 : data = [0x22]
    · subst h2
      rw [Int40_UnmarshalJSON_quote] at hr
      exact absurd hr (by simp)
    · rcases hp : strconv.ParseInt (quoteStripped data) with ⟨v, _ | perr⟩
      · by_cases h : -(2 ^ 39) ≤ v ∧ v ≤ 2 ^ 39 - 1
        · rw [Int40_UnmarshalJSON_parse_in r data v h1 h2 hp h.1 h.2] at hr
          simp only [Run.ret.injEq, Prod.mk.injEq] at hr
          exact Or.inr ⟨hr.2.symm, v, h, hr.1.symm⟩
        · rw [Int40_UnmarshalJSON_parse_out r data v h1 h2 hp h] at hr
          simp only [Run.ret.injEq, Prod.mk.injEq] at hr
          exact Or.inl ⟨by rw [← hr.2]; simp, hr.1.symm⟩
      · rw [Int40_UnmarshalJSON_parse_err r data v perr h1 h2 hp] at hr
        simp only [Run.ret.injEq, Prod.mk.injEq] at hr
        exact Or.inl ⟨by rw [← hr.2]; simp, hr.1.symm⟩

theorem ReachableInt40_range (x : Int40) (h : ReachableInt40 x) :
    -(2 ^ 39) ≤ x.value ∧ x.value ≤ 2 ^ 39 - 1 := by
  induction h with
  | zero => simp
  | new v =>
    by_cases h : -(2 ^ 39) ≤ v ∧ v ≤ 2 ^ 39 - 1
    · rw [NewInt40_in v h.1 h.2]; exact h
    · rw [NewInt40_out v h]; simp
  | must v x hm =>
    by_cases h : -(2 ^ 39) ≤ v ∧ v ≤ 2 ^ 39 - 1
    · rw [MustInt40_in v h.1 h.2] at hm
      simp only [Run.ret.injEq] at hm
      rw [← hm]; exact h
    · rw [MustInt40_out v h] at hm
      exact absurd hm (by simp)
  | fromBytes b =>
    by_cases h : b.length = 5
    · obtain ⟨v, hv, hr⟩ := FromInt40Bytes_range b h
      rw [hv]; exact hr
    · rw [FromInt40Bytes_len b h]; simp
  | fromLittleEndianBytes b =>
    by_cases h : b.length = 5
    · obtain ⟨v, hv, hr⟩ := FromInt40LittleEndianBytes_range b h
      rw [hv]; exact hr
    · rw [FromInt40LittleEndianBytes_len b h]; simp
  | unmarshalJSON r data r1 err _ hu ih =>
    rcases Int40_UnmarshalJSON_result r data r1 err hu with ⟨_, rfl⟩ | ⟨_, v, hv, rfl⟩
    · exact ih
    · exact hv
  | unmarshalBinary r data _ ih =>
    by_cases h : data.length = 5
    · obtain ⟨v, hv, hr⟩ := FromInt40Bytes_range data h
      rw [Int40_UnmarshalBinary_ok r data h, hv]; exact hr
    · rw [Int40_UnmarshalBinary_len r data h]; exact ih
theorem MustUint40_in (v : Nat) (hhi : v ≤ 2 ^ 40 - 1) :
    MustUint40 v = .ret ⟨v⟩ := by
  rw [MustUint40, if_neg (by omega)]

theorem MustUint40_out (v : Nat) (h : ¬ (v ≤ 2 ^ 40 - 1)) :
    MustUint40 v = .panic (.text "value exceeds maximum for Uint40") := by
  rw [MustUint40, if_pos (by omega)]

theorem Uint40_UnmarshalBinary_ok (r : Uint40) (data : List Byte) (h : data.length = 5) :
    Uint40.UnmarshalBinary r data = FromUint40Bytes data := by
  obtain ⟨v, hv, _⟩ := FromUint40Bytes_range data h
  unfold Uint40.UnmarshalBinary
  simp only [hv]

theorem Uint40_UnmarshalBinary_len (r : Uint40) (data : List Byte) (h : data.length ≠ 5) :
    Uint40.UnmarshalBinary r data = (r, some .ErrInt40InvalidByteLength) := by
  unfold Uint40.UnmarshalBinary
  simp only [FromUint40Bytes_len data h]

/-- What `UnmarshalJSON` returns: an error with the receiver as it was, or a nil error with an
in-range value. -/
theorem Uint40_UnmarshalJSON_result (r : Uint40) (data : List Byte) (r1 : Uint40) (err : Option GoError)
    (hr : Uint40.UnmarshalJSON r data = .ret (r1, err)) :
    (err ≠ none ∧ r1 = r) ∨ (err = none ∧ ∃ v : Nat, (v ≤ 2 ^ 40 - 1) ∧ r1 = ⟨v⟩) := by
  by_cases h1 : data = []
  · subst h1
    rw [Uint40_UnmarshalJSON_nil] at hr
    simp only [Run.ret.injEq, Prod.mk.injEq] at hr
    exact Or.inl ⟨by rw [← hr.2]; simp, hr.1.symm⟩
  · by_cases h2 : data = [0x22]
    · subst h2
      rw [Uint40_UnmarshalJSON_quote] at hr
      exact absurd hr (by simp)
    · rcases hp : strconv.ParseUint (quoteStripped data) with ⟨v, _ | perr⟩
      · by_cases h : v ≤ 2 ^ 40 - 1
        · rw [Uint40_UnmarshalJSON_parse_in r data v h1 h2 hp h] at hr
          simp only [Run.ret.injEq, Prod.mk.injEq] at hr
          exact Or.inr ⟨hr.2.symm, v, h, hr.1.symm⟩
        · rw [Uint40_UnmarshalJSON_parse_out r data v h1 h2 hp h] at hr
          simp only [Run.ret.injEq, Prod.mk.injEq] at hr
          exact Or.inl ⟨by rw [← hr.2]; simp, hr.1.symm⟩
      · rw [Uint40_UnmarshalJSON_parse_err r data v perr h1 h2 hp] at hr
        simp only [Run.ret.injEq, Prod.mk.injEq] at hr
        exact Or.inl ⟨by rw [← hr.2]; simp, hr.1.symm⟩

theorem ReachableUint40_range (x : Uint40) (h : ReachableUint40 x) :
    x.value ≤ 2 ^ 40 - 1 := by
  induction h with
  | zero => simp
  | new v =>
    by_cases h : v ≤ 2 ^ 40 - 1
    · rw [NewUint40_in v h]; exact h
    · rw [NewUint40_out v h]; simp
  | must v x hm =>
    by_cases h : v ≤ 2 ^ 40 - 1
    · rw [MustUint40_in v h] at hm
      simp only [Run.ret.injEq] at hm
      rw [← hm]; exact h
    · rw [MustUint40_out v h] at hm
      exact absurd hm (by simp)
  | fromBytes b =>
    by_cases h : b.length = 5
    · obtain ⟨v, hv, hr⟩ := FromUint40Bytes_range b h
      rw [hv]; exact hr
    · rw [FromUint40Bytes_len b h]; simp
  | fromLittleEndianBytes b =>
    by_cases h : b.length = 5
    · obtain ⟨v, hv, hr⟩ := FromUint40LittleEndianBytes_range b h
      rw [hv]; exact hr
    · rw [FromUint40LittleEndianBytes_len b h]; simp
  | unmarshalJSON r data r1 err _ hu ih =>
    rcases Uint40_UnmarshalJSON_result r data r1 err hu with ⟨_, rfl⟩ | ⟨_, v, hv, rfl⟩
    · exact ih
    · exact hv
  | unmarshalBinary r data _ ih =>
    by_cases h : data.length = 5
    · obtain ⟨v, hv, hr⟩ := FromUint40Bytes_range data h
      rw [Uint40_UnmarshalBinary_ok r data h, hv]; exact hr
    · rw [Uint40_UnmarshalBinary_len r data h]; exact ih
theorem toUint64_bitNot_full_40 : toUint64 (bitNot (2 ^ 40 - 1)) = 2 ^ 64 - 2 ^ 40 := by
  decide

/-- The documented sign extension of a 40-bit pattern subtracts `2^40`. -/
theorem documentedSignExtend64_40 (m : Nat) (h : m < 2 ^ 40) :
    documentedSignExtend64 40 m = (m : Int) - 2 ^ 40 := by
  have hor := or_eq_add 40 (2 ^ 64 - 2 ^ 40) m (by decide) h
  unfold documentedSignExtend64 orInt64
  rw [toUint64_natCast m (by omega), toUint64_bitNot_full_40, Nat.lor_comm, hor]
  unfold toInt64
  omega

theorem bigEndianMagnitude_reverse_five (b : List Byte) (h : b.length = 5) :
    bigEndianMagnitude b.reverse = littleEndianMagnitude b := by
  obtain ⟨b0, b1, b2, b3, b4, rfl⟩ := length_eq_five b h
  show bigEndianMagnitude [b4, b3, b2, b1, b0] = _
  rw [bigEndianMagnitude_five, littleEndianMagnitude_five]

theorem FromInt40LittleEndianBytes_spec (b : List Byte) (h : b.length = 5) :
    FromInt40LittleEndianBytes b =
      (⟨if littleEndianMagnitude b < 2 ^ 39 then (littleEndianMagnitude b : Int)
        else (littleEndianMagnitude b : Int) - 2 ^ 40⟩, none) ∧
      littleEndianMagnitude b < 2 ^ 40 := by
  have h1 := FromInt40Bytes_spec b.reverse (by rw [List.length_reverse]; exact h)
  rw [bigEndianMagnitude_reverse_five b h] at h1
  rw [FromInt40LittleEndianBytes_reverse]
  exact h1

/-- Decoding then encoding gives back the bytes, for `Int40`. -/
theorem encodeDecode_Int40 (b0 b1 b2 b3 b4 : Byte) :
    (FromInt40Bytes [b0, b1, b2, b3, b4]).1.ToBytes = [b0, b1, b2, b3, b4] := by
  have hs := FromInt40Bytes_eq b0 b1 b2 b3 b4
  have hb := b0.isLt
  have hb1 := b1.isLt
  have hb2 := b2.isLt
  have hb3 := b3.isLt
  have hb4 := b4.isLt
  rw [hs]
  dsimp only
  by_cases h : b0.val < 128
  · rw [if_pos h, Int40_ToBytes_eq _ (by omega) (by omega)]
    simp only [List.cons.injEq, and_true]
    refine ⟨?_, ?_, ?_, ?_, ?_⟩ <;> (apply Fin.ext; rw [byte_val]; omega)
  · rw [if_neg h, Int40_ToBytes_eq _ (by omega) (by omega)]
    simp only [List.cons.injEq, and_true]
    refine ⟨?_, ?_, ?_, ?_, ?_⟩ <;> (apply Fin.ext; rw [byte_val]; omega)

/-- Decoding then encoding gives back the bytes, for `Uint40`. -/
theorem encodeDecode_Uint40 (b0 b1 b2 b3 b4 : Byte) :
    (FromUint40Bytes [b0, b1, b2, b3, b4]).1.ToBytes = [b0, b1, b2, b3, b4] := by
  have hs := FromUint40Bytes_eq b0 b1 b2 b3 b4
  have hb := b0.isLt
  have hb1 := b1.isLt
  have hb2 := b2.isLt
  have hb3 := b3.isLt
  have hb4 := b4.isLt
  rw [hs]
  dsimp only
  rw [Uint40_ToBytes_eq]
  simp only [List.cons.injEq, and_true]
  refine ⟨?_, ?_, ?_, ?_, ?_⟩ <;> (apply Fin.ext; rw [byte_val]; omega)
theorem encodeDecode_list_Int40 (b : List Byte) (h : b.length = 5) :
    (FromInt40Bytes b).1.ToBytes = b ∧
      (FromInt40LittleEndianBytes b).1.ToLittleEndianBytes = b := by
  obtain ⟨b0, b1, b2, b3, b4, rfl⟩ := length_eq_five b h
  refine ⟨encodeDecode_Int40 b0 b1 b2 b3 b4, ?_⟩
  rw [FromInt40LittleEndianBytes_eq]
  show ((FromInt40Bytes [b4, b3, b2, b1, b0]).1.ToBytes).reverse = _
  rw [encodeDecode_Int40]
  rfl

theorem FromInt40Bytes_injective (b1 b2 : List Byte) (h1 : b1.length = 5) (h2 : b2.length = 5)
    (h : FromInt40Bytes b1 = FromInt40Bytes b2) : b1 = b2 := by
  rw [← (encodeDecode_list_Int40 b1 h1).1, ← (encodeDecode_list_Int40 b2 h2).1, h]

theorem FromInt40LittleEndianBytes_injective (b1 b2 : List Byte) (h1 : b1.length = 5)
    (h2 : b2.length = 5) (h : FromInt40LittleEndianBytes b1 = FromInt40LittleEndianBytes b2) :
    b1 = b2 := by
  rw [← (encodeDecode_list_Int40 b1 h1).2, ← (encodeDecode_list_Int40 b2 h2).2, h]
theorem encodeDecode_list_Uint40 (b : List Byte) (h : b.length = 5) :
    (FromUint40Bytes b).1.ToBytes = b ∧
      (FromUint40LittleEndianBytes b).1.ToLittleEndianBytes = b := by
  obtain ⟨b0, b1, b2, b3, b4, rfl⟩ := length_eq_five b h
  refine ⟨encodeDecode_Uint40 b0 b1 b2 b3 b4, ?_⟩
  rw [FromUint40LittleEndianBytes_eq]
  show ((FromUint40Bytes [b4, b3, b2, b1, b0]).1.ToBytes).reverse = _
  rw [encodeDecode_Uint40]
  rfl

theorem FromUint40Bytes_injective (b1 b2 : List Byte) (h1 : b1.length = 5) (h2 : b2.length = 5)
    (h : FromUint40Bytes b1 = FromUint40Bytes b2) : b1 = b2 := by
  rw [← (encodeDecode_list_Uint40 b1 h1).1, ← (encodeDecode_list_Uint40 b2 h2).1, h]

theorem FromUint40LittleEndianBytes_injective (b1 b2 : List Byte) (h1 : b1.length = 5)
    (h2 : b2.length = 5) (h : FromUint40LittleEndianBytes b1 = FromUint40LittleEndianBytes b2) :
    b1 = b2 := by
  rw [← (encodeDecode_list_Uint40 b1 h1).2, ← (encodeDecode_list_Uint40 b2 h2).2, h]

/-! ### Width 48: constructors, binary unmarshalling, reachable values, sign bit -/
theorem MustInt48_in (v : Int) (hlo : -(2 ^ 47) ≤ v) (hhi : v ≤ 2 ^ 47 - 1) :
    MustInt48 v = .ret ⟨v⟩ := by
  rw [MustInt48, if_neg (by omega)]

theorem MustInt48_out (v : Int) (h : ¬ (-(2 ^ 47) ≤ v ∧ v ≤ 2 ^ 47 - 1)) :
    MustInt48 v = .panic (.text "value exceeds range for Int48") := by
  rw [MustInt48, if_pos (by omega)]

theorem Int48_UnmarshalBinary_ok (r : Int48) (data : List Byte) (h : data.length = 6) :
    Int48.UnmarshalBinary r data = FromInt48Bytes data := by
  obtain ⟨v, hv, _⟩ := FromInt48Bytes_range data h
  unfold Int48.UnmarshalBinary
  simp only [hv]

theorem Int48_UnmarshalBinary_len (r : Int48) (data : List Byte) (h : data.length ≠ 6) :
    Int48.UnmarshalBinary r data = (r, some .ErrInt48InvalidByteLength) := by
  unfold Int48.UnmarshalBinary
  simp only [FromInt48Bytes_len data h]

/-- What `UnmarshalJSON` returns: an error with the receiver as it was, or a nil error with an
in-range value. -/
theorem Int48_UnmarshalJSON_result (r : Int48) (data : List Byte) (r1 : Int48) (err : Option GoError)
    (hr : Int48.UnmarshalJSON r data = .ret (r1, err)) :
    (err ≠ none ∧ r1 = r) ∨ (err = none ∧ ∃ v : Int, (-(2 ^ 47) ≤ v ∧ v ≤ 2 ^ 47 - 1) ∧ r1 = ⟨v⟩) := by
  by_cases h1 : data = []
  · subst h1
    rw [Int48_UnmarshalJSON_nil] at hr
    simp only [Run.ret.injEq, Prod.mk.injEq] at hr
    exact Or.inl ⟨by rw [← hr.2]; simp, hr.1.symm⟩
  · by_cases h2 : data = [0x22]
    · subst h2
      rw [Int48_UnmarshalJSON_quote] at hr
      exact absurd hr (by simp)
    · rcases hp : strconv.ParseInt (quoteStripped data) with ⟨v, _ | perr⟩
      · by_cases h : -(2 ^ 47) ≤ v ∧ v ≤ 2 ^ 47 - 1
        · rw [Int48_UnmarshalJSON_parse_in r data v h1 h2 hp h.1 h.2] at hr
          simp only [Run.ret.injEq, Prod.mk.injEq] at hr
          exact Or.inr ⟨hr.2.symm, v, h, hr.1.symm⟩
        · rw [Int48_UnmarshalJSON_parse_out r data v h1 h2 hp h] at hr
          simp only [Run.ret.injEq, Prod.mk.injEq] at hr
          exact Or.inl ⟨by rw [← hr.2]; simp, hr.1.symm⟩
      · rw [Int48_UnmarshalJSON_parse_err r data v perr h1 h2 hp] at hr
        simp only [Run.ret.injEq, Prod.mk.injEq] at hr
        exact Or.inl ⟨by rw [← hr.2]; simp, hr.1.symm⟩

theorem ReachableInt48_range (x : Int48) (h : ReachableInt48 x) :
    -(2 ^ 47) ≤ x.value ∧ x.value ≤ 2 ^ 47 - 1 := by
  induction h with
  | zero => simp
  | new v =>
    by_cases h : -(2 ^ 47) ≤ v ∧ v ≤ 2 ^ 47 - 1
    · rw [NewInt48_in v h.1 h.2]; exact h
    · rw [NewInt48_out v h]; simp
  | must v x hm =>
    by_cases h : -(2 ^ 47) ≤ v ∧ v ≤ 2 ^ 47 - 1
    · rw [MustInt48_in v h.1 h.2] at hm
      simp only [Run.ret.injEq] at hm
      rw [← hm]; exact h
    · rw [MustInt48_out v h] at hm
      exact absurd hm (by simp)
  | fromBytes b =>
    by_cases h : b.length = 6
    · obtain ⟨v, hv, hr⟩ := FromInt48Bytes_range b h
      rw [hv]; exact hr
    · rw [FromInt48Bytes_len b h]; simp
  | fromLittleEndianBytes b =>
    by_cases h : b.length = 6
    · obtain ⟨v, hv, hr⟩ := FromInt48LittleEndianBytes_range b h
      rw [hv]; exact hr
    · rw [FromInt48LittleEndianBytes_len b h]; simp
  | unmarshalJSON r data r1 err _ hu ih =>
    rcases Int48_UnmarshalJSON_result r data r1 err hu with ⟨_, rfl⟩ | ⟨_, v, hv, rfl⟩
    · exact ih
    · exact hv
  | unmarshalBinary r data _ ih =>
    by_cases h : data.length = 6
    · obtain ⟨v, hv, hr⟩ := FromInt48Bytes_range data h
      rw [Int48_UnmarshalBinary_ok r data h, hv]; exact hr
    · rw [Int48_UnmarshalBinary_len r data h]; exact ih
theorem MustUint48_in (v : Nat) (hhi : v ≤ 2 ^ 48 - 1) :
    MustUint48 v = .ret ⟨v⟩ := by
  rw [MustUint48, if_neg (by omega)]

theorem MustUint48_out (v : Nat) (h : ¬ (v ≤ 2 ^ 48 - 1)) :
    MustUint48 v = .panic (.text "value exceeds maximum for Uint48") := by
  rw [MustUint48, if_pos (by omega)]

theorem Uint48_UnmarshalBinary_ok (r : Uint48) (data : List Byte) (h : data.length = 6) :
    Uint48.UnmarshalBinary r data = FromUint48Bytes data := by
  obtain ⟨v, hv, _⟩ := FromUint48Bytes_range data h
  unfold Uint48.UnmarshalBinary
  simp only [hv]

theorem Uint48_UnmarshalBinary_len (r : Uint48) (data : List Byte) (h : data.length ≠ 6) :
    Uint48.UnmarshalBinary r data = (r, some .ErrInt48InvalidByteLength) := by
  unfold Uint48.UnmarshalBinary
  simp only [FromUint48Bytes_len data h]

/-- What `UnmarshalJSON` returns: an error with the receiver as it was, or a nil error with an
in-range value. -/
theorem Uint48_UnmarshalJSON_result (r : Uint48) (data : List Byte) (r1 : Uint48) (err : Option GoError)
    (hr : Uint48.UnmarshalJSON r data = .ret (r1, err)) :
    (err ≠ none ∧ r1 = r) ∨ (err = none ∧ ∃ v : Nat, (v ≤ 2 ^ 48 - 1) ∧ r1 = ⟨v⟩) := by
  by_cases h1 : data = []
  · subst h1
    rw [Uint48_UnmarshalJSON_nil] at hr
    simp only [Run.ret.injEq, Prod.mk.injEq] at hr
    exact Or.inl ⟨by rw [← hr.2]; simp, hr.1.symm⟩
  · by_cases h2 : data = [0x22]
    · subst h2
      rw [Uint48_UnmarshalJSON_quote] at hr
      exact absurd hr (by simp)
    · rcases hp : strconv.ParseUint (quoteStripped data) with ⟨v, _ | perr⟩
      · by_cases h : v ≤ 2 ^ 48 - 1
        · rw [Uint48_UnmarshalJSON_parse_in r data v h1 h2 hp h] at hr
          simp only [Run.ret.injEq, Prod.mk.injEq] at hr
          exact Or.inr ⟨hr.2.symm, v, h, hr.1.symm⟩
        · rw [Uint48_UnmarshalJSON_parse_out r data v h1 h2 hp h] at hr
          simp only [Run.ret.injEq, Prod.mk.injEq] at hr
          exact Or.inl ⟨by rw [← hr.2]; simp, hr.1.symm⟩
      · rw [Uint48_UnmarshalJSON_parse_err r data v perr h1 h2 hp] at hr
        simp only [Run.ret.injEq, Prod.mk.injEq] at hr
        exact Or.inl ⟨by rw [← hr.2]; simp, hr.1.symm⟩

theorem ReachableUint48_range (x : Uint48) (h : ReachableUint48 x) :
    x.value ≤ 2 ^ 48 - 1 := by
  induction h with
  | zero => simp
  | new v =>
    by_cases h : v ≤ 2 ^ 48 - 1
    · rw [NewUint48_in v h]; exact h
    · rw [NewUint48_out v h]; simp
  | must v x hm =>
    by_cases h : v ≤ 2 ^ 48 - 1
    · rw [MustUint48_in v h] at hm
      simp only [Run.ret.injEq] at hm
      rw [← hm]; exact h
    · rw [MustUint48_out v h] at hm
      exact absurd hm (by simp)
  | fromBytes b =>
    by_cases h : b.length = 6
    · obtain ⟨v, hv, hr⟩ := FromUint48Bytes_range b h
      rw [hv]; exact hr
    · rw [FromUint48Bytes_len b h]; simp
  | fromLittleEndianBytes b =>
    by_cases h : b.length = 6
    · obtain ⟨v, hv, hr⟩ := FromUint48LittleEndianBytes_range b h
      rw [hv]; exact hr
    · rw [FromUint48LittleEndianBytes_len b h]; simp
  | unmarshalJSON r data r1 err _ hu ih =>
    rcases Uint48_UnmarshalJSON_result r data r1 err hu with ⟨_, rfl⟩ | ⟨_, v, hv, rfl⟩
    · exact ih
    · exact hv
  | unmarshalBinary r data _ ih =>
    by_cases h : data.length = 6
    · obtain ⟨v, hv, hr⟩ := FromUint48Bytes_range data h
      rw [Uint48_UnmarshalBinary_ok r data h, hv]; exact hr
    · rw [Uint48_UnmarshalBinary_len r data h]; exact ih
theorem toUint64_bitNot_full_48 : toUint64 (bitNot (2 ^ 48 - 1)) = 2 ^ 64 - 2 ^ 48 := by
  decide

/-- The documented sign extension of a 48-bit pattern subtracts `2^48`. -/
theorem documentedSignExtend64_48 (m : Nat) (h : m < 2 ^ 48) :
    documentedSignExtend64 48 m = (m : Int) - 2 ^ 48 := by
  have hor := or_eq_add 48 (2 ^ 64 - 2 ^ 48) m (by decide) h
  unfold documentedSignExtend64 orInt64
  rw [toUint64_natCast m (by omega), toUint64_bitNot_full_48, Nat.lor_comm, hor]
  unfold toInt64
  omega

theorem bigEndianMagnitude_reverse_six (b : List Byte) (h : b.length = 6) :
    bigEndianMagnitude b.reverse = littleEndianMagnitude b := by
  obtain ⟨b0, b1, b2, b3, b4, b5, rfl⟩ := length_eq_six b h
  show bigEndianMagnitude [b5, b4, b3, b2, b1, b0] = _
  rw [bigEndianMagnitude_six, littleEndianMagnitude_six]

theorem FromInt48LittleEndianBytes_spec (b : List Byte) (h : b.length = 6) :
    FromInt48LittleEndianBytes b =
      (⟨if littleEndianMagnitude b < 2 ^ 47 then (littleEndianMagnitude b : Int)
        else (littleEndianMagnitude b : Int) - 2 ^ 48⟩, none) ∧
      littleEndianMagnitude b < 2 ^ 48 := by
  have h1 := FromInt48Bytes_spec b.reverse (by rw [List.length_reverse]; exact h)
  rw [bigEndianMagnitude_reverse_six b h] at h1
  rw [FromInt48LittleEndianBytes_reverse]
  exact h1

/-- Decoding then encoding gives back the bytes, for `Int48`. -/
theorem encodeDecode_Int48 (b0 b1 b2 b3 b4 b5 : Byte) :
    (FromInt48Bytes [b0, b1, b2, b3, b4, b5]).1.ToBytes = [b0, b1, b2, b3, b4, b5] := by
  have hs := FromInt48Bytes_eq b0 b1 b2 b3 b4 b5
  have hb := b0.isLt
  have hb1 := b1.isLt
  have hb2 := b2.isLt
  have hb3 := b3.isLt
  have hb4 := b4.isLt
  have hb5 := b5.isLt
  rw [hs]
  dsimp only
  by_cases h : b0.val < 128
  · rw [if_pos h, Int48_ToBytes_eq _ (by omega) (by omega)]
    simp only [List.cons.injEq, and_true]
    refine ⟨?_, ?_, ?_, ?_, ?_, ?_⟩ <;> (apply Fin.ext; rw [byte_val]; omega)
  · rw [if_neg h, Int48_ToBytes_eq _ (by omega) (by omega)]
    simp only [List.cons.injEq, and_true]
    refine ⟨?_, ?_, ?_, ?_, ?_, ?_⟩ <;> (apply Fin.ext; rw [byte_val]; omega)

/-- Decoding then encoding gives back the bytes, for `Uint48`. -/
theorem encodeDecode_Uint48 (b0 b1 b2 b3 b4 b5 : Byte) :
    (FromUint48Bytes [b0, b1, b2, b3, b4, b5]).1.ToBytes = [b0, b1, b2, b3, b4, b5] := by
  have hs := FromUint48Bytes_eq b0 b1 b2 b3 b4 b5
  have hb := b0.isLt
  have hb1 := b1.isLt
  have hb2 := b2.isLt
  have hb3 := b3.isLt
  have hb4 := b4.isLt
  have hb5 := b5.isLt
  rw [hs]
  dsimp only
  rw [Uint48_ToBytes_eq]
  simp only [List.cons.injEq, and_true]
  refine ⟨?_, ?_, ?_, ?_, ?_, ?_⟩ <;> (apply Fin.ext; rw [byte_val]; omega)
theorem encodeDecode_list_Int48 (b : List Byte) (h : b.length = 6) :
    (FromInt48Bytes b).1.ToBytes = b ∧
      (FromInt48LittleEndianBytes b).1.ToLittleEndianBytes = b := by
  obtain ⟨b0, b1, b2, b3, b4, b5, rfl⟩ := length_eq_six b h
  refine ⟨encodeDecode_Int48 b0 b1 b2 b3 b4 b5, ?_⟩
  rw [FromInt48LittleEndianBytes_eq]
  show ((FromInt48Bytes [b5, b4, b3, b2, b1, b0]).1.ToBytes).reverse = _
  rw [encodeDecode_Int48]
  rfl

theorem FromInt48Bytes_injective (b1 b2 : List Byte) (h1 : b1.length = 6) (h2 : b2.length = 6)
    (h : FromInt48Bytes b1 = FromInt48Bytes b2) : b1 = b2 := by
  rw [← (encodeDecode_list_Int48 b1 h1).1, ← (encodeDecode_list_Int48 b2 h2).1, h]

theorem FromInt48LittleEndianBytes_injective (b1 b2 : List Byte) (h1 : b1.length = 6)
    (h2 : b2.length = 6) (h : FromInt48LittleEndianBytes b1 = FromInt48LittleEndianBytes b2) :
    b1 = b2 := by
  rw [← (encodeDecode_list_Int48 b1 h1).2, ← (encodeDecode_list_Int48 b2 h2).2, h]
theorem encodeDecode_list_Uint48 (b : List Byte) (h : b.length = 6) :
    (FromUint48Bytes b).1.ToBytes = b ∧
      (FromUint48LittleEndianBytes b).1.ToLittleEndianBytes = b := by
  obtain ⟨b0, b1, b2, b3, b4, b5, rfl⟩ := length_eq_six b h
  refine ⟨encodeDecode_Uint48 b0 b1 b2 b3 b4 b5, ?_⟩
  rw [FromUint48LittleEndianBytes_eq]
  show ((FromUint48Bytes [b5, b4, b3, b2, b1, b0]).1.ToBytes).reverse = _
  rw [encodeDecode_Uint48]
  rfl

theorem FromUint48Bytes_injective (b1 b2 : List Byte) (h1 : b1.length = 6) (h2 : b2.length = 6)
    (h : FromUint48Bytes b1 = FromUint48Bytes b2) : b1 = b2 := by
  rw [← (encodeDecode_list_Uint48 b1 h1).1, ← (encodeDecode_list_Uint48 b2 h2).1, h]

theorem FromUint48LittleEndianBytes_injective (b1 b2 : List Byte) (h1 : b1.length = 6)
    (h2 : b2.length = 6) (h : FromUint48LittleEndianBytes b1 = FromUint48LittleEndianBytes b2) :
    b1 = b2 := by
  rw [← (encodeDecode_list_Uint48 b1 h1).2, ← (encodeDecode_list_Uint48 b2 h2).2, h]

/-! ### Width 56: constructors, binary unmarshalling, reachable values, sign bit -/
theorem MustInt56_in (v : Int) (hlo : -(2 ^ 55) ≤ v) (hhi : v ≤ 2 ^ 55 - 1) :
    MustInt56 v = .ret ⟨v⟩ := by
  rw [MustInt56, if_neg (by omega)]

theorem MustInt56_out (v : Int) (h : ¬ (-(2 ^ 55) ≤ v ∧ v ≤ 2 ^ 55 - 1)) :
    MustInt56 v = .panic (.text "value exceeds range for Int56") := by
  rw [MustInt56, if_pos (by omega)]

theorem Int56_UnmarshalBinary_ok (r : Int56) (data : List Byte) (h : data.length = 7) :
    Int56.UnmarshalBinary r data = FromInt56Bytes data := by
  obtain ⟨v, hv, _⟩ := FromInt56Bytes_range data h
  unfold Int56.UnmarshalBinary
  simp only [hv]

theorem Int56_UnmarshalBinary_len (r : Int56) (data : List Byte) (h : data.length ≠ 7) :
    Int56.UnmarshalBinary r data = (r, some .ErrInt56InvalidByteLength) := by
  unfold Int56.UnmarshalBinary
  simp only [FromInt56Bytes_len data h]

/-- What `UnmarshalJSON` returns: an error with the receiver as it was, or a nil error with an
in-range value. -/
theorem Int56_UnmarshalJSON_result (r : Int56) (data : List Byte) (r1 : Int56) (err : Option GoError)
    (hr : Int56.UnmarshalJSON r data = .ret (r1, err)) :
    (err ≠ none ∧ r1 = r) ∨ (err = none ∧ ∃ v : Int, (-(2 ^ 55) ≤ v ∧ v ≤ 2 ^ 55 - 1) ∧ r1 = ⟨v⟩) := by
  by_cases h1 : data = []
  · subst h1
    rw [Int56_UnmarshalJSON_nil] at hr
    simp only [Run.ret.injEq, Prod.mk.injEq] at hr
    exact Or.inl ⟨by rw [← hr.2]; simp, hr.1.symm⟩
  · by_cases h2 : data = [0x22]
    · subst h2
      rw [Int56_UnmarshalJSON_quote] at hr
      exact absurd hr (by simp)
    · rcases hp : strconv.ParseInt (quoteStripped data) with ⟨v, _ | perr⟩
      · by_cases h : -(2 ^ 55) ≤ v ∧ v ≤ 2 ^ 55 - 1
        · rw [Int56_UnmarshalJSON_parse_in r data v h1 h2 hp h.1 h.2] at hr
          simp only [Run.ret.injEq, Prod.mk.injEq] at hr
          exact Or.inr ⟨hr.2.symm, v, h, hr.1.symm⟩
        · rw [Int56_UnmarshalJSON_parse_out r data v h1 h2 hp h] at hr
          simp only [Run.ret.injEq, Prod.mk.injEq] at hr
          exact Or.inl ⟨by rw [← hr.2]; simp, hr.1.symm⟩
      · rw [Int56_UnmarshalJSON_parse_err r data v perr h1 h2 hp] at hr
        simp only [Run.ret.injEq, Prod.mk.injEq] at hr
        exact Or.inl ⟨by rw [← hr.2]; simp, hr.1.symm⟩

theorem ReachableInt56_range (x : Int56) (h : ReachableInt56 x) :
    -(2 ^ 55) ≤ x.value ∧ x.value ≤ 2 ^ 55 - 1 := by
  induction h with
  | zero => simp
  | new v =>
    by_cases h : -(2 ^ 55) ≤ v ∧ v ≤ 2 ^ 55 - 1
    · rw [NewInt56_in v h.1 h.2]; exact h
    · rw [NewInt56_out v h]; simp
  | must v x hm =>
    by_cases h : -(2 ^ 55) ≤ v ∧ v ≤ 2 ^ 55 - 1
    · rw [MustInt56_in v h.1 h.2] at hm
      simp only [Run.ret.injEq] at hm
      rw [← hm]; exact h
    · rw [MustInt56_out v h] at hm
      exact absurd hm (by simp)
  | fromBytes b =>
    by_cases h : b.length = 7
    · obtain ⟨v, hv, hr⟩ := FromInt56Bytes_range b h
      rw [hv]; exact hr
    · rw [FromInt56Bytes_len b h]; simp
  | fromLittleEndianBytes b =>
    by_cases h : b.length = 7
    · obtain ⟨v, hv, hr⟩ := FromInt56LittleEndianBytes_range b h
      rw [hv]; exact hr
    · rw [FromInt56LittleEndianBytes_len b h]; simp
  | unmarshalJSON r data r1 err _ hu ih =>
    rcases Int56_UnmarshalJSON_result r data r1 err hu with ⟨_, rfl⟩ | ⟨_, v, hv, rfl⟩
    · exact ih
    · exact hv
  | unmarshalBinary r data _ ih =>
    by_cases h : data.length = 7
    · obtain ⟨v, hv, hr⟩ := FromInt56Bytes_range data h
      rw [Int56_UnmarshalBinary_ok r data h, hv]; exact hr
    · rw [Int56_UnmarshalBinary_len r data h]; exact ih
theorem MustUint56_in (v : Nat) (hhi : v ≤ 2 ^ 56 - 1) :
    MustUint56 v = .ret ⟨v⟩ := by
  rw [MustUint56, if_neg (by omega)]

theorem MustUint56_out (v : Nat) (h : ¬ (v ≤ 2 ^ 56 - 1)) :
    MustUint56 v = .panic (.text "value exceeds maximum for Uint56") := by
  rw [MustUint56, if_pos (by omega)]

theorem Uint56_UnmarshalBinary_ok (r : Uint56) (data : List Byte) (h : data.length = 7) :
    Uint56.UnmarshalBinary r data = FromUint56Bytes data := by
  obtain ⟨v, hv, _⟩ := FromUint56Bytes_range data h
  unfold Uint56.UnmarshalBinary
  simp only [hv]

theorem Uint56_UnmarshalBinary_len (r : Uint56) (data : List Byte) (h : data.length ≠ 7) :
    Uint56.UnmarshalBinary r data = (r, some .ErrInt56InvalidByteLength) := by
  unfold Uint56.UnmarshalBinary
  simp only [FromUint56Bytes_len data h]

/-- What `UnmarshalJSON` returns: an error with the receiver as it was, or a nil error with an
in-range value. -/
theorem Uint56_UnmarshalJSON_result (r : Uint56) (data : List Byte) (r1 : Uint56) (err : Option GoError)
    (hr : Uint56.UnmarshalJSON r data = .ret (r1, err)) :
    (err ≠ none ∧ r1 = r) ∨ (err = none ∧ ∃ v : Nat, (v ≤ 2 ^ 56 - 1) ∧ r1 = ⟨v⟩) := by
  by_cases h1 : data = []
  · subst h1
    rw [Uint56_UnmarshalJSON_nil] at hr
    simp only [Run.ret.injEq, Prod.mk.injEq] at hr
    exact Or.inl ⟨by rw [← hr.2]; simp, hr.1.symm⟩
  · by_cases h2 : data = [0x22]
    · subst h2
      rw [Uint56_UnmarshalJSON_quote] at hr
      exact absurd hr (by simp)
    · rcases hp : strconv.ParseUint (quoteStripped data) with ⟨v, _ | perr⟩
      · by_cases h : v ≤ 2 ^ 56 - 1
        · rw [Uint56_UnmarshalJSON_parse_in r data v h1 h2 hp h] at hr
          simp only [Run.ret.injEq, Prod.mk.injEq] at hr
          exact Or.inr ⟨hr.2.symm, v, h, hr.1.symm⟩
        · rw [Uint56_UnmarshalJSON_parse_out r data v h1 h2 hp h] at hr
          simp only [Run.ret.injEq, Prod.mk.injEq] at hr
          exact Or.inl ⟨by rw [← hr.2]; simp, hr.1.symm⟩
      · rw [Uint56_UnmarshalJSON_parse_err r data v perr h1 h2 hp] at hr
        simp only [Run.ret.injEq, Prod.mk.injEq] at hr
        exact Or.inl ⟨by rw [← hr.2]; simp, hr.1.symm⟩

theorem ReachableUint56_range (x : Uint56) (h : ReachableUint56 x) :
    x.value ≤ 2 ^ 56 - 1 := by
  induction h with
  | zero => simp
  | new v =>
    by_cases h : v ≤ 2 ^ 56 - 1
    · rw [NewUint56_in v h]; exact h
    · rw [NewUint56_out v h]; simp
  | must v x hm =>
    by_cases h : v ≤ 2 ^ 56 - 1
    · rw [MustUint56_in v h] at hm
      simp only [Run.ret.injEq] at hm
      rw [← hm]; exact h
    · rw [MustUint56_out v h] at hm
      exact absurd hm (by simp)
  | fromBytes b =>
    by_cases h : b.length = 7
    · obtain ⟨v, hv, hr⟩ := FromUint56Bytes_range b h
      rw [hv]; exact hr
    · rw [FromUint56Bytes_len b h]; simp
  | fromLittleEndianBytes b =>
    by_cases h : b.length = 7
    · obtain ⟨v, hv, hr⟩ := FromUint56LittleEndianBytes_range b h
      rw [hv]; exact hr
    · rw [FromUint56LittleEndianBytes_len b h]; simp
  | unmarshalJSON r data r1 err _ hu ih =>
    rcases Uint56_UnmarshalJSON_result r data r1 err hu with ⟨_, rfl⟩ | ⟨_, v, hv, rfl⟩
    · exact ih
    · exact hv
  | unmarshalBinary r data _ ih =>
    by_cases h : data.length = 7
    · obtain ⟨v, hv, hr⟩ := FromUint56Bytes_range data h
      rw [Uint56_UnmarshalBinary_ok r data h, hv]; exact hr
    · rw [Uint56_UnmarshalBinary_len r data h]; exact ih
theorem toUint64_bitNot_full_56 : toUint64 (bitNot (2 ^ 56 - 1)) = 2 ^ 64 - 2 ^ 56 := by
  decide

/-- The documented sign extension of a 56-bit pattern subtracts `2^56`. -/
theorem documentedSignExtend64_56 (m : Nat) (h : m < 2 ^ 56) :
    documentedSignExtend64 56 m = (m : Int) - 2 ^ 56 := by
  have hor := or_eq_add 56 (2 ^ 64 - 2 ^ 56) m (by decide) h
  unfold documentedSignExtend64 orInt64
  rw [toUint64_natCast m (by omega), toUint64_bitNot_full_56, Nat.lor_comm, hor]
  unfold toInt64
  omega

theorem bigEndianMagnitude_reverse_seven (b : List Byte) (h : b.length = 7) :
    bigEndianMagnitude b.reverse = littleEndianMagnitude b := by
  obtain ⟨b0, b1, b2, b3, b4, b5, b6, rfl⟩ := length_eq_seven b h
  show bigEndianMagnitude [b6, b5, b4, b3, b2, b1, b0] = _
  rw [bigEndianMagnitude_seven, littleEndianMagnitude_seven]

theorem FromInt56LittleEndianBytes_spec (b : List Byte) (h : b.length = 7) :
    FromInt56LittleEndianBytes b =
      (⟨if littleEndianMagnitude b < 2 ^ 55 then (littleEndianMagnitude b : Int)
        else (littleEndianMagnitude b : Int) - 2 ^ 56⟩, none) ∧
      littleEndianMagnitude b < 2 ^ 56 := by
  have h1 := FromInt56Bytes_spec b.reverse (by rw [List.length_reverse]; exact h)
  rw [bigEndianMagnitude_reverse_seven b h] at h1
  rw [FromInt56LittleEndianBytes_reverse]
  exact h1

/-- Decoding then encoding gives back the bytes, for `Int56`. -/
theorem encodeDecode_Int56 (b0 b1 b2 b3 b4 b5 b6 : Byte) :
    (FromInt56Bytes [b0, b1, b2, b3, b4, b5, b6]).1.ToBytes = [b0, b1, b2, b3, b4, b5, b6] := by
  have hs := FromInt56Bytes_eq b0 b1 b2 b3 b4 b5 b6
  have hb := b0.isLt
  have hb1 := b1.isLt
  have hb2 := b2.isLt
  have hb3 := b3.isLt
  have hb4 := b4.isLt
  have hb5 := b5.isLt
  have hb6 := b6.isLt
  rw [hs]
  dsimp only
  by_cases h : b0.val < 128
  · rw [if_pos h, Int56_ToBytes_eq _ (by omega) (by omega)]
    simp only [List.cons.injEq, and_true]
    refine ⟨?_, ?_, ?_, ?_, ?_, ?_, ?_⟩ <;> (apply Fin.ext; rw [byte_val]; omega)
  · rw [if_neg h, Int56_ToBytes_eq _ (by omega) (by omega)]
    simp only [List.cons.injEq, and_true]
    refine ⟨?_, ?_, ?_, ?_, ?_, ?_, ?_⟩ <;> (apply Fin.ext; rw [byte_val]; omega)

/-- Decoding then encoding gives back the bytes, for `Uint56`. -/
theorem encodeDecode_Uint56 (b0 b1 b2 b3 b4 b5 b6 : Byte) :
    (FromUint56Bytes [b0, b1, b2, b3, b4, b5, b6]).1.ToBytes = [b0, b1, b2, b3, b4, b5, b6] := by
  have hs := FromUint56Bytes_eq b0 b1 b2 b3 b4 b5 b6
  have hb := b0.isLt
  have hb1 := b1.isLt
  have hb2 := b2.isLt
  have hb3 := b3.isLt
  have hb4 := b4.isLt
  have hb5 := b5.isLt
  have hb6 := b6.isLt
  rw [hs]
  dsimp only
  rw [Uint56_ToBytes_eq]
  simp only [List.cons.injEq, and_true]
  refine ⟨?_, ?_, ?_, ?_, ?_, ?_, ?_⟩ <;> (apply Fin.ext; rw [byte_val]; omega)
theorem encodeDecode_list_Int56 (b : List Byte) (h : b.length = 7) :
    (FromInt56Bytes b).1.ToBytes = b ∧
      (FromInt56LittleEndianBytes b).1.ToLittleEndianBytes = b := by
  obtain ⟨b0, b1, b2, b3, b4, b5, b6, rfl⟩ := length_eq_seven b h
  refine ⟨encodeDecode_Int56 b0 b1 b2 b3 b4 b5 b6, ?_⟩
  rw [FromInt56LittleEndianBytes_eq]
  show ((FromInt56Bytes [b6, b5, b4, b3, b2, b1, b0]).1.ToBytes).reverse = _
  rw [encodeDecode_Int56]
  rfl

theorem FromInt56Bytes_injective (b1 b2 : List Byte) (h1 : b1.length = 7) (h2 : b2.length = 7)
    (h : FromInt56Bytes b1 = FromInt56Bytes b2) : b1 = b2 := by
  rw [← (encodeDecode_list_Int56 b1 h1).1, ← (encodeDecode_list_Int56 b2 h2).1, h]

theorem FromInt56LittleEndianBytes_injective (b1 b2 : List Byte) (h1 : b1.length = 7)
    (h2 : b2.length = 7) (h : FromInt56LittleEndianBytes b1 = FromInt56LittleEndianBytes b2) :
    b1 = b2 := by
  rw [← (encodeDecode_list_Int56 b1 h1).2, ← (encodeDecode_list_Int56 b2 h2).2, h]
theorem encodeDecode_list_Uint56 (b : List Byte) (h : b.length = 7) :
    (FromUint56Bytes b).1.ToBytes = b ∧
      (FromUint56LittleEndianBytes b).1.ToLittleEndianBytes = b := by
  obtain ⟨b0, b1, b2, b3, b4, b5, b6, rfl⟩ := length_eq_seven b h
  refine ⟨encodeDecode_Uint56 b0 b1 b2 b3 b4 b5 b6, ?_⟩
  rw [FromUint56LittleEndianBytes_eq]
  show ((FromUint56Bytes [b6, b5, b4, b3, b2, b1, b0]).1.ToBytes).reverse = _
  rw [encodeDecode_Uint56]
  rfl

theorem FromUint56Bytes_injective (b1 b2 : List Byte) (h1 : b1.length = 7) (h2 : b2.length = 7)
    (h : FromUint56Bytes b1 = FromUint56Bytes b2) : b1 = b2 := by
  rw [← (encodeDecode_list_Uint56 b1 h1).1, ← (encodeDecode_list_Uint56 b2 h2).1, h]

theorem FromUint56LittleEndianBytes_injective (b1 b2 : List Byte) (h1 : b1.length = 7)
    (h2 : b2.length = 7) (h : FromUint56LittleEndianBytes b1 = FromUint56LittleEndianBytes b2) :
    b1 = b2 := by
  rw [← (encodeDecode_list_Uint56 b1 h1).2, ← (encodeDecode_list_Uint56 b2 h2).2, h]

/-! ### Width 24: the sign bit of the wire format -/

theorem Int24_ToBytes_head_sign (v : Int) (hlo : -(2 ^ 23) ≤ v) (hhi : v ≤ 2 ^ 23 - 1) :
    ∃ c, (Int24.mk v).ToBytes.head? = some c ∧ (c.val &&& 0x80 ≠ 0 ↔ v < 0) := by
  rw [Int24_ToBytes_eq v hlo hhi]
  refine ⟨_, rfl, ?_⟩
  rw [byte_and_0x80, byte_val]
  omega

theorem Int24_ToLittleEndianBytes_last_sign (v : Int) (hlo : -(2 ^ 23) ≤ v)
    (hhi : v ≤ 2 ^ 23 - 1) :
    ∃ c, (Int24.mk v).ToLittleEndianBytes.getLast? = some c ∧ (c.val &&& 0x80 ≠ 0 ↔ v < 0) := by
  show ∃ c, ((Int24.mk v).ToBytes.reverse).getLast? = some c ∧ (c.val &&& 0x80 ≠ 0 ↔ v < 0)
  rw [List.getLast?_reverse]
  exact Int24_ToBytes_head_sign v hlo hhi

theorem FromInt24Bytes_neg_iff (b : List Byte) (h : b.length = 3) :
    (FromInt24Bytes b).1.Int64 < 0 ↔ ∃ c, b.head? = some c ∧ c.val &&& 0x80 ≠ 0 := by
  obtain ⟨b0, b1, b2, rfl⟩ := length_eq_three b h
  have hb0 := b0.isLt
  have hb1 := b1.isLt
  have hb2 := b2.isLt
  have hs := byte_and_0x80 b0
  rw [FromInt24Bytes_eq]
  dsimp only
  by_cases hb : b0.val < 128
  · rw [if_pos hb, Int24_Int64_mk _ (by omega) (by omega)]
    constructor
    · intro hneg; omega
    · rintro ⟨c, hc, hcs⟩
      simp only [List.head?_cons, Option.some.injEq] at hc
      subst hc
      rw [hs] at hcs
      omega
  · rw [if_neg hb, Int24_Int64_mk _ (by omega) (by omega)]
    constructor
    · intro _
      exact ⟨b0, rfl, hs.mpr (by omega)⟩
    · intro _
      omega

theorem FromInt24LittleEndianBytes_neg_iff (b : List Byte) (h : b.length = 3) :
    (FromInt24LittleEndianBytes b).1.Int64 < 0 ↔ ∃ c, b.getLast? = some c ∧ c.val &&& 0x80 ≠ 0 := by
  rw [FromInt24LittleEndianBytes_reverse,
    FromInt24Bytes_neg_iff b.reverse (by rw [List.length_reverse]; exact h), List.head?_reverse]

/-- A payload that `Int24.UnmarshalJSON` accepts holds, enclosing quotes removed, a decimal
integer of the native width. -/
theorem Int24_UnmarshalJSON_accepts (r : Int24) (data : List Byte) (r1 : Int24)
    (hr : Int24.UnmarshalJSON r data = .ret (r1, none)) :
    isDecimalInt64 (quoteStripped data) = true := by
  have h1 : data ≠ [] := by
    intro h; subst h; rw [Int24_UnmarshalJSON_nil] at hr; simp at hr
  have h2 : data ≠ [0x22] := by
    intro h; subst h; rw [Int24_UnmarshalJSON_quote] at hr; simp at hr
  by_contra hf
  have hf1 : isDecimalInt64 (quoteStripped data) = false := by simpa using hf
  obtain ⟨v, e, hp⟩ := strconv.ParseInt_not_decimal _ hf1
  rw [Int24_UnmarshalJSON_parse_err r data v _ h1 h2 hp] at hr
  simp at hr

/-- A payload that `Uint24.UnmarshalJSON` accepts holds, enclosing quotes removed, a decimal
integer of the native width. -/
theorem Uint24_UnmarshalJSON_accepts (r : Uint24) (data : List Byte) (r1 : Uint24)
    (hr : Uint24.UnmarshalJSON r data = .ret (r1, none)) :
    isDecimalUint64 (quoteStripped data) = true := by
  have h1 : data ≠ [] := by
    intro h; subst h; rw [Uint24_UnmarshalJSON_nil] at hr; simp at hr
  have h2 : data ≠ [0x22] := by
    intro h; subst h; rw [Uint24_UnmarshalJSON_quote] at hr; simp at hr
  by_contra hf
  have hf1 : isDecimalUint64 (quoteStripped data) = false := by simpa using hf
  obtain ⟨v, e, hp⟩ := strconv.ParseUint_not_decimal _ hf1
  rw [Uint24_UnmarshalJSON_parse_err r data v _ h1 h2 hp] at hr
  simp at hr

/-! ### Width 40: the sign bit of the wire format -/

theorem Int40_ToBytes_head_sign (v : Int) (hlo : -(2 ^ 39) ≤ v) (hhi : v ≤ 2 ^ 39 - 1) :
    ∃ c, (Int40.mk v).ToBytes.head? = some c ∧ (c.val &&& 0x80 ≠ 0 ↔ v < 0) := by
  rw [Int40_ToBytes_eq v hlo hhi]
  refine ⟨_, rfl, ?_⟩
  rw [byte_and_0x80, byte_val]
  omega

theorem Int40_ToLittleEndianBytes_last_sign (v : Int) (hlo : -(2 ^ 39) ≤ v)
    (hhi : v ≤ 2 ^ 39 - 1) :
    ∃ c, (Int40.mk v).ToLittleEndianBytes.getLast? = some c ∧ (c.val &&& 0x80 ≠ 0 ↔ v < 0) := by
  show ∃ c, ((Int40.mk v).ToBytes.reverse).getLast? = some c ∧ (c.val &&& 0x80 ≠ 0 ↔ v < 0)
  rw [List.getLast?_reverse]
  exact Int40_ToBytes_head_sign v hlo hhi

theorem FromInt40Bytes_neg_iff (b : List Byte) (h : b.length = 5) :
    (FromInt40Bytes b).1.Int64 < 0 ↔ ∃ c, b.head? = some c ∧ c.val &&& 0x80 ≠ 0 := by
  obtain ⟨b0, b1, b2, b3, b4, rfl⟩ := length_eq_five b h
  have hb0 := b0.isLt
  have hb1 := b1.isLt
  have hb2 := b2.isLt
  have hb3 := b3.isLt
  have hb4 := b4.isLt
  have hs := byte_and_0x80 b0
  rw [FromInt40Bytes_eq]
  dsimp only
  by_cases hb : b0.val < 128
  · rw [if_pos hb, Int40_Int64_mk _ (by omega) (by omega)]
    constructor
    · intro hneg; omega
    · rintro ⟨c, hc, hcs⟩
      simp only [List.head?_cons, Option.some.injEq] at hc
      subst hc
      rw [hs] at hcs
      omega
  · rw [if_neg hb, Int40_Int64_mk _ (by omega) (by omega)]
    constructor
    · intro _
      exact ⟨b0, rfl, hs.mpr (by omega)⟩
    · intro _
      omega

theorem FromInt40LittleEndianBytes_neg_iff (b : List Byte) (h : b.length = 5) :
    (FromInt40LittleEndianBytes b).1.Int64 < 0 ↔ ∃ c, b.getLast? = some c ∧ c.val &&& 0x80 ≠ 0 := by
  rw [FromInt40LittleEndianBytes_reverse,
    FromInt40Bytes_neg_iff b.reverse (by rw [List.length_reverse]; exact h), List.head?_reverse]

/-- A payload that `Int40.UnmarshalJSON` accepts holds, enclosing quotes removed, a decimal
integer of the native width. -/
theorem Int40_UnmarshalJSON_accepts (r : Int40) (data : List Byte) (r1 : Int40)
    (hr : Int40.UnmarshalJSON r data = .ret (r1, none)) :
    isDecimalInt64 (quoteStripped data) = true := by
  have h1 : data ≠ [] := by
    intro h; subst h; rw [Int40_UnmarshalJSON_nil] at hr; simp at hr
  have h2 : data ≠ [0x22] := by
    intro h; subst h; rw [Int40_UnmarshalJSON_quote] at hr; simp at hr
  by_contra hf
  have hf1 : isDecimalInt64 (quoteStripped data) = false := by simpa using hf
  obtain ⟨v, e, hp⟩ := strconv.ParseInt_not_decimal _ hf1
  rw [Int40_UnmarshalJSON_parse_err r data v _ h1 h2 hp] at hr
  simp at hr

/-- A payload that `Uint40.UnmarshalJSON` accepts holds, enclosing quotes removed, a decimal
integer of the native width. -/
theorem Uint40_UnmarshalJSON_accepts (r : Uint40) (data : List Byte) (r1 : Uint40)
    (hr : Uint40.UnmarshalJSON r data = .ret (r1, none)) :
    isDecimalUint64 (quoteStripped data) = true := by
  have h1 : data ≠ [] := by
    intro h; subst h; rw [Uint40_UnmarshalJSON_nil] at hr; simp at hr
  have h2 : data ≠ [0x22] := by
    intro h; subst h; rw [Uint40_UnmarshalJSON_quote] at hr; simp at hr
  by_contra hf
  have hf1 : isDecimalUint64 (quoteStripped data) = false := by simpa using hf
  obtain ⟨v, e, hp⟩ := strconv.ParseUint_not_decimal _ hf1
  rw [Uint40_UnmarshalJSON_parse_err r data v _ h1 h2 hp] at hr
  simp at hr

/-! ### Width 48: the sign bit of the wire format -/

theorem Int48_ToBytes_head_sign (v : Int) (hlo : -(2 ^ 47) ≤ v) (hhi : v ≤ 2 ^ 47 - 1) :
    ∃ c, (Int48.mk v).ToBytes.head? = some c ∧ (c.val &&& 0x80 ≠ 0 ↔ v < 0) := by
  rw [Int48_ToBytes_eq v hlo hhi]
  refine ⟨_, rfl, ?_⟩
  rw [byte_and_0x80, byte_val]
  omega

theorem Int48_ToLittleEndianBytes_last_sign (v : Int) (hlo : -(2 ^ 47) ≤ v)
    (hhi : v ≤ 2 ^ 47 - 1) :
    ∃ c, (Int48.mk v).ToLittleEndianBytes.getLast? = some c ∧ (c.val &&& 0x80 ≠ 0 ↔ v < 0) := by
  show ∃ c, ((Int48.mk v).ToBytes.reverse).getLast? = some c ∧ (c.val &&& 0x80 ≠ 0 ↔ v < 0)
  rw [List.getLast?_reverse]
  exact Int48_ToBytes_head_sign v hlo hhi

theorem FromInt48Bytes_neg_iff (b : List Byte) (h : b.length = 6) :
    (FromInt48Bytes b).1.Int64 < 0 ↔ ∃ c, b.head? = some c ∧ c.val &&& 0x80 ≠ 0 := by
  obtain ⟨b0, b1, b2, b3, b4, b5, rfl⟩ := length_eq_six b h
  have hb0 := b0.isLt
  have hb1 := b1.isLt
  have hb2 := b2.isLt
  have hb3 := b3.isLt
  have hb4 := b4.isLt
  have hb5 := b5.isLt
  have hs := byte_and_0x80 b0
  rw [FromInt48Bytes_eq]
  dsimp only
  by_cases hb : b0.val < 128
  · rw [if_pos hb, Int48_Int64_mk _ (by omega) (by omega)]
    constructor
    · intro hneg; omega
    · rintro ⟨c, hc, hcs⟩
      simp only [List.head?_cons, Option.some.injEq] at hc
      subst hc
      rw [hs] at hcs
      omega
  · rw [if_neg hb, Int48_Int64_mk _ (by omega) (by omega)]
    constructor
    · intro _
      exact ⟨b0, rfl, hs.mpr (by omega)⟩
    · intro _
      omega

theorem FromInt48LittleEndianBytes_neg_iff (b : List Byte) (h : b.length = 6) :
    (FromInt48LittleEndianBytes b).1.Int64 < 0 ↔ ∃ c, b.getLast? = some c ∧ c.val &&& 0x80 ≠ 0 := by
  rw [FromInt48LittleEndianBytes_reverse,
    FromInt48Bytes_neg_iff b.reverse (by rw [List.length_reverse]; exact h), List.head?_reverse]

/-- A payload that `Int48.UnmarshalJSON` accepts holds, enclosing quotes removed, a decimal
integer of the native width. -/
theorem Int48_UnmarshalJSON_accepts (r : Int48) (data : List Byte) (r1 : Int48)
    (hr : Int48.UnmarshalJSON r data = .ret (r1, none)) :
    isDecimalInt64 (quoteStripped data) = true := by
  have h1 : data ≠ [] := by
    intro h; subst h; rw [Int48_UnmarshalJSON_nil] at hr; simp at hr
  have h2 : data ≠ [0x22] := by
    intro h; subst h; rw [Int48_UnmarshalJSON_quote] at hr; simp at hr
  by_contra hf
  have hf1 : isDecimalInt64 (quoteStripped data) = false := by simpa using hf
  obtain ⟨v, e, hp⟩ := strconv.ParseInt_not_decimal _ hf1
  rw [Int48_UnmarshalJSON_parse_err r data v _ h1 h2 hp] at hr
  simp at hr

/-- A payload that `Uint48.UnmarshalJSON` accepts holds, enclosing quotes removed, a decimal
integer of the native width. -/
theorem Uint48_UnmarshalJSON_accepts (r : Uint48) (data : List Byte) (r1 : Uint48)
    (hr : Uint48.UnmarshalJSON r data = .ret (r1, none)) :
    isDecimalUint64 (quoteStripped data) = true := by
  have h1 : data ≠ [] := by
    intro h; subst h; rw [Uint48_UnmarshalJSON_nil] at hr; simp at hr
  have h2 : data ≠ [0x22] := by
    intro h; subst h; rw [Uint48_UnmarshalJSON_quote] at hr; simp at hr
  by_contra hf
  have hf1 : isDecimalUint64 (quoteStripped data) = false := by simpa using hf
  obtain ⟨v, e, hp⟩ := strconv.ParseUint_not_decimal _ hf1
  rw [Uint48_UnmarshalJSON_parse_err r data v _ h1 h2 hp] at hr
  simp at hr

/-! ### Width 56: the sign bit of the wire format -/

theorem Int56_ToBytes_head_sign (v : Int) (hlo : -(2 ^ 55) ≤ v) (hhi : v ≤ 2 ^ 55 - 1) :
    ∃ c, (Int56.mk v).ToBytes.head? = some c ∧ (c.val &&& 0x80 ≠ 0 ↔ v < 0) := by
  rw [Int56_ToBytes_eq v hlo hhi]
  refine ⟨_, rfl, ?_⟩
  rw [byte_and_0x80, byte_val]
  omega

theorem Int56_ToLittleEndianBytes_last_sign (v : Int) (hlo : -(2 ^ 55) ≤ v)
    (hhi : v ≤ 2 ^ 55 - 1) :
    ∃ c, (Int56.mk v).ToLittleEndianBytes.getLast? = some c ∧ (c.val &&& 0x80 ≠ 0 ↔ v < 0) := by
  show ∃ c, ((Int56.mk v).ToBytes.reverse).getLast? = some c ∧ (c.val &&& 0x80 ≠ 0 ↔ v < 0)
  rw [List.getLast?_reverse]
  exact Int56_ToBytes_head_sign v hlo hhi

theorem FromInt56Bytes_neg_iff (b : List Byte) (h : b.length = 7) :
    (FromInt56Bytes b).1.Int64 < 0 ↔ ∃ c, b.head? = some c ∧ c.val &&& 0x80 ≠ 0 := by
  obtain ⟨b0, b1, b2, b3, b4, b5, b6, rfl⟩ := length_eq_seven b h
  have hb0 := b0.isLt
  have hb1 := b1.isLt
  have hb2 := b2.isLt
  have hb3 := b3.isLt
  have hb4 := b4.isLt
  have hb5 := b5.isLt
  have hb6 := b6.isLt
  have hs := byte_and_0x80 b0
  rw [FromInt56Bytes_eq]
  dsimp only
  by_cases hb : b0.val < 128
  · rw [if_pos hb, Int56_Int64_mk _ (by omega) (by omega)]
    constructor
    · intro hneg; omega
    · rintro ⟨c, hc, hcs⟩
      simp only [List.head?_cons, Option.some.injEq] at hc
      subst hc
      rw [hs] at hcs
      omega
  · rw [if_neg hb, Int56_Int64_mk _ (by omega) (by omega)]
    constructor
    · intro _
      exact ⟨b0, rfl, hs.mpr (by omega)⟩
    · intro _
      omega

theorem FromInt56LittleEndianBytes_neg_iff (b : List Byte) (h : b.length = 7) :
    (FromInt56LittleEndianBytes b).1.Int64 < 0 ↔ ∃ c, b.getLast? = some c ∧ c.val &&& 0x80 ≠ 0 := by
  rw [FromInt56LittleEndianBytes_reverse,
    FromInt56Bytes_neg_iff b.reverse (by rw [List.length_reverse]; exact h), List.head?_reverse]

/-- A payload that `Int56.UnmarshalJSON` accepts holds, enclosing quotes removed, a decimal
integer of the native width. -/
theorem Int56_UnmarshalJSON_accepts (r : Int56) (data : List Byte) (r1 : Int56)
    (hr : Int56.UnmarshalJSON r data = .ret (r1, none)) :
    isDecimalInt64 (quoteStripped data) = true := by
  have h1 : data ≠ [] := by
    intro h; subst h; rw [Int56_UnmarshalJSON_nil] at hr; simp at hr
  have h2 : data ≠ [0x22] := by
    intro h; subst h; rw [Int56_UnmarshalJSON_quote] at hr; simp at hr
  by_contra hf
  have hf1 : isDecimalInt64 (quoteStripped data) = false := by simpa using hf
  obtain ⟨v, e, hp⟩ := strconv.ParseInt_not_decimal _ hf1
  rw [Int56_UnmarshalJSON_parse_err r data v _ h1 h2 hp] at hr
  simp at hr

/-- A payload that `Uint56.UnmarshalJSON` accepts holds, enclosing quotes removed, a decimal
integer of the native width. -/
theorem Uint56_UnmarshalJSON_accepts (r : Uint56) (data : List Byte) (r1 : Uint56)
    (hr : Uint56.UnmarshalJSON r data = .ret (r1, none)) :
    isDecimalUint64 (quoteStripped data) = true := by
  have h1 : data ≠ [] := by
    intro h; subst h; rw [Uint56_UnmarshalJSON_nil] at hr; simp at hr
  have h2 : data ≠ [0x22] := by
    intro h; subst h; rw [Uint56_UnmarshalJSON_quote] at hr; simp at hr
  by_contra hf
  have hf1 : isDecimalUint64 (quoteStripped data) = false := by simpa using hf
  obtain ⟨v, e, hp⟩ := strconv.ParseUint_not_decimal _ hf1
  rw [Uint56_UnmarshalJSON_parse_err r data v _ h1 h2 hp] at hr
  simp at hr

/-! ## Lexicographic order and magnitude -/

theorem bigEndianMagnitude_lt (xs : List Byte) : bigEndianMagnitude xs < 256 ^ xs.length := by
  induction xs with
  | nil => simp [bigEndianMagnitude]
  | cons x xs ih =>
    have hx := x.isLt
    have h1 : (x.val + 1) * 256 ^ xs.length ≤ 256 * 256 ^ xs.length :=
      Nat.mul_le_mul_right _ (by omega)
    rw [Nat.add_mul, Nat.one_mul] at h1
    simp only [bigEndianMagnitude, List.length_cons, Nat.pow_succ]
    omega

theorem lexLess_iff_magnitude (xs : List Byte) :
    ∀ ys : List Byte, xs.length = ys.length →
      (lexLess xs ys = true ↔ bigEndianMagnitude xs < bigEndianMagnitude ys) := by
  induction xs with
  | nil =>
    intro ys h
    rcases ys with _ | ⟨y, ys⟩
    · simp [lexLess, bigEndianMagnitude]
    · simp at h
  | cons x xs ih =>
    intro ys h
    rcases ys with _ | ⟨y, ys⟩
    · simp at h
    · have hl : xs.length = ys.length := by simpa using h
      have hx := bigEndianMagnitude_lt xs
      have hy := bigEndianMagnitude_lt ys
      rw [hl] at hx
      have ih1 := ih ys hl
      simp only [lexLess, bigEndianMagnitude, Bool.or_eq_true, Bool.and_eq_true,
        decide_eq_true_eq, ih1, hl]
      constructor
      · rintro (hlt | ⟨heq, hm⟩)
        · have h1 : (x.val + 1) * 256 ^ ys.length ≤ y.val * 256 ^ ys.length :=
            Nat.mul_le_mul_right _ hlt
          rw [Nat.add_mul, Nat.one_mul] at h1
          omega
        · rw [heq]; omega
      · intro hm
        by_cases hlt : x.val < y.val
        · exact Or.inl hlt
        · by_cases heq : x.val = y.val
          · rw [heq] at hm
            exact Or.inr ⟨heq, by omega⟩
          · have h1 : (y.val + 1) * 256 ^ ys.length ≤ x.val * 256 ^ ys.length :=
              Nat.mul_le_mul_right _ (by omega)
            rw [Nat.add_mul, Nat.one_mul] at h1
            omega

/-! ### Order of the unsigned encodings -/

theorem Uint24_magnitude_ToBytes (v : Nat) (hhi : v ≤ 2 ^ 24 - 1) :
    bigEndianMagnitude (Uint24.mk v).ToBytes = v := by
  have h1 := roundTrip_Uint24 v hhi
  have h2 := (FromUint24Bytes_spec (Uint24.mk v).ToBytes rfl).1
  rw [h1] at h2
  simp only [Prod.mk.injEq, Uint24.mk.injEq, and_true] at h2
  exact h2.symm

theorem Uint24_ToBytes_length (x : Uint24) : x.ToBytes.length = 3 := rfl

theorem Uint24_ToBytes_order (u v : Nat) (hu : u ≤ 2 ^ 24 - 1) (hv : v ≤ 2 ^ 24 - 1) :
    u < v ↔ lexLess (Uint24.mk u).ToBytes (Uint24.mk v).ToBytes = true :=
  ⟨fun h => (lexLess_iff_magnitude _ _
      ((Uint24_ToBytes_length ⟨u⟩).trans (Uint24_ToBytes_length ⟨v⟩).symm)).mpr
      ((Uint24_magnitude_ToBytes u hu).trans_lt (h.trans_eq (Uint24_magnitude_ToBytes v hv).symm)),
   fun h => (Uint24_magnitude_ToBytes u hu).symm.trans_lt
      (((lexLess_iff_magnitude _ _
        ((Uint24_ToBytes_length ⟨u⟩).trans (Uint24_ToBytes_length ⟨v⟩).symm)).mp h).trans_eq
        (Uint24_magnitude_ToBytes v hv))⟩

theorem Uint24_order_New (u v : Nat) (hu : (NewUint24 u).2 = none) (hv : (NewUint24 v).2 = none) :
    (NewUint24 u).1.Uint64 < (NewUint24 v).1.Uint64 ↔
      lexLess (NewUint24 u).1.ToBytes (NewUint24 v).1.ToBytes = true := by
  have hu1 := (NewUint24_ok_iff u).mp hu
  have hv1 := (NewUint24_ok_iff v).mp hv
  have eu : (NewUint24 u).1 = ⟨u⟩ := congrArg Prod.fst (NewUint24_in u hu1)
  have ev : (NewUint24 v).1 = ⟨v⟩ := congrArg Prod.fst (NewUint24_in v hv1)
  have au : (NewUint24 u).1.Uint64 = u := (congrArg Uint24.Uint64 eu).trans (Uint24_Uint64_mk u hu1)
  have av : (NewUint24 v).1.Uint64 = v := (congrArg Uint24.Uint64 ev).trans (Uint24_Uint64_mk v hv1)
  have bu : (NewUint24 u).1.ToBytes = (Uint24.mk u).ToBytes := congrArg Uint24.ToBytes eu
  have bv : (NewUint24 v).1.ToBytes = (Uint24.mk v).ToBytes := congrArg Uint24.ToBytes ev
  have key := Uint24_ToBytes_order u v hu1 hv1
  exact ⟨fun h => (congrArg₂ lexLess bu bv).trans (key.mp (au.symm.trans_lt (h.trans_eq av))),
    fun h => au.trans_lt ((key.mpr ((congrArg₂ lexLess bu bv).symm.trans h)).trans_eq av.symm)⟩

theorem Uint40_magnitude_ToBytes (v : Nat) (hhi : v ≤ 2 ^ 40 - 1) :
    bigEndianMagnitude (Uint40.mk v).ToBytes = v := by
  have h1 := roundTrip_Uint40 v hhi
  have h2 := (FromUint40Bytes_spec (Uint40.mk v).ToBytes rfl).1
  rw [h1] at h2
  simp only [Prod.mk.injEq, Uint40.mk.injEq, and_true] at h2
  exact h2.symm

theorem Uint40_ToBytes_length (x : Uint40) : x.ToBytes.length = 5 := rfl

theorem Uint40_ToBytes_order (u v : Nat) (hu : u ≤ 2 ^ 40 - 1) (hv : v ≤ 2 ^ 40 - 1) :
    u < v ↔ lexLess (Uint40.mk u).ToBytes (Uint40.mk v).ToBytes = true :=
  ⟨fun h => (lexLess_iff_magnitude _ _
      ((Uint40_ToBytes_length ⟨u⟩).trans (Uint40_ToBytes_length ⟨v⟩).symm)).mpr
      ((Uint40_magnitude_ToBytes u hu).trans_lt (h.trans_eq (Uint40_magnitude_ToBytes v hv).symm)),
   fun h => (Uint40_magnitude_ToBytes u hu).symm.trans_lt
      (((lexLess_iff_magnitude _ _
        ((Uint40_ToBytes_length ⟨u⟩).trans (Uint40_ToBytes_length ⟨v⟩).symm)).mp h).trans_eq
        (Uint40_magnitude_ToBytes v hv))⟩

theorem Uint40_order_New (u v : Nat) (hu : (NewUint40 u).2 = none) (hv : (NewUint40 v).2 = none) :
    (NewUint40 u).1.Uint64 < (NewUint40 v).1.Uint64 ↔
      lexLess (NewUint40 u).1.ToBytes (NewUint40 v).1.ToBytes = true := by
  have hu1 := (NewUint40_ok_iff u).mp hu
  have hv1 := (NewUint40_ok_iff v).mp hv
  have eu : (NewUint40 u).1 = ⟨u⟩ := congrArg Prod.fst (NewUint40_in u hu1)
  have ev : (NewUint40 v).1 = ⟨v⟩ := congrArg Prod.fst (NewUint40_in v hv1)
  have au : (NewUint40 u).1.Uint64 = u := (congrArg Uint40.Uint64 eu).trans (Uint40_Uint64_mk u hu1)
  have av : (NewUint40 v).1.Uint64 = v := (congrArg Uint40.Uint64 ev).trans (Uint40_Uint64_mk v hv1)
  have bu : (NewUint40 u).1.ToBytes = (Uint40.mk u).ToBytes := congrArg Uint40.ToBytes eu
  have bv : (NewUint40 v).1.ToBytes = (Uint40.mk v).ToBytes := congrArg Uint40.ToBytes ev
  have key := Uint40_ToBytes_order u v hu1 hv1
  exact ⟨fun h => (congrArg₂ lexLess bu bv).trans (key.mp (au.symm.trans_lt (h.trans_eq av))),
    fun h => au.trans_lt ((key.mpr ((congrArg₂ lexLess bu bv).symm.trans h)).trans_eq av.symm)⟩

theorem Uint48_magnitude_ToBytes (v : Nat) (hhi : v ≤ 2 ^ 48 - 1) :
    bigEndianMagnitude (Uint48.mk v).ToBytes = v := by
  have h1 := roundTrip_Uint48 v hhi
  have h2 := (FromUint48Bytes_spec (Uint48.mk v).ToBytes rfl).1
  rw [h1] at h2
  simp only [Prod.mk.injEq, Uint48.mk.injEq, and_true] at h2
  exact h2.symm

theorem Uint48_ToBytes_length (x : Uint48) : x.ToBytes.length = 6 := rfl

theorem Uint48_ToBytes_order (u v : Nat) (hu : u ≤ 2 ^ 48 - 1) (hv : v ≤ 2 ^ 48 - 1) :
    u < v ↔ lexLess (Uint48.mk u).ToBytes (Uint48.mk v).ToBytes = true :=
  ⟨fun h => (lexLess_iff_magnitude _ _
      ((Uint48_ToBytes_length ⟨u⟩).trans (Uint48_ToBytes_length ⟨v⟩).symm)).mpr
      ((Uint48_magnitude_ToBytes u hu).trans_lt (h.trans_eq (Uint48_magnitude_ToBytes v hv).symm)),
   fun h => (Uint48_magnitude_ToBytes u hu).symm.trans_lt
      (((lexLess_iff_magnitude _ _
        ((Uint48_ToBytes_length ⟨u⟩).trans (Uint48_ToBytes_length ⟨v⟩).symm)).mp h).trans_eq
        (Uint48_magnitude_ToBytes v hv))⟩

theorem Uint48_order_New (u v : Nat) (hu : (NewUint48 u).2 = none) (hv : (NewUint48 v).2 = none) :
    (NewUint48 u).1.Uint64 < (NewUint48 v).1.Uint64 ↔
      lexLess (NewUint48 u).1.ToBytes (NewUint48 v).1.ToBytes = true := by
  have hu1 := (NewUint48_ok_iff u).mp hu
  have hv1 := (NewUint48_ok_iff v).mp hv
  have eu : (NewUint48 u).1 = ⟨u⟩ := congrArg Prod.fst (NewUint48_in u hu1)
  have ev : (NewUint48 v).1 = ⟨v⟩ := congrArg Prod.fst (NewUint48_in v hv1)
  have au : (NewUint48 u).1.Uint64 = u := (congrArg Uint48.Uint64 eu).trans (Uint48_Uint64_mk u hu1)
  have av : (NewUint48 v).1.Uint64 = v := (congrArg Uint48.Uint64 ev).trans (Uint48_Uint64_mk v hv1)
  have bu : (NewUint48 u).1.ToBytes = (Uint48.mk u).ToBytes := congrArg Uint48.ToBytes eu
  have bv : (NewUint48 v).1.ToBytes = (Uint48.mk v).ToBytes := congrArg Uint48.ToBytes ev
  have key := Uint48_ToBytes_order u v hu1 hv1
  exact ⟨fun h => (congrArg₂ lexLess bu bv).trans (key.mp (au.symm.trans_lt (h.trans_eq av))),
    fun h => au.trans_lt ((key.mpr ((congrArg₂ lexLess bu bv).symm.trans h)).trans_eq av.symm)⟩

theorem Uint56_magnitude_ToBytes (v : Nat) (hhi : v ≤ 2 ^ 56 - 1) :
    bigEndianMagnitude (Uint56.mk v).ToBytes = v := by
  have h1 := roundTrip_Uint56 v hhi
  have h2 := (FromUint56Bytes_spec (Uint56.mk v).ToBytes rfl).1
  rw [h1] at h2
  simp only [Prod.mk.injEq, Uint56.mk.injEq, and_true] at h2
  exact h2.symm

theorem Uint56_ToBytes_length (x : Uint56) : x.ToBytes.length = 7 := rfl

theorem Uint56_ToBytes_order (u v : Nat) (hu : u ≤ 2 ^ 56 - 1) (hv : v ≤ 2 ^ 56 - 1) :
    u < v ↔ lexLess (Uint56.mk u).ToBytes (Uint56.mk v).ToBytes = true :=
  ⟨fun h => (lexLess_iff_magnitude _ _
      ((Uint56_ToBytes_length ⟨u⟩).trans (Uint56_ToBytes_length ⟨v⟩).symm)).mpr
      ((Uint56_magnitude_ToBytes u hu).trans_lt (h.trans_eq (Uint56_magnitude_ToBytes v hv).symm)),
   fun h => (Uint56_magnitude_ToBytes u hu).symm.trans_lt
      (((lexLess_iff_magnitude _ _
        ((Uint56_ToBytes_length ⟨u⟩).trans (Uint56_ToBytes_length ⟨v⟩).symm)).mp h).trans_eq
        (Uint56_magnitude_ToBytes v hv))⟩

theorem Uint56_order_New (u v : Nat) (hu : (NewUint56 u).2 = none) (hv : (NewUint56 v).2 = none) :
    (NewUint56 u).1.Uint64 < (NewUint56 v).1.Uint64 ↔
      lexLess (NewUint56 u).1.ToBytes (NewUint56 v).1.ToBytes = true := by
  have hu1 := (NewUint56_ok_iff u).mp hu
  have hv1 := (NewUint56_ok_iff v).mp hv
  have eu : (NewUint56 u).1 = ⟨u⟩ := congrArg Prod.fst (NewUint56_in u hu1)
  have ev : (NewUint56 v).1 = ⟨v⟩ := congrArg Prod.fst (NewUint56_in v hv1)
  have au : (NewUint56 u).1.Uint64 = u := (congrArg Uint56.Uint64 eu).trans (Uint56_Uint64_mk u hu1)
  have av : (NewUint56 v).1.Uint64 = v := (congrArg Uint56.Uint64 ev).trans (Uint56_Uint64_mk v hv1)
  have bu : (NewUint56 u).1.ToBytes = (Uint56.mk u).ToBytes := congrArg Uint56.ToBytes eu
  have bv : (NewUint56 v).1.ToBytes = (Uint56.mk v).ToBytes := congrArg Uint56.ToBytes ev
  have key := Uint56_ToBytes_order u v hu1 hv1
  exact ⟨fun h => (congrArg₂ lexLess bu bv).trans (key.mp (au.symm.trans_lt (h.trans_eq av))),
    fun h => au.trans_lt ((key.mpr ((congrArg₂ lexLess bu bv).symm.trans h)).trans_eq av.symm)⟩

/-! ## The properties -/

/-- C1: for each of the eight types and every native input `v`, `NewX v` returns a nil error exactly
when `v` lies between the minimum and the maximum of the type, and returns the type's own out-of-
range error for every other `v`; the maximum plus one and the minimum minus one are rejected. -/
theorem C1_New_succeeds_iff_in_range :
    (∀ v : Int, ((NewInt24 v).2 = none ↔ (-(2 ^ 23) ≤ v ∧ v ≤ 2 ^ 23 - 1)) ∧
      (¬ (-(2 ^ 23) ≤ v ∧ v ≤ 2 ^ 23 - 1) → NewInt24 v = (⟨0⟩, some GoError.ErrInt24OutOfRange))) ∧
    ((NewInt24 (2 ^ 23)).2 = some GoError.ErrInt24OutOfRange ∧ (NewInt24 (-(2 ^ 23) - 1)).2 = some GoError.ErrInt24OutOfRange) ∧
    (∀ v : Nat, ((NewUint24 v).2 = none ↔ (v ≤ 2 ^ 24 - 1)) ∧
      (¬ (v ≤ 2 ^ 24 - 1) → NewUint24 v = (⟨0⟩, some GoError.ErrUint24OutOfRange))) ∧
    ((NewUint24 (2 ^ 24)).2 = some GoError.ErrUint24OutOfRange) ∧
    (∀ v : Int, ((NewInt40 v).2 = none ↔ (-(2 ^ 39) ≤ v ∧ v ≤ 2 ^ 39 - 1)) ∧
      (¬ (-(2 ^ 39) ≤ v ∧ v ≤ 2 ^ 39 - 1) → NewInt40 v = (⟨0⟩, some GoError.ErrInt40OutOfRange))) ∧
    ((NewInt40 (2 ^ 39)).2 = some GoError.ErrInt40OutOfRange ∧ (NewInt40 (-(2 ^ 39) - 1)).2 = some GoError.ErrInt40OutOfRange) ∧
    (∀ v : Nat, ((NewUint40 v).2 = none ↔ (v ≤ 2 ^ 40 - 1)) ∧
      (¬ (v ≤ 2 ^ 40 - 1) → NewUint40 v = (⟨0⟩, some GoError.ErrUint40OutOfRange))) ∧
    ((NewUint40 (2 ^ 40)).2 = some GoError.ErrUint40OutOfRange) ∧
    (∀ v : Int, ((NewInt48 v).2 = none ↔ (-(2 ^ 47) ≤ v ∧ v ≤ 2 ^ 47 - 1)) ∧
      (¬ (-(2 ^ 47) ≤ v ∧ v ≤ 2 ^ 47 - 1) → NewInt48 v = (⟨0⟩, some GoError.ErrInt48OutOfRange))) ∧
    ((NewInt48 (2 ^ 47)).2 = some GoError.ErrInt48OutOfRange ∧ (NewInt48 (-(2 ^ 47) - 1)).2 = some GoError.ErrInt48OutOfRange) ∧
    (∀ v : Nat, ((NewUint48 v).2 = none ↔ (v ≤ 2 ^ 48 - 1)) ∧
      (¬ (v ≤ 2 ^ 48 - 1) → NewUint48 v = (⟨0⟩, some GoError.ErrUint48OutOfRange))) ∧
    ((NewUint48 (2 ^ 48)).2 = some GoError.ErrUint48OutOfRange) ∧
    (∀ v : Int, ((NewInt56 v).2 = none ↔ (-(2 ^ 55) ≤ v ∧ v ≤ 2 ^ 55 - 1)) ∧
      (¬ (-(2 ^ 55) ≤ v ∧ v ≤ 2 ^ 55 - 1) → NewInt56 v = (⟨0⟩, some GoError.ErrInt56OutOfRange))) ∧
    ((NewInt56 (2 ^ 55)).2 = some GoError.ErrInt56OutOfRange ∧ (NewInt56 (-(2 ^ 55) - 1)).2 = some GoError.ErrInt56OutOfRange) ∧
    (∀ v : Nat, ((NewUint56 v).2 = none ↔ (v ≤ 2 ^ 56 - 1)) ∧
      (¬ (v ≤ 2 ^ 56 - 1) → NewUint56 v = (⟨0⟩, some GoError.ErrUint56OutOfRange))) ∧
    ((NewUint56 (2 ^ 56)).2 = some GoError.ErrUint56OutOfRange) :=
  ⟨fun v => ⟨NewInt24_ok_iff v, NewInt24_out v⟩,
   ⟨by rw [NewInt24_out _ (by omega)], by rw [NewInt24_out _ (by omega)]⟩,
   fun v => ⟨NewUint24_ok_iff v, NewUint24_out v⟩,
   by rw [NewUint24_out _ (by omega)],
   fun v => ⟨NewInt40_ok_iff v, NewInt40_out v⟩,
   ⟨by rw [NewInt40_out _ (by omega)], by rw [NewInt40_out _ (by omega)]⟩,
   fun v => ⟨NewUint40_ok_iff v, NewUint40_out v⟩,
   by rw [NewUint40_out _ (by omega)],
   fun v => ⟨NewInt48_ok_iff v, NewInt48_out v⟩,
   ⟨by rw [NewInt48_out _ (by omega)], by rw [NewInt48_out _ (by omega)]⟩,
   fun v => ⟨NewUint48_ok_iff v, NewUint48_out v⟩,
   by rw [NewUint48_out _ (by omega)],
   fun v => ⟨NewInt56_ok_iff v, NewInt56_out v⟩,
   ⟨by rw [NewInt56_out _ (by omega)], by rw [NewInt56_out _ (by omega)]⟩,
   fun v => ⟨NewUint56_ok_iff v, NewUint56_out v⟩,
   by rw [NewUint56_out _ (by omega)]⟩

/-- Instances of `C1_New_succeeds_iff_in_range` at concrete inputs, one for each type. -/
theorem C1_New_succeeds_iff_in_range_witness :
    (NewInt24 8388613 = (⟨0⟩, some GoError.ErrInt24OutOfRange)) ∧
    (NewUint24 16777221 = (⟨0⟩, some GoError.ErrUint24OutOfRange)) ∧
    (NewInt40 549755813893 = (⟨0⟩, some GoError.ErrInt40OutOfRange)) ∧
    (NewUint40 1099511627781 = (⟨0⟩, some GoError.ErrUint40OutOfRange)) ∧
    (NewInt48 140737488355333 = (⟨0⟩, some GoError.ErrInt48OutOfRange)) ∧
    (NewUint48 281474976710661 = (⟨0⟩, some GoError.ErrUint48OutOfRange)) ∧
    (NewInt56 36028797018963973 = (⟨0⟩, some GoError.ErrInt56OutOfRange)) ∧
    (NewUint56 72057594037927941 = (⟨0⟩, some GoError.ErrUint56OutOfRange)) :=
  ⟨(C1_New_succeeds_iff_in_range.1 8388613).2 (by decide),
   (C1_New_succeeds_iff_in_range.2.2.1 16777221).2 (by decide),
   (C1_New_succeeds_iff_in_range.2.2.2.2.1 549755813893).2 (by decide),
   (C1_New_succeeds_iff_in_range.2.2.2.2.2.2.1 1099511627781).2 (by decide),
   (C1_New_succeeds_iff_in_range.2.2.2.2.2.2.2.2.1 140737488355333).2 (by decide),
   (C1_New_succeeds_iff_in_range.2.2.2.2.2.2.2.2.2.2.1 281474976710661).2 (by decide),
   (C1_New_succeeds_iff_in_range.2.2.2.2.2.2.2.2.2.2.2.2.1 36028797018963973).2 (by decide),
   (C1_New_succeeds_iff_in_range.2.2.2.2.2.2.2.2.2.2.2.2.2.2.1 72057594037927941).2 (by decide)⟩

/-- C2: big-endian round trip. For each of the eight types and every value `x` returned by a
successful `NewX`, `FromXBytes (x.ToBytes)` returns `x` with a nil error; this covers the negative
signed values and both ends of the range. -/
theorem C2_bigEndian_roundTrip :
    (∀ v : Int, (NewInt24 v).2 = none → FromInt24Bytes (NewInt24 v).1.ToBytes = ((NewInt24 v).1, none)) ∧
    (∀ v : Nat, (NewUint24 v).2 = none → FromUint24Bytes (NewUint24 v).1.ToBytes = ((NewUint24 v).1, none)) ∧
    (∀ v : Int, (NewInt40 v).2 = none → FromInt40Bytes (NewInt40 v).1.ToBytes = ((NewInt40 v).1, none)) ∧
    (∀ v : Nat, (NewUint40 v).2 = none → FromUint40Bytes (NewUint40 v).1.ToBytes = ((NewUint40 v).1, none)) ∧
    (∀ v : Int, (NewInt48 v).2 = none → FromInt48Bytes (NewInt48 v).1.ToBytes = ((NewInt48 v).1, none)) ∧
    (∀ v : Nat, (NewUint48 v).2 = none → FromUint48Bytes (NewUint48 v).1.ToBytes = ((NewUint48 v).1, none)) ∧
    (∀ v : Int, (NewInt56 v).2 = none → FromInt56Bytes (NewInt56 v).1.ToBytes = ((NewInt56 v).1, none)) ∧
    (∀ v : Nat, (NewUint56 v).2 = none → FromUint56Bytes (NewUint56 v).1.ToBytes = ((NewUint56 v).1, none)) :=
  ⟨fun v h => by obtain ⟨hlo, hhi⟩ := (NewInt24_ok_iff v).mp h; rw [NewInt24_in v hlo hhi]; exact roundTrip_Int24 v hlo hhi,
   fun v h => by have hhi := (NewUint24_ok_iff v).mp h; rw [NewUint24_in v hhi]; exact roundTrip_Uint24 v hhi,
   fun v h => by obtain ⟨hlo, hhi⟩ := (NewInt40_ok_iff v).mp h; rw [NewInt40_in v hlo hhi]; exact roundTrip_Int40 v hlo hhi,
   fun v h => by have hhi := (NewUint40_ok_iff v).mp h; rw [NewUint40_in v hhi]; exact roundTrip_Uint40 v hhi,
   fun v h => by obtain ⟨hlo, hhi⟩ := (NewInt48_ok_iff v).mp h; rw [NewInt48_in v hlo hhi]; exact roundTrip_Int48 v hlo hhi,
   fun v h => by have hhi := (NewUint48_ok_iff v).mp h; rw [NewUint48_in v hhi]; exact roundTrip_Uint48 v hhi,
   fun v h => by obtain ⟨hlo, hhi⟩ := (NewInt56_ok_iff v).mp h; rw [NewInt56_in v hlo hhi]; exact roundTrip_Int56 v hlo hhi,
   fun v h => by have hhi := (NewUint56_ok_iff v).mp h; rw [NewUint56_in v hhi]; exact roundTrip_Uint56 v hhi⟩

/-- Instances of `C2_bigEndian_roundTrip` at concrete inputs, one for each type. -/
theorem C2_bigEndian_roundTrip_witness :
    (FromInt24Bytes (NewInt24 (-8388608)).1.ToBytes = ((NewInt24 (-8388608)).1, none)) ∧
    (FromUint24Bytes (NewUint24 16777215).1.ToBytes = ((NewUint24 16777215).1, none)) ∧
    (FromInt40Bytes (NewInt40 (-549755813888)).1.ToBytes = ((NewInt40 (-549755813888)).1, none)) ∧
    (FromUint40Bytes (NewUint40 1099511627775).1.ToBytes = ((NewUint40 1099511627775).1, none)) ∧
    (FromInt48Bytes (NewInt48 (-140737488355328)).1.ToBytes = ((NewInt48 (-140737488355328)).1, none)) ∧
    (FromUint48Bytes (NewUint48 281474976710655).1.ToBytes = ((NewUint48 281474976710655).1, none)) ∧
    (FromInt56Bytes (NewInt56 (-36028797018963968)).1.ToBytes = ((NewInt56 (-36028797018963968)).1, none)) ∧
    (FromUint56Bytes (NewUint56 72057594037927935).1.ToBytes = ((NewUint56 72057594037927935).1, none)) :=
  ⟨C2_bigEndian_roundTrip.1 (-8388608) (by decide),
   C2_bigEndian_roundTrip.2.1 16777215 (by decide),
   C2_bigEndian_roundTrip.2.2.1 (-549755813888) (by decide),
   C2_bigEndian_roundTrip.2.2.2.1 1099511627775 (by decide),
   C2_bigEndian_roundTrip.2.2.2.2.1 (-140737488355328) (by decide),
   C2_bigEndian_roundTrip.2.2.2.2.2.1 281474976710655 (by decide),
   C2_bigEndian_roundTrip.2.2.2.2.2.2.1 (-36028797018963968) (by decide),
   C2_bigEndian_roundTrip.2.2.2.2.2.2.2 72057594037927935 (by decide)⟩

/-- C3: little-endian round trip. For each of the eight types and every value `x` returned by a
successful `NewX`, `FromXLittleEndianBytes (x.ToLittleEndianBytes)` returns `x` with a nil error;
this covers the negative signed values and both ends of the range. -/
theorem C3_littleEndian_roundTrip :
    (∀ v : Int, (NewInt24 v).2 = none → FromInt24LittleEndianBytes (NewInt24 v).1.ToLittleEndianBytes = ((NewInt24 v).1, none)) ∧
    (∀ v : Nat, (NewUint24 v).2 = none → FromUint24LittleEndianBytes (NewUint24 v).1.ToLittleEndianBytes = ((NewUint24 v).1, none)) ∧
    (∀ v : Int, (NewInt40 v).2 = none → FromInt40LittleEndianBytes (NewInt40 v).1.ToLittleEndianBytes = ((NewInt40 v).1, none)) ∧
    (∀ v : Nat, (NewUint40 v).2 = none → FromUint40LittleEndianBytes (NewUint40 v).1.ToLittleEndianBytes = ((NewUint40 v).1, none)) ∧
    (∀ v : Int, (NewInt48 v).2 = none → FromInt48LittleEndianBytes (NewInt48 v).1.ToLittleEndianBytes = ((NewInt48 v).1, none)) ∧
    (∀ v : Nat, (NewUint48 v).2 = none → FromUint48LittleEndianBytes (NewUint48 v).1.ToLittleEndianBytes = ((NewUint48 v).1, none)) ∧
    (∀ v : Int, (NewInt56 v).2 = none → FromInt56LittleEndianBytes (NewInt56 v).1.ToLittleEndianBytes = ((NewInt56 v).1, none)) ∧
    (∀ v : Nat, (NewUint56 v).2 = none → FromUint56LittleEndianBytes (NewUint56 v).1.ToLittleEndianBytes = ((NewUint56 v).1, none)) :=
  ⟨fun v h => by obtain ⟨hlo, hhi⟩ := (NewInt24_ok_iff v).mp h; rw [NewInt24_in v hlo hhi]; exact roundTripLE_Int24 v hlo hhi,
   fun v h => by have hhi := (NewUint24_ok_iff v).mp h; rw [NewUint24_in v hhi]; exact roundTripLE_Uint24 v hhi,
   fun v h => by obtain ⟨hlo, hhi⟩ := (NewInt40_ok_iff v).mp h; rw [NewInt40_in v hlo hhi]; exact roundTripLE_Int40 v hlo hhi,
   fun v h => by have hhi := (NewUint40_ok_iff v).mp h; rw [NewUint40_in v hhi]; exact roundTripLE_Uint40 v hhi,
   fun v h => by obtain ⟨hlo, hhi⟩ := (NewInt48_ok_iff v).mp h; rw [NewInt48_in v hlo hhi]; exact roundTripLE_Int48 v hlo hhi,
   fun v h => by have hhi := (NewUint48_ok_iff v).mp h; rw [NewUint48_in v hhi]; exact roundTripLE_Uint48 v hhi,
   fun v h => by obtain ⟨hlo, hhi⟩ := (NewInt56_ok_iff v).mp h; rw [NewInt56_in v hlo hhi]; exact roundTripLE_Int56 v hlo hhi,
   fun v h => by have hhi := (NewUint56_ok_iff v).mp h; rw [NewUint56_in v hhi]; exact roundTripLE_Uint56 v hhi⟩

/-- Instances of `C3_littleEndian_roundTrip` at concrete inputs, one for each type. -/
theorem C3_littleEndian_roundTrip_witness :
    (FromInt24LittleEndianBytes (NewInt24 (-8388608)).1.ToLittleEndianBytes = ((NewInt24 (-8388608)).1, none)) ∧
    (FromUint24LittleEndianBytes (NewUint24 16777215).1.ToLittleEndianBytes = ((NewUint24 16777215).1, none)) ∧
    (FromInt40LittleEndianBytes (NewInt40 (-549755813888)).1.ToLittleEndianBytes = ((NewInt40 (-549755813888)).1, none)) ∧
    (FromUint40LittleEndianBytes (NewUint40 1099511627775).1.ToLittleEndianBytes = ((NewUint40 1099511627775).1, none)) ∧
    (FromInt48LittleEndianBytes (NewInt48 (-140737488355328)).1.ToLittleEndianBytes = ((NewInt48 (-140737488355328)).1, none)) ∧
    (FromUint48LittleEndianBytes (NewUint48 281474976710655).1.ToLittleEndianBytes = ((NewUint48 281474976710655).1, none)) ∧
    (FromInt56LittleEndianBytes (NewInt56 (-36028797018963968)).1.ToLittleEndianBytes = ((NewInt56 (-36028797018963968)).1, none)) ∧
    (FromUint56LittleEndianBytes (NewUint56 72057594037927935).1.ToLittleEndianBytes = ((NewUint56 72057594037927935).1, none)) :=
  ⟨C3_littleEndian_roundTrip.1 (-8388608) (by decide),
   C3_littleEndian_roundTrip.2.1 16777215 (by decide),
   C3_littleEndian_roundTrip.2.2.1 (-549755813888) (by decide),
   C3_littleEndian_roundTrip.2.2.2.1 1099511627775 (by decide),
   C3_littleEndian_roundTrip.2.2.2.2.1 (-140737488355328) (by decide),
   C3_littleEndian_roundTrip.2.2.2.2.2.1 281474976710655 (by decide),
   C3_littleEndian_roundTrip.2.2.2.2.2.2.1 (-36028797018963968) (by decide),
   C3_littleEndian_roundTrip.2.2.2.2.2.2.2 72057594037927935 (by decide)⟩

/-- C4: the encoding is `W`-bit two's complement. For each of the eight types and every valid value
with numeric value `v`, `ToBytes` is the list of the `W/8` base-256 digits of `v mod 2^W`, most
significant first (`wireDigits W v`); hence a negative signed `v` encodes like the unsigned value
`v + 2^W`, a non-negative signed `v` like the unsigned value `v`, and `Int40` of `-0x123456789A`
encodes to `ED CB A9 87 66`. -/
theorem C4_ToBytes_twos_complement_digits :
    (∀ v : Int, (NewInt24 v).2 = none → (NewInt24 v).1.ToBytes = wireDigits 24 v) ∧
    (∀ v : Nat, (NewUint24 v).2 = none → (NewUint24 v).1.ToBytes = wireDigits 24 (v : Int)) ∧
    (∀ v : Int, (NewInt40 v).2 = none → (NewInt40 v).1.ToBytes = wireDigits 40 v) ∧
    (∀ v : Nat, (NewUint40 v).2 = none → (NewUint40 v).1.ToBytes = wireDigits 40 (v : Int)) ∧
    (∀ v : Int, (NewInt48 v).2 = none → (NewInt48 v).1.ToBytes = wireDigits 48 v) ∧
    (∀ v : Nat, (NewUint48 v).2 = none → (NewUint48 v).1.ToBytes = wireDigits 48 (v : Int)) ∧
    (∀ v : Int, (NewInt56 v).2 = none → (NewInt56 v).1.ToBytes = wireDigits 56 v) ∧
    (∀ v : Nat, (NewUint56 v).2 = none → (NewUint56 v).1.ToBytes = wireDigits 56 (v : Int)) ∧
    (∀ v : Int, (NewInt24 v).2 = none → v < 0 → (NewInt24 v).1.ToBytes = (NewUint24 (Int.toNat (v + 2 ^ 24))).1.ToBytes) ∧
    (∀ v : Int, (NewInt24 v).2 = none → 0 ≤ v → (NewInt24 v).1.ToBytes = (NewUint24 (Int.toNat v)).1.ToBytes) ∧
    (∀ v : Int, (NewInt40 v).2 = none → v < 0 → (NewInt40 v).1.ToBytes = (NewUint40 (Int.toNat (v + 2 ^ 40))).1.ToBytes) ∧
    (∀ v : Int, (NewInt40 v).2 = none → 0 ≤ v → (NewInt40 v).1.ToBytes = (NewUint40 (Int.toNat v)).1.ToBytes) ∧
    (∀ v : Int, (NewInt48 v).2 = none → v < 0 → (NewInt48 v).1.ToBytes = (NewUint48 (Int.toNat (v + 2 ^ 48))).1.ToBytes) ∧
    (∀ v : Int, (NewInt48 v).2 = none → 0 ≤ v → (NewInt48 v).1.ToBytes = (NewUint48 (Int.toNat v)).1.ToBytes) ∧
    (∀ v : Int, (NewInt56 v).2 = none → v < 0 → (NewInt56 v).1.ToBytes = (NewUint56 (Int.toNat (v + 2 ^ 56))).1.ToBytes) ∧
    (∀ v : Int, (NewInt56 v).2 = none → 0 ≤ v → (NewInt56 v).1.ToBytes = (NewUint56 (Int.toNat v)).1.ToBytes) ∧
    ((NewInt40 (-0x123456789A)).1.ToBytes = [0xED, 0xCB, 0xA9, 0x87, 0x66]) :=
  ⟨fun v h => by obtain ⟨hlo, hhi⟩ := (NewInt24_ok_iff v).mp h; rw [NewInt24_in v hlo hhi]; rw [wireDigits_24]; exact Int24_ToBytes_eq v hlo hhi,
   fun v h => by have hhi := (NewUint24_ok_iff v).mp h; rw [NewUint24_in v hhi]; rw [wireDigits_24, Uint24_ToBytes_eq]; exact wireDigits_natCast_24 v hhi,
   fun v h => by obtain ⟨hlo, hhi⟩ := (NewInt40_ok_iff v).mp h; rw [NewInt40_in v hlo hhi]; rw [wireDigits_40]; exact Int40_ToBytes_eq v hlo hhi,
   fun v h => by have hhi := (NewUint40_ok_iff v).mp h; rw [NewUint40_in v hhi]; rw [wireDigits_40, Uint40_ToBytes_eq]; exact wireDigits_natCast_40 v hhi,
   fun v h => by obtain ⟨hlo, hhi⟩ := (NewInt48_ok_iff v).mp h; rw [NewInt48_in v hlo hhi]; rw [wireDigits_48]; exact Int48_ToBytes_eq v hlo hhi,
   fun v h => by have hhi := (NewUint48_ok_iff v).mp h; rw [NewUint48_in v hhi]; rw [wireDigits_48, Uint48_ToBytes_eq]; exact wireDigits_natCast_48 v hhi,
   fun v h => by obtain ⟨hlo, hhi⟩ := (NewInt56_ok_iff v).mp h; rw [NewInt56_in v hlo hhi]; rw [wireDigits_56]; exact Int56_ToBytes_eq v hlo hhi,
   fun v h => by have hhi := (NewUint56_ok_iff v).mp h; rw [NewUint56_in v hhi]; rw [wireDigits_56, Uint56_ToBytes_eq]; exact wireDigits_natCast_56 v hhi,
   fun v h hneg => signed_as_unsigned_neg_24 v ((NewInt24_ok_iff v).mp h).1 hneg,
   fun v h hpos => signed_as_unsigned_nonneg_24 v hpos ((NewInt24_ok_iff v).mp h).2,
   fun v h hneg => signed_as_unsigned_neg_40 v ((NewInt40_ok_iff v).mp h).1 hneg,
   fun v h hpos => signed_as_unsigned_nonneg_40 v hpos ((NewInt40_ok_iff v).mp h).2,
   fun v h hneg => signed_as_unsigned_neg_48 v ((NewInt48_ok_iff v).mp h).1 hneg,
   fun v h hpos => signed_as_unsigned_nonneg_48 v hpos ((NewInt48_ok_iff v).mp h).2,
   fun v h hneg => signed_as_unsigned_neg_56 v ((NewInt56_ok_iff v).mp h).1 hneg,
   fun v h hpos => signed_as_unsigned_nonneg_56 v hpos ((NewInt56_ok_iff v).mp h).2,
   by decide⟩

/-- Instances of `C4_ToBytes_twos_complement_digits` at concrete inputs, one for each type. -/
theorem C4_ToBytes_twos_complement_digits_witness :
    ((NewInt24 (-8388608)).1.ToBytes = wireDigits 24 (-8388608)) ∧
    ((NewUint24 16777215).1.ToBytes = wireDigits 24 (16777215 : Int)) ∧
    ((NewInt40 (-549755813888)).1.ToBytes = wireDigits 40 (-549755813888)) ∧
    ((NewUint40 1099511627775).1.ToBytes = wireDigits 40 (1099511627775 : Int)) ∧
    ((NewInt48 (-140737488355328)).1.ToBytes = wireDigits 48 (-140737488355328)) ∧
    ((NewUint48 281474976710655).1.ToBytes = wireDigits 48 (281474976710655 : Int)) ∧
    ((NewInt56 (-36028797018963968)).1.ToBytes = wireDigits 56 (-36028797018963968)) ∧
    ((NewUint56 72057594037927935).1.ToBytes = wireDigits 56 (72057594037927935 : Int)) ∧
    ((NewInt24 (-8388608)).1.ToBytes = (NewUint24 (Int.toNat ((-8388608) + 2 ^ 24))).1.ToBytes) ∧
    ((NewInt24 8388607).1.ToBytes = (NewUint24 (Int.toNat 8388607)).1.ToBytes) ∧
    ((NewInt40 (-549755813888)).1.ToBytes = (NewUint40 (Int.toNat ((-549755813888) + 2 ^ 40))).1.ToBytes) ∧
    ((NewInt40 549755813887).1.ToBytes = (NewUint40 (Int.toNat 549755813887)).1.ToBytes) ∧
    ((NewInt48 (-140737488355328)).1.ToBytes = (NewUint48 (Int.toNat ((-140737488355328) + 2 ^ 48))).1.ToBytes) ∧
    ((NewInt48 140737488355327).1.ToBytes = (NewUint48 (Int.toNat 140737488355327)).1.ToBytes) ∧
    ((NewInt56 (-36028797018963968)).1.ToBytes = (NewUint56 (Int.toNat ((-36028797018963968) + 2 ^ 56))).1.ToBytes) ∧
    ((NewInt56 36028797018963967).1.ToBytes = (NewUint56 (Int.toNat 36028797018963967)).1.ToBytes) :=
  ⟨C4_ToBytes_twos_complement_digits.1 (-8388608) (by decide),
   C4_ToBytes_twos_complement_digits.2.1 16777215 (by decide),
   C4_ToBytes_twos_complement_digits.2.2.1 (-549755813888) (by decide),
   C4_ToBytes_twos_complement_digits.2.2.2.1 1099511627775 (by decide),
   C4_ToBytes_twos_complement_digits.2.2.2.2.1 (-140737488355328) (by decide),
   C4_ToBytes_twos_complement_digits.2.2.2.2.2.1 281474976710655 (by decide),
   C4_ToBytes_twos_complement_digits.2.2.2.2.2.2.1 (-36028797018963968) (by decide),
   C4_ToBytes_twos_complement_digits.2.2.2.2.2.2.2.1 72057594037927935 (by decide),
   C4_ToBytes_twos_complement_digits.2.2.2.2.2.2.2.2.1 (-8388608) (by decide) (by decide),
   C4_ToBytes_twos_complement_digits.2.2.2.2.2.2.2.2.2.1 8388607 (by decide) (by decide),
   C4_ToBytes_twos_complement_digits.2.2.2.2.2.2.2.2.2.2.1 (-549755813888) (by decide) (by decide),
   C4_ToBytes_twos_complement_digits.2.2.2.2.2.2.2.2.2.2.2.1 549755813887 (by decide) (by decide),
   C4_ToBytes_twos_complement_digits.2.2.2.2.2.2.2.2.2.2.2.2.1 (-140737488355328) (by decide) (by decide),
   C4_ToBytes_twos_complement_digits.2.2.2.2.2.2.2.2.2.2.2.2.2.1 140737488355327 (by decide) (by decide),
   C4_ToBytes_twos_complement_digits.2.2.2.2.2.2.2.2.2.2.2.2.2.2.1 (-36028797018963968) (by decide) (by decide),
   C4_ToBytes_twos_complement_digits.2.2.2.2.2.2.2.2.2.2.2.2.2.2.2.1 36028797018963967 (by decide) (by decide)⟩

/-- C5: signed decoding sign-extends. For each signed type and every byte sequence `b` of length `W/8`
with big-endian magnitude `m`, `FromIntWBytes b` returns a nil error and a value whose `Int64` is
`m` when `m < 2^(W-1)` and `m - 2^W` otherwise; the bytes `ED CB AA` decode to `-0x123456` as an
`Int24`. -/
theorem C5_signed_decoding_sign_extends :
    (∀ b : List Byte, b.length = 3 →
      (FromInt24Bytes b).2 = none ∧
      (FromInt24Bytes b).1.Int64 =
        (if bigEndianMagnitude b < 2 ^ 23 then (bigEndianMagnitude b : Int)
         else (bigEndianMagnitude b : Int) - 2 ^ 24)) ∧
    (∀ b : List Byte, b.length = 5 →
      (FromInt40Bytes b).2 = none ∧
      (FromInt40Bytes b).1.Int64 =
        (if bigEndianMagnitude b < 2 ^ 39 then (bigEndianMagnitude b : Int)
         else (bigEndianMagnitude b : Int) - 2 ^ 40)) ∧
    (∀ b : List Byte, b.length = 6 →
      (FromInt48Bytes b).2 = none ∧
      (FromInt48Bytes b).1.Int64 =
        (if bigEndianMagnitude b < 2 ^ 47 then (bigEndianMagnitude b : Int)
         else (bigEndianMagnitude b : Int) - 2 ^ 48)) ∧
    (∀ b : List Byte, b.length = 7 →
      (FromInt56Bytes b).2 = none ∧
      (FromInt56Bytes b).1.Int64 =
        (if bigEndianMagnitude b < 2 ^ 55 then (bigEndianMagnitude b : Int)
         else (bigEndianMagnitude b : Int) - 2 ^ 56)) ∧
    (FromInt24Bytes [0xED, 0xCB, 0xAA] = (⟨-0x123456⟩, none)) :=
  ⟨fun b h => by
     obtain ⟨h1, h2⟩ := FromInt24Bytes_spec b h
     rw [h1]
     exact ⟨rfl, by apply Int24_Int64_mk <;> split <;> omega⟩,
   fun b h => by
     obtain ⟨h1, h2⟩ := FromInt40Bytes_spec b h
     rw [h1]
     exact ⟨rfl, by apply Int40_Int64_mk <;> split <;> omega⟩,
   fun b h => by
     obtain ⟨h1, h2⟩ := FromInt48Bytes_spec b h
     rw [h1]
     exact ⟨rfl, by apply Int48_Int64_mk <;> split <;> omega⟩,
   fun b h => by
     obtain ⟨h1, h2⟩ := FromInt56Bytes_spec b h
     rw [h1]
     exact ⟨rfl, by apply Int56_Int64_mk <;> split <;> omega⟩,
   by decide⟩

/-- Instances of `C5_signed_decoding_sign_extends` at concrete inputs, one for each type. -/
theorem C5_signed_decoding_sign_extends_witness :
    ((FromInt24Bytes [0xED, 0xCB, 0xAA]).2 = none ∧
      (FromInt24Bytes [0xED, 0xCB, 0xAA]).1.Int64 =
        (if bigEndianMagnitude [0xED, 0xCB, 0xAA] < 2 ^ 23 then (bigEndianMagnitude [0xED, 0xCB, 0xAA] : Int)
         else (bigEndianMagnitude [0xED, 0xCB, 0xAA] : Int) - 2 ^ 24)) ∧
    ((FromInt40Bytes [0xED, 0xCB, 0xAA, 0x01, 0x7F]).2 = none ∧
      (FromInt40Bytes [0xED, 0xCB, 0xAA, 0x01, 0x7F]).1.Int64 =
        (if bigEndianMagnitude [0xED, 0xCB, 0xAA, 0x01, 0x7F] < 2 ^ 39 then (bigEndianMagnitude [0xED, 0xCB, 0xAA, 0x01, 0x7F] : Int)
         else (bigEndianMagnitude [0xED, 0xCB, 0xAA, 0x01, 0x7F] : Int) - 2 ^ 40)) ∧
    ((FromInt48Bytes [0xED, 0xCB, 0xAA, 0x01, 0x7F, 0x80]).2 = none ∧
      (FromInt48Bytes [0xED, 0xCB, 0xAA, 0x01, 0x7F, 0x80]).1.Int64 =
        (if bigEndianMagnitude [0xED, 0xCB, 0xAA, 0x01, 0x7F, 0x80] < 2 ^ 47 then (bigEndianMagnitude [0xED, 0xCB, 0xAA, 0x01, 0x7F, 0x80] : Int)
         else (bigEndianMagnitude [0xED, 0xCB, 0xAA, 0x01, 0x7F, 0x80] : Int) - 2 ^ 48)) ∧
    ((FromInt56Bytes [0xED, 0xCB, 0xAA, 0x01, 0x7F, 0x80, 0xFF]).2 = none ∧
      (FromInt56Bytes [0xED, 0xCB, 0xAA, 0x01, 0x7F, 0x80, 0xFF]).1.Int64 =
        (if bigEndianMagnitude [0xED, 0xCB, 0xAA, 0x01, 0x7F, 0x80, 0xFF] < 2 ^ 55 then (bigEndianMagnitude [0xED, 0xCB, 0xAA, 0x01, 0x7F, 0x80, 0xFF] : Int)
         else (bigEndianMagnitude [0xED, 0xCB, 0xAA, 0x01, 0x7F, 0x80, 0xFF] : Int) - 2 ^ 56)) :=
  ⟨C5_signed_decoding_sign_extends.1 [0xED, 0xCB, 0xAA] (by decide),
   C5_signed_decoding_sign_extends.2.1 [0xED, 0xCB, 0xAA, 0x01, 0x7F] (by decide),
   C5_signed_decoding_sign_extends.2.2.1 [0xED, 0xCB, 0xAA, 0x01, 0x7F, 0x80] (by decide),
   C5_signed_decoding_sign_extends.2.2.2.1 [0xED, 0xCB, 0xAA, 0x01, 0x7F, 0x80, 0xFF] (by decide)⟩

/-- C6: for each of the eight types and both byte orders, the decoder returns a nil error exactly when
the input has length `W/8`, whatever the bytes are; every other input, shorter (the empty one
included) or longer, gives the zero value and the package's invalid-byte-length error. -/
theorem C6_decoders_fail_iff_wrong_length :
    (∀ b : List Byte, ((FromInt24Bytes b).2 = none ↔ b.length = 3) ∧
      (b.length ≠ 3 → FromInt24Bytes b = (⟨0⟩, some GoError.ErrInt24InvalidByteLength))) ∧
    (∀ b : List Byte, ((FromInt24LittleEndianBytes b).2 = none ↔ b.length = 3) ∧
      (b.length ≠ 3 → FromInt24LittleEndianBytes b = (⟨0⟩, some GoError.ErrInt24InvalidByteLength))) ∧
    (∀ b : List Byte, ((FromUint24Bytes b).2 = none ↔ b.length = 3) ∧
      (b.length ≠ 3 → FromUint24Bytes b = (⟨0⟩, some GoError.ErrInt24InvalidByteLength))) ∧
    (∀ b : List Byte, ((FromUint24LittleEndianBytes b).2 = none ↔ b.length = 3) ∧
      (b.length ≠ 3 → FromUint24LittleEndianBytes b = (⟨0⟩, some GoError.ErrInt24InvalidByteLength))) ∧
    (∀ b : List Byte, ((FromInt40Bytes b).2 = none ↔ b.length = 5) ∧
      (b.length ≠ 5 → FromInt40Bytes b = (⟨0⟩, some GoError.ErrInt40InvalidByteLength))) ∧
    (∀ b : List Byte, ((FromInt40LittleEndianBytes b).2 = none ↔ b.length = 5) ∧
      (b.length ≠ 5 → FromInt40LittleEndianBytes b = (⟨0⟩, some GoError.ErrInt40InvalidByteLength))) ∧
    (∀ b : List Byte, ((FromUint40Bytes b).2 = none ↔ b.length = 5) ∧
      (b.length ≠ 5 → FromUint40Bytes b = (⟨0⟩, some GoError.ErrInt40InvalidByteLength))) ∧
    (∀ b : List Byte, ((FromUint40LittleEndianBytes b).2 = none ↔ b.length = 5) ∧
      (b.length ≠ 5 → FromUint40LittleEndianBytes b = (⟨0⟩, some GoError.ErrInt40InvalidByteLength))) ∧
    (∀ b : List Byte, ((FromInt48Bytes b).2 = none ↔ b.length = 6) ∧
      (b.length ≠ 6 → FromInt48Bytes b = (⟨0⟩, some GoError.ErrInt48InvalidByteLength))) ∧
    (∀ b : List Byte, ((FromInt48LittleEndianBytes b).2 = none ↔ b.length = 6) ∧
      (b.length ≠ 6 → FromInt48LittleEndianBytes b = (⟨0⟩, some GoError.ErrInt48InvalidByteLength))) ∧
    (∀ b : List Byte, ((FromUint48Bytes b).2 = none ↔ b.length = 6) ∧
      (b.length ≠ 6 → FromUint48Bytes b = (⟨0⟩, some GoError.ErrInt48InvalidByteLength))) ∧
    (∀ b : List Byte, ((FromUint48LittleEndianBytes b).2 = none ↔ b.length = 6) ∧
      (b.length ≠ 6 → FromUint48LittleEndianBytes b = (⟨0⟩, some GoError.ErrInt48InvalidByteLength))) ∧
    (∀ b : List Byte, ((FromInt56Bytes b).2 = none ↔ b.length = 7) ∧
      (b.length ≠ 7 → FromInt56Bytes b = (⟨0⟩, some GoError.ErrInt56InvalidByteLength))) ∧
    (∀ b : List Byte, ((FromInt56LittleEndianBytes b).2 = none ↔ b.length = 7) ∧
      (b.length ≠ 7 → FromInt56LittleEndianBytes b = (⟨0⟩, some GoError.ErrInt56InvalidByteLength))) ∧
    (∀ b : List Byte, ((FromUint56Bytes b).2 = none ↔ b.length = 7) ∧
      (b.length ≠ 7 → FromUint56Bytes b = (⟨0⟩, some GoError.ErrInt56InvalidByteLength))) ∧
    (∀ b : List Byte, ((FromUint56LittleEndianBytes b).2 = none ↔ b.length = 7) ∧
      (b.length ≠ 7 → FromUint56LittleEndianBytes b = (⟨0⟩, some GoError.ErrInt56InvalidByteLength))) :=
  ⟨fun b => ⟨⟨fun hh => by
       by_contra hne
       rw [FromInt24Bytes_len b hne] at hh
       simp at hh,
     fun h => by
       obtain ⟨v, hv, _⟩ := FromInt24Bytes_range b h
       rw [hv]⟩, FromInt24Bytes_len b⟩,
   fun b => ⟨⟨fun hh => by
       by_contra hne
       rw [FromInt24LittleEndianBytes_len b hne] at hh
       simp at hh,
     fun h => by
       obtain ⟨v, hv, _⟩ := FromInt24LittleEndianBytes_range b h
       rw [hv]⟩, FromInt24LittleEndianBytes_len b⟩,
   fun b => ⟨⟨fun hh => by
       by_contra hne
       rw [FromUint24Bytes_len b hne] at hh
       simp at hh,
     fun h => by
       obtain ⟨v, hv, _⟩ := FromUint24Bytes_range b h
       rw [hv]⟩, FromUint24Bytes_len b⟩,
   fun b => ⟨⟨fun hh => by
       by_contra hne
       rw [FromUint24LittleEndianBytes_len b hne] at hh
       simp at hh,
     fun h => by
       obtain ⟨v, hv, _⟩ := FromUint24LittleEndianBytes_range b h
       rw [hv]⟩, FromUint24LittleEndianBytes_len b⟩,
   fun b => ⟨⟨fun hh => by
       by_contra hne
       rw [FromInt40Bytes_len b hne] at hh
       simp at hh,
     fun h => by
       obtain ⟨v, hv, _⟩ := FromInt40Bytes_range b h
       rw [hv]⟩, FromInt40Bytes_len b⟩,
   fun b => ⟨⟨fun hh => by
       by_contra hne
       rw [FromInt40LittleEndianBytes_len b hne] at hh
       simp at hh,
     fun h => by
       obtain ⟨v, hv, _⟩ := FromInt40LittleEndianBytes_range b h
       rw [hv]⟩, FromInt40LittleEndianBytes_len b⟩,
   fun b => ⟨⟨fun hh => by
       by_contra hne
       rw [FromUint40Bytes_len b hne] at hh
       simp at hh,
     fun h => by
       obtain ⟨v, hv, _⟩ := FromUint40Bytes_range b h
       rw [hv]⟩, FromUint40Bytes_len b⟩,
   fun b => ⟨⟨fun hh => by
       by_contra hne
       rw [FromUint40LittleEndianBytes_len b hne] at hh
       simp at hh,
     fun h => by
       obtain ⟨v, hv, _⟩ := FromUint40LittleEndianBytes_range b h
       rw [hv]⟩, FromUint40LittleEndianBytes_len b⟩,
   fun b => ⟨⟨fun hh => by
       by_contra hne
       rw [FromInt48Bytes_len b hne] at hh
       simp at hh,
     fun h => by
       obtain ⟨v, hv, _⟩ := FromInt48Bytes_range b h
       rw [hv]⟩, FromInt48Bytes_len b⟩,
   fun b => ⟨⟨fun hh => by
       by_contra hne
       rw [FromInt48LittleEndianBytes_len b hne] at hh
       simp at hh,
     fun h => by
       obtain ⟨v, hv, _⟩ := FromInt48LittleEndianBytes_range b h
       rw [hv]⟩, FromInt48LittleEndianBytes_len b⟩,
   fun b => ⟨⟨fun hh => by
       by_contra hne
       rw [FromUint48Bytes_len b hne] at hh
       simp at hh,
     fun h => by
       obtain ⟨v, hv, _⟩ := FromUint48Bytes_range b h
       rw [hv]⟩, FromUint48Bytes_len b⟩,
   fun b => ⟨⟨fun hh => by
       by_contra hne
       rw [FromUint48LittleEndianBytes_len b hne] at hh
       simp at hh,
     fun h => by
       obtain ⟨v, hv, _⟩ := FromUint48LittleEndianBytes_range b h
       rw [hv]⟩, FromUint48LittleEndianBytes_len b⟩,
   fun b => ⟨⟨fun hh => by
       by_contra hne
       rw [FromInt56Bytes_len b hne] at hh
       simp at hh,
     fun h => by
       obtain ⟨v, hv, _⟩ := FromInt56Bytes_range b h
       rw [hv]⟩, FromInt56Bytes_len b⟩,
   fun b => ⟨⟨fun hh => by
       by_contra hne
       rw [FromInt56LittleEndianBytes_len b hne] at hh
       simp at hh,
     fun h => by
       obtain ⟨v, hv, _⟩ := FromInt56LittleEndianBytes_range b h
       rw [hv]⟩, FromInt56LittleEndianBytes_len b⟩,
   fun b => ⟨⟨fun hh => by
       by_contra hne
       rw [FromUint56Bytes_len b hne] at hh
       simp at hh,
     fun h => by
       obtain ⟨v, hv, _⟩ := FromUint56Bytes_range b h
       rw [hv]⟩, FromUint56Bytes_len b⟩,
   fun b => ⟨⟨fun hh => by
       by_contra hne
       rw [FromUint56LittleEndianBytes_len b hne] at hh
       simp at hh,
     fun h => by
       obtain ⟨v, hv, _⟩ := FromUint56LittleEndianBytes_range b h
       rw [hv]⟩, FromUint56LittleEndianBytes_len b⟩⟩

/-- Instances of `C6_decoders_fail_iff_wrong_length` at concrete inputs, one for each type. -/
theorem C6_decoders_fail_iff_wrong_length_witness :
    (FromInt24Bytes [] = (⟨0⟩, some GoError.ErrInt24InvalidByteLength)) ∧
    (FromInt24LittleEndianBytes [0x01, 0x01, 0x01, 0x01] = (⟨0⟩, some GoError.ErrInt24InvalidByteLength)) ∧
    (FromUint24Bytes [] = (⟨0⟩, some GoError.ErrInt24InvalidByteLength)) ∧
    (FromUint24LittleEndianBytes [0x01, 0x01, 0x01, 0x01] = (⟨0⟩, some GoError.ErrInt24InvalidByteLength)) ∧
    (FromInt40Bytes [] = (⟨0⟩, some GoError.ErrInt40InvalidByteLength)) ∧
    (FromInt40LittleEndianBytes [0x01, 0x01, 0x01, 0x01, 0x01, 0x01] = (⟨0⟩, some GoError.ErrInt40InvalidByteLength)) ∧
    (FromUint40Bytes [] = (⟨0⟩, some GoError.ErrInt40InvalidByteLength)) ∧
    (FromUint40LittleEndianBytes [0x01, 0x01, 0x01, 0x01, 0x01, 0x01] = (⟨0⟩, some GoError.ErrInt40InvalidByteLength)) ∧
    (FromInt48Bytes [] = (⟨0⟩, some GoError.ErrInt48InvalidByteLength)) ∧
    (FromInt48LittleEndianBytes [0x01, 0x01, 0x01, 0x01, 0x01, 0x01, 0x01] = (⟨0⟩, some GoError.ErrInt48InvalidByteLength)) ∧
    (FromUint48Bytes [] = (⟨0⟩, some GoError.ErrInt48InvalidByteLength)) ∧
    (FromUint48LittleEndianBytes [0x01, 0x01, 0x01, 0x01, 0x01, 0x01, 0x01] = (⟨0⟩, some GoError.ErrInt48InvalidByteLength)) ∧
    (FromInt56Bytes [] = (⟨0⟩, some GoError.ErrInt56InvalidByteLength)) ∧
    (FromInt56LittleEndianBytes [0x01, 0x01, 0x01, 0x01, 0x01, 0x01, 0x01, 0x01] = (⟨0⟩, some GoError.ErrInt56InvalidByteLength)) ∧
    (FromUint56Bytes [] = (⟨0⟩, some GoError.ErrInt56InvalidByteLength)) ∧
    (FromUint56LittleEndianBytes [0x01, 0x01, 0x01, 0x01, 0x01, 0x01, 0x01, 0x01] = (⟨0⟩, some GoError.ErrInt56InvalidByteLength)) :=
  ⟨(C6_decoders_fail_iff_wrong_length.1 []).2 (by decide),
   (C6_decoders_fail_iff_wrong_length.2.1 [0x01, 0x01, 0x01, 0x01]).2 (by decide),
   (C6_decoders_fail_iff_wrong_length.2.2.1 []).2 (by decide),
   (C6_decoders_fail_iff_wrong_length.2.2.2.1 [0x01, 0x01, 0x01, 0x01]).2 (by decide),
   (C6_decoders_fail_iff_wrong_length.2.2.2.2.1 []).2 (by decide),
   (C6_decoders_fail_iff_wrong_length.2.2.2.2.2.1 [0x01, 0x01, 0x01, 0x01, 0x01, 0x01]).2 (by decide),
   (C6_decoders_fail_iff_wrong_length.2.2.2.2.2.2.1 []).2 (by decide),
   (C6_decoders_fail_iff_wrong_length.2.2.2.2.2.2.2.1 [0x01, 0x01, 0x01, 0x01, 0x01, 0x01]).2 (by decide),
   (C6_decoders_fail_iff_wrong_length.2.2.2.2.2.2.2.2.1 []).2 (by decide),
   (C6_decoders_fail_iff_wrong_length.2.2.2.2.2.2.2.2.2.1 [0x01, 0x01, 0x01, 0x01, 0x01, 0x01, 0x01]).2 (by decide),
   (C6_decoders_fail_iff_wrong_length.2.2.2.2.2.2.2.2.2.2.1 []).2 (by decide),
   (C6_decoders_fail_iff_wrong_length.2.2.2.2.2.2.2.2.2.2.2.1 [0x01, 0x01, 0x01, 0x01, 0x01, 0x01, 0x01]).2 (by decide),
   (C6_decoders_fail_iff_wrong_length.2.2.2.2.2.2.2.2.2.2.2.2.1 []).2 (by decide),
   (C6_decoders_fail_iff_wrong_length.2.2.2.2.2.2.2.2.2.2.2.2.2.1 [0x01, 0x01, 0x01, 0x01, 0x01, 0x01, 0x01, 0x01]).2 (by decide),
   (C6_decoders_fail_iff_wrong_length.2.2.2.2.2.2.2.2.2.2.2.2.2.2.1 []).2 (by decide),
   (C6_decoders_fail_iff_wrong_length.2.2.2.2.2.2.2.2.2.2.2.2.2.2.2 [0x01, 0x01, 0x01, 0x01, 0x01, 0x01, 0x01, 0x01]).2 (by decide)⟩

/-- C7: byte-order symmetry. For each of the eight types and every value `x`, valid or not,
`x.ToLittleEndianBytes` is the reversal of `x.ToBytes`, both of length `W/8`. -/
theorem C7_littleEndian_is_reversed_bigEndian :
    (∀ x : Int24, x.ToLittleEndianBytes = x.ToBytes.reverse ∧ x.ToBytes.length = 3) ∧
    (∀ x : Uint24, x.ToLittleEndianBytes = x.ToBytes.reverse ∧ x.ToBytes.length = 3) ∧
    (∀ x : Int40, x.ToLittleEndianBytes = x.ToBytes.reverse ∧ x.ToBytes.length = 5) ∧
    (∀ x : Uint40, x.ToLittleEndianBytes = x.ToBytes.reverse ∧ x.ToBytes.length = 5) ∧
    (∀ x : Int48, x.ToLittleEndianBytes = x.ToBytes.reverse ∧ x.ToBytes.length = 6) ∧
    (∀ x : Uint48, x.ToLittleEndianBytes = x.ToBytes.reverse ∧ x.ToBytes.length = 6) ∧
    (∀ x : Int56, x.ToLittleEndianBytes = x.ToBytes.reverse ∧ x.ToBytes.length = 7) ∧
    (∀ x : Uint56, x.ToLittleEndianBytes = x.ToBytes.reverse ∧ x.ToBytes.length = 7) :=
  ⟨fun _ => ⟨rfl, rfl⟩,
   fun _ => ⟨rfl, rfl⟩,
   fun _ => ⟨rfl, rfl⟩,
   fun _ => ⟨rfl, rfl⟩,
   fun _ => ⟨rfl, rfl⟩,
   fun _ => ⟨rfl, rfl⟩,
   fun _ => ⟨rfl, rfl⟩,
   fun _ => ⟨rfl, rfl⟩⟩

/-- C8: the decoders never produce an out-of-range value. For each of the eight types, both byte
orders and every byte sequence `b` of length `W/8`, the accessor of the decoded value lies between
the minimum and the maximum of the type, and `NewX` applied to it returns a nil error. -/
theorem C8_decoders_stay_in_range :
    (∀ b : List Byte, b.length = 3 →
      (-(2 ^ 23) ≤ (FromInt24Bytes b).1.Int64 ∧ (FromInt24Bytes b).1.Int64 ≤ 2 ^ 23 - 1) ∧
      (NewInt24 (FromInt24Bytes b).1.Int64).2 = none) ∧
    (∀ b : List Byte, b.length = 3 →
      (-(2 ^ 23) ≤ (FromInt24LittleEndianBytes b).1.Int64 ∧ (FromInt24LittleEndianBytes b).1.Int64 ≤ 2 ^ 23 - 1) ∧
      (NewInt24 (FromInt24LittleEndianBytes b).1.Int64).2 = none) ∧
    (∀ b : List Byte, b.length = 3 →
      ((FromUint24Bytes b).1.Uint64 ≤ 2 ^ 24 - 1) ∧
      (NewUint24 (FromUint24Bytes b).1.Uint64).2 = none) ∧
    (∀ b : List Byte, b.length = 3 →
      ((FromUint24LittleEndianBytes b).1.Uint64 ≤ 2 ^ 24 - 1) ∧
      (NewUint24 (FromUint24LittleEndianBytes b).1.Uint64).2 = none) ∧
    (∀ b : List Byte, b.length = 5 →
      (-(2 ^ 39) ≤ (FromInt40Bytes b).1.Int64 ∧ (FromInt40Bytes b).1.Int64 ≤ 2 ^ 39 - 1) ∧
      (NewInt40 (FromInt40Bytes b).1.Int64).2 = none) ∧
    (∀ b : List Byte, b.length = 5 →
      (-(2 ^ 39) ≤ (FromInt40LittleEndianBytes b).1.Int64 ∧ (FromInt40LittleEndianBytes b).1.Int64 ≤ 2 ^ 39 - 1) ∧
      (NewInt40 (FromInt40LittleEndianBytes b).1.Int64).2 = none) ∧
    (∀ b : List Byte, b.length = 5 →
      ((FromUint40Bytes b).1.Uint64 ≤ 2 ^ 40 - 1) ∧
      (NewUint40 (FromUint40Bytes b).1.Uint64).2 = none) ∧
    (∀ b : List Byte, b.length = 5 →
      ((FromUint40LittleEndianBytes b).1.Uint64 ≤ 2 ^ 40 - 1) ∧
      (NewUint40 (FromUint40LittleEndianBytes b).1.Uint64).2 = none) ∧
    (∀ b : List Byte, b.length = 6 →
      (-(2 ^ 47) ≤ (FromInt48Bytes b).1.Int64 ∧ (FromInt48Bytes b).1.Int64 ≤ 2 ^ 47 - 1) ∧
      (NewInt48 (FromInt48Bytes b).1.Int64).2 = none) ∧
    (∀ b : List Byte, b.length = 6 →
      (-(2 ^ 47) ≤ (FromInt48LittleEndianBytes b).1.Int64 ∧ (FromInt48LittleEndianBytes b).1.Int64 ≤ 2 ^ 47 - 1) ∧
      (NewInt48 (FromInt48LittleEndianBytes b).1.Int64).2 = none) ∧
    (∀ b : List Byte, b.length = 6 →
      ((FromUint48Bytes b).1.Uint64 ≤ 2 ^ 48 - 1) ∧
      (NewUint48 (FromUint48Bytes b).1.Uint64).2 = none) ∧
    (∀ b : List Byte, b.length = 6 →
      ((FromUint48LittleEndianBytes b).1.Uint64 ≤ 2 ^ 48 - 1) ∧
      (NewUint48 (FromUint48LittleEndianBytes b).1.Uint64).2 = none) ∧
    (∀ b : List Byte, b.length = 7 →
      (-(2 ^ 55) ≤ (FromInt56Bytes b).1.Int64 ∧ (FromInt56Bytes b).1.Int64 ≤ 2 ^ 55 - 1) ∧
      (NewInt56 (FromInt56Bytes b).1.Int64).2 = none) ∧
    (∀ b : List Byte, b.length = 7 →
      (-(2 ^ 55) ≤ (FromInt56LittleEndianBytes b).1.Int64 ∧ (FromInt56LittleEndianBytes b).1.Int64 ≤ 2 ^ 55 - 1) ∧
      (NewInt56 (FromInt56LittleEndianBytes b).1.Int64).2 = none) ∧
    (∀ b : List Byte, b.length = 7 →
      ((FromUint56Bytes b).1.Uint64 ≤ 2 ^ 56 - 1) ∧
      (NewUint56 (FromUint56Bytes b).1.Uint64).2 = none) ∧
    (∀ b : List Byte, b.length = 7 →
      ((FromUint56LittleEndianBytes b).1.Uint64 ≤ 2 ^ 56 - 1) ∧
      (NewUint56 (FromUint56LittleEndianBytes b).1.Uint64).2 = none) :=
  ⟨fun b h => by
     obtain ⟨v, hv, hlo, hhi⟩ := FromInt24Bytes_range b h
     rw [hv]
     dsimp only
     rw [Int24_Int64_mk v hlo hhi]
     exact ⟨⟨hlo, hhi⟩, (NewInt24_ok_iff v).mpr ⟨hlo, hhi⟩⟩,
   fun b h => by
     obtain ⟨v, hv, hlo, hhi⟩ := FromInt24LittleEndianBytes_range b h
     rw [hv]
     dsimp only
     rw [Int24_Int64_mk v hlo hhi]
     exact ⟨⟨hlo, hhi⟩, (NewInt24_ok_iff v).mpr ⟨hlo, hhi⟩⟩,
   fun b h => by
     obtain ⟨v, hv, hhi⟩ := FromUint24Bytes_range b h
     rw [hv]
     dsimp only
     rw [Uint24_Uint64_mk v hhi]
     exact ⟨hhi, (NewUint24_ok_iff v).mpr hhi⟩,
   fun b h => by
     obtain ⟨v, hv, hhi⟩ := FromUint24LittleEndianBytes_range b h
     rw [hv]
     dsimp only
     rw [Uint24_Uint64_mk v hhi]
     exact ⟨hhi, (NewUint24_ok_iff v).mpr hhi⟩,
   fun b h => by
     obtain ⟨v, hv, hlo, hhi⟩ := FromInt40Bytes_range b h
     rw [hv]
     dsimp only
     rw [Int40_Int64_mk v hlo hhi]
     exact ⟨⟨hlo, hhi⟩, (NewInt40_ok_iff v).mpr ⟨hlo, hhi⟩⟩,
   fun b h => by
     obtain ⟨v, hv, hlo, hhi⟩ := FromInt40LittleEndianBytes_range b h
     rw [hv]
     dsimp only
     rw [Int40_Int64_mk v hlo hhi]
     exact ⟨⟨hlo, hhi⟩, (NewInt40_ok_iff v).mpr ⟨hlo, hhi⟩⟩,
   fun b h => by
     obtain ⟨v, hv, hhi⟩ := FromUint40Bytes_range b h
     rw [hv]
     dsimp only
     rw [Uint40_Uint64_mk v hhi]
     exact ⟨hhi, (NewUint40_ok_iff v).mpr hhi⟩,
   fun b h => by
     obtain ⟨v, hv, hhi⟩ := FromUint40LittleEndianBytes_range b h
     rw [hv]
     dsimp only
     rw [Uint40_Uint64_mk v hhi]
     exact ⟨hhi, (NewUint40_ok_iff v).mpr hhi⟩,
   fun b h => by
     obtain ⟨v, hv, hlo, hhi⟩ := FromInt48Bytes_range b h
     rw [hv]
     dsimp only
     rw [Int48_Int64_mk v hlo hhi]
     exact ⟨⟨hlo, hhi⟩, (NewInt48_ok_iff v).mpr ⟨hlo, hhi⟩⟩,
   fun b h => by
     obtain ⟨v, hv, hlo, hhi⟩ := FromInt48LittleEndianBytes_range b h
     rw [hv]
     dsimp only
     rw [Int48_Int64_mk v hlo hhi]
     exact ⟨⟨hlo, hhi⟩, (NewInt48_ok_iff v).mpr ⟨hlo, hhi⟩⟩,
   fun b h => by
     obtain ⟨v, hv, hhi⟩ := FromUint48Bytes_range b h
     rw [hv]
     dsimp only
     rw [Uint48_Uint64_mk v hhi]
     exact ⟨hhi, (NewUint48_ok_iff v).mpr hhi⟩,
   fun b h => by
     obtain ⟨v, hv, hhi⟩ := FromUint48LittleEndianBytes_range b h
     rw [hv]
     dsimp only
     rw [Uint48_Uint64_mk v hhi]
     exact ⟨hhi, (NewUint48_ok_iff v).mpr hhi⟩,
   fun b h => by
     obtain ⟨v, hv, hlo, hhi⟩ := FromInt56Bytes_range b h
     rw [hv]
     dsimp only
     rw [Int56_Int64_mk v hlo hhi]
     exact ⟨⟨hlo, hhi⟩, (NewInt56_ok_iff v).mpr ⟨hlo, hhi⟩⟩,
   fun b h => by
     obtain ⟨v, hv, hlo, hhi⟩ := FromInt56LittleEndianBytes_range b h
     rw [hv]
     dsimp only
     rw [Int56_Int64_mk v hlo hhi]
     exact ⟨⟨hlo, hhi⟩, (NewInt56_ok_iff v).mpr ⟨hlo, hhi⟩⟩,
   fun b h => by
     obtain ⟨v, hv, hhi⟩ := FromUint56Bytes_range b h
     rw [hv]
     dsimp only
     rw [Uint56_Uint64_mk v hhi]
     exact ⟨hhi, (NewUint56_ok_iff v).mpr hhi⟩,
   fun b h => by
     obtain ⟨v, hv, hhi⟩ := FromUint56LittleEndianBytes_range b h
     rw [hv]
     dsimp only
     rw [Uint56_Uint64_mk v hhi]
     exact ⟨hhi, (NewUint56_ok_iff v).mpr hhi⟩⟩

/-- Instances of `C8_decoders_stay_in_range` at concrete inputs, one for each type. -/
theorem C8_decoders_stay_in_range_witness :
    ((-(2 ^ 23) ≤ (FromInt24Bytes [0xFF, 0xFF, 0xFF]).1.Int64 ∧ (FromInt24Bytes [0xFF, 0xFF, 0xFF]).1.Int64 ≤ 2 ^ 23 - 1) ∧
      (NewInt24 (FromInt24Bytes [0xFF, 0xFF, 0xFF]).1.Int64).2 = none) ∧
    ((-(2 ^ 23) ≤ (FromInt24LittleEndianBytes [0x00, 0x00, 0x80]).1.Int64 ∧ (FromInt24LittleEndianBytes [0x00, 0x00, 0x80]).1.Int64 ≤ 2 ^ 23 - 1) ∧
      (NewInt24 (FromInt24LittleEndianBytes [0x00, 0x00, 0x80]).1.Int64).2 = none) ∧
    (((FromUint24Bytes [0xFF, 0xFF, 0xFF]).1.Uint64 ≤ 2 ^ 24 - 1) ∧
      (NewUint24 (FromUint24Bytes [0xFF, 0xFF, 0xFF]).1.Uint64).2 = none) ∧
    (((FromUint24LittleEndianBytes [0x00, 0x00, 0x80]).1.Uint64 ≤ 2 ^ 24 - 1) ∧
      (NewUint24 (FromUint24LittleEndianBytes [0x00, 0x00, 0x80]).1.Uint64).2 = none) ∧
    ((-(2 ^ 39) ≤ (FromInt40Bytes [0xFF, 0xFF, 0xFF, 0xFF, 0xFF]).1.Int64 ∧ (FromInt40Bytes [0xFF, 0xFF, 0xFF, 0xFF, 0xFF]).1.Int64 ≤ 2 ^ 39 - 1) ∧
      (NewInt40 (FromInt40Bytes [0xFF, 0xFF, 0xFF, 0xFF, 0xFF]).1.Int64).2 = none) ∧
    ((-(2 ^ 39) ≤ (FromInt40LittleEndianBytes [0x00, 0x00, 0x00, 0x00, 0x80]).1.Int64 ∧ (FromInt40LittleEndianBytes [0x00, 0x00, 0x00, 0x00, 0x80]).1.Int64 ≤ 2 ^ 39 - 1) ∧
      (NewInt40 (FromInt40LittleEndianBytes [0x00, 0x00, 0x00, 0x00, 0x80]).1.Int64).2 = none) ∧
    (((FromUint40Bytes [0xFF, 0xFF, 0xFF, 0xFF, 0xFF]).1.Uint64 ≤ 2 ^ 40 - 1) ∧
      (NewUint40 (FromUint40Bytes [0xFF, 0xFF, 0xFF, 0xFF, 0xFF]).1.Uint64).2 = none) ∧
    (((FromUint40LittleEndianBytes [0x00, 0x00, 0x00, 0x00, 0x80]).1.Uint64 ≤ 2 ^ 40 - 1) ∧
      (NewUint40 (FromUint40LittleEndianBytes [0x00, 0x00, 0x00, 0x00, 0x80]).1.Uint64).2 = none) ∧
    ((-(2 ^ 47) ≤ (FromInt48Bytes [0xFF, 0xFF, 0xFF, 0xFF, 0xFF, 0xFF]).1.Int64 ∧ (FromInt48Bytes [0xFF, 0xFF, 0xFF, 0xFF, 0xFF, 0xFF]).1.Int64 ≤ 2 ^ 47 - 1) ∧
      (NewInt48 (FromInt48Bytes [0xFF, 0xFF, 0xFF, 0xFF, 0xFF, 0xFF]).1.Int64).2 = none) ∧
    ((-(2 ^ 47) ≤ (FromInt48LittleEndianBytes [0x00, 0x00, 0x00, 0x00, 0x00, 0x80]).1.Int64 ∧ (FromInt48LittleEndianBytes [0x00, 0x00, 0x00, 0x00, 0x00, 0x80]).1.Int64 ≤ 2 ^ 47 - 1) ∧
      (NewInt48 (FromInt48LittleEndianBytes [0x00, 0x00, 0x00, 0x00, 0x00, 0x80]).1.Int64).2 = none) ∧
    (((FromUint48Bytes [0xFF, 0xFF, 0xFF, 0xFF, 0xFF, 0xFF]).1.Uint64 ≤ 2 ^ 48 - 1) ∧
      (NewUint48 (FromUint48Bytes [0xFF, 0xFF, 0xFF, 0xFF, 0xFF, 0xFF]).1.Uint64).2 = none) ∧
    (((FromUint48LittleEndianBytes [0x00, 0x00, 0x00, 0x00, 0x00, 0x80]).1.Uint64 ≤ 2 ^ 48 - 1) ∧
      (NewUint48 (FromUint48LittleEndianBytes [0x00, 0x00, 0x00, 0x00, 0x00, 0x80]).1.Uint64).2 = none) ∧
    ((-(2 ^ 55) ≤ (FromInt56Bytes [0xFF, 0xFF, 0xFF, 0xFF, 0xFF, 0xFF, 0xFF]).1.Int64 ∧ (FromInt56Bytes [0xFF, 0xFF, 0xFF, 0xFF, 0xFF, 0xFF, 0xFF]).1.Int64 ≤ 2 ^ 55 - 1) ∧
      (NewInt56 (FromInt56Bytes [0xFF, 0xFF, 0xFF, 0xFF, 0xFF, 0xFF, 0xFF]).1.Int64).2 = none) ∧
    ((-(2 ^ 55) ≤ (FromInt56LittleEndianBytes [0x00, 0x00, 0x00, 0x00, 0x00, 0x00, 0x80]).1.Int64 ∧ (FromInt56LittleEndianBytes [0x00, 0x00, 0x00, 0x00, 0x00, 0x00, 0x80]).1.Int64 ≤ 2 ^ 55 - 1) ∧
      (NewInt56 (FromInt56LittleEndianBytes [0x00, 0x00, 0x00, 0x00, 0x00, 0x00, 0x80]).1.Int64).2 = none) ∧
    (((FromUint56Bytes [0xFF, 0xFF, 0xFF, 0xFF, 0xFF, 0xFF, 0xFF]).1.Uint64 ≤ 2 ^ 56 - 1) ∧
      (NewUint56 (FromUint56Bytes [0xFF, 0xFF, 0xFF, 0xFF, 0xFF, 0xFF, 0xFF]).1.Uint64).2 = none) ∧
    (((FromUint56LittleEndianBytes [0x00, 0x00, 0x00, 0x00, 0x00, 0x00, 0x80]).1.Uint64 ≤ 2 ^ 56 - 1) ∧
      (NewUint56 (FromUint56LittleEndianBytes [0x00, 0x00, 0x00, 0x00, 0x00, 0x00, 0x80]).1.Uint64).2 = none) :=
  ⟨C8_decoders_stay_in_range.1 [0xFF, 0xFF, 0xFF] (by decide),
   C8_decoders_stay_in_range.2.1 [0x00, 0x00, 0x80] (by decide),
   C8_decoders_stay_in_range.2.2.1 [0xFF, 0xFF, 0xFF] (by decide),
   C8_decoders_stay_in_range.2.2.2.1 [0x00, 0x00, 0x80] (by decide),
   C8_decoders_stay_in_range.2.2.2.2.1 [0xFF, 0xFF, 0xFF, 0xFF, 0xFF] (by decide),
   C8_decoders_stay_in_range.2.2.2.2.2.1 [0x00, 0x00, 0x00, 0x00, 0x80] (by decide),
   C8_decoders_stay_in_range.2.2.2.2.2.2.1 [0xFF, 0xFF, 0xFF, 0xFF, 0xFF] (by decide),
   C8_decoders_stay_in_range.2.2.2.2.2.2.2.1 [0x00, 0x00, 0x00, 0x00, 0x80] (by decide),
   C8_decoders_stay_in_range.2.2.2.2.2.2.2.2.1 [0xFF, 0xFF, 0xFF, 0xFF, 0xFF, 0xFF] (by decide),
   C8_decoders_stay_in_range.2.2.2.2.2.2.2.2.2.1 [0x00, 0x00, 0x00, 0x00, 0x00, 0x80] (by decide),
   C8_decoders_stay_in_range.2.2.2.2.2.2.2.2.2.2.1 [0xFF, 0xFF, 0xFF, 0xFF, 0xFF, 0xFF] (by decide),
   C8_decoders_stay_in_range.2.2.2.2.2.2.2.2.2.2.2.1 [0x00, 0x00, 0x00, 0x00, 0x00, 0x80] (by decide),
   C8_decoders_stay_in_range.2.2.2.2.2.2.2.2.2.2.2.2.1 [0xFF, 0xFF, 0xFF, 0xFF, 0xFF, 0xFF, 0xFF] (by decide),
   C8_decoders_stay_in_range.2.2.2.2.2.2.2.2.2.2.2.2.2.1 [0x00, 0x00, 0x00, 0x00, 0x00, 0x00, 0x80] (by decide),
   C8_decoders_stay_in_range.2.2.2.2.2.2.2.2.2.2.2.2.2.2.1 [0xFF, 0xFF, 0xFF, 0xFF, 0xFF, 0xFF, 0xFF] (by decide),
   C8_decoders_stay_in_range.2.2.2.2.2.2.2.2.2.2.2.2.2.2.2 [0x00, 0x00, 0x00, 0x00, 0x00, 0x00, 0x80] (by decide)⟩

/-- C9: construction neither truncates nor wraps. For each of the eight types and every in-range
native `v`, the accessor of `NewX v` (`Int64` or `Uint64`) returns `v`; for `Int24` and `Uint24`
this goes through the narrowing to 32 bits and the widening back. -/
theorem C9_New_keeps_the_value :
    (∀ v : Int, -(2 ^ 23) ≤ v → v ≤ 2 ^ 23 - 1 → (NewInt24 v).1.Int64 = v) ∧
    (∀ v : Nat, v ≤ 2 ^ 24 - 1 → (NewUint24 v).1.Uint64 = v) ∧
    (∀ v : Int, -(2 ^ 39) ≤ v → v ≤ 2 ^ 39 - 1 → (NewInt40 v).1.Int64 = v) ∧
    (∀ v : Nat, v ≤ 2 ^ 40 - 1 → (NewUint40 v).1.Uint64 = v) ∧
    (∀ v : Int, -(2 ^ 47) ≤ v → v ≤ 2 ^ 47 - 1 → (NewInt48 v).1.Int64 = v) ∧
    (∀ v : Nat, v ≤ 2 ^ 48 - 1 → (NewUint48 v).1.Uint64 = v) ∧
    (∀ v : Int, -(2 ^ 55) ≤ v → v ≤ 2 ^ 55 - 1 → (NewInt56 v).1.Int64 = v) ∧
    (∀ v : Nat, v ≤ 2 ^ 56 - 1 → (NewUint56 v).1.Uint64 = v) :=
  ⟨fun v hlo hhi => by rw [NewInt24_in v hlo hhi]; exact Int24_Int64_mk v hlo hhi,
   fun v hhi => by rw [NewUint24_in v hhi]; exact Uint24_Uint64_mk v hhi,
   fun v hlo hhi => by rw [NewInt40_in v hlo hhi]; exact Int40_Int64_mk v hlo hhi,
   fun v hhi => by rw [NewUint40_in v hhi]; exact Uint40_Uint64_mk v hhi,
   fun v hlo hhi => by rw [NewInt48_in v hlo hhi]; exact Int48_Int64_mk v hlo hhi,
   fun v hhi => by rw [NewUint48_in v hhi]; exact Uint48_Uint64_mk v hhi,
   fun v hlo hhi => by rw [NewInt56_in v hlo hhi]; exact Int56_Int64_mk v hlo hhi,
   fun v hhi => by rw [NewUint56_in v hhi]; exact Uint56_Uint64_mk v hhi⟩

/-- Instances of `C9_New_keeps_the_value` at concrete inputs, one for each type. -/
theorem C9_New_keeps_the_value_witness :
    ((NewInt24 (-8388608)).1.Int64 = (-8388608)) ∧
    ((NewUint24 16777215).1.Uint64 = 16777215) ∧
    ((NewInt40 (-549755813888)).1.Int64 = (-549755813888)) ∧
    ((NewUint40 1099511627775).1.Uint64 = 1099511627775) ∧
    ((NewInt48 (-140737488355328)).1.Int64 = (-140737488355328)) ∧
    ((NewUint48 281474976710655).1.Uint64 = 281474976710655) ∧
    ((NewInt56 (-36028797018963968)).1.Int64 = (-36028797018963968)) ∧
    ((NewUint56 72057594037927935).1.Uint64 = 72057594037927935) :=
  ⟨C9_New_keeps_the_value.1 (-8388608) (by decide) (by decide),
   C9_New_keeps_the_value.2.1 16777215 (by decide),
   C9_New_keeps_the_value.2.2.1 (-549755813888) (by decide) (by decide),
   C9_New_keeps_the_value.2.2.2.1 1099511627775 (by decide),
   C9_New_keeps_the_value.2.2.2.2.1 (-140737488355328) (by decide) (by decide),
   C9_New_keeps_the_value.2.2.2.2.2.1 281474976710655 (by decide),
   C9_New_keeps_the_value.2.2.2.2.2.2.1 (-36028797018963968) (by decide) (by decide),
   C9_New_keeps_the_value.2.2.2.2.2.2.2 72057594037927935 (by decide)⟩

/-- C10: structured-text round trip. For each of the eight types, every value `x` returned by a
successful `NewX` and every prior state `r` of the receiver, `UnmarshalJSON` on the bytes of
`x.MarshalJSON` does not panic, returns a nil error and leaves the receiver equal to `x`. -/
theorem C10_json_roundTrip :
    (∀ (r : Int24) (v : Int), (NewInt24 v).2 = none →
      Int24.UnmarshalJSON r (NewInt24 v).1.MarshalJSON.1 = Run.ret ((NewInt24 v).1, none)) ∧
    (∀ (r : Uint24) (v : Nat), (NewUint24 v).2 = none →
      Uint24.UnmarshalJSON r (NewUint24 v).1.MarshalJSON.1 = Run.ret ((NewUint24 v).1, none)) ∧
    (∀ (r : Int40) (v : Int), (NewInt40 v).2 = none →
      Int40.UnmarshalJSON r (NewInt40 v).1.MarshalJSON.1 = Run.ret ((NewInt40 v).1, none)) ∧
    (∀ (r : Uint40) (v : Nat), (NewUint40 v).2 = none →
      Uint40.UnmarshalJSON r (NewUint40 v).1.MarshalJSON.1 = Run.ret ((NewUint40 v).1, none)) ∧
    (∀ (r : Int48) (v : Int), (NewInt48 v).2 = none →
      Int48.UnmarshalJSON r (NewInt48 v).1.MarshalJSON.1 = Run.ret ((NewInt48 v).1, none)) ∧
    (∀ (r : Uint48) (v : Nat), (NewUint48 v).2 = none →
      Uint48.UnmarshalJSON r (NewUint48 v).1.MarshalJSON.1 = Run.ret ((NewUint48 v).1, none)) ∧
    (∀ (r : Int56) (v : Int), (NewInt56 v).2 = none →
      Int56.UnmarshalJSON r (NewInt56 v).1.MarshalJSON.1 = Run.ret ((NewInt56 v).1, none)) ∧
    (∀ (r : Uint56) (v : Nat), (NewUint56 v).2 = none →
      Uint56.UnmarshalJSON r (NewUint56 v).1.MarshalJSON.1 = Run.ret ((NewUint56 v).1, none)) :=
  ⟨fun r v h => by obtain ⟨hlo, hhi⟩ := (NewInt24_ok_iff v).mp h; rw [NewInt24_in v hlo hhi]; exact jsonRoundTrip_Int24 r v hlo hhi,
   fun r v h => by have hhi := (NewUint24_ok_iff v).mp h; rw [NewUint24_in v hhi]; exact jsonRoundTrip_Uint24 r v hhi,
   fun r v h => by obtain ⟨hlo, hhi⟩ := (NewInt40_ok_iff v).mp h; rw [NewInt40_in v hlo hhi]; exact jsonRoundTrip_Int40 r v hlo hhi,
   fun r v h => by have hhi := (NewUint40_ok_iff v).mp h; rw [NewUint40_in v hhi]; exact jsonRoundTrip_Uint40 r v hhi,
   fun r v h => by obtain ⟨hlo, hhi⟩ := (NewInt48_ok_iff v).mp h; rw [NewInt48_in v hlo hhi]; exact jsonRoundTrip_Int48 r v hlo hhi,
   fun r v h => by have hhi := (NewUint48_ok_iff v).mp h; rw [NewUint48_in v hhi]; exact jsonRoundTrip_Uint48 r v hhi,
   fun r v h => by obtain ⟨hlo, hhi⟩ := (NewInt56_ok_iff v).mp h; rw [NewInt56_in v hlo hhi]; exact jsonRoundTrip_Int56 r v hlo hhi,
   fun r v h => by have hhi := (NewUint56_ok_iff v).mp h; rw [NewUint56_in v hhi]; exact jsonRoundTrip_Uint56 r v hhi⟩

/-- Instances of `C10_json_roundTrip` at concrete inputs, one for each type. -/
theorem C10_json_roundTrip_witness :
    (Int24.UnmarshalJSON ⟨7⟩ (NewInt24 (-8388608)).1.MarshalJSON.1 = Run.ret ((NewInt24 (-8388608)).1, none)) ∧
    (Uint24.UnmarshalJSON ⟨7⟩ (NewUint24 16777215).1.MarshalJSON.1 = Run.ret ((NewUint24 16777215).1, none)) ∧
    (Int40.UnmarshalJSON ⟨7⟩ (NewInt40 (-549755813888)).1.MarshalJSON.1 = Run.ret ((NewInt40 (-549755813888)).1, none)) ∧
    (Uint40.UnmarshalJSON ⟨7⟩ (NewUint40 1099511627775).1.MarshalJSON.1 = Run.ret ((NewUint40 1099511627775).1, none)) ∧
    (Int48.UnmarshalJSON ⟨7⟩ (NewInt48 (-140737488355328)).1.MarshalJSON.1 = Run.ret ((NewInt48 (-140737488355328)).1, none)) ∧
    (Uint48.UnmarshalJSON ⟨7⟩ (NewUint48 281474976710655).1.MarshalJSON.1 = Run.ret ((NewUint48 281474976710655).1, none)) ∧
    (Int56.UnmarshalJSON ⟨7⟩ (NewInt56 (-36028797018963968)).1.MarshalJSON.1 = Run.ret ((NewInt56 (-36028797018963968)).1, none)) ∧
    (Uint56.UnmarshalJSON ⟨7⟩ (NewUint56 72057594037927935).1.MarshalJSON.1 = Run.ret ((NewUint56 72057594037927935).1, none)) :=
  ⟨C10_json_roundTrip.1 ⟨7⟩ (-8388608) (by decide),
   C10_json_roundTrip.2.1 ⟨7⟩ 16777215 (by decide),
   C10_json_roundTrip.2.2.1 ⟨7⟩ (-549755813888) (by decide),
   C10_json_roundTrip.2.2.2.1 ⟨7⟩ 1099511627775 (by decide),
   C10_json_roundTrip.2.2.2.2.1 ⟨7⟩ (-140737488355328) (by decide),
   C10_json_roundTrip.2.2.2.2.2.1 ⟨7⟩ 281474976710655 (by decide),
   C10_json_roundTrip.2.2.2.2.2.2.1 ⟨7⟩ (-36028797018963968) (by decide),
   C10_json_roundTrip.2.2.2.2.2.2.2 ⟨7⟩ 72057594037927935 (by decide)⟩

/-- C11: quoted payloads are accepted. For each of the eight types, every value `x` returned by a
successful `NewX` and every prior state `r` of the receiver, `UnmarshalJSON` on the bytes of
`x.MarshalJSON` with one double quote put in front and one behind returns a nil error and leaves
the receiver equal to `x`. -/
theorem C11_json_accepts_quoted_payload :
    (∀ (r : Int24) (v : Int), (NewInt24 v).2 = none →
      Int24.UnmarshalJSON r ((0x22 : Byte) :: ((NewInt24 v).1.MarshalJSON.1 ++ [0x22])) =
        Run.ret ((NewInt24 v).1, none)) ∧
    (∀ (r : Uint24) (v : Nat), (NewUint24 v).2 = none →
      Uint24.UnmarshalJSON r ((0x22 : Byte) :: ((NewUint24 v).1.MarshalJSON.1 ++ [0x22])) =
        Run.ret ((NewUint24 v).1, none)) ∧
    (∀ (r : Int40) (v : Int), (NewInt40 v).2 = none →
      Int40.UnmarshalJSON r ((0x22 : Byte) :: ((NewInt40 v).1.MarshalJSON.1 ++ [0x22])) =
        Run.ret ((NewInt40 v).1, none)) ∧
    (∀ (r : Uint40) (v : Nat), (NewUint40 v).2 = none →
      Uint40.UnmarshalJSON r ((0x22 : Byte) :: ((NewUint40 v).1.MarshalJSON.1 ++ [0x22])) =
        Run.ret ((NewUint40 v).1, none)) ∧
    (∀ (r : Int48) (v : Int), (NewInt48 v).2 = none →
      Int48.UnmarshalJSON r ((0x22 : Byte) :: ((NewInt48 v).1.MarshalJSON.1 ++ [0x22])) =
        Run.ret ((NewInt48 v).1, none)) ∧
    (∀ (r : Uint48) (v : Nat), (NewUint48 v).2 = none →
      Uint48.UnmarshalJSON r ((0x22 : Byte) :: ((NewUint48 v).1.MarshalJSON.1 ++ [0x22])) =
        Run.ret ((NewUint48 v).1, none)) ∧
    (∀ (r : Int56) (v : Int), (NewInt56 v).2 = none →
      Int56.UnmarshalJSON r ((0x22 : Byte) :: ((NewInt56 v).1.MarshalJSON.1 ++ [0x22])) =
        Run.ret ((NewInt56 v).1, none)) ∧
    (∀ (r : Uint56) (v : Nat), (NewUint56 v).2 = none →
      Uint56.UnmarshalJSON r ((0x22 : Byte) :: ((NewUint56 v).1.MarshalJSON.1 ++ [0x22])) =
        Run.ret ((NewUint56 v).1, none)) :=
  ⟨fun r v h => by obtain ⟨hlo, hhi⟩ := (NewInt24_ok_iff v).mp h; rw [NewInt24_in v hlo hhi]; exact jsonQuoted_Int24 r v hlo hhi,
   fun r v h => by have hhi := (NewUint24_ok_iff v).mp h; rw [NewUint24_in v hhi]; exact jsonQuoted_Uint24 r v hhi,
   fun r v h => by obtain ⟨hlo, hhi⟩ := (NewInt40_ok_iff v).mp h; rw [NewInt40_in v hlo hhi]; exact jsonQuoted_Int40 r v hlo hhi,
   fun r v h => by have hhi := (NewUint40_ok_iff v).mp h; rw [NewUint40_in v hhi]; exact jsonQuoted_Uint40 r v hhi,
   fun r v h => by obtain ⟨hlo, hhi⟩ := (NewInt48_ok_iff v).mp h; rw [NewInt48_in v hlo hhi]; exact jsonQuoted_Int48 r v hlo hhi,
   fun r v h => by have hhi := (NewUint48_ok_iff v).mp h; rw [NewUint48_in v hhi]; exact jsonQuoted_Uint48 r v hhi,
   fun r v h => by obtain ⟨hlo, hhi⟩ := (NewInt56_ok_iff v).mp h; rw [NewInt56_in v hlo hhi]; exact jsonQuoted_Int56 r v hlo hhi,
   fun r v h => by have hhi := (NewUint56_ok_iff v).mp h; rw [NewUint56_in v hhi]; exact jsonQuoted_Uint56 r v hhi⟩

/-- Instances of `C11_json_accepts_quoted_payload` at concrete inputs, one for each type. -/
theorem C11_json_accepts_quoted_payload_witness :
    (Int24.UnmarshalJSON ⟨7⟩ ((0x22 : Byte) :: ((NewInt24 (-8388608)).1.MarshalJSON.1 ++ [0x22])) =
        Run.ret ((NewInt24 (-8388608)).1, none)) ∧
    (Uint24.UnmarshalJSON ⟨7⟩ ((0x22 : Byte) :: ((NewUint24 16777215).1.MarshalJSON.1 ++ [0x22])) =
        Run.ret ((NewUint24 16777215).1, none)) ∧
    (Int40.UnmarshalJSON ⟨7⟩ ((0x22 : Byte) :: ((NewInt40 (-549755813888)).1.MarshalJSON.1 ++ [0x22])) =
        Run.ret ((NewInt40 (-549755813888)).1, none)) ∧
    (Uint40.UnmarshalJSON ⟨7⟩ ((0x22 : Byte) :: ((NewUint40 1099511627775).1.MarshalJSON.1 ++ [0x22])) =
        Run.ret ((NewUint40 1099511627775).1, none)) ∧
    (Int48.UnmarshalJSON ⟨7⟩ ((0x22 : Byte) :: ((NewInt48 (-140737488355328)).1.MarshalJSON.1 ++ [0x22])) =
        Run.ret ((NewInt48 (-140737488355328)).1, none)) ∧
    (Uint48.UnmarshalJSON ⟨7⟩ ((0x22 : Byte) :: ((NewUint48 281474976710655).1.MarshalJSON.1 ++ [0x22])) =
        Run.ret ((NewUint48 281474976710655).1, none)) ∧
    (Int56.UnmarshalJSON ⟨7⟩ ((0x22 : Byte) :: ((NewInt56 (-36028797018963968)).1.MarshalJSON.1 ++ [0x22])) =
        Run.ret ((NewInt56 (-36028797018963968)).1, none)) ∧
    (Uint56.UnmarshalJSON ⟨7⟩ ((0x22 : Byte) :: ((NewUint56 72057594037927935).1.MarshalJSON.1 ++ [0x22])) =
        Run.ret ((NewUint56 72057594037927935).1, none)) :=
  ⟨C11_json_accepts_quoted_payload.1 ⟨7⟩ (-8388608) (by decide),
   C11_json_accepts_quoted_payload.2.1 ⟨7⟩ 16777215 (by decide),
   C11_json_accepts_quoted_payload.2.2.1 ⟨7⟩ (-549755813888) (by decide),
   C11_json_accepts_quoted_payload.2.2.2.1 ⟨7⟩ 1099511627775 (by decide),
   C11_json_accepts_quoted_payload.2.2.2.2.1 ⟨7⟩ (-140737488355328) (by decide),
   C11_json_accepts_quoted_payload.2.2.2.2.2.1 ⟨7⟩ 281474976710655 (by decide),
   C11_json_accepts_quoted_payload.2.2.2.2.2.2.1 ⟨7⟩ (-36028797018963968) (by decide),
   C11_json_accepts_quoted_payload.2.2.2.2.2.2.2 ⟨7⟩ 72057594037927935 (by decide)⟩

/-- C12, evaluation at the failing input: for each of the eight types and every receiver,
`UnmarshalJSON` on the one-byte payload made of a double quote evaluates the slice `data[1:0]` and
panics; on every other payload it returns. -/
theorem C12_UnmarshalJSON_panics_on_single_quote :
    ((∀ r : Int24, Int24.UnmarshalJSON r [0x22] = Run.panic (.sliceBounds 1 0)) ∧
      (∀ (r : Int24) (data : List Byte),
        (∃ res, Int24.UnmarshalJSON r data = Run.ret res) ↔ data ≠ [0x22])) ∧
    ((∀ r : Uint24, Uint24.UnmarshalJSON r [0x22] = Run.panic (.sliceBounds 1 0)) ∧
      (∀ (r : Uint24) (data : List Byte),
        (∃ res, Uint24.UnmarshalJSON r data = Run.ret res) ↔ data ≠ [0x22])) ∧
    ((∀ r : Int40, Int40.UnmarshalJSON r [0x22] = Run.panic (.sliceBounds 1 0)) ∧
      (∀ (r : Int40) (data : List Byte),
        (∃ res, Int40.UnmarshalJSON r data = Run.ret res) ↔ data ≠ [0x22])) ∧
    ((∀ r : Uint40, Uint40.UnmarshalJSON r [0x22] = Run.panic (.sliceBounds 1 0)) ∧
      (∀ (r : Uint40) (data : List Byte),
        (∃ res, Uint40.UnmarshalJSON r data = Run.ret res) ↔ data ≠ [0x22])) ∧
    ((∀ r : Int48, Int48.UnmarshalJSON r [0x22] = Run.panic (.sliceBounds 1 0)) ∧
      (∀ (r : Int48) (data : List Byte),
        (∃ res, Int48.UnmarshalJSON r data = Run.ret res) ↔ data ≠ [0x22])) ∧
    ((∀ r : Uint48, Uint48.UnmarshalJSON r [0x22] = Run.panic (.sliceBounds 1 0)) ∧
      (∀ (r : Uint48) (data : List Byte),
        (∃ res, Uint48.UnmarshalJSON r data = Run.ret res) ↔ data ≠ [0x22])) ∧
    ((∀ r : Int56, Int56.UnmarshalJSON r [0x22] = Run.panic (.sliceBounds 1 0)) ∧
      (∀ (r : Int56) (data : List Byte),
        (∃ res, Int56.UnmarshalJSON r data = Run.ret res) ↔ data ≠ [0x22])) ∧
    ((∀ r : Uint56, Uint56.UnmarshalJSON r [0x22] = Run.panic (.sliceBounds 1 0)) ∧
      (∀ (r : Uint56) (data : List Byte),
        (∃ res, Uint56.UnmarshalJSON r data = Run.ret res) ↔ data ≠ [0x22])) :=
  ⟨⟨Int24_UnmarshalJSON_quote, fun r data => ⟨fun hres hq => by
       obtain ⟨res, hr⟩ := hres
       subst hq
       rw [Int24_UnmarshalJSON_quote] at hr
       exact absurd hr (by simp),
     Int24_UnmarshalJSON_returns r data⟩⟩,
   ⟨Uint24_UnmarshalJSON_quote, fun r data => ⟨fun hres hq => by
       obtain ⟨res, hr⟩ := hres
       subst hq
       rw [Uint24_UnmarshalJSON_quote] at hr
       exact absurd hr (by simp),
     Uint24_UnmarshalJSON_returns r data⟩⟩,
   ⟨Int40_UnmarshalJSON_quote, fun r data => ⟨fun hres hq => by
       obtain ⟨res, hr⟩ := hres
       subst hq
       rw [Int40_UnmarshalJSON_quote] at hr
       exact absurd hr (by simp),
     Int40_UnmarshalJSON_returns r data⟩⟩,
   ⟨Uint40_UnmarshalJSON_quote, fun r data => ⟨fun hres hq => by
       obtain ⟨res, hr⟩ := hres
       subst hq
       rw [Uint40_UnmarshalJSON_quote] at hr
       exact absurd hr (by simp),
     Uint40_UnmarshalJSON_returns r data⟩⟩,
   ⟨Int48_UnmarshalJSON_quote, fun r data => ⟨fun hres hq => by
       obtain ⟨res, hr⟩ := hres
       subst hq
       rw [Int48_UnmarshalJSON_quote] at hr
       exact absurd hr (by simp),
     Int48_UnmarshalJSON_returns r data⟩⟩,
   ⟨Uint48_UnmarshalJSON_quote, fun r data => ⟨fun hres hq => by
       obtain ⟨res, hr⟩ := hres
       subst hq
       rw [Uint48_UnmarshalJSON_quote] at hr
       exact absurd hr (by simp),
     Uint48_UnmarshalJSON_returns r data⟩⟩,
   ⟨Int56_UnmarshalJSON_quote, fun r data => ⟨fun hres hq => by
       obtain ⟨res, hr⟩ := hres
       subst hq
       rw [Int56_UnmarshalJSON_quote] at hr
       exact absurd hr (by simp),
     Int56_UnmarshalJSON_returns r data⟩⟩,
   ⟨Uint56_UnmarshalJSON_quote, fun r data => ⟨fun hres hq => by
       obtain ⟨res, hr⟩ := hres
       subst hq
       rw [Uint56_UnmarshalJSON_quote] at hr
       exact absurd hr (by simp),
     Uint56_UnmarshalJSON_returns r data⟩⟩⟩

/-- C13: for each of the eight types and every non-empty payload whose content, enclosing quotes
removed, is read by `strconv` as the native 64-bit integer `v`: `UnmarshalJSON` returns a nil
error and stores `v` when `v` is in the range of the type, and otherwise leaves the receiver as it
was and returns the error of `NewX v`, the out-of-range error of the type; so for the payload
`16777216` on `Uint24` and `-8388609` on `Int24`. -/
theorem C13_json_parsed_value_is_range_checked :
    (∀ (r : Int24) (data : List Byte) (v : Int), data ≠ [] →
      strconv.ParseInt (quoteStripped data) = (v, none) →
      ((-(2 ^ 23) ≤ v ∧ v ≤ 2 ^ 23 - 1) → Int24.UnmarshalJSON r data = Run.ret (⟨v⟩, none)) ∧
      (¬ (-(2 ^ 23) ≤ v ∧ v ≤ 2 ^ 23 - 1) →
        Int24.UnmarshalJSON r data = Run.ret (r, (NewInt24 v).2) ∧ (NewInt24 v).2 = some GoError.ErrInt24OutOfRange)) ∧
    (∀ (r : Uint24) (data : List Byte) (v : Nat), data ≠ [] →
      strconv.ParseUint (quoteStripped data) = (v, none) →
      ((v ≤ 2 ^ 24 - 1) → Uint24.UnmarshalJSON r data = Run.ret (⟨v⟩, none)) ∧
      (¬ (v ≤ 2 ^ 24 - 1) →
        Uint24.UnmarshalJSON r data = Run.ret (r, (NewUint24 v).2) ∧ (NewUint24 v).2 = some GoError.ErrUint24OutOfRange)) ∧
    (∀ (r : Int40) (data : List Byte) (v : Int), data ≠ [] →
      strconv.ParseInt (quoteStripped data) = (v, none) →
      ((-(2 ^ 39) ≤ v ∧ v ≤ 2 ^ 39 - 1) → Int40.UnmarshalJSON r data = Run.ret (⟨v⟩, none)) ∧
      (¬ (-(2 ^ 39) ≤ v ∧ v ≤ 2 ^ 39 - 1) →
        Int40.UnmarshalJSON r data = Run.ret (r, (NewInt40 v).2) ∧ (NewInt40 v).2 = some GoError.ErrInt40OutOfRange)) ∧
    (∀ (r : Uint40) (data : List Byte) (v : Nat), data ≠ [] →
      strconv.ParseUint (quoteStripped data) = (v, none) →
      ((v ≤ 2 ^ 40 - 1) → Uint40.UnmarshalJSON r data = Run.ret (⟨v⟩, none)) ∧
      (¬ (v ≤ 2 ^ 40 - 1) →
        Uint40.UnmarshalJSON r data = Run.ret (r, (NewUint40 v).2) ∧ (NewUint40 v).2 = some GoError.ErrUint40OutOfRange)) ∧
    (∀ (r : Int48) (data : List Byte) (v : Int), data ≠ [] →
      strconv.ParseInt (quoteStripped data) = (v, none) →
      ((-(2 ^ 47) ≤ v ∧ v ≤ 2 ^ 47 - 1) → Int48.UnmarshalJSON r data = Run.ret (⟨v⟩, none)) ∧
      (¬ (-(2 ^ 47) ≤ v ∧ v ≤ 2 ^ 47 - 1) →
        Int48.UnmarshalJSON r data = Run.ret (r, (NewInt48 v).2) ∧ (NewInt48 v).2 = some GoError.ErrInt48OutOfRange)) ∧
    (∀ (r : Uint48) (data : List Byte) (v : Nat), data ≠ [] →
      strconv.ParseUint (quoteStripped data) = (v, none) →
      ((v ≤ 2 ^ 48 - 1) → Uint48.UnmarshalJSON r data = Run.ret (⟨v⟩, none)) ∧
      (¬ (v ≤ 2 ^ 48 - 1) →
        Uint48.UnmarshalJSON r data = Run.ret (r, (NewUint48 v).2) ∧ (NewUint48 v).2 = some GoError.ErrUint48OutOfRange)) ∧
    (∀ (r : Int56) (data : List Byte) (v : Int), data ≠ [] →
      strconv.ParseInt (quoteStripped data) = (v, none) →
      ((-(2 ^ 55) ≤ v ∧ v ≤ 2 ^ 55 - 1) → Int56.UnmarshalJSON r data = Run.ret (⟨v⟩, none)) ∧
      (¬ (-(2 ^ 55) ≤ v ∧ v ≤ 2 ^ 55 - 1) →
        Int56.UnmarshalJSON r data = Run.ret (r, (NewInt56 v).2) ∧ (NewInt56 v).2 = some GoError.ErrInt56OutOfRange)) ∧
    (∀ (r : Uint56) (data : List Byte) (v : Nat), data ≠ [] →
      strconv.ParseUint (quoteStripped data) = (v, none) →
      ((v ≤ 2 ^ 56 - 1) → Uint56.UnmarshalJSON r data = Run.ret (⟨v⟩, none)) ∧
      (¬ (v ≤ 2 ^ 56 - 1) →
        Uint56.UnmarshalJSON r data = Run.ret (r, (NewUint56 v).2) ∧ (NewUint56 v).2 = some GoError.ErrUint56OutOfRange)) ∧
    (∀ r : Uint24, Uint24.UnmarshalJSON r [0x31, 0x36, 0x37, 0x37, 0x37, 0x32, 0x31, 0x36] = Run.ret (r, some GoError.ErrUint24OutOfRange)) ∧
    (∀ r : Int24, Int24.UnmarshalJSON r [0x2D, 0x38, 0x33, 0x38, 0x38, 0x36, 0x30, 0x39] = Run.ret (r, some GoError.ErrInt24OutOfRange)) :=
  ⟨fun r data v h1 hp => by
     have h2 : data ≠ [0x22] := by
       intro hq; subst hq; exact strconv.ParseInt_single_quote (congrArg Prod.snd hp)
     exact ⟨fun h => Int24_UnmarshalJSON_parse_in r data v h1 h2 hp h.1 h.2,
       fun h => by
         rw [NewInt24_out v h]
         exact ⟨Int24_UnmarshalJSON_parse_out r data v h1 h2 hp h, rfl⟩⟩,
   fun r data v h1 hp => by
     have h2 : data ≠ [0x22] := by
       intro hq; subst hq; exact strconv.ParseUint_single_quote (congrArg Prod.snd hp)
     exact ⟨fun h => Uint24_UnmarshalJSON_parse_in r data v h1 h2 hp h,
       fun h => by
         rw [NewUint24_out v h]
         exact ⟨Uint24_UnmarshalJSON_parse_out r data v h1 h2 hp h, rfl⟩⟩,
   fun r data v h1 hp => by
     have h2 : data ≠ [0x22] := by
       intro hq; subst hq; exact strconv.ParseInt_single_quote (congrArg Prod.snd hp)
     exact ⟨fun h => Int40_UnmarshalJSON_parse_in r data v h1 h2 hp h.1 h.2,
       fun h => by
         rw [NewInt40_out v h]
         exact ⟨Int40_UnmarshalJSON_parse_out r data v h1 h2 hp h, rfl⟩⟩,
   fun r data v h1 hp => by
     have h2 : data ≠ [0x22] := by
       intro hq; subst hq; exact strconv.ParseUint_single_quote (congrArg Prod.snd hp)
     exact ⟨fun h => Uint40_UnmarshalJSON_parse_in r data v h1 h2 hp h,
       fun h => by
         rw [NewUint40_out v h]
         exact ⟨Uint40_UnmarshalJSON_parse_out r data v h1 h2 hp h, rfl⟩⟩,
   fun r data v h1 hp => by
     have h2 : data ≠ [0x22] := by
       intro hq; subst hq; exact strconv.ParseInt_single_quote (congrArg Prod.snd hp)
     exact ⟨fun h => Int48_UnmarshalJSON_parse_in r data v h1 h2 hp h.1 h.2,
       fun h => by
         rw [NewInt48_out v h]
         exact ⟨Int48_UnmarshalJSON_parse_out r data v h1 h2 hp h, rfl⟩⟩,
   fun r data v h1 hp => by
     have h2 : data ≠ [0x22] := by
       intro hq; subst hq; exact strconv.ParseUint_single_quote (congrArg Prod.snd hp)
     exact ⟨fun h => Uint48_UnmarshalJSON_parse_in r data v h1 h2 hp h,
       fun h => by
         rw [NewUint48_out v h]
         exact ⟨Uint48_UnmarshalJSON_parse_out r data v h1 h2 hp h, rfl⟩⟩,
   fun r data v h1 hp => by
     have h2 : data ≠ [0x22] := by
       intro hq; subst hq; exact strconv.ParseInt_single_quote (congrArg Prod.snd hp)
     exact ⟨fun h => Int56_UnmarshalJSON_parse_in r data v h1 h2 hp h.1 h.2,
       fun h => by
         rw [NewInt56_out v h]
         exact ⟨Int56_UnmarshalJSON_parse_out r data v h1 h2 hp h, rfl⟩⟩,
   fun r data v h1 hp => by
     have h2 : data ≠ [0x22] := by
       intro hq; subst hq; exact strconv.ParseUint_single_quote (congrArg Prod.snd hp)
     exact ⟨fun h => Uint56_UnmarshalJSON_parse_in r data v h1 h2 hp h,
       fun h => by
         rw [NewUint56_out v h]
         exact ⟨Uint56_UnmarshalJSON_parse_out r data v h1 h2 hp h, rfl⟩⟩,
   fun r => Uint24_UnmarshalJSON_parse_out r _ 16777216 (by decide) (by decide) (by decide) (by omega),
   fun r => Int24_UnmarshalJSON_parse_out r _ (-8388609) (by decide) (by decide) (by decide) (by omega)⟩

/-- Instances of `C13_json_parsed_value_is_range_checked` at concrete inputs, one for each type. -/
theorem C13_json_parsed_value_is_range_checked_witness :
    (Int24.UnmarshalJSON ⟨7⟩ [0x2D, 0x38, 0x33, 0x38, 0x38, 0x36, 0x30, 0x39] = Run.ret (⟨7⟩, (NewInt24 (-8388609)).2) ∧
      (NewInt24 (-8388609)).2 = some GoError.ErrInt24OutOfRange) ∧
    (Uint24.UnmarshalJSON ⟨7⟩ [0x31, 0x36, 0x37, 0x37, 0x37, 0x32, 0x31, 0x36] = Run.ret (⟨7⟩, (NewUint24 16777216).2) ∧
      (NewUint24 16777216).2 = some GoError.ErrUint24OutOfRange) ∧
    (Int40.UnmarshalJSON ⟨7⟩ [0x2D, 0x35, 0x34, 0x39, 0x37, 0x35, 0x35, 0x38, 0x31, 0x33, 0x38, 0x38, 0x39] = Run.ret (⟨7⟩, (NewInt40 (-549755813889)).2) ∧
      (NewInt40 (-549755813889)).2 = some GoError.ErrInt40OutOfRange) ∧
    (Uint40.UnmarshalJSON ⟨7⟩ [0x31, 0x30, 0x39, 0x39, 0x35, 0x31, 0x31, 0x36, 0x32, 0x37, 0x37, 0x37, 0x36] = Run.ret (⟨7⟩, (NewUint40 1099511627776).2) ∧
      (NewUint40 1099511627776).2 = some GoError.ErrUint40OutOfRange) ∧
    (Int48.UnmarshalJSON ⟨7⟩ [0x2D, 0x31, 0x34, 0x30, 0x37, 0x33, 0x37, 0x34, 0x38, 0x38, 0x33, 0x35, 0x35, 0x33, 0x32, 0x39] = Run.ret (⟨7⟩, (NewInt48 (-140737488355329)).2) ∧
      (NewInt48 (-140737488355329)).2 = some GoError.ErrInt48OutOfRange) ∧
    (Uint48.UnmarshalJSON ⟨7⟩ [0x32, 0x38, 0x31, 0x34, 0x37, 0x34, 0x39, 0x37, 0x36, 0x37, 0x31, 0x30, 0x36, 0x35, 0x36] = Run.ret (⟨7⟩, (NewUint48 281474976710656).2) ∧
      (NewUint48 281474976710656).2 = some GoError.ErrUint48OutOfRange) ∧
    (Int56.UnmarshalJSON ⟨7⟩ [0x2D, 0x33, 0x36, 0x30, 0x32, 0x38, 0x37, 0x39, 0x37, 0x30, 0x31, 0x38, 0x39, 0x36, 0x33, 0x39, 0x36, 0x39] = Run.ret (⟨7⟩, (NewInt56 (-36028797018963969)).2) ∧
      (NewInt56 (-36028797018963969)).2 = some GoError.ErrInt56OutOfRange) ∧
    (Uint56.UnmarshalJSON ⟨7⟩ [0x37, 0x32, 0x30, 0x35, 0x37, 0x35, 0x39, 0x34, 0x30, 0x33, 0x37, 0x39, 0x32, 0x37, 0x39, 0x33, 0x36] = Run.ret (⟨7⟩, (NewUint56 72057594037927936).2) ∧
      (NewUint56 72057594037927936).2 = some GoError.ErrUint56OutOfRange) :=
  ⟨(C13_json_parsed_value_is_range_checked.1 ⟨7⟩ [0x2D, 0x38, 0x33, 0x38, 0x38, 0x36, 0x30, 0x39] (-8388609) (by decide) (by decide)).2 (by decide),
   (C13_json_parsed_value_is_range_checked.2.1 ⟨7⟩ [0x31, 0x36, 0x37, 0x37, 0x37, 0x32, 0x31, 0x36] 16777216 (by decide) (by decide)).2 (by decide),
   (C13_json_parsed_value_is_range_checked.2.2.1 ⟨7⟩ [0x2D, 0x35, 0x34, 0x39, 0x37, 0x35, 0x35, 0x38, 0x31, 0x33, 0x38, 0x38, 0x39] (-549755813889) (by decide) (by decide)).2 (by decide),
   (C13_json_parsed_value_is_range_checked.2.2.2.1 ⟨7⟩ [0x31, 0x30, 0x39, 0x39, 0x35, 0x31, 0x31, 0x36, 0x32, 0x37, 0x37, 0x37, 0x36] 1099511627776 (by decide) (by decide)).2 (by decide),
   (C13_json_parsed_value_is_range_checked.2.2.2.2.1 ⟨7⟩ [0x2D, 0x31, 0x34, 0x30, 0x37, 0x33, 0x37, 0x34, 0x38, 0x38, 0x33, 0x35, 0x35, 0x33, 0x32, 0x39] (-140737488355329) (by decide) (by decide)).2 (by decide),
   (C13_json_parsed_value_is_range_checked.2.2.2.2.2.1 ⟨7⟩ [0x32, 0x38, 0x31, 0x34, 0x37, 0x34, 0x39, 0x37, 0x36, 0x37, 0x31, 0x30, 0x36, 0x35, 0x36] 281474976710656 (by decide) (by decide)).2 (by decide),
   (C13_json_parsed_value_is_range_checked.2.2.2.2.2.2.1 ⟨7⟩ [0x2D, 0x33, 0x36, 0x30, 0x32, 0x38, 0x37, 0x39, 0x37, 0x30, 0x31, 0x38, 0x39, 0x36, 0x33, 0x39, 0x36, 0x39] (-36028797018963969) (by decide) (by decide)).2 (by decide),
   (C13_json_parsed_value_is_range_checked.2.2.2.2.2.2.2.1 ⟨7⟩ [0x37, 0x32, 0x30, 0x35, 0x37, 0x35, 0x39, 0x34, 0x30, 0x33, 0x37, 0x39, 0x32, 0x37, 0x39, 0x33, 0x36] 72057594037927936 (by decide) (by decide)).2 (by decide)⟩

/-- C14 as stated fails: the payload `+5` holds the byte `+`, which is not a digit, and the four
signed types accept it and store 5 instead of returning a parse error. -/
theorem C14_signed_types_accept_leading_plus :
    (isDigit 0x2B = false) ∧
    (Int24.UnmarshalJSON ⟨0⟩ [0x2B, 0x35] = Run.ret (⟨5⟩, none)) ∧
    (Int40.UnmarshalJSON ⟨0⟩ [0x2B, 0x35] = Run.ret (⟨5⟩, none)) ∧
    (Int48.UnmarshalJSON ⟨0⟩ [0x2B, 0x35] = Run.ret (⟨5⟩, none)) ∧
    (Int56.UnmarshalJSON ⟨0⟩ [0x2B, 0x35] = Run.ret (⟨5⟩, none)) :=
  ⟨by decide,
   by decide,
   by decide,
   by decide,
   by decide⟩

/-- C14 amended: for each of the eight types, on every non-empty payload other than the single double
quote whose content, one pair of enclosing double quotes removed, is not a decimal integer of the
native width (digits, after an optional `+` or `-` for the signed types, of a value that fits the
64-bit container), `UnmarshalJSON` leaves the receiver as it was and returns a `NumError` of
`strconv`, which is neither the out-of-range error of the type nor the empty-data error. This
covers digits beyond the container, a content holding a byte that is not a digit such as `abc` or
`1.5`, and a leading minus sign for the unsigned types. -/
theorem C14_not_decimal_payload_is_parse_error :
    (∀ (r : Int24) (data : List Byte), data ≠ [] → data ≠ [0x22] →
      isDecimalInt64 (quoteStripped data) = false →
      ∃ e, Int24.UnmarshalJSON r data =
        Run.ret (r, some (GoError.NumError "ParseInt" (quoteStripped data) e))) ∧
    (∀ (r : Uint24) (data : List Byte), data ≠ [] → data ≠ [0x22] →
      isDecimalUint64 (quoteStripped data) = false →
      ∃ e, Uint24.UnmarshalJSON r data =
        Run.ret (r, some (GoError.NumError "ParseUint" (quoteStripped data) e))) ∧
    (∀ (r : Int40) (data : List Byte), data ≠ [] → data ≠ [0x22] →
      isDecimalInt64 (quoteStripped data) = false →
      ∃ e, Int40.UnmarshalJSON r data =
        Run.ret (r, some (GoError.NumError "ParseInt" (quoteStripped data) e))) ∧
    (∀ (r : Uint40) (data : List Byte), data ≠ [] → data ≠ [0x22] →
      isDecimalUint64 (quoteStripped data) = false →
      ∃ e, Uint40.UnmarshalJSON r data =
        Run.ret (r, some (GoError.NumError "ParseUint" (quoteStripped data) e))) ∧
    (∀ (r : Int48) (data : List Byte), data ≠ [] → data ≠ [0x22] →
      isDecimalInt64 (quoteStripped data) = false →
      ∃ e, Int48.UnmarshalJSON r data =
        Run.ret (r, some (GoError.NumError "ParseInt" (quoteStripped data) e))) ∧
    (∀ (r : Uint48) (data : List Byte), data ≠ [] → data ≠ [0x22] →
      isDecimalUint64 (quoteStripped data) = false →
      ∃ e, Uint48.UnmarshalJSON r data =
        Run.ret (r, some (GoError.NumError "ParseUint" (quoteStripped data) e))) ∧
    (∀ (r : Int56) (data : List Byte), data ≠ [] → data ≠ [0x22] →
      isDecimalInt64 (quoteStripped data) = false →
      ∃ e, Int56.UnmarshalJSON r data =
        Run.ret (r, some (GoError.NumError "ParseInt" (quoteStripped data) e))) ∧
    (∀ (r : Uint56) (data : List Byte), data ≠ [] → data ≠ [0x22] →
      isDecimalUint64 (quoteStripped data) = false →
      ∃ e, Uint56.UnmarshalJSON r data =
        Run.ret (r, some (GoError.NumError "ParseUint" (quoteStripped data) e))) ∧
    (∀ (f : String) (n : List Byte) (e : StrconvErr),
      GoError.NumError f n e ≠ GoError.ErrInt24OutOfRange ∧ GoError.NumError f n e ≠ GoError.ErrUint24OutOfRange ∧
      GoError.NumError f n e ≠ GoError.ErrInt40OutOfRange ∧ GoError.NumError f n e ≠ GoError.ErrUint40OutOfRange ∧
      GoError.NumError f n e ≠ GoError.ErrInt48OutOfRange ∧ GoError.NumError f n e ≠ GoError.ErrUint48OutOfRange ∧
      GoError.NumError f n e ≠ GoError.ErrInt56OutOfRange ∧ GoError.NumError f n e ≠ GoError.ErrUint56OutOfRange ∧
      GoError.NumError f n e ≠ GoError.ErrInt24EmptyData ∧ GoError.NumError f n e ≠ GoError.ErrInt40EmptyData ∧
      GoError.NumError f n e ≠ GoError.ErrInt48EmptyData ∧ GoError.NumError f n e ≠ GoError.ErrInt56EmptyData) :=
  ⟨fun r data h1 h2 h => by
     obtain ⟨v, e, hp⟩ := strconv.ParseInt_not_decimal _ h
     exact ⟨e, Int24_UnmarshalJSON_parse_err r data v _ h1 h2 hp⟩,
   fun r data h1 h2 h => by
     obtain ⟨v, e, hp⟩ := strconv.ParseUint_not_decimal _ h
     exact ⟨e, Uint24_UnmarshalJSON_parse_err r data v _ h1 h2 hp⟩,
   fun r data h1 h2 h => by
     obtain ⟨v, e, hp⟩ := strconv.ParseInt_not_decimal _ h
     exact ⟨e, Int40_UnmarshalJSON_parse_err r data v _ h1 h2 hp⟩,
   fun r data h1 h2 h => by
     obtain ⟨v, e, hp⟩ := strconv.ParseUint_not_decimal _ h
     exact ⟨e, Uint40_UnmarshalJSON_parse_err r data v _ h1 h2 hp⟩,
   fun r data h1 h2 h => by
     obtain ⟨v, e, hp⟩ := strconv.ParseInt_not_decimal _ h
     exact ⟨e, Int48_UnmarshalJSON_parse_err r data v _ h1 h2 hp⟩,
   fun r data h1 h2 h => by
     obtain ⟨v, e, hp⟩ := strconv.ParseUint_not_decimal _ h
     exact ⟨e, Uint48_UnmarshalJSON_parse_err r data v _ h1 h2 hp⟩,
   fun r data h1 h2 h => by
     obtain ⟨v, e, hp⟩ := strconv.ParseInt_not_decimal _ h
     exact ⟨e, Int56_UnmarshalJSON_parse_err r data v _ h1 h2 hp⟩,
   fun r data h1 h2 h => by
     obtain ⟨v, e, hp⟩ := strconv.ParseUint_not_decimal _ h
     exact ⟨e, Uint56_UnmarshalJSON_parse_err r data v _ h1 h2 hp⟩,
   fun _ _ _ => by simp⟩

/-- Instances of `C14_not_decimal_payload_is_parse_error` at concrete inputs, one for each type. -/
theorem C14_not_decimal_payload_is_parse_error_witness :
    (∃ e, Int24.UnmarshalJSON ⟨7⟩ [0x61, 0x62, 0x63] =
        Run.ret (⟨7⟩, some (GoError.NumError "ParseInt" (quoteStripped [0x61, 0x62, 0x63]) e))) ∧
    (∃ e, Uint24.UnmarshalJSON ⟨7⟩ [0x2D, 0x31] =
        Run.ret (⟨7⟩, some (GoError.NumError "ParseUint" (quoteStripped [0x2D, 0x31]) e))) ∧
    (∃ e, Int40.UnmarshalJSON ⟨7⟩ [0x31, 0x2E, 0x35] =
        Run.ret (⟨7⟩, some (GoError.NumError "ParseInt" (quoteStripped [0x31, 0x2E, 0x35]) e))) ∧
    (∃ e, Uint40.UnmarshalJSON ⟨7⟩ [0x31, 0x38, 0x34, 0x34, 0x36, 0x37, 0x34, 0x34, 0x30, 0x37, 0x33, 0x37, 0x30, 0x39, 0x35, 0x35, 0x31, 0x36, 0x31, 0x36] =
        Run.ret (⟨7⟩, some (GoError.NumError "ParseUint" (quoteStripped [0x31, 0x38, 0x34, 0x34, 0x36, 0x37, 0x34, 0x34, 0x30, 0x37, 0x33, 0x37, 0x30, 0x39, 0x35, 0x35, 0x31, 0x36, 0x31, 0x36]) e))) ∧
    (∃ e, Int48.UnmarshalJSON ⟨7⟩ [0x39, 0x32, 0x32, 0x33, 0x33, 0x37, 0x32, 0x30, 0x33, 0x36, 0x38, 0x35, 0x34, 0x37, 0x37, 0x35, 0x38, 0x30, 0x38] =
        Run.ret (⟨7⟩, some (GoError.NumError "ParseInt" (quoteStripped [0x39, 0x32, 0x32, 0x33, 0x33, 0x37, 0x32, 0x30, 0x33, 0x36, 0x38, 0x35, 0x34, 0x37, 0x37, 0x35, 0x38, 0x30, 0x38]) e))) ∧
    (∃ e, Uint48.UnmarshalJSON ⟨7⟩ [0x61, 0x62, 0x63] =
        Run.ret (⟨7⟩, some (GoError.NumError "ParseUint" (quoteStripped [0x61, 0x62, 0x63]) e))) ∧
    (∃ e, Int56.UnmarshalJSON ⟨7⟩ [0x2D, 0x39, 0x32, 0x32, 0x33, 0x33, 0x37, 0x32, 0x30, 0x33, 0x36, 0x38, 0x35, 0x34, 0x37, 0x37, 0x35, 0x38, 0x30, 0x39] =
        Run.ret (⟨7⟩, some (GoError.NumError "ParseInt" (quoteStripped [0x2D, 0x39, 0x32, 0x32, 0x33, 0x33, 0x37, 0x32, 0x30, 0x33, 0x36, 0x38, 0x35, 0x34, 0x37, 0x37, 0x35, 0x38, 0x30, 0x39]) e))) ∧
    (∃ e, Uint56.UnmarshalJSON ⟨7⟩ [0x31, 0x2E, 0x35] =
        Run.ret (⟨7⟩, some (GoError.NumError "ParseUint" (quoteStripped [0x31, 0x2E, 0x35]) e))) :=
  ⟨C14_not_decimal_payload_is_parse_error.1 ⟨7⟩ [0x61, 0x62, 0x63] (by decide) (by decide) (by decide),
   C14_not_decimal_payload_is_parse_error.2.1 ⟨7⟩ [0x2D, 0x31] (by decide) (by decide) (by decide),
   C14_not_decimal_payload_is_parse_error.2.2.1 ⟨7⟩ [0x31, 0x2E, 0x35] (by decide) (by decide) (by decide),
   C14_not_decimal_payload_is_parse_error.2.2.2.1 ⟨7⟩ [0x31, 0x38, 0x34, 0x34, 0x36, 0x37, 0x34, 0x34, 0x30, 0x37, 0x33, 0x37, 0x30, 0x39, 0x35, 0x35, 0x31, 0x36, 0x31, 0x36] (by decide) (by decide) (by decide),
   C14_not_decimal_payload_is_parse_error.2.2.2.2.1 ⟨7⟩ [0x39, 0x32, 0x32, 0x33, 0x33, 0x37, 0x32, 0x30, 0x33, 0x36, 0x38, 0x35, 0x34, 0x37, 0x37, 0x35, 0x38, 0x30, 0x38] (by decide) (by decide) (by decide),
   C14_not_decimal_payload_is_parse_error.2.2.2.2.2.1 ⟨7⟩ [0x61, 0x62, 0x63] (by decide) (by decide) (by decide),
   C14_not_decimal_payload_is_parse_error.2.2.2.2.2.2.1 ⟨7⟩ [0x2D, 0x39, 0x32, 0x32, 0x33, 0x33, 0x37, 0x32, 0x30, 0x33, 0x36, 0x38, 0x35, 0x34, 0x37, 0x37, 0x35, 0x38, 0x30, 0x39] (by decide) (by decide) (by decide),
   C14_not_decimal_payload_is_parse_error.2.2.2.2.2.2.2.1 ⟨7⟩ [0x31, 0x2E, 0x35] (by decide) (by decide) (by decide)⟩

/-- C15: for each of the eight types, `UnmarshalJSON` returns the empty-data error of the package
exactly when the payload has length zero; the two-byte payload made of two double quotes is
reported as a syntax error of `strconv` on the empty text. -/
theorem C15_empty_data_iff_zero_length :
    ((∀ (r : Int24) (data : List Byte),
        (∃ r1, Int24.UnmarshalJSON r data = Run.ret (r1, some GoError.ErrInt24EmptyData)) ↔ data.length = 0) ∧
      (∀ r : Int24, Int24.UnmarshalJSON r [0x22, 0x22] =
        Run.ret (r, some (GoError.NumError "ParseInt" [] StrconvErr.syntaxError)))) ∧
    ((∀ (r : Uint24) (data : List Byte),
        (∃ r1, Uint24.UnmarshalJSON r data = Run.ret (r1, some GoError.ErrInt24EmptyData)) ↔ data.length = 0) ∧
      (∀ r : Uint24, Uint24.UnmarshalJSON r [0x22, 0x22] =
        Run.ret (r, some (GoError.NumError "ParseUint" [] StrconvErr.syntaxError)))) ∧
    ((∀ (r : Int40) (data : List Byte),
        (∃ r1, Int40.UnmarshalJSON r data = Run.ret (r1, some GoError.ErrInt40EmptyData)) ↔ data.length = 0) ∧
      (∀ r : Int40, Int40.UnmarshalJSON r [0x22, 0x22] =
        Run.ret (r, some (GoError.NumError "ParseInt" [] StrconvErr.syntaxError)))) ∧
    ((∀ (r : Uint40) (data : List Byte),
        (∃ r1, Uint40.UnmarshalJSON r data = Run.ret (r1, some GoError.ErrInt40EmptyData)) ↔ data.length = 0) ∧
      (∀ r : Uint40, Uint40.UnmarshalJSON r [0x22, 0x22] =
        Run.ret (r, some (GoError.NumError "ParseUint" [] StrconvErr.syntaxError)))) ∧
    ((∀ (r : Int48) (data : List Byte),
        (∃ r1, Int48.UnmarshalJSON r data = Run.ret (r1, some GoError.ErrInt48EmptyData)) ↔ data.length = 0) ∧
      (∀ r : Int48, Int48.UnmarshalJSON r [0x22, 0x22] =
        Run.ret (r, some (GoError.NumError "ParseInt" [] StrconvErr.syntaxError)))) ∧
    ((∀ (r : Uint48) (data : List Byte),
        (∃ r1, Uint48.UnmarshalJSON r data = Run.ret (r1, some GoError.ErrInt48EmptyData)) ↔ data.length = 0) ∧
      (∀ r : Uint48, Uint48.UnmarshalJSON r [0x22, 0x22] =
        Run.ret (r, some (GoError.NumError "ParseUint" [] StrconvErr.syntaxError)))) ∧
    ((∀ (r : Int56) (data : List Byte),
        (∃ r1, Int56.UnmarshalJSON r data = Run.ret (r1, some GoError.ErrInt56EmptyData)) ↔ data.length = 0) ∧
      (∀ r : Int56, Int56.UnmarshalJSON r [0x22, 0x22] =
        Run.ret (r, some (GoError.NumError "ParseInt" [] StrconvErr.syntaxError)))) ∧
    ((∀ (r : Uint56) (data : List Byte),
        (∃ r1, Uint56.UnmarshalJSON r data = Run.ret (r1, some GoError.ErrInt56EmptyData)) ↔ data.length = 0) ∧
      (∀ r : Uint56, Uint56.UnmarshalJSON r [0x22, 0x22] =
        Run.ret (r, some (GoError.NumError "ParseUint" [] StrconvErr.syntaxError)))) :=
  ⟨⟨Int24_UnmarshalJSON_empty_iff, fun _ => rfl⟩,
   ⟨Uint24_UnmarshalJSON_empty_iff, fun _ => rfl⟩,
   ⟨Int40_UnmarshalJSON_empty_iff, fun _ => rfl⟩,
   ⟨Uint40_UnmarshalJSON_empty_iff, fun _ => rfl⟩,
   ⟨Int48_UnmarshalJSON_empty_iff, fun _ => rfl⟩,
   ⟨Uint48_UnmarshalJSON_empty_iff, fun _ => rfl⟩,
   ⟨Int56_UnmarshalJSON_empty_iff, fun _ => rfl⟩,
   ⟨Uint56_UnmarshalJSON_empty_iff, fun _ => rfl⟩⟩

/-- C16: unsigned decoding is plain concatenation. For each unsigned type and every byte sequence `b`
of length `W/8`, both decoders return a nil error, `FromUintWBytes b` has `Uint64` equal to the
sum of `b[i] * 256^(n-1-i)` and `FromUintWLittleEndianBytes b` has `Uint64` equal to the sum of
`b[i] * 256^i`; `12 34 56` decodes to `0x123456` big-endian and `56 34 12` to `0x123456` little-
endian. -/
theorem C16_unsigned_decoding_is_concatenation :
    (∀ b : List Byte, b.length = 3 →
      ((FromUint24Bytes b).2 = none ∧ (FromUint24Bytes b).1.Uint64 = bigEndianMagnitude b) ∧
      ((FromUint24LittleEndianBytes b).2 = none ∧
        (FromUint24LittleEndianBytes b).1.Uint64 = littleEndianMagnitude b)) ∧
    (∀ b : List Byte, b.length = 5 →
      ((FromUint40Bytes b).2 = none ∧ (FromUint40Bytes b).1.Uint64 = bigEndianMagnitude b) ∧
      ((FromUint40LittleEndianBytes b).2 = none ∧
        (FromUint40LittleEndianBytes b).1.Uint64 = littleEndianMagnitude b)) ∧
    (∀ b : List Byte, b.length = 6 →
      ((FromUint48Bytes b).2 = none ∧ (FromUint48Bytes b).1.Uint64 = bigEndianMagnitude b) ∧
      ((FromUint48LittleEndianBytes b).2 = none ∧
        (FromUint48LittleEndianBytes b).1.Uint64 = littleEndianMagnitude b)) ∧
    (∀ b : List Byte, b.length = 7 →
      ((FromUint56Bytes b).2 = none ∧ (FromUint56Bytes b).1.Uint64 = bigEndianMagnitude b) ∧
      ((FromUint56LittleEndianBytes b).2 = none ∧
        (FromUint56LittleEndianBytes b).1.Uint64 = littleEndianMagnitude b)) ∧
    ((FromUint24Bytes [0x12, 0x34, 0x56]).1.Uint64 = 0x123456 ∧
      (FromUint24LittleEndianBytes [0x56, 0x34, 0x12]).1.Uint64 = 0x123456) :=
  ⟨fun b h => by
     obtain ⟨h1, h2⟩ := FromUint24Bytes_spec b h
     obtain ⟨h3, h4⟩ := FromUint24LittleEndianBytes_spec b h
     rw [h1, h3]
     exact ⟨⟨rfl, Uint24_Uint64_mk _ (by omega)⟩, ⟨rfl, Uint24_Uint64_mk _ (by omega)⟩⟩,
   fun b h => by
     obtain ⟨h1, h2⟩ := FromUint40Bytes_spec b h
     obtain ⟨h3, h4⟩ := FromUint40LittleEndianBytes_spec b h
     rw [h1, h3]
     exact ⟨⟨rfl, Uint40_Uint64_mk _ (by omega)⟩, ⟨rfl, Uint40_Uint64_mk _ (by omega)⟩⟩,
   fun b h => by
     obtain ⟨h1, h2⟩ := FromUint48Bytes_spec b h
     obtain ⟨h3, h4⟩ := FromUint48LittleEndianBytes_spec b h
     rw [h1, h3]
     exact ⟨⟨rfl, Uint48_Uint64_mk _ (by omega)⟩, ⟨rfl, Uint48_Uint64_mk _ (by omega)⟩⟩,
   fun b h => by
     obtain ⟨h1, h2⟩ := FromUint56Bytes_spec b h
     obtain ⟨h3, h4⟩ := FromUint56LittleEndianBytes_spec b h
     rw [h1, h3]
     exact ⟨⟨rfl, Uint56_Uint64_mk _ (by omega)⟩, ⟨rfl, Uint56_Uint64_mk _ (by omega)⟩⟩,
   by decide⟩

/-- Instances of `C16_unsigned_decoding_is_concatenation` at concrete inputs, one for each type. -/
theorem C16_unsigned_decoding_is_concatenation_witness :
    (((FromUint24Bytes [0x12, 0x34, 0x56]).2 = none ∧ (FromUint24Bytes [0x12, 0x34, 0x56]).1.Uint64 = bigEndianMagnitude [0x12, 0x34, 0x56]) ∧
      ((FromUint24LittleEndianBytes [0x12, 0x34, 0x56]).2 = none ∧
        (FromUint24LittleEndianBytes [0x12, 0x34, 0x56]).1.Uint64 = littleEndianMagnitude [0x12, 0x34, 0x56])) ∧
    (((FromUint40Bytes [0x12, 0x34, 0x56, 0x78, 0x9A]).2 = none ∧ (FromUint40Bytes [0x12, 0x34, 0x56, 0x78, 0x9A]).1.Uint64 = bigEndianMagnitude [0x12, 0x34, 0x56, 0x78, 0x9A]) ∧
      ((FromUint40LittleEndianBytes [0x12, 0x34, 0x56, 0x78, 0x9A]).2 = none ∧
        (FromUint40LittleEndianBytes [0x12, 0x34, 0x56, 0x78, 0x9A]).1.Uint64 = littleEndianMagnitude [0x12, 0x34, 0x56, 0x78, 0x9A])) ∧
    (((FromUint48Bytes [0x12, 0x34, 0x56, 0x78, 0x9A, 0xBC]).2 = none ∧ (FromUint48Bytes [0x12, 0x34, 0x56, 0x78, 0x9A, 0xBC]).1.Uint64 = bigEndianMagnitude [0x12, 0x34, 0x56, 0x78, 0x9A, 0xBC]) ∧
      ((FromUint48LittleEndianBytes [0x12, 0x34, 0x56, 0x78, 0x9A, 0xBC]).2 = none ∧
        (FromUint48LittleEndianBytes [0x12, 0x34, 0x56, 0x78, 0x9A, 0xBC]).1.Uint64 = littleEndianMagnitude [0x12, 0x34, 0x56, 0x78, 0x9A, 0xBC])) ∧
    (((FromUint56Bytes [0x12, 0x34, 0x56, 0x78, 0x9A, 0xBC, 0xDE]).2 = none ∧ (FromUint56Bytes [0x12, 0x34, 0x56, 0x78, 0x9A, 0xBC, 0xDE]).1.Uint64 = bigEndianMagnitude [0x12, 0x34, 0x56, 0x78, 0x9A, 0xBC, 0xDE]) ∧
      ((FromUint56LittleEndianBytes [0x12, 0x34, 0x56, 0x78, 0x9A, 0xBC, 0xDE]).2 = none ∧
        (FromUint56LittleEndianBytes [0x12, 0x34, 0x56, 0x78, 0x9A, 0xBC, 0xDE]).1.Uint64 = littleEndianMagnitude [0x12, 0x34, 0x56, 0x78, 0x9A, 0xBC, 0xDE])) :=
  ⟨C16_unsigned_decoding_is_concatenation.1 [0x12, 0x34, 0x56] (by decide),
   C16_unsigned_decoding_is_concatenation.2.1 [0x12, 0x34, 0x56, 0x78, 0x9A] (by decide),
   C16_unsigned_decoding_is_concatenation.2.2.1 [0x12, 0x34, 0x56, 0x78, 0x9A, 0xBC] (by decide),
   C16_unsigned_decoding_is_concatenation.2.2.2.1 [0x12, 0x34, 0x56, 0x78, 0x9A, 0xBC, 0xDE] (by decide)⟩

/-- C17: for each of the eight types, `MarshalJSON` of every value `x` returns a nil error and a
payload equal byte for byte to `x.String`, in which no byte is a double quote; and for every value
`x` returned by a successful `NewX v`, whose accessor value is `v`, the payload is the decimal
number `v` and nothing else: a `-` exactly when `v` is negative, then one digit or more, the first
not `0` unless `v` is zero, the digits writing the absolute value of `v`, so that `strconv` reads
the payload back as `v`. The value 12345 gives the five bytes `12345` and the value -12345 the six
bytes `-12345`. -/
theorem C17_MarshalJSON_is_bare_decimal :
    (∀ x : Int24, x.MarshalJSON.2 = none ∧ x.MarshalJSON.1 = x.String ∧
      (0x22 : Byte) ∉ x.MarshalJSON.1) ∧
    (∀ x : Uint24, x.MarshalJSON.2 = none ∧ x.MarshalJSON.1 = x.String ∧
      (0x22 : Byte) ∉ x.MarshalJSON.1) ∧
    (∀ x : Int40, x.MarshalJSON.2 = none ∧ x.MarshalJSON.1 = x.String ∧
      (0x22 : Byte) ∉ x.MarshalJSON.1) ∧
    (∀ x : Uint40, x.MarshalJSON.2 = none ∧ x.MarshalJSON.1 = x.String ∧
      (0x22 : Byte) ∉ x.MarshalJSON.1) ∧
    (∀ x : Int48, x.MarshalJSON.2 = none ∧ x.MarshalJSON.1 = x.String ∧
      (0x22 : Byte) ∉ x.MarshalJSON.1) ∧
    (∀ x : Uint48, x.MarshalJSON.2 = none ∧ x.MarshalJSON.1 = x.String ∧
      (0x22 : Byte) ∉ x.MarshalJSON.1) ∧
    (∀ x : Int56, x.MarshalJSON.2 = none ∧ x.MarshalJSON.1 = x.String ∧
      (0x22 : Byte) ∉ x.MarshalJSON.1) ∧
    (∀ x : Uint56, x.MarshalJSON.2 = none ∧ x.MarshalJSON.1 = x.String ∧
      (0x22 : Byte) ∉ x.MarshalJSON.1) ∧
    (∀ v : Int, (NewInt24 v).2 = none →
      (NewInt24 v).1.Int64 = v ∧ (NewInt24 v).1.MarshalJSON.2 = none ∧
      (∃ ds, (NewInt24 v).1.MarshalJSON.1 = (if v < 0 then [(0x2D : Byte)] else []) ++ ds ∧
        ds ≠ [] ∧ (∀ c ∈ ds, isDigit c = true) ∧ (v ≠ 0 → ds.head? ≠ some (0x30 : Byte)) ∧
        digitsValue ds = Int.natAbs v) ∧
      (v = 0 → (NewInt24 v).1.MarshalJSON.1 = [0x30]) ∧
      strconv.ParseInt (NewInt24 v).1.MarshalJSON.1 = (v, none)) ∧
    (∀ v : Nat, (NewUint24 v).2 = none →
      (NewUint24 v).1.Uint64 = v ∧ (NewUint24 v).1.MarshalJSON.2 = none ∧
      (NewUint24 v).1.MarshalJSON.1 ≠ [] ∧
      (∀ c ∈ (NewUint24 v).1.MarshalJSON.1, isDigit c = true) ∧
      (v ≠ 0 → (NewUint24 v).1.MarshalJSON.1.head? ≠ some (0x30 : Byte)) ∧
      digitsValue (NewUint24 v).1.MarshalJSON.1 = v ∧
      (v = 0 → (NewUint24 v).1.MarshalJSON.1 = [0x30]) ∧
      strconv.ParseUint (NewUint24 v).1.MarshalJSON.1 = (v, none)) ∧
    (∀ v : Int, (NewInt40 v).2 = none →
      (NewInt40 v).1.Int64 = v ∧ (NewInt40 v).1.MarshalJSON.2 = none ∧
      (∃ ds, (NewInt40 v).1.MarshalJSON.1 = (if v < 0 then [(0x2D : Byte)] else []) ++ ds ∧
        ds ≠ [] ∧ (∀ c ∈ ds, isDigit c = true) ∧ (v ≠ 0 → ds.head? ≠ some (0x30 : Byte)) ∧
        digitsValue ds = Int.natAbs v) ∧
      (v = 0 → (NewInt40 v).1.MarshalJSON.1 = [0x30]) ∧
      strconv.ParseInt (NewInt40 v).1.MarshalJSON.1 = (v, none)) ∧
    (∀ v : Nat, (NewUint40 v).2 = none →
      (NewUint40 v).1.Uint64 = v ∧ (NewUint40 v).1.MarshalJSON.2 = none ∧
      (NewUint40 v).1.MarshalJSON.1 ≠ [] ∧
      (∀ c ∈ (NewUint40 v).1.MarshalJSON.1, isDigit c = true) ∧
      (v ≠ 0 → (NewUint40 v).1.MarshalJSON.1.head? ≠ some (0x30 : Byte)) ∧
      digitsValue (NewUint40 v).1.MarshalJSON.1 = v ∧
      (v = 0 → (NewUint40 v).1.MarshalJSON.1 = [0x30]) ∧
      strconv.ParseUint (NewUint40 v).1.MarshalJSON.1 = (v, none)) ∧
    (∀ v : Int, (NewInt48 v).2 = none →
      (NewInt48 v).1.Int64 = v ∧ (NewInt48 v).1.MarshalJSON.2 = none ∧
      (∃ ds, (NewInt48 v).1.MarshalJSON.1 = (if v < 0 then [(0x2D : Byte)] else []) ++ ds ∧
        ds ≠ [] ∧ (∀ c ∈ ds, isDigit c = true) ∧ (v ≠ 0 → ds.head? ≠ some (0x30 : Byte)) ∧
        digitsValue ds = Int.natAbs v) ∧
      (v = 0 → (NewInt48 v).1.MarshalJSON.1 = [0x30]) ∧
      strconv.ParseInt (NewInt48 v).1.MarshalJSON.1 = (v, none)) ∧
    (∀ v : Nat, (NewUint48 v).2 = none →
      (NewUint48 v).1.Uint64 = v ∧ (NewUint48 v).1.MarshalJSON.2 = none ∧
      (NewUint48 v).1.MarshalJSON.1 ≠ [] ∧
      (∀ c ∈ (NewUint48 v).1.MarshalJSON.1, isDigit c = true) ∧
      (v ≠ 0 → (NewUint48 v).1.MarshalJSON.1.head? ≠ some (0x30 : Byte)) ∧
      digitsValue (NewUint48 v).1.MarshalJSON.1 = v ∧
      (v = 0 → (NewUint48 v).1.MarshalJSON.1 = [0x30]) ∧
      strconv.ParseUint (NewUint48 v).1.MarshalJSON.1 = (v, none)) ∧
    (∀ v : Int, (NewInt56 v).2 = none →
      (NewInt56 v).1.Int64 = v ∧ (NewInt56 v).1.MarshalJSON.2 = none ∧
      (∃ ds, (NewInt56 v).1.MarshalJSON.1 = (if v < 0 then [(0x2D : Byte)] else []) ++ ds ∧
        ds ≠ [] ∧ (∀ c ∈ ds, isDigit c = true) ∧ (v ≠ 0 → ds.head? ≠ some (0x30 : Byte)) ∧
        digitsValue ds = Int.natAbs v) ∧
      (v = 0 → (NewInt56 v).1.MarshalJSON.1 = [0x30]) ∧
      strconv.ParseInt (NewInt56 v).1.MarshalJSON.1 = (v, none)) ∧
    (∀ v : Nat, (NewUint56 v).2 = none →
      (NewUint56 v).1.Uint64 = v ∧ (NewUint56 v).1.MarshalJSON.2 = none ∧
      (NewUint56 v).1.MarshalJSON.1 ≠ [] ∧
      (∀ c ∈ (NewUint56 v).1.MarshalJSON.1, isDigit c = true) ∧
      (v ≠ 0 → (NewUint56 v).1.MarshalJSON.1.head? ≠ some (0x30 : Byte)) ∧
      digitsValue (NewUint56 v).1.MarshalJSON.1 = v ∧
      (v = 0 → (NewUint56 v).1.MarshalJSON.1 = [0x30]) ∧
      strconv.ParseUint (NewUint56 v).1.MarshalJSON.1 = (v, none)) ∧
    ((NewInt24 12345).1.MarshalJSON = ([0x31, 0x32, 0x33, 0x34, 0x35], none)) ∧
    ((NewInt24 (-12345)).1.MarshalJSON = ([0x2D, 0x31, 0x32, 0x33, 0x34, 0x35], none)) ∧
    ((NewUint24 12345).1.MarshalJSON = ([0x31, 0x32, 0x33, 0x34, 0x35], none)) ∧
    ((NewInt40 12345).1.MarshalJSON = ([0x31, 0x32, 0x33, 0x34, 0x35], none)) ∧
    ((NewInt40 (-12345)).1.MarshalJSON = ([0x2D, 0x31, 0x32, 0x33, 0x34, 0x35], none)) ∧
    ((NewUint40 12345).1.MarshalJSON = ([0x31, 0x32, 0x33, 0x34, 0x35], none)) ∧
    ((NewInt48 12345).1.MarshalJSON = ([0x31, 0x32, 0x33, 0x34, 0x35], none)) ∧
    ((NewInt48 (-12345)).1.MarshalJSON = ([0x2D, 0x31, 0x32, 0x33, 0x34, 0x35], none)) ∧
    ((NewUint48 12345).1.MarshalJSON = ([0x31, 0x32, 0x33, 0x34, 0x35], none)) ∧
    ((NewInt56 12345).1.MarshalJSON = ([0x31, 0x32, 0x33, 0x34, 0x35], none)) ∧
    ((NewInt56 (-12345)).1.MarshalJSON = ([0x2D, 0x31, 0x32, 0x33, 0x34, 0x35], none)) ∧
    ((NewUint56 12345).1.MarshalJSON = ([0x31, 0x32, 0x33, 0x34, 0x35], none)) :=
  ⟨fun _ => ⟨rfl, rfl, strconv.AppendInt_no_quote _⟩,
   fun _ => ⟨rfl, rfl, strconv.AppendUint_no_quote _⟩,
   fun _ => ⟨rfl, rfl, strconv.AppendInt_no_quote _⟩,
   fun _ => ⟨rfl, rfl, strconv.AppendUint_no_quote _⟩,
   fun _ => ⟨rfl, rfl, strconv.AppendInt_no_quote _⟩,
   fun _ => ⟨rfl, rfl, strconv.AppendUint_no_quote _⟩,
   fun _ => ⟨rfl, rfl, strconv.AppendInt_no_quote _⟩,
   fun _ => ⟨rfl, rfl, strconv.AppendUint_no_quote _⟩,
   fun v h => by
     obtain ⟨hlo, hhi⟩ := (NewInt24_ok_iff v).mp h; rw [NewInt24_in v hlo hhi]
     have e : (Int24.mk v).MarshalJSON = ((Int24.mk v).String, none) := rfl
     rw [e]
     dsimp only
     rw [Int24_String_eq v hlo hhi]
     obtain ⟨h1, h2, h3⟩ := strconv.AppendInt_canonical v (by omega) (by omega)
     exact ⟨Int24_Int64_mk v (by omega) (by omega), rfl, h2, h1, h3⟩,
   fun v h => by
     have hhi := (NewUint24_ok_iff v).mp h; rw [NewUint24_in v hhi]
     have e : (Uint24.mk v).MarshalJSON = ((Uint24.mk v).String, none) := rfl
     rw [e]
     dsimp only
     rw [Uint24_String_eq v hhi]
     obtain ⟨h1, h2, h3, h4, h5, h6⟩ := strconv.AppendUint_canonical v (by omega)
     exact ⟨Uint24_Uint64_mk v (by omega), rfl, h2, h3, h4, h5, h1, h6⟩,
   fun v h => by
     obtain ⟨hlo, hhi⟩ := (NewInt40_ok_iff v).mp h; rw [NewInt40_in v hlo hhi]
     have e : (Int40.mk v).MarshalJSON = ((Int40.mk v).String, none) := rfl
     rw [e]
     dsimp only
     rw [Int40_String_eq v hlo hhi]
     obtain ⟨h1, h2, h3⟩ := strconv.AppendInt_canonical v (by omega) (by omega)
     exact ⟨Int40_Int64_mk v (by omega) (by omega), rfl, h2, h1, h3⟩,
   fun v h => by
     have hhi := (NewUint40_ok_iff v).mp h; rw [NewUint40_in v hhi]
     have e : (Uint40.mk v).MarshalJSON = ((Uint40.mk v).String, none) := rfl
     rw [e]
     dsimp only
     rw [Uint40_String_eq v hhi]
     obtain ⟨h1, h2, h3, h4, h5, h6⟩ := strconv.AppendUint_canonical v (by omega)
     exact ⟨Uint40_Uint64_mk v (by omega), rfl, h2, h3, h4, h5, h1, h6⟩,
   fun v h => by
     obtain ⟨hlo, hhi⟩ := (NewInt48_ok_iff v).mp h; rw [NewInt48_in v hlo hhi]
     have e : (Int48.mk v).MarshalJSON = ((Int48.mk v).String, none) := rfl
     rw [e]
     dsimp only
     rw [Int48_String_eq v hlo hhi]
     obtain ⟨h1, h2, h3⟩ := strconv.AppendInt_canonical v (by omega) (by omega)
     exact ⟨Int48_Int64_mk v (by omega) (by omega), rfl, h2, h1, h3⟩,
   fun v h => by
     have hhi := (NewUint48_ok_iff v).mp h; rw [NewUint48_in v hhi]
     have e : (Uint48.mk v).MarshalJSON = ((Uint48.mk v).String, none) := rfl
     rw [e]
     dsimp only
     rw [Uint48_String_eq v hhi]
     obtain ⟨h1, h2, h3, h4, h5, h6⟩ := strconv.AppendUint_canonical v (by omega)
     exact ⟨Uint48_Uint64_mk v (by omega), rfl, h2, h3, h4, h5, h1, h6⟩,
   fun v h => by
     obtain ⟨hlo, hhi⟩ := (NewInt56_ok_iff v).mp h; rw [NewInt56_in v hlo hhi]
     have e : (Int56.mk v).MarshalJSON = ((Int56.mk v).String, none) := rfl
     rw [e]
     dsimp only
     rw [Int56_String_eq v hlo hhi]
     obtain ⟨h1, h2, h3⟩ := strconv.AppendInt_canonical v (by omega) (by omega)
     exact ⟨Int56_Int64_mk v (by omega) (by omega), rfl, h2, h1, h3⟩,
   fun v h => by
     have hhi := (NewUint56_ok_iff v).mp h; rw [NewUint56_in v hhi]
     have e : (Uint56.mk v).MarshalJSON = ((Uint56.mk v).String, none) := rfl
     rw [e]
     dsimp only
     rw [Uint56_String_eq v hhi]
     obtain ⟨h1, h2, h3, h4, h5, h6⟩ := strconv.AppendUint_canonical v (by omega)
     exact ⟨Uint56_Uint64_mk v (by omega), rfl, h2, h3, h4, h5, h1, h6⟩,
   by decide,
   by decide,
   by decide,
   by decide,
   by decide,
   by decide,
   by decide,
   by decide,
   by decide,
   by decide,
   by decide,
   by decide⟩

/-- Instances of `C17_MarshalJSON_is_bare_decimal` at concrete inputs, one for each type. -/
theorem C17_MarshalJSON_is_bare_decimal_witness :
    ((NewInt24 (-8388608)).1.Int64 = (-8388608) ∧ (NewInt24 (-8388608)).1.MarshalJSON.2 = none ∧
      (∃ ds, (NewInt24 (-8388608)).1.MarshalJSON.1 = (if (-8388608) < 0 then [(0x2D : Byte)] else []) ++ ds ∧
        ds ≠ [] ∧ (∀ c ∈ ds, isDigit c = true) ∧ ((-8388608) ≠ 0 → ds.head? ≠ some (0x30 : Byte)) ∧
        digitsValue ds = Int.natAbs (-8388608)) ∧
      ((-8388608) = 0 → (NewInt24 (-8388608)).1.MarshalJSON.1 = [0x30]) ∧
      strconv.ParseInt (NewInt24 (-8388608)).1.MarshalJSON.1 = ((-8388608), none)) ∧
    ((NewUint24 16777215).1.Uint64 = 16777215 ∧ (NewUint24 16777215).1.MarshalJSON.2 = none ∧
      (NewUint24 16777215).1.MarshalJSON.1 ≠ [] ∧
      (∀ c ∈ (NewUint24 16777215).1.MarshalJSON.1, isDigit c = true) ∧
      (16777215 ≠ 0 → (NewUint24 16777215).1.MarshalJSON.1.head? ≠ some (0x30 : Byte)) ∧
      digitsValue (NewUint24 16777215).1.MarshalJSON.1 = 16777215 ∧
      (16777215 = 0 → (NewUint24 16777215).1.MarshalJSON.1 = [0x30]) ∧
      strconv.ParseUint (NewUint24 16777215).1.MarshalJSON.1 = (16777215, none)) ∧
    ((NewInt40 (-549755813888)).1.Int64 = (-549755813888) ∧ (NewInt40 (-549755813888)).1.MarshalJSON.2 = none ∧
      (∃ ds, (NewInt40 (-549755813888)).1.MarshalJSON.1 = (if (-549755813888) < 0 then [(0x2D : Byte)] else []) ++ ds ∧
        ds ≠ [] ∧ (∀ c ∈ ds, isDigit c = true) ∧ ((-549755813888) ≠ 0 → ds.head? ≠ some (0x30 : Byte)) ∧
        digitsValue ds = Int.natAbs (-549755813888)) ∧
      ((-549755813888) = 0 → (NewInt40 (-549755813888)).1.MarshalJSON.1 = [0x30]) ∧
      strconv.ParseInt (NewInt40 (-549755813888)).1.MarshalJSON.1 = ((-549755813888), none)) ∧
    ((NewUint40 1099511627775).1.Uint64 = 1099511627775 ∧ (NewUint40 1099511627775).1.MarshalJSON.2 = none ∧
      (NewUint40 1099511627775).1.MarshalJSON.1 ≠ [] ∧
      (∀ c ∈ (NewUint40 1099511627775).1.MarshalJSON.1, isDigit c = true) ∧
      (1099511627775 ≠ 0 → (NewUint40 1099511627775).1.MarshalJSON.1.head? ≠ some (0x30 : Byte)) ∧
      digitsValue (NewUint40 1099511627775).1.MarshalJSON.1 = 1099511627775 ∧
      (1099511627775 = 0 → (NewUint40 1099511627775).1.MarshalJSON.1 = [0x30]) ∧
      strconv.ParseUint (NewUint40 1099511627775).1.MarshalJSON.1 = (1099511627775, none)) ∧
    ((NewInt48 (-140737488355328)).1.Int64 = (-140737488355328) ∧ (NewInt48 (-140737488355328)).1.MarshalJSON.2 = none ∧
      (∃ ds, (NewInt48 (-140737488355328)).1.MarshalJSON.1 = (if (-140737488355328) < 0 then [(0x2D : Byte)] else []) ++ ds ∧
        ds ≠ [] ∧ (∀ c ∈ ds, isDigit c = true) ∧ ((-140737488355328) ≠ 0 → ds.head? ≠ some (0x30 : Byte)) ∧
        digitsValue ds = Int.natAbs (-140737488355328)) ∧
      ((-140737488355328) = 0 → (NewInt48 (-140737488355328)).1.MarshalJSON.1 = [0x30]) ∧
      strconv.ParseInt (NewInt48 (-140737488355328)).1.MarshalJSON.1 = ((-140737488355328), none)) ∧
    ((NewUint48 281474976710655).1.Uint64 = 281474976710655 ∧ (NewUint48 281474976710655).1.MarshalJSON.2 = none ∧
      (NewUint48 281474976710655).1.MarshalJSON.1 ≠ [] ∧
      (∀ c ∈ (NewUint48 281474976710655).1.MarshalJSON.1, isDigit c = true) ∧
      (281474976710655 ≠ 0 → (NewUint48 281474976710655).1.MarshalJSON.1.head? ≠ some (0x30 : Byte)) ∧
      digitsValue (NewUint48 281474976710655).1.MarshalJSON.1 = 281474976710655 ∧
      (281474976710655 = 0 → (NewUint48 281474976710655).1.MarshalJSON.1 = [0x30]) ∧
      strconv.ParseUint (NewUint48 281474976710655).1.MarshalJSON.1 = (281474976710655, none)) ∧
    ((NewInt56 (-36028797018963968)).1.Int64 = (-36028797018963968) ∧ (NewInt56 (-36028797018963968)).1.MarshalJSON.2 = none ∧
      (∃ ds, (NewInt56 (-36028797018963968)).1.MarshalJSON.1 = (if (-36028797018963968) < 0 then [(0x2D : Byte)] else []) ++ ds ∧
        ds ≠ [] ∧ (∀ c ∈ ds, isDigit c = true) ∧ ((-36028797018963968) ≠ 0 → ds.head? ≠ some (0x30 : Byte)) ∧
        digitsValue ds = Int.natAbs (-36028797018963968)) ∧
      ((-36028797018963968) = 0 → (NewInt56 (-36028797018963968)).1.MarshalJSON.1 = [0x30]) ∧
      strconv.ParseInt (NewInt56 (-36028797018963968)).1.MarshalJSON.1 = ((-36028797018963968), none)) ∧
    ((NewUint56 72057594037927935).1.Uint64 = 72057594037927935 ∧ (NewUint56 72057594037927935).1.MarshalJSON.2 = none ∧
      (NewUint56 72057594037927935).1.MarshalJSON.1 ≠ [] ∧
      (∀ c ∈ (NewUint56 72057594037927935).1.MarshalJSON.1, isDigit c = true) ∧
      (72057594037927935 ≠ 0 → (NewUint56 72057594037927935).1.MarshalJSON.1.head? ≠ some (0x30 : Byte)) ∧
      digitsValue (NewUint56 72057594037927935).1.MarshalJSON.1 = 72057594037927935 ∧
      (72057594037927935 = 0 → (NewUint56 72057594037927935).1.MarshalJSON.1 = [0x30]) ∧
      strconv.ParseUint (NewUint56 72057594037927935).1.MarshalJSON.1 = (72057594037927935, none)) :=
  ⟨C17_MarshalJSON_is_bare_decimal.2.2.2.2.2.2.2.2.1 (-8388608) (by decide),
   C17_MarshalJSON_is_bare_decimal.2.2.2.2.2.2.2.2.2.1 16777215 (by decide),
   C17_MarshalJSON_is_bare_decimal.2.2.2.2.2.2.2.2.2.2.1 (-549755813888) (by decide),
   C17_MarshalJSON_is_bare_decimal.2.2.2.2.2.2.2.2.2.2.2.1 1099511627775 (by decide),
   C17_MarshalJSON_is_bare_decimal.2.2.2.2.2.2.2.2.2.2.2.2.1 (-140737488355328) (by decide),
   C17_MarshalJSON_is_bare_decimal.2.2.2.2.2.2.2.2.2.2.2.2.2.1 281474976710655 (by decide),
   C17_MarshalJSON_is_bare_decimal.2.2.2.2.2.2.2.2.2.2.2.2.2.2.1 (-36028797018963968) (by decide),
   C17_MarshalJSON_is_bare_decimal.2.2.2.2.2.2.2.2.2.2.2.2.2.2.2.1 72057594037927935 (by decide)⟩

/-- C18: for each of the eight types and every value `x` returned by a successful `NewX v`, `x.String`
is the canonical decimal text of `v`: the single byte `0` for zero; a leading `-` exactly when `v`
is negative, followed by one digit or more and nothing else (no `+`, no padding, no grouping), the
first digit not `0` unless `v` is zero, the digits writing the absolute value of `v`; and
`strconv` reads the text back as `v`. -/
theorem C18_String_is_canonical_decimal :
    (∀ v : Int, (NewInt24 v).2 = none →
      (v = 0 → (NewInt24 v).1.String = [0x30]) ∧
      (∃ ds, (NewInt24 v).1.String = (if v < 0 then [(0x2D : Byte)] else []) ++ ds ∧ ds ≠ [] ∧
        (∀ c ∈ ds, isDigit c = true) ∧ (v ≠ 0 → ds.head? ≠ some (0x30 : Byte)) ∧
        digitsValue ds = Int.natAbs v) ∧
      strconv.ParseInt (NewInt24 v).1.String = (v, none)) ∧
    (∀ v : Nat, (NewUint24 v).2 = none →
      (v = 0 → (NewUint24 v).1.String = [0x30]) ∧ (NewUint24 v).1.String ≠ [] ∧
      (∀ c ∈ (NewUint24 v).1.String, isDigit c = true) ∧
      (v ≠ 0 → (NewUint24 v).1.String.head? ≠ some (0x30 : Byte)) ∧
      digitsValue (NewUint24 v).1.String = v ∧
      strconv.ParseUint (NewUint24 v).1.String = (v, none)) ∧
    (∀ v : Int, (NewInt40 v).2 = none →
      (v = 0 → (NewInt40 v).1.String = [0x30]) ∧
      (∃ ds, (NewInt40 v).1.String = (if v < 0 then [(0x2D : Byte)] else []) ++ ds ∧ ds ≠ [] ∧
        (∀ c ∈ ds, isDigit c = true) ∧ (v ≠ 0 → ds.head? ≠ some (0x30 : Byte)) ∧
        digitsValue ds = Int.natAbs v) ∧
      strconv.ParseInt (NewInt40 v).1.String = (v, none)) ∧
    (∀ v : Nat, (NewUint40 v).2 = none →
      (v = 0 → (NewUint40 v).1.String = [0x30]) ∧ (NewUint40 v).1.String ≠ [] ∧
      (∀ c ∈ (NewUint40 v).1.String, isDigit c = true) ∧
      (v ≠ 0 → (NewUint40 v).1.String.head? ≠ some (0x30 : Byte)) ∧
      digitsValue (NewUint40 v).1.String = v ∧
      strconv.ParseUint (NewUint40 v).1.String = (v, none)) ∧
    (∀ v : Int, (NewInt48 v).2 = none →
      (v = 0 → (NewInt48 v).1.String = [0x30]) ∧
      (∃ ds, (NewInt48 v).1.String = (if v < 0 then [(0x2D : Byte)] else []) ++ ds ∧ ds ≠ [] ∧
        (∀ c ∈ ds, isDigit c = true) ∧ (v ≠ 0 → ds.head? ≠ some (0x30 : Byte)) ∧
        digitsValue ds = Int.natAbs v) ∧
      strconv.ParseInt (NewInt48 v).1.String = (v, none)) ∧
    (∀ v : Nat, (NewUint48 v).2 = none →
      (v = 0 → (NewUint48 v).1.String = [0x30]) ∧ (NewUint48 v).1.String ≠ [] ∧
      (∀ c ∈ (NewUint48 v).1.String, isDigit c = true) ∧
      (v ≠ 0 → (NewUint48 v).1.String.head? ≠ some (0x30 : Byte)) ∧
      digitsValue (NewUint48 v).1.String = v ∧
      strconv.ParseUint (NewUint48 v).1.String = (v, none)) ∧
    (∀ v : Int, (NewInt56 v).2 = none →
      (v = 0 → (NewInt56 v).1.String = [0x30]) ∧
      (∃ ds, (NewInt56 v).1.String = (if v < 0 then [(0x2D : Byte)] else []) ++ ds ∧ ds ≠ [] ∧
        (∀ c ∈ ds, isDigit c = true) ∧ (v ≠ 0 → ds.head? ≠ some (0x30 : Byte)) ∧
        digitsValue ds = Int.natAbs v) ∧
      strconv.ParseInt (NewInt56 v).1.String = (v, none)) ∧
    (∀ v : Nat, (NewUint56 v).2 = none →
      (v = 0 → (NewUint56 v).1.String = [0x30]) ∧ (NewUint56 v).1.String ≠ [] ∧
      (∀ c ∈ (NewUint56 v).1.String, isDigit c = true) ∧
      (v ≠ 0 → (NewUint56 v).1.String.head? ≠ some (0x30 : Byte)) ∧
      digitsValue (NewUint56 v).1.String = v ∧
      strconv.ParseUint (NewUint56 v).1.String = (v, none)) ∧
    ((NewInt40 (-12345)).1.String = [0x2D, 0x31, 0x32, 0x33, 0x34, 0x35] ∧ (NewUint24 0).1.String = [0x30]) :=
  ⟨fun v h => by
     obtain ⟨hlo, hhi⟩ := (NewInt24_ok_iff v).mp h; rw [NewInt24_in v hlo hhi]
     dsimp only
     rw [Int24_String_eq v hlo hhi]
     exact strconv.AppendInt_canonical v (by omega) (by omega),
   fun v h => by
     have hhi := (NewUint24_ok_iff v).mp h; rw [NewUint24_in v hhi]
     dsimp only
     rw [Uint24_String_eq v hhi]
     exact strconv.AppendUint_canonical v (by omega),
   fun v h => by
     obtain ⟨hlo, hhi⟩ := (NewInt40_ok_iff v).mp h; rw [NewInt40_in v hlo hhi]
     dsimp only
     rw [Int40_String_eq v hlo hhi]
     exact strconv.AppendInt_canonical v (by omega) (by omega),
   fun v h => by
     have hhi := (NewUint40_ok_iff v).mp h; rw [NewUint40_in v hhi]
     dsimp only
     rw [Uint40_String_eq v hhi]
     exact strconv.AppendUint_canonical v (by omega),
   fun v h => by
     obtain ⟨hlo, hhi⟩ := (NewInt48_ok_iff v).mp h; rw [NewInt48_in v hlo hhi]
     dsimp only
     rw [Int48_String_eq v hlo hhi]
     exact strconv.AppendInt_canonical v (by omega) (by omega),
   fun v h => by
     have hhi := (NewUint48_ok_iff v).mp h; rw [NewUint48_in v hhi]
     dsimp only
     rw [Uint48_String_eq v hhi]
     exact strconv.AppendUint_canonical v (by omega),
   fun v h => by
     obtain ⟨hlo, hhi⟩ := (NewInt56_ok_iff v).mp h; rw [NewInt56_in v hlo hhi]
     dsimp only
     rw [Int56_String_eq v hlo hhi]
     exact strconv.AppendInt_canonical v (by omega) (by omega),
   fun v h => by
     have hhi := (NewUint56_ok_iff v).mp h; rw [NewUint56_in v hhi]
     dsimp only
     rw [Uint56_String_eq v hhi]
     exact strconv.AppendUint_canonical v (by omega),
   by decide⟩

/-- Instances of `C18_String_is_canonical_decimal` at concrete inputs, one for each type. -/
theorem C18_String_is_canonical_decimal_witness :
    (((-8388608) = 0 → (NewInt24 (-8388608)).1.String = [0x30]) ∧
      (∃ ds, (NewInt24 (-8388608)).1.String = (if (-8388608) < 0 then [(0x2D : Byte)] else []) ++ ds ∧ ds ≠ [] ∧
        (∀ c ∈ ds, isDigit c = true) ∧ ((-8388608) ≠ 0 → ds.head? ≠ some (0x30 : Byte)) ∧
        digitsValue ds = Int.natAbs (-8388608)) ∧
      strconv.ParseInt (NewInt24 (-8388608)).1.String = ((-8388608), none)) ∧
    ((16777215 = 0 → (NewUint24 16777215).1.String = [0x30]) ∧ (NewUint24 16777215).1.String ≠ [] ∧
      (∀ c ∈ (NewUint24 16777215).1.String, isDigit c = true) ∧
      (16777215 ≠ 0 → (NewUint24 16777215).1.String.head? ≠ some (0x30 : Byte)) ∧
      digitsValue (NewUint24 16777215).1.String = 16777215 ∧
      strconv.ParseUint (NewUint24 16777215).1.String = (16777215, none)) ∧
    (((-549755813888) = 0 → (NewInt40 (-549755813888)).1.String = [0x30]) ∧
      (∃ ds, (NewInt40 (-549755813888)).1.String = (if (-549755813888) < 0 then [(0x2D : Byte)] else []) ++ ds ∧ ds ≠ [] ∧
        (∀ c ∈ ds, isDigit c = true) ∧ ((-549755813888) ≠ 0 → ds.head? ≠ some (0x30 : Byte)) ∧
        digitsValue ds = Int.natAbs (-549755813888)) ∧
      strconv.ParseInt (NewInt40 (-549755813888)).1.String = ((-549755813888), none)) ∧
    ((1099511627775 = 0 → (NewUint40 1099511627775).1.String = [0x30]) ∧ (NewUint40 1099511627775).1.String ≠ [] ∧
      (∀ c ∈ (NewUint40 1099511627775).1.String, isDigit c = true) ∧
      (1099511627775 ≠ 0 → (NewUint40 1099511627775).1.String.head? ≠ some (0x30 : Byte)) ∧
      digitsValue (NewUint40 1099511627775).1.String = 1099511627775 ∧
      strconv.ParseUint (NewUint40 1099511627775).1.String = (1099511627775, none)) ∧
    (((-140737488355328) = 0 → (NewInt48 (-140737488355328)).1.String = [0x30]) ∧
      (∃ ds, (NewInt48 (-140737488355328)).1.String = (if (-140737488355328) < 0 then [(0x2D : Byte)] else []) ++ ds ∧ ds ≠ [] ∧
        (∀ c ∈ ds, isDigit c = true) ∧ ((-140737488355328) ≠ 0 → ds.head? ≠ some (0x30 : Byte)) ∧
        digitsValue ds = Int.natAbs (-140737488355328)) ∧
      strconv.ParseInt (NewInt48 (-140737488355328)).1.String = ((-140737488355328), none)) ∧
    ((281474976710655 = 0 → (NewUint48 281474976710655).1.String = [0x30]) ∧ (NewUint48 281474976710655).1.String ≠ [] ∧
      (∀ c ∈ (NewUint48 281474976710655).1.String, isDigit c = true) ∧
      (281474976710655 ≠ 0 → (NewUint48 281474976710655).1.String.head? ≠ some (0x30 : Byte)) ∧
      digitsValue (NewUint48 281474976710655).1.String = 281474976710655 ∧
      strconv.ParseUint (NewUint48 281474976710655).1.String = (281474976710655, none)) ∧
    (((-36028797018963968) = 0 → (NewInt56 (-36028797018963968)).1.String = [0x30]) ∧
      (∃ ds, (NewInt56 (-36028797018963968)).1.String = (if (-36028797018963968) < 0 then [(0x2D : Byte)] else []) ++ ds ∧ ds ≠ [] ∧
        (∀ c ∈ ds, isDigit c = true) ∧ ((-36028797018963968) ≠ 0 → ds.head? ≠ some (0x30 : Byte)) ∧
        digitsValue ds = Int.natAbs (-36028797018963968)) ∧
      strconv.ParseInt (NewInt56 (-36028797018963968)).1.String = ((-36028797018963968), none)) ∧
    ((72057594037927935 = 0 → (NewUint56 72057594037927935).1.String = [0x30]) ∧ (NewUint56 72057594037927935).1.String ≠ [] ∧
      (∀ c ∈ (NewUint56 72057594037927935).1.String, isDigit c = true) ∧
      (72057594037927935 ≠ 0 → (NewUint56 72057594037927935).1.String.head? ≠ some (0x30 : Byte)) ∧
      digitsValue (NewUint56 72057594037927935).1.String = 72057594037927935 ∧
      strconv.ParseUint (NewUint56 72057594037927935).1.String = (72057594037927935, none)) :=
  ⟨C18_String_is_canonical_decimal.1 (-8388608) (by decide),
   C18_String_is_canonical_decimal.2.1 16777215 (by decide),
   C18_String_is_canonical_decimal.2.2.1 (-549755813888) (by decide),
   C18_String_is_canonical_decimal.2.2.2.1 1099511627775 (by decide),
   C18_String_is_canonical_decimal.2.2.2.2.1 (-140737488355328) (by decide),
   C18_String_is_canonical_decimal.2.2.2.2.2.1 281474976710655 (by decide),
   C18_String_is_canonical_decimal.2.2.2.2.2.2.1 (-36028797018963968) (by decide),
   C18_String_is_canonical_decimal.2.2.2.2.2.2.2.1 72057594037927935 (by decide)⟩

/-- C19: binary round trip. For each of the eight types, every value `x` returned by a successful
`NewX` and every prior state `r` of the receiver, `UnmarshalBinary` on the bytes of
`x.MarshalBinary` returns a nil error and leaves the receiver equal to `x`. -/
theorem C19_binary_roundTrip :
    (∀ (r : Int24) (v : Int), (NewInt24 v).2 = none →
      Int24.UnmarshalBinary r (NewInt24 v).1.MarshalBinary.1 = ((NewInt24 v).1, none)) ∧
    (∀ (r : Uint24) (v : Nat), (NewUint24 v).2 = none →
      Uint24.UnmarshalBinary r (NewUint24 v).1.MarshalBinary.1 = ((NewUint24 v).1, none)) ∧
    (∀ (r : Int40) (v : Int), (NewInt40 v).2 = none →
      Int40.UnmarshalBinary r (NewInt40 v).1.MarshalBinary.1 = ((NewInt40 v).1, none)) ∧
    (∀ (r : Uint40) (v : Nat), (NewUint40 v).2 = none →
      Uint40.UnmarshalBinary r (NewUint40 v).1.MarshalBinary.1 = ((NewUint40 v).1, none)) ∧
    (∀ (r : Int48) (v : Int), (NewInt48 v).2 = none →
      Int48.UnmarshalBinary r (NewInt48 v).1.MarshalBinary.1 = ((NewInt48 v).1, none)) ∧
    (∀ (r : Uint48) (v : Nat), (NewUint48 v).2 = none →
      Uint48.UnmarshalBinary r (NewUint48 v).1.MarshalBinary.1 = ((NewUint48 v).1, none)) ∧
    (∀ (r : Int56) (v : Int), (NewInt56 v).2 = none →
      Int56.UnmarshalBinary r (NewInt56 v).1.MarshalBinary.1 = ((NewInt56 v).1, none)) ∧
    (∀ (r : Uint56) (v : Nat), (NewUint56 v).2 = none →
      Uint56.UnmarshalBinary r (NewUint56 v).1.MarshalBinary.1 = ((NewUint56 v).1, none)) :=
  ⟨fun r v h => by obtain ⟨hlo, hhi⟩ := (NewInt24_ok_iff v).mp h; rw [NewInt24_in v hlo hhi]; exact binaryRoundTrip_Int24 r v hlo hhi,
   fun r v h => by have hhi := (NewUint24_ok_iff v).mp h; rw [NewUint24_in v hhi]; exact binaryRoundTrip_Uint24 r v hhi,
   fun r v h => by obtain ⟨hlo, hhi⟩ := (NewInt40_ok_iff v).mp h; rw [NewInt40_in v hlo hhi]; exact binaryRoundTrip_Int40 r v hlo hhi,
   fun r v h => by have hhi := (NewUint40_ok_iff v).mp h; rw [NewUint40_in v hhi]; exact binaryRoundTrip_Uint40 r v hhi,
   fun r v h => by obtain ⟨hlo, hhi⟩ := (NewInt48_ok_iff v).mp h; rw [NewInt48_in v hlo hhi]; exact binaryRoundTrip_Int48 r v hlo hhi,
   fun r v h => by have hhi := (NewUint48_ok_iff v).mp h; rw [NewUint48_in v hhi]; exact binaryRoundTrip_Uint48 r v hhi,
   fun r v h => by obtain ⟨hlo, hhi⟩ := (NewInt56_ok_iff v).mp h; rw [NewInt56_in v hlo hhi]; exact binaryRoundTrip_Int56 r v hlo hhi,
   fun r v h => by have hhi := (NewUint56_ok_iff v).mp h; rw [NewUint56_in v hhi]; exact binaryRoundTrip_Uint56 r v hhi⟩

/-- Instances of `C19_binary_roundTrip` at concrete inputs, one for each type. -/
theorem C19_binary_roundTrip_witness :
    (Int24.UnmarshalBinary ⟨7⟩ (NewInt24 (-8388608)).1.MarshalBinary.1 = ((NewInt24 (-8388608)).1, none)) ∧
    (Uint24.UnmarshalBinary ⟨7⟩ (NewUint24 16777215).1.MarshalBinary.1 = ((NewUint24 16777215).1, none)) ∧
    (Int40.UnmarshalBinary ⟨7⟩ (NewInt40 (-549755813888)).1.MarshalBinary.1 = ((NewInt40 (-549755813888)).1, none)) ∧
    (Uint40.UnmarshalBinary ⟨7⟩ (NewUint40 1099511627775).1.MarshalBinary.1 = ((NewUint40 1099511627775).1, none)) ∧
    (Int48.UnmarshalBinary ⟨7⟩ (NewInt48 (-140737488355328)).1.MarshalBinary.1 = ((NewInt48 (-140737488355328)).1, none)) ∧
    (Uint48.UnmarshalBinary ⟨7⟩ (NewUint48 281474976710655).1.MarshalBinary.1 = ((NewUint48 281474976710655).1, none)) ∧
    (Int56.UnmarshalBinary ⟨7⟩ (NewInt56 (-36028797018963968)).1.MarshalBinary.1 = ((NewInt56 (-36028797018963968)).1, none)) ∧
    (Uint56.UnmarshalBinary ⟨7⟩ (NewUint56 72057594037927935).1.MarshalBinary.1 = ((NewUint56 72057594037927935).1, none)) :=
  ⟨C19_binary_roundTrip.1 ⟨7⟩ (-8388608) (by decide),
   C19_binary_roundTrip.2.1 ⟨7⟩ 16777215 (by decide),
   C19_binary_roundTrip.2.2.1 ⟨7⟩ (-549755813888) (by decide),
   C19_binary_roundTrip.2.2.2.1 ⟨7⟩ 1099511627775 (by decide),
   C19_binary_roundTrip.2.2.2.2.1 ⟨7⟩ (-140737488355328) (by decide),
   C19_binary_roundTrip.2.2.2.2.2.1 ⟨7⟩ 281474976710655 (by decide),
   C19_binary_roundTrip.2.2.2.2.2.2.1 ⟨7⟩ (-36028797018963968) (by decide),
   C19_binary_roundTrip.2.2.2.2.2.2.2 ⟨7⟩ 72057594037927935 (by decide)⟩

/-- C20: for each of the eight types and every value `x`, `MarshalBinary` returns a nil error and the
bytes of `x.ToBytes` in order, `W/8` of them. -/
theorem C20_MarshalBinary_is_ToBytes :
    (∀ x : Int24, x.MarshalBinary = (x.ToBytes, none) ∧ x.MarshalBinary.1.length = 3) ∧
    (∀ x : Uint24, x.MarshalBinary = (x.ToBytes, none) ∧ x.MarshalBinary.1.length = 3) ∧
    (∀ x : Int40, x.MarshalBinary = (x.ToBytes, none) ∧ x.MarshalBinary.1.length = 5) ∧
    (∀ x : Uint40, x.MarshalBinary = (x.ToBytes, none) ∧ x.MarshalBinary.1.length = 5) ∧
    (∀ x : Int48, x.MarshalBinary = (x.ToBytes, none) ∧ x.MarshalBinary.1.length = 6) ∧
    (∀ x : Uint48, x.MarshalBinary = (x.ToBytes, none) ∧ x.MarshalBinary.1.length = 6) ∧
    (∀ x : Int56, x.MarshalBinary = (x.ToBytes, none) ∧ x.MarshalBinary.1.length = 7) ∧
    (∀ x : Uint56, x.MarshalBinary = (x.ToBytes, none) ∧ x.MarshalBinary.1.length = 7) :=
  ⟨fun _ => ⟨rfl, rfl⟩,
   fun _ => ⟨rfl, rfl⟩,
   fun _ => ⟨rfl, rfl⟩,
   fun _ => ⟨rfl, rfl⟩,
   fun _ => ⟨rfl, rfl⟩,
   fun _ => ⟨rfl, rfl⟩,
   fun _ => ⟨rfl, rfl⟩,
   fun _ => ⟨rfl, rfl⟩⟩

/-- C21: for each of the eight types, every receiver `r` and every byte sequence `d`,
`UnmarshalBinary` agrees with the big-endian decoder: when `FromXBytes d` returns a nil error and
the value `v`, `UnmarshalBinary` returns a nil error and sets the receiver to `v`; when the
decoder fails, `UnmarshalBinary` returns that same error, the invalid-byte-length error of the
package, and leaves the receiver as it was. -/
theorem C21_UnmarshalBinary_agrees_with_decoder :
    (∀ (r : Int24) (d : List Byte),
      ((FromInt24Bytes d).2 = none → Int24.UnmarshalBinary r d = ((FromInt24Bytes d).1, none)) ∧
      (∀ e, (FromInt24Bytes d).2 = some e →
        Int24.UnmarshalBinary r d = (r, some e) ∧ e = GoError.ErrInt24InvalidByteLength)) ∧
    (∀ (r : Uint24) (d : List Byte),
      ((FromUint24Bytes d).2 = none → Uint24.UnmarshalBinary r d = ((FromUint24Bytes d).1, none)) ∧
      (∀ e, (FromUint24Bytes d).2 = some e →
        Uint24.UnmarshalBinary r d = (r, some e) ∧ e = GoError.ErrInt24InvalidByteLength)) ∧
    (∀ (r : Int40) (d : List Byte),
      ((FromInt40Bytes d).2 = none → Int40.UnmarshalBinary r d = ((FromInt40Bytes d).1, none)) ∧
      (∀ e, (FromInt40Bytes d).2 = some e →
        Int40.UnmarshalBinary r d = (r, some e) ∧ e = GoError.ErrInt40InvalidByteLength)) ∧
    (∀ (r : Uint40) (d : List Byte),
      ((FromUint40Bytes d).2 = none → Uint40.UnmarshalBinary r d = ((FromUint40Bytes d).1, none)) ∧
      (∀ e, (FromUint40Bytes d).2 = some e →
        Uint40.UnmarshalBinary r d = (r, some e) ∧ e = GoError.ErrInt40InvalidByteLength)) ∧
    (∀ (r : Int48) (d : List Byte),
      ((FromInt48Bytes d).2 = none → Int48.UnmarshalBinary r d = ((FromInt48Bytes d).1, none)) ∧
      (∀ e, (FromInt48Bytes d).2 = some e →
        Int48.UnmarshalBinary r d = (r, some e) ∧ e = GoError.ErrInt48InvalidByteLength)) ∧
    (∀ (r : Uint48) (d : List Byte),
      ((FromUint48Bytes d).2 = none → Uint48.UnmarshalBinary r d = ((FromUint48Bytes d).1, none)) ∧
      (∀ e, (FromUint48Bytes d).2 = some e →
        Uint48.UnmarshalBinary r d = (r, some e) ∧ e = GoError.ErrInt48InvalidByteLength)) ∧
    (∀ (r : Int56) (d : List Byte),
      ((FromInt56Bytes d).2 = none → Int56.UnmarshalBinary r d = ((FromInt56Bytes d).1, none)) ∧
      (∀ e, (FromInt56Bytes d).2 = some e →
        Int56.UnmarshalBinary r d = (r, some e) ∧ e = GoError.ErrInt56InvalidByteLength)) ∧
    (∀ (r : Uint56) (d : List Byte),
      ((FromUint56Bytes d).2 = none → Uint56.UnmarshalBinary r d = ((FromUint56Bytes d).1, none)) ∧
      (∀ e, (FromUint56Bytes d).2 = some e →
        Uint56.UnmarshalBinary r d = (r, some e) ∧ e = GoError.ErrInt56InvalidByteLength)) :=
  ⟨fun r d => by
     by_cases h : d.length = 3
     · obtain ⟨v, hv, _⟩ := FromInt24Bytes_range d h
       rw [Int24_UnmarshalBinary_ok r d h, hv]
       exact ⟨fun _ => rfl, fun e he => by simp at he⟩
     · rw [Int24_UnmarshalBinary_len r d h, FromInt24Bytes_len d h]
       refine ⟨fun hh => by simp at hh, fun e he => ?_⟩
       simp only [Option.some.injEq] at he
       subst he
       exact ⟨rfl, rfl⟩,
   fun r d => by
     by_cases h : d.length = 3
     · obtain ⟨v, hv, _⟩ := FromUint24Bytes_range d h
       rw [Uint24_UnmarshalBinary_ok r d h, hv]
       exact ⟨fun _ => rfl, fun e he => by simp at he⟩
     · rw [Uint24_UnmarshalBinary_len r d h, FromUint24Bytes_len d h]
       refine ⟨fun hh => by simp at hh, fun e he => ?_⟩
       simp only [Option.some.injEq] at he
       subst he
       exact ⟨rfl, rfl⟩,
   fun r d => by
     by_cases h : d.length = 5
     · obtain ⟨v, hv, _⟩ := FromInt40Bytes_range d h
       rw [Int40_UnmarshalBinary_ok r d h, hv]
       exact ⟨fun _ => rfl, fun e he => by simp at he⟩
     · rw [Int40_UnmarshalBinary_len r d h, FromInt40Bytes_len d h]
       refine ⟨fun hh => by simp at hh, fun e he => ?_⟩
       simp only [Option.some.injEq] at he
       subst he
       exact ⟨rfl, rfl⟩,
   fun r d => by
     by_cases h : d.length = 5
     · obtain ⟨v, hv, _⟩ := FromUint40Bytes_range d h
       rw [Uint40_UnmarshalBinary_ok r d h, hv]
       exact ⟨fun _ => rfl, fun e he => by simp at he⟩
     · rw [Uint40_UnmarshalBinary_len r d h, FromUint40Bytes_len d h]
       refine ⟨fun hh => by simp at hh, fun e he => ?_⟩
       simp only [Option.some.injEq] at he
       subst he
       exact ⟨rfl, rfl⟩,
   fun r d => by
     by_cases h : d.length = 6
     · obtain ⟨v, hv, _⟩ := FromInt48Bytes_range d h
       rw [Int48_UnmarshalBinary_ok r d h, hv]
       exact ⟨fun _ => rfl, fun e he => by simp at he⟩
     · rw [Int48_UnmarshalBinary_len r d h, FromInt48Bytes_len d h]
       refine ⟨fun hh => by simp at hh, fun e he => ?_⟩
       simp only [Option.some.injEq] at he
       subst he
       exact ⟨rfl, rfl⟩,
   fun r d => by
     by_cases h : d.length = 6
     · obtain ⟨v, hv, _⟩ := FromUint48Bytes_range d h
       rw [Uint48_UnmarshalBinary_ok r d h, hv]
       exact ⟨fun _ => rfl, fun e he => by simp at he⟩
     · rw [Uint48_UnmarshalBinary_len r d h, FromUint48Bytes_len d h]
       refine ⟨fun hh => by simp at hh, fun e he => ?_⟩
       simp only [Option.some.injEq] at he
       subst he
       exact ⟨rfl, rfl⟩,
   fun r d => by
     by_cases h : d.length = 7
     · obtain ⟨v, hv, _⟩ := FromInt56Bytes_range d h
       rw [Int56_UnmarshalBinary_ok r d h, hv]
       exact ⟨fun _ => rfl, fun e he => by simp at he⟩
     · rw [Int56_UnmarshalBinary_len r d h, FromInt56Bytes_len d h]
       refine ⟨fun hh => by simp at hh, fun e he => ?_⟩
       simp only [Option.some.injEq] at he
       subst he
       exact ⟨rfl, rfl⟩,
   fun r d => by
     by_cases h : d.length = 7
     · obtain ⟨v, hv, _⟩ := FromUint56Bytes_range d h
       rw [Uint56_UnmarshalBinary_ok r d h, hv]
       exact ⟨fun _ => rfl, fun e he => by simp at he⟩
     · rw [Uint56_UnmarshalBinary_len r d h, FromUint56Bytes_len d h]
       refine ⟨fun hh => by simp at hh, fun e he => ?_⟩
       simp only [Option.some.injEq] at he
       subst he
       exact ⟨rfl, rfl⟩⟩

/-- Instances of `C21_UnmarshalBinary_agrees_with_decoder` at concrete inputs, one for each type. -/
theorem C21_UnmarshalBinary_agrees_with_decoder_witness :
    (Int24.UnmarshalBinary ⟨7⟩ [0xED, 0xCB, 0xAA] = ((FromInt24Bytes [0xED, 0xCB, 0xAA]).1, none) ∧
      (Int24.UnmarshalBinary ⟨7⟩ [] = (⟨7⟩, some GoError.ErrInt24InvalidByteLength) ∧ GoError.ErrInt24InvalidByteLength = GoError.ErrInt24InvalidByteLength)) ∧
    (Uint24.UnmarshalBinary ⟨7⟩ [0xED, 0xCB, 0xAA] = ((FromUint24Bytes [0xED, 0xCB, 0xAA]).1, none) ∧
      (Uint24.UnmarshalBinary ⟨7⟩ [] = (⟨7⟩, some GoError.ErrInt24InvalidByteLength) ∧ GoError.ErrInt24InvalidByteLength = GoError.ErrInt24InvalidByteLength)) ∧
    (Int40.UnmarshalBinary ⟨7⟩ [0xED, 0xCB, 0xAA, 0x01, 0x7F] = ((FromInt40Bytes [0xED, 0xCB, 0xAA, 0x01, 0x7F]).1, none) ∧
      (Int40.UnmarshalBinary ⟨7⟩ [] = (⟨7⟩, some GoError.ErrInt40InvalidByteLength) ∧ GoError.ErrInt40InvalidByteLength = GoError.ErrInt40InvalidByteLength)) ∧
    (Uint40.UnmarshalBinary ⟨7⟩ [0xED, 0xCB, 0xAA, 0x01, 0x7F] = ((FromUint40Bytes [0xED, 0xCB, 0xAA, 0x01, 0x7F]).1, none) ∧
      (Uint40.UnmarshalBinary ⟨7⟩ [] = (⟨7⟩, some GoError.ErrInt40InvalidByteLength) ∧ GoError.ErrInt40InvalidByteLength = GoError.ErrInt40InvalidByteLength)) ∧
    (Int48.UnmarshalBinary ⟨7⟩ [0xED, 0xCB, 0xAA, 0x01, 0x7F, 0x80] = ((FromInt48Bytes [0xED, 0xCB, 0xAA, 0x01, 0x7F, 0x80]).1, none) ∧
      (Int48.UnmarshalBinary ⟨7⟩ [] = (⟨7⟩, some GoError.ErrInt48InvalidByteLength) ∧ GoError.ErrInt48InvalidByteLength = GoError.ErrInt48InvalidByteLength)) ∧
    (Uint48.UnmarshalBinary ⟨7⟩ [0xED, 0xCB, 0xAA, 0x01, 0x7F, 0x80] = ((FromUint48Bytes [0xED, 0xCB, 0xAA, 0x01, 0x7F, 0x80]).1, none) ∧
      (Uint48.UnmarshalBinary ⟨7⟩ [] = (⟨7⟩, some GoError.ErrInt48InvalidByteLength) ∧ GoError.ErrInt48InvalidByteLength = GoError.ErrInt48InvalidByteLength)) ∧
    (Int56.UnmarshalBinary ⟨7⟩ [0xED, 0xCB, 0xAA, 0x01, 0x7F, 0x80, 0xFF] = ((FromInt56Bytes [0xED, 0xCB, 0xAA, 0x01, 0x7F, 0x80, 0xFF]).1, none) ∧
      (Int56.UnmarshalBinary ⟨7⟩ [] = (⟨7⟩, some GoError.ErrInt56InvalidByteLength) ∧ GoError.ErrInt56InvalidByteLength = GoError.ErrInt56InvalidByteLength)) ∧
    (Uint56.UnmarshalBinary ⟨7⟩ [0xED, 0xCB, 0xAA, 0x01, 0x7F, 0x80, 0xFF] = ((FromUint56Bytes [0xED, 0xCB, 0xAA, 0x01, 0x7F, 0x80, 0xFF]).1, none) ∧
      (Uint56.UnmarshalBinary ⟨7⟩ [] = (⟨7⟩, some GoError.ErrInt56InvalidByteLength) ∧ GoError.ErrInt56InvalidByteLength = GoError.ErrInt56InvalidByteLength)) :=
  ⟨⟨(C21_UnmarshalBinary_agrees_with_decoder.1 ⟨7⟩ [0xED, 0xCB, 0xAA]).1 (by decide), (C21_UnmarshalBinary_agrees_with_decoder.1 ⟨7⟩ []).2 _ (by decide)⟩,
   ⟨(C21_UnmarshalBinary_agrees_with_decoder.2.1 ⟨7⟩ [0xED, 0xCB, 0xAA]).1 (by decide), (C21_UnmarshalBinary_agrees_with_decoder.2.1 ⟨7⟩ []).2 _ (by decide)⟩,
   ⟨(C21_UnmarshalBinary_agrees_with_decoder.2.2.1 ⟨7⟩ [0xED, 0xCB, 0xAA, 0x01, 0x7F]).1 (by decide), (C21_UnmarshalBinary_agrees_with_decoder.2.2.1 ⟨7⟩ []).2 _ (by decide)⟩,
   ⟨(C21_UnmarshalBinary_agrees_with_decoder.2.2.2.1 ⟨7⟩ [0xED, 0xCB, 0xAA, 0x01, 0x7F]).1 (by decide), (C21_UnmarshalBinary_agrees_with_decoder.2.2.2.1 ⟨7⟩ []).2 _ (by decide)⟩,
   ⟨(C21_UnmarshalBinary_agrees_with_decoder.2.2.2.2.1 ⟨7⟩ [0xED, 0xCB, 0xAA, 0x01, 0x7F, 0x80]).1 (by decide), (C21_UnmarshalBinary_agrees_with_decoder.2.2.2.2.1 ⟨7⟩ []).2 _ (by decide)⟩,
   ⟨(C21_UnmarshalBinary_agrees_with_decoder.2.2.2.2.2.1 ⟨7⟩ [0xED, 0xCB, 0xAA, 0x01, 0x7F, 0x80]).1 (by decide), (C21_UnmarshalBinary_agrees_with_decoder.2.2.2.2.2.1 ⟨7⟩ []).2 _ (by decide)⟩,
   ⟨(C21_UnmarshalBinary_agrees_with_decoder.2.2.2.2.2.2.1 ⟨7⟩ [0xED, 0xCB, 0xAA, 0x01, 0x7F, 0x80, 0xFF]).1 (by decide), (C21_UnmarshalBinary_agrees_with_decoder.2.2.2.2.2.2.1 ⟨7⟩ []).2 _ (by decide)⟩,
   ⟨(C21_UnmarshalBinary_agrees_with_decoder.2.2.2.2.2.2.2 ⟨7⟩ [0xED, 0xCB, 0xAA, 0x01, 0x7F, 0x80, 0xFF]).1 (by decide), (C21_UnmarshalBinary_agrees_with_decoder.2.2.2.2.2.2.2 ⟨7⟩ []).2 _ (by decide)⟩⟩

/-- C22: the aborting constructor applies the same check as the validated one. For each of the eight
types and every native input `v`, `MustX v` panics exactly when `NewX v` returns an error, and
otherwise returns the value of `NewX v`, whose accessor is `v`. -/
theorem C22_Must_applies_the_check_of_New :
    (∀ v : Int, ((∃ p, MustInt24 v = Run.panic p) ↔ (NewInt24 v).2 ≠ none) ∧
      ((NewInt24 v).2 = none → MustInt24 v = Run.ret (NewInt24 v).1 ∧ (NewInt24 v).1.Int64 = v)) ∧
    (∀ v : Nat, ((∃ p, MustUint24 v = Run.panic p) ↔ (NewUint24 v).2 ≠ none) ∧
      ((NewUint24 v).2 = none → MustUint24 v = Run.ret (NewUint24 v).1 ∧ (NewUint24 v).1.Uint64 = v)) ∧
    (∀ v : Int, ((∃ p, MustInt40 v = Run.panic p) ↔ (NewInt40 v).2 ≠ none) ∧
      ((NewInt40 v).2 = none → MustInt40 v = Run.ret (NewInt40 v).1 ∧ (NewInt40 v).1.Int64 = v)) ∧
    (∀ v : Nat, ((∃ p, MustUint40 v = Run.panic p) ↔ (NewUint40 v).2 ≠ none) ∧
      ((NewUint40 v).2 = none → MustUint40 v = Run.ret (NewUint40 v).1 ∧ (NewUint40 v).1.Uint64 = v)) ∧
    (∀ v : Int, ((∃ p, MustInt48 v = Run.panic p) ↔ (NewInt48 v).2 ≠ none) ∧
      ((NewInt48 v).2 = none → MustInt48 v = Run.ret (NewInt48 v).1 ∧ (NewInt48 v).1.Int64 = v)) ∧
    (∀ v : Nat, ((∃ p, MustUint48 v = Run.panic p) ↔ (NewUint48 v).2 ≠ none) ∧
      ((NewUint48 v).2 = none → MustUint48 v = Run.ret (NewUint48 v).1 ∧ (NewUint48 v).1.Uint64 = v)) ∧
    (∀ v : Int, ((∃ p, MustInt56 v = Run.panic p) ↔ (NewInt56 v).2 ≠ none) ∧
      ((NewInt56 v).2 = none → MustInt56 v = Run.ret (NewInt56 v).1 ∧ (NewInt56 v).1.Int64 = v)) ∧
    (∀ v : Nat, ((∃ p, MustUint56 v = Run.panic p) ↔ (NewUint56 v).2 ≠ none) ∧
      ((NewUint56 v).2 = none → MustUint56 v = Run.ret (NewUint56 v).1 ∧ (NewUint56 v).1.Uint64 = v)) :=
  ⟨fun v => by
     by_cases h : -(2 ^ 23) ≤ v ∧ v ≤ 2 ^ 23 - 1
     · rw [MustInt24_in v h.1 h.2, NewInt24_in v h.1 h.2]
       exact ⟨⟨fun hp => by obtain ⟨p, hp⟩ := hp; simp at hp, fun hh => absurd rfl hh⟩,
         fun _ => ⟨rfl, Int24_Int64_mk v h.1 h.2⟩⟩
     · rw [MustInt24_out v h, NewInt24_out v h]
       exact ⟨⟨fun _ => by simp, fun _ => ⟨_, rfl⟩⟩, fun hh => by simp at hh⟩,
   fun v => by
     by_cases h : v ≤ 2 ^ 24 - 1
     · rw [MustUint24_in v h, NewUint24_in v h]
       exact ⟨⟨fun hp => by obtain ⟨p, hp⟩ := hp; simp at hp, fun hh => absurd rfl hh⟩,
         fun _ => ⟨rfl, Uint24_Uint64_mk v h⟩⟩
     · rw [MustUint24_out v h, NewUint24_out v h]
       exact ⟨⟨fun _ => by simp, fun _ => ⟨_, rfl⟩⟩, fun hh => by simp at hh⟩,
   fun v => by
     by_cases h : -(2 ^ 39) ≤ v ∧ v ≤ 2 ^ 39 - 1
     · rw [MustInt40_in v h.1 h.2, NewInt40_in v h.1 h.2]
       exact ⟨⟨fun hp => by obtain ⟨p, hp⟩ := hp; simp at hp, fun hh => absurd rfl hh⟩,
         fun _ => ⟨rfl, Int40_Int64_mk v h.1 h.2⟩⟩
     · rw [MustInt40_out v h, NewInt40_out v h]
       exact ⟨⟨fun _ => by simp, fun _ => ⟨_, rfl⟩⟩, fun hh => by simp at hh⟩,
   fun v => by
     by_cases h : v ≤ 2 ^ 40 - 1
     · rw [MustUint40_in v h, NewUint40_in v h]
       exact ⟨⟨fun hp => by obtain ⟨p, hp⟩ := hp; simp at hp, fun hh => absurd rfl hh⟩,
         fun _ => ⟨rfl, Uint40_Uint64_mk v h⟩⟩
     · rw [MustUint40_out v h, NewUint40_out v h]
       exact ⟨⟨fun _ => by simp, fun _ => ⟨_, rfl⟩⟩, fun hh => by simp at hh⟩,
   fun v => by
     by_cases h : -(2 ^ 47) ≤ v ∧ v ≤ 2 ^ 47 - 1
     · rw [MustInt48_in v h.1 h.2, NewInt48_in v h.1 h.2]
       exact ⟨⟨fun hp => by obtain ⟨p, hp⟩ := hp; simp at hp, fun hh => absurd rfl hh⟩,
         fun _ => ⟨rfl, Int48_Int64_mk v h.1 h.2⟩⟩
     · rw [MustInt48_out v h, NewInt48_out v h]
       exact ⟨⟨fun _ => by simp, fun _ => ⟨_, rfl⟩⟩, fun hh => by simp at hh⟩,
   fun v => by
     by_cases h : v ≤ 2 ^ 48 - 1
     · rw [MustUint48_in v h, NewUint48_in v h]
       exact ⟨⟨fun hp => by obtain ⟨p, hp⟩ := hp; simp at hp, fun hh => absurd rfl hh⟩,
         fun _ => ⟨rfl, Uint48_Uint64_mk v h⟩⟩
     · rw [MustUint48_out v h, NewUint48_out v h]
       exact ⟨⟨fun _ => by simp, fun _ => ⟨_, rfl⟩⟩, fun hh => by simp at hh⟩,
   fun v => by
     by_cases h : -(2 ^ 55) ≤ v ∧ v ≤ 2 ^ 55 - 1
     · rw [MustInt56_in v h.1 h.2, NewInt56_in v h.1 h.2]
       exact ⟨⟨fun hp => by obtain ⟨p, hp⟩ := hp; simp at hp, fun hh => absurd rfl hh⟩,
         fun _ => ⟨rfl, Int56_Int64_mk v h.1 h.2⟩⟩
     · rw [MustInt56_out v h, NewInt56_out v h]
       exact ⟨⟨fun _ => by simp, fun _ => ⟨_, rfl⟩⟩, fun hh => by simp at hh⟩,
   fun v => by
     by_cases h : v ≤ 2 ^ 56 - 1
     · rw [MustUint56_in v h, NewUint56_in v h]
       exact ⟨⟨fun hp => by obtain ⟨p, hp⟩ := hp; simp at hp, fun hh => absurd rfl hh⟩,
         fun _ => ⟨rfl, Uint56_Uint64_mk v h⟩⟩
     · rw [MustUint56_out v h, NewUint56_out v h]
       exact ⟨⟨fun _ => by simp, fun _ => ⟨_, rfl⟩⟩, fun hh => by simp at hh⟩⟩

/-- Instances of `C22_Must_applies_the_check_of_New` at concrete inputs, one for each type. -/
theorem C22_Must_applies_the_check_of_New_witness :
    (MustInt24 (-8388608) = Run.ret (NewInt24 (-8388608)).1 ∧ (NewInt24 (-8388608)).1.Int64 = (-8388608)) ∧
    (MustUint24 16777215 = Run.ret (NewUint24 16777215).1 ∧ (NewUint24 16777215).1.Uint64 = 16777215) ∧
    (MustInt40 (-549755813888) = Run.ret (NewInt40 (-549755813888)).1 ∧ (NewInt40 (-549755813888)).1.Int64 = (-549755813888)) ∧
    (MustUint40 1099511627775 = Run.ret (NewUint40 1099511627775).1 ∧ (NewUint40 1099511627775).1.Uint64 = 1099511627775) ∧
    (MustInt48 (-140737488355328) = Run.ret (NewInt48 (-140737488355328)).1 ∧ (NewInt48 (-140737488355328)).1.Int64 = (-140737488355328)) ∧
    (MustUint48 281474976710655 = Run.ret (NewUint48 281474976710655).1 ∧ (NewUint48 281474976710655).1.Uint64 = 281474976710655) ∧
    (MustInt56 (-36028797018963968) = Run.ret (NewInt56 (-36028797018963968)).1 ∧ (NewInt56 (-36028797018963968)).1.Int64 = (-36028797018963968)) ∧
    (MustUint56 72057594037927935 = Run.ret (NewUint56 72057594037927935).1 ∧ (NewUint56 72057594037927935).1.Uint64 = 72057594037927935) :=
  ⟨(C22_Must_applies_the_check_of_New.1 (-8388608)).2 (by decide),
   (C22_Must_applies_the_check_of_New.2.1 16777215).2 (by decide),
   (C22_Must_applies_the_check_of_New.2.2.1 (-549755813888)).2 (by decide),
   (C22_Must_applies_the_check_of_New.2.2.2.1 1099511627775).2 (by decide),
   (C22_Must_applies_the_check_of_New.2.2.2.2.1 (-140737488355328)).2 (by decide),
   (C22_Must_applies_the_check_of_New.2.2.2.2.2.1 281474976710655).2 (by decide),
   (C22_Must_applies_the_check_of_New.2.2.2.2.2.2.1 (-36028797018963968)).2 (by decide),
   (C22_Must_applies_the_check_of_New.2.2.2.2.2.2.2 72057594037927935).2 (by decide)⟩

/-- C23: range invariant of the data model. For each of the eight types, every value reachable from
the zero value through `NewX`, `MustX`, `FromXBytes`, `FromXLittleEndianBytes`, `UnmarshalJSON`
and `UnmarshalBinary`, whether the call succeeds or fails, has its stored value between the
minimum and the maximum of the type; the zero value is reachable and holds 0, which is in range. -/
theorem C23_reachable_values_are_in_range :
    (∀ x : Int24, ReachableInt24 x → -(2 ^ 23) ≤ (x).value ∧ (x).value ≤ 2 ^ 23 - 1) ∧
    (ReachableInt24 ⟨0⟩ ∧ (Int24.mk 0).value = 0 ∧ -(2 ^ 23) ≤ (Int24.mk 0).value ∧ (Int24.mk 0).value ≤ 2 ^ 23 - 1) ∧
    (∀ x : Uint24, ReachableUint24 x → (x).value ≤ 2 ^ 24 - 1) ∧
    (ReachableUint24 ⟨0⟩ ∧ (Uint24.mk 0).value = 0 ∧ (Uint24.mk 0).value ≤ 2 ^ 24 - 1) ∧
    (∀ x : Int40, ReachableInt40 x → -(2 ^ 39) ≤ (x).value ∧ (x).value ≤ 2 ^ 39 - 1) ∧
    (ReachableInt40 ⟨0⟩ ∧ (Int40.mk 0).value = 0 ∧ -(2 ^ 39) ≤ (Int40.mk 0).value ∧ (Int40.mk 0).value ≤ 2 ^ 39 - 1) ∧
    (∀ x : Uint40, ReachableUint40 x → (x).value ≤ 2 ^ 40 - 1) ∧
    (ReachableUint40 ⟨0⟩ ∧ (Uint40.mk 0).value = 0 ∧ (Uint40.mk 0).value ≤ 2 ^ 40 - 1) ∧
    (∀ x : Int48, ReachableInt48 x → -(2 ^ 47) ≤ (x).value ∧ (x).value ≤ 2 ^ 47 - 1) ∧
    (ReachableInt48 ⟨0⟩ ∧ (Int48.mk 0).value = 0 ∧ -(2 ^ 47) ≤ (Int48.mk 0).value ∧ (Int48.mk 0).value ≤ 2 ^ 47 - 1) ∧
    (∀ x : Uint48, ReachableUint48 x → (x).value ≤ 2 ^ 48 - 1) ∧
    (ReachableUint48 ⟨0⟩ ∧ (Uint48.mk 0).value = 0 ∧ (Uint48.mk 0).value ≤ 2 ^ 48 - 1) ∧
    (∀ x : Int56, ReachableInt56 x → -(2 ^ 55) ≤ (x).value ∧ (x).value ≤ 2 ^ 55 - 1) ∧
    (ReachableInt56 ⟨0⟩ ∧ (Int56.mk 0).value = 0 ∧ -(2 ^ 55) ≤ (Int56.mk 0).value ∧ (Int56.mk 0).value ≤ 2 ^ 55 - 1) ∧
    (∀ x : Uint56, ReachableUint56 x → (x).value ≤ 2 ^ 56 - 1) ∧
    (ReachableUint56 ⟨0⟩ ∧ (Uint56.mk 0).value = 0 ∧ (Uint56.mk 0).value ≤ 2 ^ 56 - 1) :=
  ⟨ReachableInt24_range,
   ⟨ReachableInt24.zero, rfl, by decide⟩,
   ReachableUint24_range,
   ⟨ReachableUint24.zero, rfl, by decide⟩,
   ReachableInt40_range,
   ⟨ReachableInt40.zero, rfl, by decide⟩,
   ReachableUint40_range,
   ⟨ReachableUint40.zero, rfl, by decide⟩,
   ReachableInt48_range,
   ⟨ReachableInt48.zero, rfl, by decide⟩,
   ReachableUint48_range,
   ⟨ReachableUint48.zero, rfl, by decide⟩,
   ReachableInt56_range,
   ⟨ReachableInt56.zero, rfl, by decide⟩,
   ReachableUint56_range,
   ⟨ReachableUint56.zero, rfl, by decide⟩⟩

/-- Instances of `C23_reachable_values_are_in_range` at concrete inputs, one for each type. -/
theorem C23_reachable_values_are_in_range_witness :
    (-(2 ^ 23) ≤ ((FromInt24Bytes [0xED, 0xCB, 0xAA]).1).value ∧ ((FromInt24Bytes [0xED, 0xCB, 0xAA]).1).value ≤ 2 ^ 23 - 1) ∧
    (((FromUint24Bytes [0xED, 0xCB, 0xAA]).1).value ≤ 2 ^ 24 - 1) ∧
    (-(2 ^ 39) ≤ ((FromInt40Bytes [0xED, 0xCB, 0xAA, 0x01, 0x7F]).1).value ∧ ((FromInt40Bytes [0xED, 0xCB, 0xAA, 0x01, 0x7F]).1).value ≤ 2 ^ 39 - 1) ∧
    (((FromUint40Bytes [0xED, 0xCB, 0xAA, 0x01, 0x7F]).1).value ≤ 2 ^ 40 - 1) ∧
    (-(2 ^ 47) ≤ ((FromInt48Bytes [0xED, 0xCB, 0xAA, 0x01, 0x7F, 0x80]).1).value ∧ ((FromInt48Bytes [0xED, 0xCB, 0xAA, 0x01, 0x7F, 0x80]).1).value ≤ 2 ^ 47 - 1) ∧
    (((FromUint48Bytes [0xED, 0xCB, 0xAA, 0x01, 0x7F, 0x80]).1).value ≤ 2 ^ 48 - 1) ∧
    (-(2 ^ 55) ≤ ((FromInt56Bytes [0xED, 0xCB, 0xAA, 0x01, 0x7F, 0x80, 0xFF]).1).value ∧ ((FromInt56Bytes [0xED, 0xCB, 0xAA, 0x01, 0x7F, 0x80, 0xFF]).1).value ≤ 2 ^ 55 - 1) ∧
    (((FromUint56Bytes [0xED, 0xCB, 0xAA, 0x01, 0x7F, 0x80, 0xFF]).1).value ≤ 2 ^ 56 - 1) :=
  ⟨C23_reachable_values_are_in_range.1 _ (ReachableInt24.fromBytes [0xED, 0xCB, 0xAA]),
   C23_reachable_values_are_in_range.2.2.1 _ (ReachableUint24.fromBytes [0xED, 0xCB, 0xAA]),
   C23_reachable_values_are_in_range.2.2.2.2.1 _ (ReachableInt40.fromBytes [0xED, 0xCB, 0xAA, 0x01, 0x7F]),
   C23_reachable_values_are_in_range.2.2.2.2.2.2.1 _ (ReachableUint40.fromBytes [0xED, 0xCB, 0xAA, 0x01, 0x7F]),
   C23_reachable_values_are_in_range.2.2.2.2.2.2.2.2.1 _ (ReachableInt48.fromBytes [0xED, 0xCB, 0xAA, 0x01, 0x7F, 0x80]),
   C23_reachable_values_are_in_range.2.2.2.2.2.2.2.2.2.2.1 _ (ReachableUint48.fromBytes [0xED, 0xCB, 0xAA, 0x01, 0x7F, 0x80]),
   C23_reachable_values_are_in_range.2.2.2.2.2.2.2.2.2.2.2.2.1 _ (ReachableInt56.fromBytes [0xED, 0xCB, 0xAA, 0x01, 0x7F, 0x80, 0xFF]),
   C23_reachable_values_are_in_range.2.2.2.2.2.2.2.2.2.2.2.2.2.2.1 _ (ReachableUint56.fromBytes [0xED, 0xCB, 0xAA, 0x01, 0x7F, 0x80, 0xFF])⟩

/-- C24: boundary vectors. For each signed width, the maximum `2^(W-1) - 1` encodes big-endian to `7F`
followed by `FF` bytes, the minimum `-2^(W-1)` to `80` followed by `00` bytes, and the big-endian
decoder maps these two sequences back to the maximum and the minimum. -/
theorem C24_boundary_vectors :
    ((NewInt24 0x7FFFFF).2 = none ∧ (NewInt24 0x7FFFFF).1.ToBytes = [0x7F, 0xFF, 0xFF] ∧
      (NewInt24 (-0x800000)).2 = none ∧ (NewInt24 (-0x800000)).1.ToBytes = [0x80, 0x00, 0x00] ∧
      FromInt24Bytes [0x7F, 0xFF, 0xFF] = ((NewInt24 0x7FFFFF).1, none) ∧
      FromInt24Bytes [0x80, 0x00, 0x00] = ((NewInt24 (-0x800000)).1, none) ∧
      (FromInt24Bytes [0x7F, 0xFF, 0xFF]).1.Int64 = 2 ^ 23 - 1 ∧ (FromInt24Bytes [0x80, 0x00, 0x00]).1.Int64 = -(2 ^ 23)) ∧
    ((NewInt40 0x7FFFFFFFFF).2 = none ∧ (NewInt40 0x7FFFFFFFFF).1.ToBytes = [0x7F, 0xFF, 0xFF, 0xFF, 0xFF] ∧
      (NewInt40 (-0x8000000000)).2 = none ∧ (NewInt40 (-0x8000000000)).1.ToBytes = [0x80, 0x00, 0x00, 0x00, 0x00] ∧
      FromInt40Bytes [0x7F, 0xFF, 0xFF, 0xFF, 0xFF] = ((NewInt40 0x7FFFFFFFFF).1, none) ∧
      FromInt40Bytes [0x80, 0x00, 0x00, 0x00, 0x00] = ((NewInt40 (-0x8000000000)).1, none) ∧
      (FromInt40Bytes [0x7F, 0xFF, 0xFF, 0xFF, 0xFF]).1.Int64 = 2 ^ 39 - 1 ∧ (FromInt40Bytes [0x80, 0x00, 0x00, 0x00, 0x00]).1.Int64 = -(2 ^ 39)) ∧
    ((NewInt48 0x7FFFFFFFFFFF).2 = none ∧ (NewInt48 0x7FFFFFFFFFFF).1.ToBytes = [0x7F, 0xFF, 0xFF, 0xFF, 0xFF, 0xFF] ∧
      (NewInt48 (-0x800000000000)).2 = none ∧ (NewInt48 (-0x800000000000)).1.ToBytes = [0x80, 0x00, 0x00, 0x00, 0x00, 0x00] ∧
      FromInt48Bytes [0x7F, 0xFF, 0xFF, 0xFF, 0xFF, 0xFF] = ((NewInt48 0x7FFFFFFFFFFF).1, none) ∧
      FromInt48Bytes [0x80, 0x00, 0x00, 0x00, 0x00, 0x00] = ((NewInt48 (-0x800000000000)).1, none) ∧
      (FromInt48Bytes [0x7F, 0xFF, 0xFF, 0xFF, 0xFF, 0xFF]).1.Int64 = 2 ^ 47 - 1 ∧ (FromInt48Bytes [0x80, 0x00, 0x00, 0x00, 0x00, 0x00]).1.Int64 = -(2 ^ 47)) ∧
    ((NewInt56 0x7FFFFFFFFFFFFF).2 = none ∧ (NewInt56 0x7FFFFFFFFFFFFF).1.ToBytes = [0x7F, 0xFF, 0xFF, 0xFF, 0xFF, 0xFF, 0xFF] ∧
      (NewInt56 (-0x80000000000000)).2 = none ∧ (NewInt56 (-0x80000000000000)).1.ToBytes = [0x80, 0x00, 0x00, 0x00, 0x00, 0x00, 0x00] ∧
      FromInt56Bytes [0x7F, 0xFF, 0xFF, 0xFF, 0xFF, 0xFF, 0xFF] = ((NewInt56 0x7FFFFFFFFFFFFF).1, none) ∧
      FromInt56Bytes [0x80, 0x00, 0x00, 0x00, 0x00, 0x00, 0x00] = ((NewInt56 (-0x80000000000000)).1, none) ∧
      (FromInt56Bytes [0x7F, 0xFF, 0xFF, 0xFF, 0xFF, 0xFF, 0xFF]).1.Int64 = 2 ^ 55 - 1 ∧ (FromInt56Bytes [0x80, 0x00, 0x00, 0x00, 0x00, 0x00, 0x00]).1.Int64 = -(2 ^ 55)) :=
  ⟨by decide,
   by decide,
   by decide,
   by decide⟩

/-- C25 as stated fails: the `Int24` made from the decimal value -123456 does not encode to the bytes
`ED CB AA`. -/
theorem C25_minus_123456_is_not_ED_CB_AA :
    ((NewInt24 (-123456)).2 = none) ∧
    ((NewInt24 (-123456)).1.ToBytes ≠ [0xED, 0xCB, 0xAA]) :=
  ⟨by decide,
   by decide⟩

/-- C25 amended: the `Int24` made from the decimal value -123456 (by `NewInt24` or `MustInt24`)
encodes big-endian to the bytes `FE 1D C0`, the low 24 bits of its two's complement pattern; the
bytes `ED CB AA` are the encoding of the hexadecimal value -0x123456, that is -1193046. -/
theorem C25_example_vector :
    ((NewInt24 (-123456)).2 = none ∧ (NewInt24 (-123456)).1.ToBytes = [0xFE, 0x1D, 0xC0]) ∧
    (MustInt24 (-123456) = Run.ret (NewInt24 (-123456)).1) ∧
    ((NewInt24 (-123456)).1.ToBytes = wireDigits 24 (-123456)) ∧
    ((NewInt24 (-0x123456)).2 = none ∧ (NewInt24 (-0x123456)).1.ToBytes = [0xED, 0xCB, 0xAA] ∧
      (-0x123456 : Int) = -1193046) :=
  ⟨by decide,
   by decide,
   by decide,
   by decide⟩

/-- C26 as stated fails: for each width the unsigned decoders, `UnmarshalBinary` and `UnmarshalJSON`
return the very error values that the signed type returns for a wrong length and for an empty
payload. -/
theorem C26_length_and_empty_errors_are_shared :
    ((FromUint24Bytes []).2 = (FromInt24Bytes []).2 ∧ (FromUint24Bytes []).2 ≠ none ∧
      (FromUint24LittleEndianBytes []).2 = (FromInt24LittleEndianBytes []).2 ∧
      (Uint24.UnmarshalBinary ⟨0⟩ []).2 = (Int24.UnmarshalBinary ⟨0⟩ []).2 ∧
      Uint24.UnmarshalJSON ⟨0⟩ [] = Run.ret (⟨0⟩, some GoError.ErrInt24EmptyData) ∧
      Int24.UnmarshalJSON ⟨0⟩ [] = Run.ret (⟨0⟩, some GoError.ErrInt24EmptyData)) ∧
    ((FromUint40Bytes []).2 = (FromInt40Bytes []).2 ∧ (FromUint40Bytes []).2 ≠ none ∧
      (FromUint40LittleEndianBytes []).2 = (FromInt40LittleEndianBytes []).2 ∧
      (Uint40.UnmarshalBinary ⟨0⟩ []).2 = (Int40.UnmarshalBinary ⟨0⟩ []).2 ∧
      Uint40.UnmarshalJSON ⟨0⟩ [] = Run.ret (⟨0⟩, some GoError.ErrInt40EmptyData) ∧
      Int40.UnmarshalJSON ⟨0⟩ [] = Run.ret (⟨0⟩, some GoError.ErrInt40EmptyData)) ∧
    ((FromUint48Bytes []).2 = (FromInt48Bytes []).2 ∧ (FromUint48Bytes []).2 ≠ none ∧
      (FromUint48LittleEndianBytes []).2 = (FromInt48LittleEndianBytes []).2 ∧
      (Uint48.UnmarshalBinary ⟨0⟩ []).2 = (Int48.UnmarshalBinary ⟨0⟩ []).2 ∧
      Uint48.UnmarshalJSON ⟨0⟩ [] = Run.ret (⟨0⟩, some GoError.ErrInt48EmptyData) ∧
      Int48.UnmarshalJSON ⟨0⟩ [] = Run.ret (⟨0⟩, some GoError.ErrInt48EmptyData)) ∧
    ((FromUint56Bytes []).2 = (FromInt56Bytes []).2 ∧ (FromUint56Bytes []).2 ≠ none ∧
      (FromUint56LittleEndianBytes []).2 = (FromInt56LittleEndianBytes []).2 ∧
      (Uint56.UnmarshalBinary ⟨0⟩ []).2 = (Int56.UnmarshalBinary ⟨0⟩ []).2 ∧
      Uint56.UnmarshalJSON ⟨0⟩ [] = Run.ret (⟨0⟩, some GoError.ErrInt56EmptyData) ∧
      Int56.UnmarshalJSON ⟨0⟩ [] = Run.ret (⟨0⟩, some GoError.ErrInt56EmptyData)) :=
  ⟨by decide,
   by decide,
   by decide,
   by decide⟩

/-- C26 amended: error identity is per package. For each width, a wrong length gives the one error
`ErrIntWInvalidByteLength` from the decoders and `UnmarshalBinary` of both the signed and the
unsigned type, an empty payload gives the one error `ErrIntWEmptyData` from `UnmarshalJSON` of
both types, and only the out-of-range error is separate: `NewUintW` returns `ErrUintWOutOfRange`,
`NewIntW` returns `ErrIntWOutOfRange`, two different values. The sixteen error values of the four
packages are pairwise different. -/
theorem C26_error_identity_per_package :
    (∀ b : List Byte, b.length ≠ 3 →
      FromUint24Bytes b = (⟨0⟩, some GoError.ErrInt24InvalidByteLength) ∧ FromUint24LittleEndianBytes b = (⟨0⟩, some GoError.ErrInt24InvalidByteLength) ∧
      FromInt24Bytes b = (⟨0⟩, some GoError.ErrInt24InvalidByteLength) ∧ FromInt24LittleEndianBytes b = (⟨0⟩, some GoError.ErrInt24InvalidByteLength) ∧
      (∀ r : Uint24, Uint24.UnmarshalBinary r b = (r, some GoError.ErrInt24InvalidByteLength)) ∧
      (∀ r : Int24, Int24.UnmarshalBinary r b = (r, some GoError.ErrInt24InvalidByteLength))) ∧
    ((∀ r : Uint24, Uint24.UnmarshalJSON r [] = Run.ret (r, some GoError.ErrInt24EmptyData)) ∧
      (∀ r : Int24, Int24.UnmarshalJSON r [] = Run.ret (r, some GoError.ErrInt24EmptyData))) ∧
    (∀ v : Nat, ¬ (v ≤ 2 ^ 24 - 1) → NewUint24 v = (⟨0⟩, some GoError.ErrUint24OutOfRange)) ∧
    (∀ v : Int, ¬ (-(2 ^ 23) ≤ v ∧ v ≤ 2 ^ 23 - 1) → NewInt24 v = (⟨0⟩, some GoError.ErrInt24OutOfRange)) ∧
    (GoError.ErrUint24OutOfRange ≠ GoError.ErrInt24OutOfRange) ∧
    (∀ b : List Byte, b.length ≠ 5 →
      FromUint40Bytes b = (⟨0⟩, some GoError.ErrInt40InvalidByteLength) ∧ FromUint40LittleEndianBytes b = (⟨0⟩, some GoError.ErrInt40InvalidByteLength) ∧
      FromInt40Bytes b = (⟨0⟩, some GoError.ErrInt40InvalidByteLength) ∧ FromInt40LittleEndianBytes b = (⟨0⟩, some GoError.ErrInt40InvalidByteLength) ∧
      (∀ r : Uint40, Uint40.UnmarshalBinary r b = (r, some GoError.ErrInt40InvalidByteLength)) ∧
      (∀ r : Int40, Int40.UnmarshalBinary r b = (r, some GoError.ErrInt40InvalidByteLength))) ∧
    ((∀ r : Uint40, Uint40.UnmarshalJSON r [] = Run.ret (r, some GoError.ErrInt40EmptyData)) ∧
      (∀ r : Int40, Int40.UnmarshalJSON r [] = Run.ret (r, some GoError.ErrInt40EmptyData))) ∧
    (∀ v : Nat, ¬ (v ≤ 2 ^ 40 - 1) → NewUint40 v = (⟨0⟩, some GoError.ErrUint40OutOfRange)) ∧
    (∀ v : Int, ¬ (-(2 ^ 39) ≤ v ∧ v ≤ 2 ^ 39 - 1) → NewInt40 v = (⟨0⟩, some GoError.ErrInt40OutOfRange)) ∧
    (GoError.ErrUint40OutOfRange ≠ GoError.ErrInt40OutOfRange) ∧
    (∀ b : List Byte, b.length ≠ 6 →
      FromUint48Bytes b = (⟨0⟩, some GoError.ErrInt48InvalidByteLength) ∧ FromUint48LittleEndianBytes b = (⟨0⟩, some GoError.ErrInt48InvalidByteLength) ∧
      FromInt48Bytes b = (⟨0⟩, some GoError.ErrInt48InvalidByteLength) ∧ FromInt48LittleEndianBytes b = (⟨0⟩, some GoError.ErrInt48InvalidByteLength) ∧
      (∀ r : Uint48, Uint48.UnmarshalBinary r b = (r, some GoError.ErrInt48InvalidByteLength)) ∧
      (∀ r : Int48, Int48.UnmarshalBinary r b = (r, some GoError.ErrInt48InvalidByteLength))) ∧
    ((∀ r : Uint48, Uint48.UnmarshalJSON r [] = Run.ret (r, some GoError.ErrInt48EmptyData)) ∧
      (∀ r : Int48, Int48.UnmarshalJSON r [] = Run.ret (r, some GoError.ErrInt48EmptyData))) ∧
    (∀ v : Nat, ¬ (v ≤ 2 ^ 48 - 1) → NewUint48 v = (⟨0⟩, some GoError.ErrUint48OutOfRange)) ∧
    (∀ v : Int, ¬ (-(2 ^ 47) ≤ v ∧ v ≤ 2 ^ 47 - 1) → NewInt48 v = (⟨0⟩, some GoError.ErrInt48OutOfRange)) ∧
    (GoError.ErrUint48OutOfRange ≠ GoError.ErrInt48OutOfRange) ∧
    (∀ b : List Byte, b.length ≠ 7 →
      FromUint56Bytes b = (⟨0⟩, some GoError.ErrInt56InvalidByteLength) ∧ FromUint56LittleEndianBytes b = (⟨0⟩, some GoError.ErrInt56InvalidByteLength) ∧
      FromInt56Bytes b = (⟨0⟩, some GoError.ErrInt56InvalidByteLength) ∧ FromInt56LittleEndianBytes b = (⟨0⟩, some GoError.ErrInt56InvalidByteLength) ∧
      (∀ r : Uint56, Uint56.UnmarshalBinary r b = (r, some GoError.ErrInt56InvalidByteLength)) ∧
      (∀ r : Int56, Int56.UnmarshalBinary r b = (r, some GoError.ErrInt56InvalidByteLength))) ∧
    ((∀ r : Uint56, Uint56.UnmarshalJSON r [] = Run.ret (r, some GoError.ErrInt56EmptyData)) ∧
      (∀ r : Int56, Int56.UnmarshalJSON r [] = Run.ret (r, some GoError.ErrInt56EmptyData))) ∧
    (∀ v : Nat, ¬ (v ≤ 2 ^ 56 - 1) → NewUint56 v = (⟨0⟩, some GoError.ErrUint56OutOfRange)) ∧
    (∀ v : Int, ¬ (-(2 ^ 55) ≤ v ∧ v ≤ 2 ^ 55 - 1) → NewInt56 v = (⟨0⟩, some GoError.ErrInt56OutOfRange)) ∧
    (GoError.ErrUint56OutOfRange ≠ GoError.ErrInt56OutOfRange) ∧
    (List.Nodup [GoError.ErrInt24OutOfRange, GoError.ErrUint24OutOfRange,
      GoError.ErrInt24InvalidByteLength, GoError.ErrInt24EmptyData,
      GoError.ErrInt40OutOfRange, GoError.ErrUint40OutOfRange,
      GoError.ErrInt40InvalidByteLength, GoError.ErrInt40EmptyData,
      GoError.ErrInt48OutOfRange, GoError.ErrUint48OutOfRange,
      GoError.ErrInt48InvalidByteLength, GoError.ErrInt48EmptyData,
      GoError.ErrInt56OutOfRange, GoError.ErrUint56OutOfRange,
      GoError.ErrInt56InvalidByteLength, GoError.ErrInt56EmptyData]) :=
  ⟨fun b h => ⟨FromUint24Bytes_len b h, FromUint24LittleEndianBytes_len b h, FromInt24Bytes_len b h,
     FromInt24LittleEndianBytes_len b h, fun r => Uint24_UnmarshalBinary_len r b h,
     fun r => Int24_UnmarshalBinary_len r b h⟩,
   ⟨Uint24_UnmarshalJSON_nil, Int24_UnmarshalJSON_nil⟩,
   NewUint24_out,
   NewInt24_out,
   by decide,
   fun b h => ⟨FromUint40Bytes_len b h, FromUint40LittleEndianBytes_len b h, FromInt40Bytes_len b h,
     FromInt40LittleEndianBytes_len b h, fun r => Uint40_UnmarshalBinary_len r b h,
     fun r => Int40_UnmarshalBinary_len r b h⟩,
   ⟨Uint40_UnmarshalJSON_nil, Int40_UnmarshalJSON_nil⟩,
   NewUint40_out,
   NewInt40_out,
   by decide,
   fun b h => ⟨FromUint48Bytes_len b h, FromUint48LittleEndianBytes_len b h, FromInt48Bytes_len b h,
     FromInt48LittleEndianBytes_len b h, fun r => Uint48_UnmarshalBinary_len r b h,
     fun r => Int48_UnmarshalBinary_len r b h⟩,
   ⟨Uint48_UnmarshalJSON_nil, Int48_UnmarshalJSON_nil⟩,
   NewUint48_out,
   NewInt48_out,
   by decide,
   fun b h => ⟨FromUint56Bytes_len b h, FromUint56LittleEndianBytes_len b h, FromInt56Bytes_len b h,
     FromInt56LittleEndianBytes_len b h, fun r => Uint56_UnmarshalBinary_len r b h,
     fun r => Int56_UnmarshalBinary_len r b h⟩,
   ⟨Uint56_UnmarshalJSON_nil, Int56_UnmarshalJSON_nil⟩,
   NewUint56_out,
   NewInt56_out,
   by decide,
   by decide⟩

/-- Instances of `C26_error_identity_per_package` at concrete inputs, one for each type. -/
theorem C26_error_identity_per_package_witness :
    (FromUint24Bytes [0x01] = (⟨0⟩, some GoError.ErrInt24InvalidByteLength) ∧ FromUint24LittleEndianBytes [0x01] = (⟨0⟩, some GoError.ErrInt24InvalidByteLength) ∧
      FromInt24Bytes [0x01] = (⟨0⟩, some GoError.ErrInt24InvalidByteLength) ∧ FromInt24LittleEndianBytes [0x01] = (⟨0⟩, some GoError.ErrInt24InvalidByteLength) ∧
      (∀ r : Uint24, Uint24.UnmarshalBinary r [0x01] = (r, some GoError.ErrInt24InvalidByteLength)) ∧
      (∀ r : Int24, Int24.UnmarshalBinary r [0x01] = (r, some GoError.ErrInt24InvalidByteLength))) ∧
    (NewUint24 16777216 = (⟨0⟩, some GoError.ErrUint24OutOfRange)) ∧
    (NewInt24 8388608 = (⟨0⟩, some GoError.ErrInt24OutOfRange)) ∧
    (FromUint40Bytes [0x01] = (⟨0⟩, some GoError.ErrInt40InvalidByteLength) ∧ FromUint40LittleEndianBytes [0x01] = (⟨0⟩, some GoError.ErrInt40InvalidByteLength) ∧
      FromInt40Bytes [0x01] = (⟨0⟩, some GoError.ErrInt40InvalidByteLength) ∧ FromInt40LittleEndianBytes [0x01] = (⟨0⟩, some GoError.ErrInt40InvalidByteLength) ∧
      (∀ r : Uint40, Uint40.UnmarshalBinary r [0x01] = (r, some GoError.ErrInt40InvalidByteLength)) ∧
      (∀ r : Int40, Int40.UnmarshalBinary r [0x01] = (r, some GoError.ErrInt40InvalidByteLength))) ∧
    (NewUint40 1099511627776 = (⟨0⟩, some GoError.ErrUint40OutOfRange)) ∧
    (NewInt40 549755813888 = (⟨0⟩, some GoError.ErrInt40OutOfRange)) ∧
    (FromUint48Bytes [0x01] = (⟨0⟩, some GoError.ErrInt48InvalidByteLength) ∧ FromUint48LittleEndianBytes [0x01] = (⟨0⟩, some GoError.ErrInt48InvalidByteLength) ∧
      FromInt48Bytes [0x01] = (⟨0⟩, some GoError.ErrInt48InvalidByteLength) ∧ FromInt48LittleEndianBytes [0x01] = (⟨0⟩, some GoError.ErrInt48InvalidByteLength) ∧
      (∀ r : Uint48, Uint48.UnmarshalBinary r [0x01] = (r, some GoError.ErrInt48InvalidByteLength)) ∧
      (∀ r : Int48, Int48.UnmarshalBinary r [0x01] = (r, some GoError.ErrInt48InvalidByteLength))) ∧
    (NewUint48 281474976710656 = (⟨0⟩, some GoError.ErrUint48OutOfRange)) ∧
    (NewInt48 140737488355328 = (⟨0⟩, some GoError.ErrInt48OutOfRange)) ∧
    (FromUint56Bytes [0x01] = (⟨0⟩, some GoError.ErrInt56InvalidByteLength) ∧ FromUint56LittleEndianBytes [0x01] = (⟨0⟩, some GoError.ErrInt56InvalidByteLength) ∧
      FromInt56Bytes [0x01] = (⟨0⟩, some GoError.ErrInt56InvalidByteLength) ∧ FromInt56LittleEndianBytes [0x01] = (⟨0⟩, some GoError.ErrInt56InvalidByteLength) ∧
      (∀ r : Uint56, Uint56.UnmarshalBinary r [0x01] = (r, some GoError.ErrInt56InvalidByteLength)) ∧
      (∀ r : Int56, Int56.UnmarshalBinary r [0x01] = (r, some GoError.ErrInt56InvalidByteLength))) ∧
    (NewUint56 72057594037927936 = (⟨0⟩, some GoError.ErrUint56OutOfRange)) ∧
    (NewInt56 36028797018963968 = (⟨0⟩, some GoError.ErrInt56OutOfRange)) :=
  ⟨C26_error_identity_per_package.1 [0x01] (by decide),
   C26_error_identity_per_package.2.2.1 16777216 (by decide),
   C26_error_identity_per_package.2.2.2.1 8388608 (by decide),
   C26_error_identity_per_package.2.2.2.2.2.1 [0x01] (by decide),
   C26_error_identity_per_package.2.2.2.2.2.2.2.1 1099511627776 (by decide),
   C26_error_identity_per_package.2.2.2.2.2.2.2.2.1 549755813888 (by decide),
   C26_error_identity_per_package.2.2.2.2.2.2.2.2.2.2.1 [0x01] (by decide),
   C26_error_identity_per_package.2.2.2.2.2.2.2.2.2.2.2.2.1 281474976710656 (by decide),
   C26_error_identity_per_package.2.2.2.2.2.2.2.2.2.2.2.2.2.1 140737488355328 (by decide),
   C26_error_identity_per_package.2.2.2.2.2.2.2.2.2.2.2.2.2.2.2.1 [0x01] (by decide),
   C26_error_identity_per_package.2.2.2.2.2.2.2.2.2.2.2.2.2.2.2.2.2.1 72057594037927936 (by decide),
   C26_error_identity_per_package.2.2.2.2.2.2.2.2.2.2.2.2.2.2.2.2.2.2.1 36028797018963968 (by decide)⟩

/-- C27: the sign extension of the decoders matches the documented one. For each signed width, both
byte orders and every input of `W/8` bytes of magnitude `m`: when the top bit of the `W`-bit
pattern is set (`2^(W-1) ≤ m`), the stored value equals `m` or-ed in the native container with the
complement of the `W`-bit mask `2^W - 1`, and also `m` or-ed with the complement of the
`(W-1)`-bit mask that the code uses; when the top bit is clear the stored value is `m`. -/
theorem C27_sign_extension_matches_documented_mask :
    (∀ b : List Byte, b.length = 3 →
      (2 ^ 23 ≤ bigEndianMagnitude b →
        (FromInt24Bytes b).1.value = documentedSignExtend32 24 (bigEndianMagnitude b) ∧
        (FromInt24Bytes b).1.value = orInt32 ((bigEndianMagnitude b : Nat) : Int) (bitNot 0x7FFFFF)) ∧
      (bigEndianMagnitude b < 2 ^ 23 → (FromInt24Bytes b).1.value = ((bigEndianMagnitude b : Nat) : Int)) ∧
      (2 ^ 23 ≤ littleEndianMagnitude b →
        (FromInt24LittleEndianBytes b).1.value = documentedSignExtend32 24 (littleEndianMagnitude b) ∧
        (FromInt24LittleEndianBytes b).1.value = orInt32 ((littleEndianMagnitude b : Nat) : Int) (bitNot 0x7FFFFF)) ∧
      (littleEndianMagnitude b < 2 ^ 23 → (FromInt24LittleEndianBytes b).1.value = ((littleEndianMagnitude b : Nat) : Int))) ∧
    (∀ b : List Byte, b.length = 5 →
      (2 ^ 39 ≤ bigEndianMagnitude b →
        (FromInt40Bytes b).1.value = documentedSignExtend64 40 (bigEndianMagnitude b) ∧
        (FromInt40Bytes b).1.value = orInt64 ((bigEndianMagnitude b : Nat) : Int) (bitNot 0x7FFFFFFFFF)) ∧
      (bigEndianMagnitude b < 2 ^ 39 → (FromInt40Bytes b).1.value = ((bigEndianMagnitude b : Nat) : Int)) ∧
      (2 ^ 39 ≤ littleEndianMagnitude b →
        (FromInt40LittleEndianBytes b).1.value = documentedSignExtend64 40 (littleEndianMagnitude b) ∧
        (FromInt40LittleEndianBytes b).1.value = orInt64 ((littleEndianMagnitude b : Nat) : Int) (bitNot 0x7FFFFFFFFF)) ∧
      (littleEndianMagnitude b < 2 ^ 39 → (FromInt40LittleEndianBytes b).1.value = ((littleEndianMagnitude b : Nat) : Int))) ∧
    (∀ b : List Byte, b.length = 6 →
      (2 ^ 47 ≤ bigEndianMagnitude b →
        (FromInt48Bytes b).1.value = documentedSignExtend64 48 (bigEndianMagnitude b) ∧
        (FromInt48Bytes b).1.value = orInt64 ((bigEndianMagnitude b : Nat) : Int) (bitNot 0x7FFFFFFFFFFF)) ∧
      (bigEndianMagnitude b < 2 ^ 47 → (FromInt48Bytes b).1.value = ((bigEndianMagnitude b : Nat) : Int)) ∧
      (2 ^ 47 ≤ littleEndianMagnitude b →
        (FromInt48LittleEndianBytes b).1.value = documentedSignExtend64 48 (littleEndianMagnitude b) ∧
        (FromInt48LittleEndianBytes b).1.value = orInt64 ((littleEndianMagnitude b : Nat) : Int) (bitNot 0x7FFFFFFFFFFF)) ∧
      (littleEndianMagnitude b < 2 ^ 47 → (FromInt48LittleEndianBytes b).1.value = ((littleEndianMagnitude b : Nat) : Int))) ∧
    (∀ b : List Byte, b.length = 7 →
      (2 ^ 55 ≤ bigEndianMagnitude b →
        (FromInt56Bytes b).1.value = documentedSignExtend64 56 (bigEndianMagnitude b) ∧
        (FromInt56Bytes b).1.value = orInt64 ((bigEndianMagnitude b : Nat) : Int) (bitNot 0x7FFFFFFFFFFFFF)) ∧
      (bigEndianMagnitude b < 2 ^ 55 → (FromInt56Bytes b).1.value = ((bigEndianMagnitude b : Nat) : Int)) ∧
      (2 ^ 55 ≤ littleEndianMagnitude b →
        (FromInt56LittleEndianBytes b).1.value = documentedSignExtend64 56 (littleEndianMagnitude b) ∧
        (FromInt56LittleEndianBytes b).1.value = orInt64 ((littleEndianMagnitude b : Nat) : Int) (bitNot 0x7FFFFFFFFFFFFF)) ∧
      (littleEndianMagnitude b < 2 ^ 55 → (FromInt56LittleEndianBytes b).1.value = ((littleEndianMagnitude b : Nat) : Int))) :=
  ⟨fun b h => by
     obtain ⟨h1, h2⟩ := FromInt24Bytes_spec b h
     obtain ⟨h3, h4⟩ := FromInt24LittleEndianBytes_spec b h
     rw [h1, h3]
     dsimp only
     refine ⟨fun hm => ?_, fun hm => ?_, fun hm => ?_, fun hm => ?_⟩
     · rw [if_neg (by omega), documentedSignExtend32_24 _ h2, signExtend24 _ hm h2]
       exact ⟨rfl, rfl⟩
     · rw [if_pos hm]
     · rw [if_neg (by omega), documentedSignExtend32_24 _ h4, signExtend24 _ hm h4]
       exact ⟨rfl, rfl⟩
     · rw [if_pos hm],
   fun b h => by
     obtain ⟨h1, h2⟩ := FromInt40Bytes_spec b h
     obtain ⟨h3, h4⟩ := FromInt40LittleEndianBytes_spec b h
     rw [h1, h3]
     dsimp only
     refine ⟨fun hm => ?_, fun hm => ?_, fun hm => ?_, fun hm => ?_⟩
     · rw [if_neg (by omega), documentedSignExtend64_40 _ h2, signExtend40 _ hm h2]
       exact ⟨rfl, rfl⟩
     · rw [if_pos hm]
     · rw [if_neg (by omega), documentedSignExtend64_40 _ h4, signExtend40 _ hm h4]
       exact ⟨rfl, rfl⟩
     · rw [if_pos hm],
   fun b h => by
     obtain ⟨h1, h2⟩ := FromInt48Bytes_spec b h
     obtain ⟨h3, h4⟩ := FromInt48LittleEndianBytes_spec b h
     rw [h1, h3]
     dsimp only
     refine ⟨fun hm => ?_, fun hm => ?_, fun hm => ?_, fun hm => ?_⟩
     · rw [if_neg (by omega), documentedSignExtend64_48 _ h2, signExtend48 _ hm h2]
       exact ⟨rfl, rfl⟩
     · rw [if_pos hm]
     · rw [if_neg (by omega), documentedSignExtend64_48 _ h4, signExtend48 _ hm h4]
       exact ⟨rfl, rfl⟩
     · rw [if_pos hm],
   fun b h => by
     obtain ⟨h1, h2⟩ := FromInt56Bytes_spec b h
     obtain ⟨h3, h4⟩ := FromInt56LittleEndianBytes_spec b h
     rw [h1, h3]
     dsimp only
     refine ⟨fun hm => ?_, fun hm => ?_, fun hm => ?_, fun hm => ?_⟩
     · rw [if_neg (by omega), documentedSignExtend64_56 _ h2, signExtend56 _ hm h2]
       exact ⟨rfl, rfl⟩
     · rw [if_pos hm]
     · rw [if_neg (by omega), documentedSignExtend64_56 _ h4, signExtend56 _ hm h4]
       exact ⟨rfl, rfl⟩
     · rw [if_pos hm]⟩

/-- Instances of `C27_sign_extension_matches_documented_mask` at concrete inputs, one for each type. -/
theorem C27_sign_extension_matches_documented_mask_witness :
    (((FromInt24Bytes [0xED, 0xCB, 0xAA]).1.value = documentedSignExtend32 24 (bigEndianMagnitude [0xED, 0xCB, 0xAA]) ∧
        (FromInt24Bytes [0xED, 0xCB, 0xAA]).1.value = orInt32 ((bigEndianMagnitude [0xED, 0xCB, 0xAA] : Nat) : Int) (bitNot 0x7FFFFF)) ∧
      (((FromInt24Bytes [0x01, 0x01, 0x80]).1.value = ((bigEndianMagnitude [0x01, 0x01, 0x80] : Nat) : Int)) ∧
       ((FromInt24LittleEndianBytes [0x01, 0x01, 0x80]).1.value = documentedSignExtend32 24 (littleEndianMagnitude [0x01, 0x01, 0x80]) ∧
        (FromInt24LittleEndianBytes [0x01, 0x01, 0x80]).1.value = orInt32 ((littleEndianMagnitude [0x01, 0x01, 0x80] : Nat) : Int) (bitNot 0x7FFFFF)))) ∧
    (((FromInt40Bytes [0xED, 0xCB, 0xAA, 0x01, 0x7F]).1.value = documentedSignExtend64 40 (bigEndianMagnitude [0xED, 0xCB, 0xAA, 0x01, 0x7F]) ∧
        (FromInt40Bytes [0xED, 0xCB, 0xAA, 0x01, 0x7F]).1.value = orInt64 ((bigEndianMagnitude [0xED, 0xCB, 0xAA, 0x01, 0x7F] : Nat) : Int) (bitNot 0x7FFFFFFFFF)) ∧
      (((FromInt40Bytes [0x01, 0x01, 0x01, 0x01, 0x80]).1.value = ((bigEndianMagnitude [0x01, 0x01, 0x01, 0x01, 0x80] : Nat) : Int)) ∧
       ((FromInt40LittleEndianBytes [0x01, 0x01, 0x01, 0x01, 0x80]).1.value = documentedSignExtend64 40 (littleEndianMagnitude [0x01, 0x01, 0x01, 0x01, 0x80]) ∧
        (FromInt40LittleEndianBytes [0x01, 0x01, 0x01, 0x01, 0x80]).1.value = orInt64 ((littleEndianMagnitude [0x01, 0x01, 0x01, 0x01, 0x80] : Nat) : Int) (bitNot 0x7FFFFFFFFF)))) ∧
    (((FromInt48Bytes [0xED, 0xCB, 0xAA, 0x01, 0x7F, 0x80]).1.value = documentedSignExtend64 48 (bigEndianMagnitude [0xED, 0xCB, 0xAA, 0x01, 0x7F, 0x80]) ∧
        (FromInt48Bytes [0xED, 0xCB, 0xAA, 0x01, 0x7F, 0x80]).1.value = orInt64 ((bigEndianMagnitude [0xED, 0xCB, 0xAA, 0x01, 0x7F, 0x80] : Nat) : Int) (bitNot 0x7FFFFFFFFFFF)) ∧
      (((FromInt48Bytes [0x01, 0x01, 0x01, 0x01, 0x01, 0x80]).1.value = ((bigEndianMagnitude [0x01, 0x01, 0x01, 0x01, 0x01, 0x80] : Nat) : Int)) ∧
       ((FromInt48LittleEndianBytes [0x01, 0x01, 0x01, 0x01, 0x01, 0x80]).1.value = documentedSignExtend64 48 (littleEndianMagnitude [0x01, 0x01, 0x01, 0x01, 0x01, 0x80]) ∧
        (FromInt48LittleEndianBytes [0x01, 0x01, 0x01, 0x01, 0x01, 0x80]).1.value = orInt64 ((littleEndianMagnitude [0x01, 0x01, 0x01, 0x01, 0x01, 0x80] : Nat) : Int) (bitNot 0x7FFFFFFFFFFF)))) ∧
    (((FromInt56Bytes [0xED, 0xCB, 0xAA, 0x01, 0x7F, 0x80, 0xFF]).1.value = documentedSignExtend64 56 (bigEndianMagnitude [0xED, 0xCB, 0xAA, 0x01, 0x7F, 0x80, 0xFF]) ∧
        (FromInt56Bytes [0xED, 0xCB, 0xAA, 0x01, 0x7F, 0x80, 0xFF]).1.value = orInt64 ((bigEndianMagnitude [0xED, 0xCB, 0xAA, 0x01, 0x7F, 0x80, 0xFF] : Nat) : Int) (bitNot 0x7FFFFFFFFFFFFF)) ∧
      (((FromInt56Bytes [0x01, 0x01, 0x01, 0x01, 0x01, 0x01, 0x80]).1.value = ((bigEndianMagnitude [0x01, 0x01, 0x01, 0x01, 0x01, 0x01, 0x80] : Nat) : Int)) ∧
       ((FromInt56LittleEndianBytes [0x01, 0x01, 0x01, 0x01, 0x01, 0x01, 0x80]).1.value = documentedSignExtend64 56 (littleEndianMagnitude [0x01, 0x01, 0x01, 0x01, 0x01, 0x01, 0x80]) ∧
        (FromInt56LittleEndianBytes [0x01, 0x01, 0x01, 0x01, 0x01, 0x01, 0x80]).1.value = orInt64 ((littleEndianMagnitude [0x01, 0x01, 0x01, 0x01, 0x01, 0x01, 0x80] : Nat) : Int) (bitNot 0x7FFFFFFFFFFFFF)))) :=
  ⟨⟨(C27_sign_extension_matches_documented_mask.1 [0xED, 0xCB, 0xAA] (by decide)).1 (by decide), (C27_sign_extension_matches_documented_mask.1 [0x01, 0x01, 0x80] (by decide)).2.1 (by decide), (C27_sign_extension_matches_documented_mask.1 [0x01, 0x01, 0x80] (by decide)).2.2.1 (by decide)⟩,
   ⟨(C27_sign_extension_matches_documented_mask.2.1 [0xED, 0xCB, 0xAA, 0x01, 0x7F] (by decide)).1 (by decide), (C27_sign_extension_matches_documented_mask.2.1 [0x01, 0x01, 0x01, 0x01, 0x80] (by decide)).2.1 (by decide), (C27_sign_extension_matches_documented_mask.2.1 [0x01, 0x01, 0x01, 0x01, 0x80] (by decide)).2.2.1 (by decide)⟩,
   ⟨(C27_sign_extension_matches_documented_mask.2.2.1 [0xED, 0xCB, 0xAA, 0x01, 0x7F, 0x80] (by decide)).1 (by decide), (C27_sign_extension_matches_documented_mask.2.2.1 [0x01, 0x01, 0x01, 0x01, 0x01, 0x80] (by decide)).2.1 (by decide), (C27_sign_extension_matches_documented_mask.2.2.1 [0x01, 0x01, 0x01, 0x01, 0x01, 0x80] (by decide)).2.2.1 (by decide)⟩,
   ⟨(C27_sign_extension_matches_documented_mask.2.2.2 [0xED, 0xCB, 0xAA, 0x01, 0x7F, 0x80, 0xFF] (by decide)).1 (by decide), (C27_sign_extension_matches_documented_mask.2.2.2 [0x01, 0x01, 0x01, 0x01, 0x01, 0x01, 0x80] (by decide)).2.1 (by decide), (C27_sign_extension_matches_documented_mask.2.2.2 [0x01, 0x01, 0x01, 0x01, 0x01, 0x01, 0x80] (by decide)).2.2.1 (by decide)⟩⟩

/-- C28: sign bit of the wire format. For each signed type and every value `x` returned by a
successful `NewX`, the top bit `0x80` of the first byte of `x.ToBytes`, and of the last byte of
`x.ToLittleEndianBytes`, is set exactly when `x` is negative; and for every input of `W/8` bytes
the big-endian decoder returns a negative value exactly when the top bit of the first byte is set,
the little-endian decoder exactly when the top bit of the last byte is set. -/
theorem C28_sign_bit_of_the_wire_format :
    (∀ v : Int, (NewInt24 v).2 = none →
      (∃ c, (NewInt24 v).1.ToBytes.head? = some c ∧
        (c.val &&& 0x80 ≠ 0 ↔ (NewInt24 v).1.Int64 < 0)) ∧
      (∃ c, (NewInt24 v).1.ToLittleEndianBytes.getLast? = some c ∧
        (c.val &&& 0x80 ≠ 0 ↔ (NewInt24 v).1.Int64 < 0))) ∧
    (∀ b : List Byte, b.length = 3 →
      ((FromInt24Bytes b).1.Int64 < 0 ↔ ∃ c, (b : List Byte).head? = some c ∧ c.val &&& 0x80 ≠ 0) ∧
      ((FromInt24LittleEndianBytes b).1.Int64 < 0 ↔
        ∃ c, (b : List Byte).getLast? = some c ∧ c.val &&& 0x80 ≠ 0)) ∧
    (∀ v : Int, (NewInt40 v).2 = none →
      (∃ c, (NewInt40 v).1.ToBytes.head? = some c ∧
        (c.val &&& 0x80 ≠ 0 ↔ (NewInt40 v).1.Int64 < 0)) ∧
      (∃ c, (NewInt40 v).1.ToLittleEndianBytes.getLast? = some c ∧
        (c.val &&& 0x80 ≠ 0 ↔ (NewInt40 v).1.Int64 < 0))) ∧
    (∀ b : List Byte, b.length = 5 →
      ((FromInt40Bytes b).1.Int64 < 0 ↔ ∃ c, (b : List Byte).head? = some c ∧ c.val &&& 0x80 ≠ 0) ∧
      ((FromInt40LittleEndianBytes b).1.Int64 < 0 ↔
        ∃ c, (b : List Byte).getLast? = some c ∧ c.val &&& 0x80 ≠ 0)) ∧
    (∀ v : Int, (NewInt48 v).2 = none →
      (∃ c, (NewInt48 v).1.ToBytes.head? = some c ∧
        (c.val &&& 0x80 ≠ 0 ↔ (NewInt48 v).1.Int64 < 0)) ∧
      (∃ c, (NewInt48 v).1.ToLittleEndianBytes.getLast? = some c ∧
        (c.val &&& 0x80 ≠ 0 ↔ (NewInt48 v).1.Int64 < 0))) ∧
    (∀ b : List Byte, b.length = 6 →
      ((FromInt48Bytes b).1.Int64 < 0 ↔ ∃ c, (b : List Byte).head? = some c ∧ c.val &&& 0x80 ≠ 0) ∧
      ((FromInt48LittleEndianBytes b).1.Int64 < 0 ↔
        ∃ c, (b : List Byte).getLast? = some c ∧ c.val &&& 0x80 ≠ 0)) ∧
    (∀ v : Int, (NewInt56 v).2 = none →
      (∃ c, (NewInt56 v).1.ToBytes.head? = some c ∧
        (c.val &&& 0x80 ≠ 0 ↔ (NewInt56 v).1.Int64 < 0)) ∧
      (∃ c, (NewInt56 v).1.ToLittleEndianBytes.getLast? = some c ∧
        (c.val &&& 0x80 ≠ 0 ↔ (NewInt56 v).1.Int64 < 0))) ∧
    (∀ b : List Byte, b.length = 7 →
      ((FromInt56Bytes b).1.Int64 < 0 ↔ ∃ c, (b : List Byte).head? = some c ∧ c.val &&& 0x80 ≠ 0) ∧
      ((FromInt56LittleEndianBytes b).1.Int64 < 0 ↔
        ∃ c, (b : List Byte).getLast? = some c ∧ c.val &&& 0x80 ≠ 0)) :=
  ⟨fun v h => by
     obtain ⟨hlo, hhi⟩ := (NewInt24_ok_iff v).mp h; rw [NewInt24_in v hlo hhi]
     dsimp only
     rw [Int24_Int64_mk v hlo hhi]
     exact ⟨Int24_ToBytes_head_sign v hlo hhi, Int24_ToLittleEndianBytes_last_sign v hlo hhi⟩,
   fun b h => ⟨FromInt24Bytes_neg_iff b h, FromInt24LittleEndianBytes_neg_iff b h⟩,
   fun v h => by
     obtain ⟨hlo, hhi⟩ := (NewInt40_ok_iff v).mp h; rw [NewInt40_in v hlo hhi]
     dsimp only
     rw [Int40_Int64_mk v hlo hhi]
     exact ⟨Int40_ToBytes_head_sign v hlo hhi, Int40_ToLittleEndianBytes_last_sign v hlo hhi⟩,
   fun b h => ⟨FromInt40Bytes_neg_iff b h, FromInt40LittleEndianBytes_neg_iff b h⟩,
   fun v h => by
     obtain ⟨hlo, hhi⟩ := (NewInt48_ok_iff v).mp h; rw [NewInt48_in v hlo hhi]
     dsimp only
     rw [Int48_Int64_mk v hlo hhi]
     exact ⟨Int48_ToBytes_head_sign v hlo hhi, Int48_ToLittleEndianBytes_last_sign v hlo hhi⟩,
   fun b h => ⟨FromInt48Bytes_neg_iff b h, FromInt48LittleEndianBytes_neg_iff b h⟩,
   fun v h => by
     obtain ⟨hlo, hhi⟩ := (NewInt56_ok_iff v).mp h; rw [NewInt56_in v hlo hhi]
     dsimp only
     rw [Int56_Int64_mk v hlo hhi]
     exact ⟨Int56_ToBytes_head_sign v hlo hhi, Int56_ToLittleEndianBytes_last_sign v hlo hhi⟩,
   fun b h => ⟨FromInt56Bytes_neg_iff b h, FromInt56LittleEndianBytes_neg_iff b h⟩⟩

/-- Instances of `C28_sign_bit_of_the_wire_format` at concrete inputs, one for each type. -/
theorem C28_sign_bit_of_the_wire_format_witness :
    ((∃ c, (NewInt24 (-8388608)).1.ToBytes.head? = some c ∧
        (c.val &&& 0x80 ≠ 0 ↔ (NewInt24 (-8388608)).1.Int64 < 0)) ∧
      (∃ c, (NewInt24 (-8388608)).1.ToLittleEndianBytes.getLast? = some c ∧
        (c.val &&& 0x80 ≠ 0 ↔ (NewInt24 (-8388608)).1.Int64 < 0))) ∧
    (((FromInt24Bytes [0xED, 0xCB, 0xAA]).1.Int64 < 0 ↔ ∃ c, ([0xED, 0xCB, 0xAA] : List Byte).head? = some c ∧ c.val &&& 0x80 ≠ 0) ∧
      ((FromInt24LittleEndianBytes [0xED, 0xCB, 0xAA]).1.Int64 < 0 ↔
        ∃ c, ([0xED, 0xCB, 0xAA] : List Byte).getLast? = some c ∧ c.val &&& 0x80 ≠ 0)) ∧
    ((∃ c, (NewInt40 (-549755813888)).1.ToBytes.head? = some c ∧
        (c.val &&& 0x80 ≠ 0 ↔ (NewInt40 (-549755813888)).1.Int64 < 0)) ∧
      (∃ c, (NewInt40 (-549755813888)).1.ToLittleEndianBytes.getLast? = some c ∧
        (c.val &&& 0x80 ≠ 0 ↔ (NewInt40 (-549755813888)).1.Int64 < 0))) ∧
    (((FromInt40Bytes [0xED, 0xCB, 0xAA, 0x01, 0x7F]).1.Int64 < 0 ↔ ∃ c, ([0xED, 0xCB, 0xAA, 0x01, 0x7F] : List Byte).head? = some c ∧ c.val &&& 0x80 ≠ 0) ∧
      ((FromInt40LittleEndianBytes [0xED, 0xCB, 0xAA, 0x01, 0x7F]).1.Int64 < 0 ↔
        ∃ c, ([0xED, 0xCB, 0xAA, 0x01, 0x7F] : List Byte).getLast? = some c ∧ c.val &&& 0x80 ≠ 0)) ∧
    ((∃ c, (NewInt48 (-140737488355328)).1.ToBytes.head? = some c ∧
        (c.val &&& 0x80 ≠ 0 ↔ (NewInt48 (-140737488355328)).1.Int64 < 0)) ∧
      (∃ c, (NewInt48 (-140737488355328)).1.ToLittleEndianBytes.getLast? = some c ∧
        (c.val &&& 0x80 ≠ 0 ↔ (NewInt48 (-140737488355328)).1.Int64 < 0))) ∧
    (((FromInt48Bytes [0xED, 0xCB, 0xAA, 0x01, 0x7F, 0x80]).1.Int64 < 0 ↔ ∃ c, ([0xED, 0xCB, 0xAA, 0x01, 0x7F, 0x80] : List Byte).head? = some c ∧ c.val &&& 0x80 ≠ 0) ∧
      ((FromInt48LittleEndianBytes [0xED, 0xCB, 0xAA, 0x01, 0x7F, 0x80]).1.Int64 < 0 ↔
        ∃ c, ([0xED, 0xCB, 0xAA, 0x01, 0x7F, 0x80] : List Byte).getLast? = some c ∧ c.val &&& 0x80 ≠ 0)) ∧
    ((∃ c, (NewInt56 (-36028797018963968)).1.ToBytes.head? = some c ∧
        (c.val &&& 0x80 ≠ 0 ↔ (NewInt56 (-36028797018963968)).1.Int64 < 0)) ∧
      (∃ c, (NewInt56 (-36028797018963968)).1.ToLittleEndianBytes.getLast? = some c ∧
        (c.val &&& 0x80 ≠ 0 ↔ (NewInt56 (-36028797018963968)).1.Int64 < 0))) ∧
    (((FromInt56Bytes [0xED, 0xCB, 0xAA, 0x01, 0x7F, 0x80, 0xFF]).1.Int64 < 0 ↔ ∃ c, ([0xED, 0xCB, 0xAA, 0x01, 0x7F, 0x80, 0xFF] : List Byte).head? = some c ∧ c.val &&& 0x80 ≠ 0) ∧
      ((FromInt56LittleEndianBytes [0xED, 0xCB, 0xAA, 0x01, 0x7F, 0x80, 0xFF]).1.Int64 < 0 ↔
        ∃ c, ([0xED, 0xCB, 0xAA, 0x01, 0x7F, 0x80, 0xFF] : List Byte).getLast? = some c ∧ c.val &&& 0x80 ≠ 0)) :=
  ⟨C28_sign_bit_of_the_wire_format.1 (-8388608) (by decide),
   C28_sign_bit_of_the_wire_format.2.1 [0xED, 0xCB, 0xAA] (by decide),
   C28_sign_bit_of_the_wire_format.2.2.1 (-549755813888) (by decide),
   C28_sign_bit_of_the_wire_format.2.2.2.1 [0xED, 0xCB, 0xAA, 0x01, 0x7F] (by decide),
   C28_sign_bit_of_the_wire_format.2.2.2.2.1 (-140737488355328) (by decide),
   C28_sign_bit_of_the_wire_format.2.2.2.2.2.1 [0xED, 0xCB, 0xAA, 0x01, 0x7F, 0x80] (by decide),
   C28_sign_bit_of_the_wire_format.2.2.2.2.2.2.1 (-36028797018963968) (by decide),
   C28_sign_bit_of_the_wire_format.2.2.2.2.2.2.2 [0xED, 0xCB, 0xAA, 0x01, 0x7F, 0x80, 0xFF] (by decide)⟩

/-- C29 as stated fails: the payload `+5`, bare or between double quotes, starts with `+`, which is
neither a digit nor `-`, and each of the four signed types accepts it and stores 5. -/
theorem C29_plus_five_is_accepted_by_signed_types :
    (quoteStripped [0x2B, 0x35] = [0x2B, 0x35] ∧ quoteStripped [0x22, 0x2B, 0x35, 0x22] = [0x2B, 0x35] ∧
      isDigit 0x2B = false ∧ (0x2B : Byte) ≠ 0x2D) ∧
    (Int24.UnmarshalJSON ⟨0⟩ [0x2B, 0x35] = Run.ret (⟨5⟩, none) ∧
      Int24.UnmarshalJSON ⟨0⟩ [0x22, 0x2B, 0x35, 0x22] = Run.ret (⟨5⟩, none)) ∧
    (Int40.UnmarshalJSON ⟨0⟩ [0x2B, 0x35] = Run.ret (⟨5⟩, none) ∧
      Int40.UnmarshalJSON ⟨0⟩ [0x22, 0x2B, 0x35, 0x22] = Run.ret (⟨5⟩, none)) ∧
    (Int48.UnmarshalJSON ⟨0⟩ [0x2B, 0x35] = Run.ret (⟨5⟩, none) ∧
      Int48.UnmarshalJSON ⟨0⟩ [0x22, 0x2B, 0x35, 0x22] = Run.ret (⟨5⟩, none)) ∧
    (Int56.UnmarshalJSON ⟨0⟩ [0x2B, 0x35] = Run.ret (⟨5⟩, none) ∧
      Int56.UnmarshalJSON ⟨0⟩ [0x22, 0x2B, 0x35, 0x22] = Run.ret (⟨5⟩, none)) :=
  ⟨by decide,
   by decide,
   by decide,
   by decide,
   by decide⟩

/-- C29 amended: for each of the eight types, every payload for which `UnmarshalJSON` returns a nil
error consists, one pair of enclosing double quotes removed, of one decimal digit or more and
nothing else, preceded for the signed types by at most one sign, `+` or `-`. The payload `+5` is
accepted by the four signed types, which store 5, and rejected by the four unsigned types with a
syntax error of `strconv`. -/
theorem C29_accepted_text_format :
    (∀ (r : Int24) (data : List Byte) (r1 : Int24),
      Int24.UnmarshalJSON r data = Run.ret (r1, none) →
      unsignedPart (quoteStripped data) ≠ [] ∧
      (∀ b ∈ unsignedPart (quoteStripped data), isDigit b = true)) ∧
    (∀ r : Int24, Int24.UnmarshalJSON r [0x2B, 0x35] = Run.ret (⟨5⟩, none)) ∧
    (∀ (r : Uint24) (data : List Byte) (r1 : Uint24),
      Uint24.UnmarshalJSON r data = Run.ret (r1, none) →
      quoteStripped data ≠ [] ∧
      (∀ b ∈ quoteStripped data, isDigit b = true)) ∧
    (∀ r : Uint24, Uint24.UnmarshalJSON r [0x2B, 0x35] =
      Run.ret (r, some (GoError.NumError "ParseUint" [0x2B, 0x35] StrconvErr.syntaxError))) ∧
    (∀ (r : Int40) (data : List Byte) (r1 : Int40),
      Int40.UnmarshalJSON r data = Run.ret (r1, none) →
      unsignedPart (quoteStripped data) ≠ [] ∧
      (∀ b ∈ unsignedPart (quoteStripped data), isDigit b = true)) ∧
    (∀ r : Int40, Int40.UnmarshalJSON r [0x2B, 0x35] = Run.ret (⟨5⟩, none)) ∧
    (∀ (r : Uint40) (data : List Byte) (r1 : Uint40),
      Uint40.UnmarshalJSON r data = Run.ret (r1, none) →
      quoteStripped data ≠ [] ∧
      (∀ b ∈ quoteStripped data, isDigit b = true)) ∧
    (∀ r : Uint40, Uint40.UnmarshalJSON r [0x2B, 0x35] =
      Run.ret (r, some (GoError.NumError "ParseUint" [0x2B, 0x35] StrconvErr.syntaxError))) ∧
    (∀ (r : Int48) (data : List Byte) (r1 : Int48),
      Int48.UnmarshalJSON r data = Run.ret (r1, none) →
      unsignedPart (quoteStripped data) ≠ [] ∧
      (∀ b ∈ unsignedPart (quoteStripped data), isDigit b = true)) ∧
    (∀ r : Int48, Int48.UnmarshalJSON r [0x2B, 0x35] = Run.ret (⟨5⟩, none)) ∧
    (∀ (r : Uint48) (data : List Byte) (r1 : Uint48),
      Uint48.UnmarshalJSON r data = Run.ret (r1, none) →
      quoteStripped data ≠ [] ∧
      (∀ b ∈ quoteStripped data, isDigit b = true)) ∧
    (∀ r : Uint48, Uint48.UnmarshalJSON r [0x2B, 0x35] =
      Run.ret (r, some (GoError.NumError "ParseUint" [0x2B, 0x35] StrconvErr.syntaxError))) ∧
    (∀ (r : Int56) (data : List Byte) (r1 : Int56),
      Int56.UnmarshalJSON r data = Run.ret (r1, none) →
      unsignedPart (quoteStripped data) ≠ [] ∧
      (∀ b ∈ unsignedPart (quoteStripped data), isDigit b = true)) ∧
    (∀ r : Int56, Int56.UnmarshalJSON r [0x2B, 0x35] = Run.ret (⟨5⟩, none)) ∧
    (∀ (r : Uint56) (data : List Byte) (r1 : Uint56),
      Uint56.UnmarshalJSON r data = Run.ret (r1, none) →
      quoteStripped data ≠ [] ∧
      (∀ b ∈ quoteStripped data, isDigit b = true)) ∧
    (∀ r : Uint56, Uint56.UnmarshalJSON r [0x2B, 0x35] =
      Run.ret (r, some (GoError.NumError "ParseUint" [0x2B, 0x35] StrconvErr.syntaxError))) :=
  ⟨fun r data r1 hr =>
     ⟨((isDecimalInt64_iff _).mp (Int24_UnmarshalJSON_accepts r data r1 hr)).1,
      ((isDecimalInt64_iff _).mp (Int24_UnmarshalJSON_accepts r data r1 hr)).2.1⟩,
   fun r => Int24_UnmarshalJSON_parse_in r _ 5 (by decide) (by decide) (by decide) (by omega) (by omega),
   fun r data r1 hr =>
     ⟨((isDecimalUint64_iff _).mp (Uint24_UnmarshalJSON_accepts r data r1 hr)).1,
      ((isDecimalUint64_iff _).mp (Uint24_UnmarshalJSON_accepts r data r1 hr)).2.1⟩,
   fun r => Uint24_UnmarshalJSON_parse_err r _ 0 _ (by decide) (by decide) (by decide),
   fun r data r1 hr =>
     ⟨((isDecimalInt64_iff _).mp (Int40_UnmarshalJSON_accepts r data r1 hr)).1,
      ((isDecimalInt64_iff _).mp (Int40_UnmarshalJSON_accepts r data r1 hr)).2.1⟩,
   fun r => Int40_UnmarshalJSON_parse_in r _ 5 (by decide) (by decide) (by decide) (by omega) (by omega),
   fun r data r1 hr =>
     ⟨((isDecimalUint64_iff _).mp (Uint40_UnmarshalJSON_accepts r data r1 hr)).1,
      ((isDecimalUint64_iff _).mp (Uint40_UnmarshalJSON_accepts r data r1 hr)).2.1⟩,
   fun r => Uint40_UnmarshalJSON_parse_err r _ 0 _ (by decide) (by decide) (by decide),
   fun r data r1 hr =>
     ⟨((isDecimalInt64_iff _).mp (Int48_UnmarshalJSON_accepts r data r1 hr)).1,
      ((isDecimalInt64_iff _).mp (Int48_UnmarshalJSON_accepts r data r1 hr)).2.1⟩,
   fun r => Int48_UnmarshalJSON_parse_in r _ 5 (by decide) (by decide) (by decide) (by omega) (by omega),
   fun r data r1 hr =>
     ⟨((isDecimalUint64_iff _).mp (Uint48_UnmarshalJSON_accepts r data r1 hr)).1,
      ((isDecimalUint64_iff _).mp (Uint48_UnmarshalJSON_accepts r data r1 hr)).2.1⟩,
   fun r => Uint48_UnmarshalJSON_parse_err r _ 0 _ (by decide) (by decide) (by decide),
   fun r data r1 hr =>
     ⟨((isDecimalInt64_iff _).mp (Int56_UnmarshalJSON_accepts r data r1 hr)).1,
      ((isDecimalInt64_iff _).mp (Int56_UnmarshalJSON_accepts r data r1 hr)).2.1⟩,
   fun r => Int56_UnmarshalJSON_parse_in r _ 5 (by decide) (by decide) (by decide) (by omega) (by omega),
   fun r data r1 hr =>
     ⟨((isDecimalUint64_iff _).mp (Uint56_UnmarshalJSON_accepts r data r1 hr)).1,
      ((isDecimalUint64_iff _).mp (Uint56_UnmarshalJSON_accepts r data r1 hr)).2.1⟩,
   fun r => Uint56_UnmarshalJSON_parse_err r _ 0 _ (by decide) (by decide) (by decide)⟩

/-- Instances of `C29_accepted_text_format` at concrete inputs, one for each type. -/
theorem C29_accepted_text_format_witness :
    (unsignedPart (quoteStripped [0x22, 0x2D, 0x31, 0x32, 0x22]) ≠ [] ∧
      (∀ b ∈ unsignedPart (quoteStripped [0x22, 0x2D, 0x31, 0x32, 0x22]), isDigit b = true)) ∧
    (quoteStripped [0x22, 0x31, 0x32, 0x22] ≠ [] ∧
      (∀ b ∈ quoteStripped [0x22, 0x31, 0x32, 0x22], isDigit b = true)) ∧
    (unsignedPart (quoteStripped [0x22, 0x2D, 0x31, 0x32, 0x22]) ≠ [] ∧
      (∀ b ∈ unsignedPart (quoteStripped [0x22, 0x2D, 0x31, 0x32, 0x22]), isDigit b = true)) ∧
    (quoteStripped [0x22, 0x31, 0x32, 0x22] ≠ [] ∧
      (∀ b ∈ quoteStripped [0x22, 0x31, 0x32, 0x22], isDigit b = true)) ∧
    (unsignedPart (quoteStripped [0x22, 0x2D, 0x31, 0x32, 0x22]) ≠ [] ∧
      (∀ b ∈ unsignedPart (quoteStripped [0x22, 0x2D, 0x31, 0x32, 0x22]), isDigit b = true)) ∧
    (quoteStripped [0x22, 0x31, 0x32, 0x22] ≠ [] ∧
      (∀ b ∈ quoteStripped [0x22, 0x31, 0x32, 0x22], isDigit b = true)) ∧
    (unsignedPart (quoteStripped [0x22, 0x2D, 0x31, 0x32, 0x22]) ≠ [] ∧
      (∀ b ∈ unsignedPart (quoteStripped [0x22, 0x2D, 0x31, 0x32, 0x22]), isDigit b = true)) ∧
    (quoteStripped [0x22, 0x31, 0x32, 0x22] ≠ [] ∧
      (∀ b ∈ quoteStripped [0x22, 0x31, 0x32, 0x22], isDigit b = true)) :=
  ⟨C29_accepted_text_format.1 ⟨7⟩ [0x22, 0x2D, 0x31, 0x32, 0x22] ⟨-12⟩ (by decide),
   C29_accepted_text_format.2.2.1 ⟨7⟩ [0x22, 0x31, 0x32, 0x22] ⟨12⟩ (by decide),
   C29_accepted_text_format.2.2.2.2.1 ⟨7⟩ [0x22, 0x2D, 0x31, 0x32, 0x22] ⟨-12⟩ (by decide),
   C29_accepted_text_format.2.2.2.2.2.2.1 ⟨7⟩ [0x22, 0x31, 0x32, 0x22] ⟨12⟩ (by decide),
   C29_accepted_text_format.2.2.2.2.2.2.2.2.1 ⟨7⟩ [0x22, 0x2D, 0x31, 0x32, 0x22] ⟨-12⟩ (by decide),
   C29_accepted_text_format.2.2.2.2.2.2.2.2.2.2.1 ⟨7⟩ [0x22, 0x31, 0x32, 0x22] ⟨12⟩ (by decide),
   C29_accepted_text_format.2.2.2.2.2.2.2.2.2.2.2.2.1 ⟨7⟩ [0x22, 0x2D, 0x31, 0x32, 0x22] ⟨-12⟩ (by decide),
   C29_accepted_text_format.2.2.2.2.2.2.2.2.2.2.2.2.2.2.1 ⟨7⟩ [0x22, 0x31, 0x32, 0x22] ⟨12⟩ (by decide)⟩

/-- C30: the wire format is bit-exact in the other direction. For each of the eight types and every
byte sequence `b` of length `W/8`, encoding the decoded value gives `b` back, in both byte orders;
each decoder is one-to-one on the sequences of `W/8` bytes, and every value returned by a
successful `NewX` is the decoding of a sequence of `W/8` bytes, so each decoder is a bijection
between these sequences and the valid values. -/
theorem C30_decode_then_encode_is_identity :
    (∀ b : List Byte, b.length = 3 →
      (FromInt24Bytes b).1.ToBytes = b ∧
      (FromInt24LittleEndianBytes b).1.ToLittleEndianBytes = b) ∧
    (∀ b1 b2 : List Byte, b1.length = 3 → b2.length = 3 → b1 ≠ b2 →
      FromInt24Bytes b1 ≠ FromInt24Bytes b2 ∧
      FromInt24LittleEndianBytes b1 ≠ FromInt24LittleEndianBytes b2) ∧
    (∀ v : Int, (NewInt24 v).2 = none →
      (∃ b : List Byte, b.length = 3 ∧ FromInt24Bytes b = ((NewInt24 v).1, none)) ∧
      (∃ b : List Byte, b.length = 3 ∧ FromInt24LittleEndianBytes b = ((NewInt24 v).1, none))) ∧
    (∀ b : List Byte, b.length = 3 →
      (FromUint24Bytes b).1.ToBytes = b ∧
      (FromUint24LittleEndianBytes b).1.ToLittleEndianBytes = b) ∧
    (∀ b1 b2 : List Byte, b1.length = 3 → b2.length = 3 → b1 ≠ b2 →
      FromUint24Bytes b1 ≠ FromUint24Bytes b2 ∧
      FromUint24LittleEndianBytes b1 ≠ FromUint24LittleEndianBytes b2) ∧
    (∀ v : Nat, (NewUint24 v).2 = none →
      (∃ b : List Byte, b.length = 3 ∧ FromUint24Bytes b = ((NewUint24 v).1, none)) ∧
      (∃ b : List Byte, b.length = 3 ∧ FromUint24LittleEndianBytes b = ((NewUint24 v).1, none))) ∧
    (∀ b : List Byte, b.length = 5 →
      (FromInt40Bytes b).1.ToBytes = b ∧
      (FromInt40LittleEndianBytes b).1.ToLittleEndianBytes = b) ∧
    (∀ b1 b2 : List Byte, b1.length = 5 → b2.length = 5 → b1 ≠ b2 →
      FromInt40Bytes b1 ≠ FromInt40Bytes b2 ∧
      FromInt40LittleEndianBytes b1 ≠ FromInt40LittleEndianBytes b2) ∧
    (∀ v : Int, (NewInt40 v).2 = none →
      (∃ b : List Byte, b.length = 5 ∧ FromInt40Bytes b = ((NewInt40 v).1, none)) ∧
      (∃ b : List Byte, b.length = 5 ∧ FromInt40LittleEndianBytes b = ((NewInt40 v).1, none))) ∧
    (∀ b : List Byte, b.length = 5 →
      (FromUint40Bytes b).1.ToBytes = b ∧
      (FromUint40LittleEndianBytes b).1.ToLittleEndianBytes = b) ∧
    (∀ b1 b2 : List Byte, b1.length = 5 → b2.length = 5 → b1 ≠ b2 →
      FromUint40Bytes b1 ≠ FromUint40Bytes b2 ∧
      FromUint40LittleEndianBytes b1 ≠ FromUint40LittleEndianBytes b2) ∧
    (∀ v : Nat, (NewUint40 v).2 = none →
      (∃ b : List Byte, b.length = 5 ∧ FromUint40Bytes b = ((NewUint40 v).1, none)) ∧
      (∃ b : List Byte, b.length = 5 ∧ FromUint40LittleEndianBytes b = ((NewUint40 v).1, none))) ∧
    (∀ b : List Byte, b.length = 6 →
      (FromInt48Bytes b).1.ToBytes = b ∧
      (FromInt48LittleEndianBytes b).1.ToLittleEndianBytes = b) ∧
    (∀ b1 b2 : List Byte, b1.length = 6 → b2.length = 6 → b1 ≠ b2 →
      FromInt48Bytes b1 ≠ FromInt48Bytes b2 ∧
      FromInt48LittleEndianBytes b1 ≠ FromInt48LittleEndianBytes b2) ∧
    (∀ v : Int, (NewInt48 v).2 = none →
      (∃ b : List Byte, b.length = 6 ∧ FromInt48Bytes b = ((NewInt48 v).1, none)) ∧
      (∃ b : List Byte, b.length = 6 ∧ FromInt48LittleEndianBytes b = ((NewInt48 v).1, none))) ∧
    (∀ b : List Byte, b.length = 6 →
      (FromUint48Bytes b).1.ToBytes = b ∧
      (FromUint48LittleEndianBytes b).1.ToLittleEndianBytes = b) ∧
    (∀ b1 b2 : List Byte, b1.length = 6 → b2.length = 6 → b1 ≠ b2 →
      FromUint48Bytes b1 ≠ FromUint48Bytes b2 ∧
      FromUint48LittleEndianBytes b1 ≠ FromUint48LittleEndianBytes b2) ∧
    (∀ v : Nat, (NewUint48 v).2 = none →
      (∃ b : List Byte, b.length = 6 ∧ FromUint48Bytes b = ((NewUint48 v).1, none)) ∧
      (∃ b : List Byte, b.length = 6 ∧ FromUint48LittleEndianBytes b = ((NewUint48 v).1, none))) ∧
    (∀ b : List Byte, b.length = 7 →
      (FromInt56Bytes b).1.ToBytes = b ∧
      (FromInt56LittleEndianBytes b).1.ToLittleEndianBytes = b) ∧
    (∀ b1 b2 : List Byte, b1.length = 7 → b2.length = 7 → b1 ≠ b2 →
      FromInt56Bytes b1 ≠ FromInt56Bytes b2 ∧
      FromInt56LittleEndianBytes b1 ≠ FromInt56LittleEndianBytes b2) ∧
    (∀ v : Int, (NewInt56 v).2 = none →
      (∃ b : List Byte, b.length = 7 ∧ FromInt56Bytes b = ((NewInt56 v).1, none)) ∧
      (∃ b : List Byte, b.length = 7 ∧ FromInt56LittleEndianBytes b = ((NewInt56 v).1, none))) ∧
    (∀ b : List Byte, b.length = 7 →
      (FromUint56Bytes b).1.ToBytes = b ∧
      (FromUint56LittleEndianBytes b).1.ToLittleEndianBytes = b) ∧
    (∀ b1 b2 : List Byte, b1.length = 7 → b2.length = 7 → b1 ≠ b2 →
      FromUint56Bytes b1 ≠ FromUint56Bytes b2 ∧
      FromUint56LittleEndianBytes b1 ≠ FromUint56LittleEndianBytes b2) ∧
    (∀ v : Nat, (NewUint56 v).2 = none →
      (∃ b : List Byte, b.length = 7 ∧ FromUint56Bytes b = ((NewUint56 v).1, none)) ∧
      (∃ b : List Byte, b.length = 7 ∧ FromUint56LittleEndianBytes b = ((NewUint56 v).1, none))) :=
  ⟨encodeDecode_list_Int24,
   fun b1 b2 h1 h2 hne => ⟨fun h => hne (FromInt24Bytes_injective b1 b2 h1 h2 h),
     fun h => hne (FromInt24LittleEndianBytes_injective b1 b2 h1 h2 h)⟩,
   fun v h => by
     obtain ⟨hlo, hhi⟩ := (NewInt24_ok_iff v).mp h; rw [NewInt24_in v hlo hhi]
     exact ⟨⟨(Int24.mk v).ToBytes, rfl, roundTrip_Int24 v hlo hhi⟩,
       ⟨(Int24.mk v).ToLittleEndianBytes, rfl, roundTripLE_Int24 v hlo hhi⟩⟩,
   encodeDecode_list_Uint24,
   fun b1 b2 h1 h2 hne => ⟨fun h => hne (FromUint24Bytes_injective b1 b2 h1 h2 h),
     fun h => hne (FromUint24LittleEndianBytes_injective b1 b2 h1 h2 h)⟩,
   fun v h => by
     have hhi := (NewUint24_ok_iff v).mp h; rw [NewUint24_in v hhi]
     exact ⟨⟨(Uint24.mk v).ToBytes, rfl, roundTrip_Uint24 v hhi⟩,
       ⟨(Uint24.mk v).ToLittleEndianBytes, rfl, roundTripLE_Uint24 v hhi⟩⟩,
   encodeDecode_list_Int40,
   fun b1 b2 h1 h2 hne => ⟨fun h => hne (FromInt40Bytes_injective b1 b2 h1 h2 h),
     fun h => hne (FromInt40LittleEndianBytes_injective b1 b2 h1 h2 h)⟩,
   fun v h => by
     obtain ⟨hlo, hhi⟩ := (NewInt40_ok_iff v).mp h; rw [NewInt40_in v hlo hhi]
     exact ⟨⟨(Int40.mk v).ToBytes, rfl, roundTrip_Int40 v hlo hhi⟩,
       ⟨(Int40.mk v).ToLittleEndianBytes, rfl, roundTripLE_Int40 v hlo hhi⟩⟩,
   encodeDecode_list_Uint40,
   fun b1 b2 h1 h2 hne => ⟨fun h => hne (FromUint40Bytes_injective b1 b2 h1 h2 h),
     fun h => hne (FromUint40LittleEndianBytes_injective b1 b2 h1 h2 h)⟩,
   fun v h => by
     have hhi := (NewUint40_ok_iff v).mp h; rw [NewUint40_in v hhi]
     exact ⟨⟨(Uint40.mk v).ToBytes, rfl, roundTrip_Uint40 v hhi⟩,
       ⟨(Uint40.mk v).ToLittleEndianBytes, rfl, roundTripLE_Uint40 v hhi⟩⟩,
   encodeDecode_list_Int48,
   fun b1 b2 h1 h2 hne => ⟨fun h => hne (FromInt48Bytes_injective b1 b2 h1 h2 h),
     fun h => hne (FromInt48LittleEndianBytes_injective b1 b2 h1 h2 h)⟩,
   fun v h => by
     obtain ⟨hlo, hhi⟩ := (NewInt48_ok_iff v).mp h; rw [NewInt48_in v hlo hhi]
     exact ⟨⟨(Int48.mk v).ToBytes, rfl, roundTrip_Int48 v hlo hhi⟩,
       ⟨(Int48.mk v).ToLittleEndianBytes, rfl, roundTripLE_Int48 v hlo hhi⟩⟩,
   encodeDecode_list_Uint48,
   fun b1 b2 h1 h2 hne => ⟨fun h => hne (FromUint48Bytes_injective b1 b2 h1 h2 h),
     fun h => hne (FromUint48LittleEndianBytes_injective b1 b2 h1 h2 h)⟩,
   fun v h => by
     have hhi := (NewUint48_ok_iff v).mp h; rw [NewUint48_in v hhi]
     exact ⟨⟨(Uint48.mk v).ToBytes, rfl, roundTrip_Uint48 v hhi⟩,
       ⟨(Uint48.mk v).ToLittleEndianBytes, rfl, roundTripLE_Uint48 v hhi⟩⟩,
   encodeDecode_list_Int56,
   fun b1 b2 h1 h2 hne => ⟨fun h => hne (FromInt56Bytes_injective b1 b2 h1 h2 h),
     fun h => hne (FromInt56LittleEndianBytes_injective b1 b2 h1 h2 h)⟩,
   fun v h => by
     obtain ⟨hlo, hhi⟩ := (NewInt56_ok_iff v).mp h; rw [NewInt56_in v hlo hhi]
     exact ⟨⟨(Int56.mk v).ToBytes, rfl, roundTrip_Int56 v hlo hhi⟩,
       ⟨(Int56.mk v).ToLittleEndianBytes, rfl, roundTripLE_Int56 v hlo hhi⟩⟩,
   encodeDecode_list_Uint56,
   fun b1 b2 h1 h2 hne => ⟨fun h => hne (FromUint56Bytes_injective b1 b2 h1 h2 h),
     fun h => hne (FromUint56LittleEndianBytes_injective b1 b2 h1 h2 h)⟩,
   fun v h => by
     have hhi := (NewUint56_ok_iff v).mp h; rw [NewUint56_in v hhi]
     exact ⟨⟨(Uint56.mk v).ToBytes, rfl, roundTrip_Uint56 v hhi⟩,
       ⟨(Uint56.mk v).ToLittleEndianBytes, rfl, roundTripLE_Uint56 v hhi⟩⟩⟩

/-- Instances of `C30_decode_then_encode_is_identity` at concrete inputs, one for each type. -/
theorem C30_decode_then_encode_is_identity_witness :
    ((FromInt24Bytes [0xED, 0xCB, 0xAA]).1.ToBytes = [0xED, 0xCB, 0xAA] ∧
      (FromInt24LittleEndianBytes [0xED, 0xCB, 0xAA]).1.ToLittleEndianBytes = [0xED, 0xCB, 0xAA]) ∧
    (FromInt24Bytes [0xED, 0xCB, 0xAA] ≠ FromInt24Bytes [0x00, 0x00, 0x00] ∧
      FromInt24LittleEndianBytes [0xED, 0xCB, 0xAA] ≠ FromInt24LittleEndianBytes [0x00, 0x00, 0x00]) ∧
    ((∃ b : List Byte, b.length = 3 ∧ FromInt24Bytes b = ((NewInt24 (-8388608)).1, none)) ∧
      (∃ b : List Byte, b.length = 3 ∧ FromInt24LittleEndianBytes b = ((NewInt24 (-8388608)).1, none))) ∧
    ((FromUint24Bytes [0xED, 0xCB, 0xAA]).1.ToBytes = [0xED, 0xCB, 0xAA] ∧
      (FromUint24LittleEndianBytes [0xED, 0xCB, 0xAA]).1.ToLittleEndianBytes = [0xED, 0xCB, 0xAA]) ∧
    (FromUint24Bytes [0xED, 0xCB, 0xAA] ≠ FromUint24Bytes [0x00, 0x00, 0x00] ∧
      FromUint24LittleEndianBytes [0xED, 0xCB, 0xAA] ≠ FromUint24LittleEndianBytes [0x00, 0x00, 0x00]) ∧
    ((∃ b : List Byte, b.length = 3 ∧ FromUint24Bytes b = ((NewUint24 16777215).1, none)) ∧
      (∃ b : List Byte, b.length = 3 ∧ FromUint24LittleEndianBytes b = ((NewUint24 16777215).1, none))) ∧
    ((FromInt40Bytes [0xED, 0xCB, 0xAA, 0x01, 0x7F]).1.ToBytes = [0xED, 0xCB, 0xAA, 0x01, 0x7F] ∧
      (FromInt40LittleEndianBytes [0xED, 0xCB, 0xAA, 0x01, 0x7F]).1.ToLittleEndianBytes = [0xED, 0xCB, 0xAA, 0x01, 0x7F]) ∧
    (FromInt40Bytes [0xED, 0xCB, 0xAA, 0x01, 0x7F] ≠ FromInt40Bytes [0x00, 0x00, 0x00, 0x00, 0x00] ∧
      FromInt40LittleEndianBytes [0xED, 0xCB, 0xAA, 0x01, 0x7F] ≠ FromInt40LittleEndianBytes [0x00, 0x00, 0x00, 0x00, 0x00]) ∧
    ((∃ b : List Byte, b.length = 5 ∧ FromInt40Bytes b = ((NewInt40 (-549755813888)).1, none)) ∧
      (∃ b : List Byte, b.length = 5 ∧ FromInt40LittleEndianBytes b = ((NewInt40 (-549755813888)).1, none))) ∧
    ((FromUint40Bytes [0xED, 0xCB, 0xAA, 0x01, 0x7F]).1.ToBytes = [0xED, 0xCB, 0xAA, 0x01, 0x7F] ∧
      (FromUint40LittleEndianBytes [0xED, 0xCB, 0xAA, 0x01, 0x7F]).1.ToLittleEndianBytes = [0xED, 0xCB, 0xAA, 0x01, 0x7F]) ∧
    (FromUint40Bytes [0xED, 0xCB, 0xAA, 0x01, 0x7F] ≠ FromUint40Bytes [0x00, 0x00, 0x00, 0x00, 0x00] ∧
      FromUint40LittleEndianBytes [0xED, 0xCB, 0xAA, 0x01, 0x7F] ≠ FromUint40LittleEndianBytes [0x00, 0x00, 0x00, 0x00, 0x00]) ∧
    ((∃ b : List Byte, b.length = 5 ∧ FromUint40Bytes b = ((NewUint40 1099511627775).1, none)) ∧
      (∃ b : List Byte, b.length = 5 ∧ FromUint40LittleEndianBytes b = ((NewUint40 1099511627775).1, none))) ∧
    ((FromInt48Bytes [0xED, 0xCB, 0xAA, 0x01, 0x7F, 0x80]).1.ToBytes = [0xED, 0xCB, 0xAA, 0x01, 0x7F, 0x80] ∧
      (FromInt48LittleEndianBytes [0xED, 0xCB, 0xAA, 0x01, 0x7F, 0x80]).1.ToLittleEndianBytes = [0xED, 0xCB, 0xAA, 0x01, 0x7F, 0x80]) ∧
    (FromInt48Bytes [0xED, 0xCB, 0xAA, 0x01, 0x7F, 0x80] ≠ FromInt48Bytes [0x00, 0x00, 0x00, 0x00, 0x00, 0x00] ∧
      FromInt48LittleEndianBytes [0xED, 0xCB, 0xAA, 0x01, 0x7F, 0x80] ≠ FromInt48LittleEndianBytes [0x00, 0x00, 0x00, 0x00, 0x00, 0x00]) ∧
    ((∃ b : List Byte, b.length = 6 ∧ FromInt48Bytes b = ((NewInt48 (-140737488355328)).1, none)) ∧
      (∃ b : List Byte, b.length = 6 ∧ FromInt48LittleEndianBytes b = ((NewInt48 (-140737488355328)).1, none))) ∧
    ((FromUint48Bytes [0xED, 0xCB, 0xAA, 0x01, 0x7F, 0x80]).1.ToBytes = [0xED, 0xCB, 0xAA, 0x01, 0x7F, 0x80] ∧
      (FromUint48LittleEndianBytes [0xED, 0xCB, 0xAA, 0x01, 0x7F, 0x80]).1.ToLittleEndianBytes = [0xED, 0xCB, 0xAA, 0x01, 0x7F, 0x80]) ∧
    (FromUint48Bytes [0xED, 0xCB, 0xAA, 0x01, 0x7F, 0x80] ≠ FromUint48Bytes [0x00, 0x00, 0x00, 0x00, 0x00, 0x00] ∧
      FromUint48LittleEndianBytes [0xED, 0xCB, 0xAA, 0x01, 0x7F, 0x80] ≠ FromUint48LittleEndianBytes [0x00, 0x00, 0x00, 0x00, 0x00, 0x00]) ∧
    ((∃ b : List Byte, b.length = 6 ∧ FromUint48Bytes b = ((NewUint48 281474976710655).1, none)) ∧
      (∃ b : List Byte, b.length = 6 ∧ FromUint48LittleEndianBytes b = ((NewUint48 281474976710655).1, none))) ∧
    ((FromInt56Bytes [0xED, 0xCB, 0xAA, 0x01, 0x7F, 0x80, 0xFF]).1.ToBytes = [0xED, 0xCB, 0xAA, 0x01, 0x7F, 0x80, 0xFF] ∧
      (FromInt56LittleEndianBytes [0xED, 0xCB, 0xAA, 0x01, 0x7F, 0x80, 0xFF]).1.ToLittleEndianBytes = [0xED, 0xCB, 0xAA, 0x01, 0x7F, 0x80, 0xFF]) ∧
    (FromInt56Bytes [0xED, 0xCB, 0xAA, 0x01, 0x7F, 0x80, 0xFF] ≠ FromInt56Bytes [0x00, 0x00, 0x00, 0x00, 0x00, 0x00, 0x00] ∧
      FromInt56LittleEndianBytes [0xED, 0xCB, 0xAA, 0x01, 0x7F, 0x80, 0xFF] ≠ FromInt56LittleEndianBytes [0x00, 0x00, 0x00, 0x00, 0x00, 0x00, 0x00]) ∧
    ((∃ b : List Byte, b.length = 7 ∧ FromInt56Bytes b = ((NewInt56 (-36028797018963968)).1, none)) ∧
      (∃ b : List Byte, b.length = 7 ∧ FromInt56LittleEndianBytes b = ((NewInt56 (-36028797018963968)).1, none))) ∧
    ((FromUint56Bytes [0xED, 0xCB, 0xAA, 0x01, 0x7F, 0x80, 0xFF]).1.ToBytes = [0xED, 0xCB, 0xAA, 0x01, 0x7F, 0x80, 0xFF] ∧
      (FromUint56LittleEndianBytes [0xED, 0xCB, 0xAA, 0x01, 0x7F, 0x80, 0xFF]).1.ToLittleEndianBytes = [0xED, 0xCB, 0xAA, 0x01, 0x7F, 0x80, 0xFF]) ∧
    (FromUint56Bytes [0xED, 0xCB, 0xAA, 0x01, 0x7F, 0x80, 0xFF] ≠ FromUint56Bytes [0x00, 0x00, 0x00, 0x00, 0x00, 0x00, 0x00] ∧
      FromUint56LittleEndianBytes [0xED, 0xCB, 0xAA, 0x01, 0x7F, 0x80, 0xFF] ≠ FromUint56LittleEndianBytes [0x00, 0x00, 0x00, 0x00, 0x00, 0x00, 0x00]) ∧
    ((∃ b : List Byte, b.length = 7 ∧ FromUint56Bytes b = ((NewUint56 72057594037927935).1, none)) ∧
      (∃ b : List Byte, b.length = 7 ∧ FromUint56LittleEndianBytes b = ((NewUint56 72057594037927935).1, none))) :=
  ⟨C30_decode_then_encode_is_identity.1 [0xED, 0xCB, 0xAA] (by decide),
   C30_decode_then_encode_is_identity.2.1 [0xED, 0xCB, 0xAA] [0x00, 0x00, 0x00] (by decide) (by decide) (by decide),
   C30_decode_then_encode_is_identity.2.2.1 (-8388608) (by decide),
   C30_decode_then_encode_is_identity.2.2.2.1 [0xED, 0xCB, 0xAA] (by decide),
   C30_decode_then_encode_is_identity.2.2.2.2.1 [0xED, 0xCB, 0xAA] [0x00, 0x00, 0x00] (by decide) (by decide) (by decide),
   C30_decode_then_encode_is_identity.2.2.2.2.2.1 16777215 (by decide),
   C30_decode_then_encode_is_identity.2.2.2.2.2.2.1 [0xED, 0xCB, 0xAA, 0x01, 0x7F] (by decide),
   C30_decode_then_encode_is_identity.2.2.2.2.2.2.2.1 [0xED, 0xCB, 0xAA, 0x01, 0x7F] [0x00, 0x00, 0x00, 0x00, 0x00] (by decide) (by decide) (by decide),
   C30_decode_then_encode_is_identity.2.2.2.2.2.2.2.2.1 (-549755813888) (by decide),
   C30_decode_then_encode_is_identity.2.2.2.2.2.2.2.2.2.1 [0xED, 0xCB, 0xAA, 0x01, 0x7F] (by decide),
   C30_decode_then_encode_is_identity.2.2.2.2.2.2.2.2.2.2.1 [0xED, 0xCB, 0xAA, 0x01, 0x7F] [0x00, 0x00, 0x00, 0x00, 0x00] (by decide) (by decide) (by decide),
   C30_decode_then_encode_is_identity.2.2.2.2.2.2.2.2.2.2.2.1 1099511627775 (by decide),
   C30_decode_then_encode_is_identity.2.2.2.2.2.2.2.2.2.2.2.2.1 [0xED, 0xCB, 0xAA, 0x01, 0x7F, 0x80] (by decide),
   C30_decode_then_encode_is_identity.2.2.2.2.2.2.2.2.2.2.2.2.2.1 [0xED, 0xCB, 0xAA, 0x01, 0x7F, 0x80] [0x00, 0x00, 0x00, 0x00, 0x00, 0x00] (by decide) (by decide) (by decide),
   C30_decode_then_encode_is_identity.2.2.2.2.2.2.2.2.2.2.2.2.2.2.1 (-140737488355328) (by decide),
   C30_decode_then_encode_is_identity.2.2.2.2.2.2.2.2.2.2.2.2.2.2.2.1 [0xED, 0xCB, 0xAA, 0x01, 0x7F, 0x80] (by decide),
   C30_decode_then_encode_is_identity.2.2.2.2.2.2.2.2.2.2.2.2.2.2.2.2.1 [0xED, 0xCB, 0xAA, 0x01, 0x7F, 0x80] [0x00, 0x00, 0x00, 0x00, 0x00, 0x00] (by decide) (by decide) (by decide),
   C30_decode_then_encode_is_identity.2.2.2.2.2.2.2.2.2.2.2.2.2.2.2.2.2.1 281474976710655 (by decide),
   C30_decode_then_encode_is_identity.2.2.2.2.2.2.2.2.2.2.2.2.2.2.2.2.2.2.1 [0xED, 0xCB, 0xAA, 0x01, 0x7F, 0x80, 0xFF] (by decide),
   C30_decode_then_encode_is_identity.2.2.2.2.2.2.2.2.2.2.2.2.2.2.2.2.2.2.2.1 [0xED, 0xCB, 0xAA, 0x01, 0x7F, 0x80, 0xFF] [0x00, 0x00, 0x00, 0x00, 0x00, 0x00, 0x00] (by decide) (by decide) (by decide),
   C30_decode_then_encode_is_identity.2.2.2.2.2.2.2.2.2.2.2.2.2.2.2.2.2.2.2.2.1 (-36028797018963968) (by decide),
   C30_decode_then_encode_is_identity.2.2.2.2.2.2.2.2.2.2.2.2.2.2.2.2.2.2.2.2.2.1 [0xED, 0xCB, 0xAA, 0x01, 0x7F, 0x80, 0xFF] (by decide),
   C30_decode_then_encode_is_identity.2.2.2.2.2.2.2.2.2.2.2.2.2.2.2.2.2.2.2.2.2.2.1 [0xED, 0xCB, 0xAA, 0x01, 0x7F, 0x80, 0xFF] [0x00, 0x00, 0x00, 0x00, 0x00, 0x00, 0x00] (by decide) (by decide) (by decide),
   C30_decode_then_encode_is_identity.2.2.2.2.2.2.2.2.2.2.2.2.2.2.2.2.2.2.2.2.2.2.2 72057594037927935 (by decide)⟩

/-- C31: unmarshal is atomic on failure. For each of the eight types, whenever `UnmarshalJSON` or
`UnmarshalBinary` returns an error, the receiver holds the value it held before the call; so for
an empty payload, a text that is not a number, an out-of-range value and a wrong byte length. -/
theorem C31_unmarshal_is_atomic_on_failure :
    (∀ (r : Int24) (data : List Byte) (r1 : Int24) (e : GoError),
      Int24.UnmarshalJSON r data = Run.ret (r1, some e) →
      r1 = r ∧ Int24.UnmarshalJSON r data = Run.ret (r, some e)) ∧
    (∀ (r : Int24) (data : List Byte) (e : GoError),
      (Int24.UnmarshalBinary r data).2 = some e → Int24.UnmarshalBinary r data = (r, some e)) ∧
    (∀ r : Int24, Int24.UnmarshalJSON r [] = Run.ret (r, some GoError.ErrInt24EmptyData) ∧
      Int24.UnmarshalJSON r [0x61, 0x62, 0x63] = Run.ret (r, some (GoError.NumError "ParseInt" [0x61, 0x62, 0x63] StrconvErr.syntaxError)) ∧
      Int24.UnmarshalJSON r [0x38, 0x33, 0x38, 0x38, 0x36, 0x30, 0x38] = Run.ret (r, some GoError.ErrInt24OutOfRange) ∧
      Int24.UnmarshalBinary r [] = (r, some GoError.ErrInt24InvalidByteLength)) ∧
    (∀ (r : Uint24) (data : List Byte) (r1 : Uint24) (e : GoError),
      Uint24.UnmarshalJSON r data = Run.ret (r1, some e) →
      r1 = r ∧ Uint24.UnmarshalJSON r data = Run.ret (r, some e)) ∧
    (∀ (r : Uint24) (data : List Byte) (e : GoError),
      (Uint24.UnmarshalBinary r data).2 = some e → Uint24.UnmarshalBinary r data = (r, some e)) ∧
    (∀ r : Uint24, Uint24.UnmarshalJSON r [] = Run.ret (r, some GoError.ErrInt24EmptyData) ∧
      Uint24.UnmarshalJSON r [0x61, 0x62, 0x63] = Run.ret (r, some (GoError.NumError "ParseUint" [0x61, 0x62, 0x63] StrconvErr.syntaxError)) ∧
      Uint24.UnmarshalJSON r [0x31, 0x36, 0x37, 0x37, 0x37, 0x32, 0x31, 0x36] = Run.ret (r, some GoError.ErrUint24OutOfRange) ∧
      Uint24.UnmarshalBinary r [] = (r, some GoError.ErrInt24InvalidByteLength)) ∧
    (∀ (r : Int40) (data : List Byte) (r1 : Int40) (e : GoError),
      Int40.UnmarshalJSON r data = Run.ret (r1, some e) →
      r1 = r ∧ Int40.UnmarshalJSON r data = Run.ret (r, some e)) ∧
    (∀ (r : Int40) (data : List Byte) (e : GoError),
      (Int40.UnmarshalBinary r data).2 = some e → Int40.UnmarshalBinary r data = (r, some e)) ∧
    (∀ r : Int40, Int40.UnmarshalJSON r [] = Run.ret (r, some GoError.ErrInt40EmptyData) ∧
      Int40.UnmarshalJSON r [0x61, 0x62, 0x63] = Run.ret (r, some (GoError.NumError "ParseInt" [0x61, 0x62, 0x63] StrconvErr.syntaxError)) ∧
      Int40.UnmarshalJSON r [0x35, 0x34, 0x39, 0x37, 0x35, 0x35, 0x38, 0x31, 0x33, 0x38, 0x38, 0x38] = Run.ret (r, some GoError.ErrInt40OutOfRange) ∧
      Int40.UnmarshalBinary r [] = (r, some GoError.ErrInt40InvalidByteLength)) ∧
    (∀ (r : Uint40) (data : List Byte) (r1 : Uint40) (e : GoError),
      Uint40.UnmarshalJSON r data = Run.ret (r1, some e) →
      r1 = r ∧ Uint40.UnmarshalJSON r data = Run.ret (r, some e)) ∧
    (∀ (r : Uint40) (data : List Byte) (e : GoError),
      (Uint40.UnmarshalBinary r data).2 = some e → Uint40.UnmarshalBinary r data = (r, some e)) ∧
    (∀ r : Uint40, Uint40.UnmarshalJSON r [] = Run.ret (r, some GoError.ErrInt40EmptyData) ∧
      Uint40.UnmarshalJSON r [0x61, 0x62, 0x63] = Run.ret (r, some (GoError.NumError "ParseUint" [0x61, 0x62, 0x63] StrconvErr.syntaxError)) ∧
      Uint40.UnmarshalJSON r [0x31, 0x30, 0x39, 0x39, 0x35, 0x31, 0x31, 0x36, 0x32, 0x37, 0x37, 0x37, 0x36] = Run.ret (r, some GoError.ErrUint40OutOfRange) ∧
      Uint40.UnmarshalBinary r [] = (r, some GoError.ErrInt40InvalidByteLength)) ∧
    (∀ (r : Int48) (data : List Byte) (r1 : Int48) (e : GoError),
      Int48.UnmarshalJSON r data = Run.ret (r1, some e) →
      r1 = r ∧ Int48.UnmarshalJSON r data = Run.ret (r, some e)) ∧
    (∀ (r : Int48) (data : List Byte) (e : GoError),
      (Int48.UnmarshalBinary r data).2 = some e → Int48.UnmarshalBinary r data = (r, some e)) ∧
    (∀ r : Int48, Int48.UnmarshalJSON r [] = Run.ret (r, some GoError.ErrInt48EmptyData) ∧
      Int48.UnmarshalJSON r [0x61, 0x62, 0x63] = Run.ret (r, some (GoError.NumError "ParseInt" [0x61, 0x62, 0x63] StrconvErr.syntaxError)) ∧
      Int48.UnmarshalJSON r [0x31, 0x34, 0x30, 0x37, 0x33, 0x37, 0x34, 0x38, 0x38, 0x33, 0x35, 0x35, 0x33, 0x32, 0x38] = Run.ret (r, some GoError.ErrInt48OutOfRange) ∧
      Int48.UnmarshalBinary r [] = (r, some GoError.ErrInt48InvalidByteLength)) ∧
    (∀ (r : Uint48) (data : List Byte) (r1 : Uint48) (e : GoError),
      Uint48.UnmarshalJSON r data = Run.ret (r1, some e) →
      r1 = r ∧ Uint48.UnmarshalJSON r data = Run.ret (r, some e)) ∧
    (∀ (r : Uint48) (data : List Byte) (e : GoError),
      (Uint48.UnmarshalBinary r data).2 = some e → Uint48.UnmarshalBinary r data = (r, some e)) ∧
    (∀ r : Uint48, Uint48.UnmarshalJSON r [] = Run.ret (r, some GoError.ErrInt48EmptyData) ∧
      Uint48.UnmarshalJSON r [0x61, 0x62, 0x63] = Run.ret (r, some (GoError.NumError "ParseUint" [0x61, 0x62, 0x63] StrconvErr.syntaxError)) ∧
      Uint48.UnmarshalJSON r [0x32, 0x38, 0x31, 0x34, 0x37, 0x34, 0x39, 0x37, 0x36, 0x37, 0x31, 0x30, 0x36, 0x35, 0x36] = Run.ret (r, some GoError.ErrUint48OutOfRange) ∧
      Uint48.UnmarshalBinary r [] = (r, some GoError.ErrInt48InvalidByteLength)) ∧
    (∀ (r : Int56) (data : List Byte) (r1 : Int56) (e : GoError),
      Int56.UnmarshalJSON r data = Run.ret (r1, some e) →
      r1 = r ∧ Int56.UnmarshalJSON r data = Run.ret (r, some e)) ∧
    (∀ (r : Int56) (data : List Byte) (e : GoError),
      (Int56.UnmarshalBinary r data).2 = some e → Int56.UnmarshalBinary r data = (r, some e)) ∧
    (∀ r : Int56, Int56.UnmarshalJSON r [] = Run.ret (r, some GoError.ErrInt56EmptyData) ∧
      Int56.UnmarshalJSON r [0x61, 0x62, 0x63] = Run.ret (r, some (GoError.NumError "ParseInt" [0x61, 0x62, 0x63] StrconvErr.syntaxError)) ∧
      Int56.UnmarshalJSON r [0x33, 0x36, 0x30, 0x32, 0x38, 0x37, 0x39, 0x37, 0x30, 0x31, 0x38, 0x39, 0x36, 0x33, 0x39, 0x36, 0x38] = Run.ret (r, some GoError.ErrInt56OutOfRange) ∧
      Int56.UnmarshalBinary r [] = (r, some GoError.ErrInt56InvalidByteLength)) ∧
    (∀ (r : Uint56) (data : List Byte) (r1 : Uint56) (e : GoError),
      Uint56.UnmarshalJSON r data = Run.ret (r1, some e) →
      r1 = r ∧ Uint56.UnmarshalJSON r data = Run.ret (r, some e)) ∧
    (∀ (r : Uint56) (data : List Byte) (e : GoError),
      (Uint56.UnmarshalBinary r data).2 = some e → Uint56.UnmarshalBinary r data = (r, some e)) ∧
    (∀ r : Uint56, Uint56.UnmarshalJSON r [] = Run.ret (r, some GoError.ErrInt56EmptyData) ∧
      Uint56.UnmarshalJSON r [0x61, 0x62, 0x63] = Run.ret (r, some (GoError.NumError "ParseUint" [0x61, 0x62, 0x63] StrconvErr.syntaxError)) ∧
      Uint56.UnmarshalJSON r [0x37, 0x32, 0x30, 0x35, 0x37, 0x35, 0x39, 0x34, 0x30, 0x33, 0x37, 0x39, 0x32, 0x37, 0x39, 0x33, 0x36] = Run.ret (r, some GoError.ErrUint56OutOfRange) ∧
      Uint56.UnmarshalBinary r [] = (r, some GoError.ErrInt56InvalidByteLength)) :=
  ⟨fun r data r1 e h => by
     rcases Int24_UnmarshalJSON_result r data r1 (some e) h with ⟨_, h1⟩ | ⟨h1, _⟩
     · exact ⟨h1, by rw [h, h1]⟩
     · simp at h1,
   fun r data e h => by
     by_cases hl : data.length = 3
     · obtain ⟨v, hv, _⟩ := FromInt24Bytes_range data hl
       rw [Int24_UnmarshalBinary_ok r data hl, hv] at h
       simp at h
     · rw [Int24_UnmarshalBinary_len r data hl] at h ⊢
       simp only [Option.some.injEq] at h
       rw [h],
   fun r => ⟨Int24_UnmarshalJSON_nil r,
     Int24_UnmarshalJSON_parse_err r _ 0 _ (by decide) (by decide) (by decide),
     Int24_UnmarshalJSON_parse_out r _ 8388608 (by decide) (by decide) (by decide) (by omega),
     Int24_UnmarshalBinary_len r [] (by decide)⟩,
   fun r data r1 e h => by
     rcases Uint24_UnmarshalJSON_result r data r1 (some e) h with ⟨_, h1⟩ | ⟨h1, _⟩
     · exact ⟨h1, by rw [h, h1]⟩
     · simp at h1,
   fun r data e h => by
     by_cases hl : data.length = 3
     · obtain ⟨v, hv, _⟩ := FromUint24Bytes_range data hl
       rw [Uint24_UnmarshalBinary_ok r data hl, hv] at h
       simp at h
     · rw [Uint24_UnmarshalBinary_len r data hl] at h ⊢
       simp only [Option.some.injEq] at h
       rw [h],
   fun r => ⟨Uint24_UnmarshalJSON_nil r,
     Uint24_UnmarshalJSON_parse_err r _ 0 _ (by decide) (by decide) (by decide),
     Uint24_UnmarshalJSON_parse_out r _ 16777216 (by decide) (by decide) (by decide) (by omega),
     Uint24_UnmarshalBinary_len r [] (by decide)⟩,
   fun r data r1 e h => by
     rcases Int40_UnmarshalJSON_result r data r1 (some e) h with ⟨_, h1⟩ | ⟨h1, _⟩
     · exact ⟨h1, by rw [h, h1]⟩
     · simp at h1,
   fun r data e h => by
     by_cases hl : data.length = 5
     · obtain ⟨v, hv, _⟩ := FromInt40Bytes_range data hl
       rw [Int40_UnmarshalBinary_ok r data hl, hv] at h
       simp at h
     · rw [Int40_UnmarshalBinary_len r data hl] at h ⊢
       simp only [Option.some.injEq] at h
       rw [h],
   fun r => ⟨Int40_UnmarshalJSON_nil r,
     Int40_UnmarshalJSON_parse_err r _ 0 _ (by decide) (by decide) (by decide),
     Int40_UnmarshalJSON_parse_out r _ 549755813888 (by decide) (by decide) (by decide) (by omega),
     Int40_UnmarshalBinary_len r [] (by decide)⟩,
   fun r data r1 e h => by
     rcases Uint40_UnmarshalJSON_result r data r1 (some e) h with ⟨_, h1⟩ | ⟨h1, _⟩
     · exact ⟨h1, by rw [h, h1]⟩
     · simp at h1,
   fun r data e h => by
     by_cases hl : data.length = 5
     · obtain ⟨v, hv, _⟩ := FromUint40Bytes_range data hl
       rw [Uint40_UnmarshalBinary_ok r data hl, hv] at h
       simp at h
     · rw [Uint40_UnmarshalBinary_len r data hl] at h ⊢
       simp only [Option.some.injEq] at h
       rw [h],
   fun r => ⟨Uint40_UnmarshalJSON_nil r,
     Uint40_UnmarshalJSON_parse_err r _ 0 _ (by decide) (by decide) (by decide),
     Uint40_UnmarshalJSON_parse_out r _ 1099511627776 (by decide) (by decide) (by decide) (by omega),
     Uint40_UnmarshalBinary_len r [] (by decide)⟩,
   fun r data r1 e h => by
     rcases Int48_UnmarshalJSON_result r data r1 (some e) h with ⟨_, h1⟩ | ⟨h1, _⟩
     · exact ⟨h1, by rw [h, h1]⟩
     · simp at h1,
   fun r data e h => by
     by_cases hl : data.length = 6
     · obtain ⟨v, hv, _⟩ := FromInt48Bytes_range data hl
       rw [Int48_UnmarshalBinary_ok r data hl, hv] at h
       simp at h
     · rw [Int48_UnmarshalBinary_len r data hl] at h ⊢
       simp only [Option.some.injEq] at h
       rw [h],
   fun r => ⟨Int48_UnmarshalJSON_nil r,
     Int48_UnmarshalJSON_parse_err r _ 0 _ (by decide) (by decide) (by decide),
     Int48_UnmarshalJSON_parse_out r _ 140737488355328 (by decide) (by decide) (by decide) (by omega),
     Int48_UnmarshalBinary_len r [] (by decide)⟩,
   fun r data r1 e h => by
     rcases Uint48_UnmarshalJSON_result r data r1 (some e) h with ⟨_, h1⟩ | ⟨h1, _⟩
     · exact ⟨h1, by rw [h, h1]⟩
     · simp at h1,
   fun r data e h => by
     by_cases hl : data.length = 6
     · obtain ⟨v, hv, _⟩ := FromUint48Bytes_range data hl
       rw [Uint48_UnmarshalBinary_ok r data hl, hv] at h
       simp at h
     · rw [Uint48_UnmarshalBinary_len r data hl] at h ⊢
       simp only [Option.some.injEq] at h
       rw [h],
   fun r => ⟨Uint48_UnmarshalJSON_nil r,
     Uint48_UnmarshalJSON_parse_err r _ 0 _ (by decide) (by decide) (by decide),
     Uint48_UnmarshalJSON_parse_out r _ 281474976710656 (by decide) (by decide) (by decide) (by omega),
     Uint48_UnmarshalBinary_len r [] (by decide)⟩,
   fun r data r1 e h => by
     rcases Int56_UnmarshalJSON_result r data r1 (some e) h with ⟨_, h1⟩ | ⟨h1, _⟩
     · exact ⟨h1, by rw [h, h1]⟩
     · simp at h1,
   fun r data e h => by
     by_cases hl : data.length = 7
     · obtain ⟨v, hv, _⟩ := FromInt56Bytes_range data hl
       rw [Int56_UnmarshalBinary_ok r data hl, hv] at h
       simp at h
     · rw [Int56_UnmarshalBinary_len r data hl] at h ⊢
       simp only [Option.some.injEq] at h
       rw [h],
   fun r => ⟨Int56_UnmarshalJSON_nil r,
     Int56_UnmarshalJSON_parse_err r _ 0 _ (by decide) (by decide) (by decide),
     Int56_UnmarshalJSON_parse_out r _ 36028797018963968 (by decide) (by decide) (by decide) (by omega),
     Int56_UnmarshalBinary_len r [] (by decide)⟩,
   fun r data r1 e h => by
     rcases Uint56_UnmarshalJSON_result r data r1 (some e) h with ⟨_, h1⟩ | ⟨h1, _⟩
     · exact ⟨h1, by rw [h, h1]⟩
     · simp at h1,
   fun r data e h => by
     by_cases hl : data.length = 7
     · obtain ⟨v, hv, _⟩ := FromUint56Bytes_range data hl
       rw [Uint56_UnmarshalBinary_ok r data hl, hv] at h
       simp at h
     · rw [Uint56_UnmarshalBinary_len r data hl] at h ⊢
       simp only [Option.some.injEq] at h
       rw [h],
   fun r => ⟨Uint56_UnmarshalJSON_nil r,
     Uint56_UnmarshalJSON_parse_err r _ 0 _ (by decide) (by decide) (by decide),
     Uint56_UnmarshalJSON_parse_out r _ 72057594037927936 (by decide) (by decide) (by decide) (by omega),
     Uint56_UnmarshalBinary_len r [] (by decide)⟩⟩

/-- Instances of `C31_unmarshal_is_atomic_on_failure` at concrete inputs, one for each type. -/
theorem C31_unmarshal_is_atomic_on_failure_witness :
    ((Int24.mk 7) = ⟨7⟩ ∧ Int24.UnmarshalJSON ⟨7⟩ [0x61, 0x62, 0x63] =
        Run.ret (⟨7⟩, some (GoError.NumError "ParseInt" [0x61, 0x62, 0x63] StrconvErr.syntaxError))) ∧
    (Int24.UnmarshalBinary ⟨7⟩ [0x01] = (⟨7⟩, some GoError.ErrInt24InvalidByteLength)) ∧
    ((Uint24.mk 7) = ⟨7⟩ ∧ Uint24.UnmarshalJSON ⟨7⟩ [0x61, 0x62, 0x63] =
        Run.ret (⟨7⟩, some (GoError.NumError "ParseUint" [0x61, 0x62, 0x63] StrconvErr.syntaxError))) ∧
    (Uint24.UnmarshalBinary ⟨7⟩ [0x01] = (⟨7⟩, some GoError.ErrInt24InvalidByteLength)) ∧
    ((Int40.mk 7) = ⟨7⟩ ∧ Int40.UnmarshalJSON ⟨7⟩ [0x61, 0x62, 0x63] =
        Run.ret (⟨7⟩, some (GoError.NumError "ParseInt" [0x61, 0x62, 0x63] StrconvErr.syntaxError))) ∧
    (Int40.UnmarshalBinary ⟨7⟩ [0x01] = (⟨7⟩, some GoError.ErrInt40InvalidByteLength)) ∧
    ((Uint40.mk 7) = ⟨7⟩ ∧ Uint40.UnmarshalJSON ⟨7⟩ [0x61, 0x62, 0x63] =
        Run.ret (⟨7⟩, some (GoError.NumError "ParseUint" [0x61, 0x62, 0x63] StrconvErr.syntaxError))) ∧
    (Uint40.UnmarshalBinary ⟨7⟩ [0x01] = (⟨7⟩, some GoError.ErrInt40InvalidByteLength)) ∧
    ((Int48.mk 7) = ⟨7⟩ ∧ Int48.UnmarshalJSON ⟨7⟩ [0x61, 0x62, 0x63] =
        Run.ret (⟨7⟩, some (GoError.NumError "ParseInt" [0x61, 0x62, 0x63] StrconvErr.syntaxError))) ∧
    (Int48.UnmarshalBinary ⟨7⟩ [0x01] = (⟨7⟩, some GoError.ErrInt48InvalidByteLength)) ∧
    ((Uint48.mk 7) = ⟨7⟩ ∧ Uint48.UnmarshalJSON ⟨7⟩ [0x61, 0x62, 0x63] =
        Run.ret (⟨7⟩, some (GoError.NumError "ParseUint" [0x61, 0x62, 0x63] StrconvErr.syntaxError))) ∧
    (Uint48.UnmarshalBinary ⟨7⟩ [0x01] = (⟨7⟩, some GoError.ErrInt48InvalidByteLength)) ∧
    ((Int56.mk 7) = ⟨7⟩ ∧ Int56.UnmarshalJSON ⟨7⟩ [0x61, 0x62, 0x63] =
        Run.ret (⟨7⟩, some (GoError.NumError "ParseInt" [0x61, 0x62, 0x63] StrconvErr.syntaxError))) ∧
    (Int56.UnmarshalBinary ⟨7⟩ [0x01] = (⟨7⟩, some GoError.ErrInt56InvalidByteLength)) ∧
    ((Uint56.mk 7) = ⟨7⟩ ∧ Uint56.UnmarshalJSON ⟨7⟩ [0x61, 0x62, 0x63] =
        Run.ret (⟨7⟩, some (GoError.NumError "ParseUint" [0x61, 0x62, 0x63] StrconvErr.syntaxError))) ∧
    (Uint56.UnmarshalBinary ⟨7⟩ [0x01] = (⟨7⟩, some GoError.ErrInt56InvalidByteLength)) :=
  ⟨C31_unmarshal_is_atomic_on_failure.1 ⟨7⟩ [0x61, 0x62, 0x63] ⟨7⟩ (GoError.NumError "ParseInt" [0x61, 0x62, 0x63] StrconvErr.syntaxError) (by decide),
   C31_unmarshal_is_atomic_on_failure.2.1 ⟨7⟩ [0x01] GoError.ErrInt24InvalidByteLength (by decide),
   C31_unmarshal_is_atomic_on_failure.2.2.2.1 ⟨7⟩ [0x61, 0x62, 0x63] ⟨7⟩ (GoError.NumError "ParseUint" [0x61, 0x62, 0x63] StrconvErr.syntaxError) (by decide),
   C31_unmarshal_is_atomic_on_failure.2.2.2.2.1 ⟨7⟩ [0x01] GoError.ErrInt24InvalidByteLength (by decide),
   C31_unmarshal_is_atomic_on_failure.2.2.2.2.2.2.1 ⟨7⟩ [0x61, 0x62, 0x63] ⟨7⟩ (GoError.NumError "ParseInt" [0x61, 0x62, 0x63] StrconvErr.syntaxError) (by decide),
   C31_unmarshal_is_atomic_on_failure.2.2.2.2.2.2.2.1 ⟨7⟩ [0x01] GoError.ErrInt40InvalidByteLength (by decide),
   C31_unmarshal_is_atomic_on_failure.2.2.2.2.2.2.2.2.2.1 ⟨7⟩ [0x61, 0x62, 0x63] ⟨7⟩ (GoError.NumError "ParseUint" [0x61, 0x62, 0x63] StrconvErr.syntaxError) (by decide),
   C31_unmarshal_is_atomic_on_failure.2.2.2.2.2.2.2.2.2.2.1 ⟨7⟩ [0x01] GoError.ErrInt40InvalidByteLength (by decide),
   C31_unmarshal_is_atomic_on_failure.2.2.2.2.2.2.2.2.2.2.2.2.1 ⟨7⟩ [0x61, 0x62, 0x63] ⟨7⟩ (GoError.NumError "ParseInt" [0x61, 0x62, 0x63] StrconvErr.syntaxError) (by decide),
   C31_unmarshal_is_atomic_on_failure.2.2.2.2.2.2.2.2.2.2.2.2.2.1 ⟨7⟩ [0x01] GoError.ErrInt48InvalidByteLength (by decide),
   C31_unmarshal_is_atomic_on_failure.2.2.2.2.2.2.2.2.2.2.2.2.2.2.2.1 ⟨7⟩ [0x61, 0x62, 0x63] ⟨7⟩ (GoError.NumError "ParseUint" [0x61, 0x62, 0x63] StrconvErr.syntaxError) (by decide),
   C31_unmarshal_is_atomic_on_failure.2.2.2.2.2.2.2.2.2.2.2.2.2.2.2.2.1 ⟨7⟩ [0x01] GoError.ErrInt48InvalidByteLength (by decide),
   C31_unmarshal_is_atomic_on_failure.2.2.2.2.2.2.2.2.2.2.2.2.2.2.2.2.2.2.1 ⟨7⟩ [0x61, 0x62, 0x63] ⟨7⟩ (GoError.NumError "ParseInt" [0x61, 0x62, 0x63] StrconvErr.syntaxError) (by decide),
   C31_unmarshal_is_atomic_on_failure.2.2.2.2.2.2.2.2.2.2.2.2.2.2.2.2.2.2.2.1 ⟨7⟩ [0x01] GoError.ErrInt56InvalidByteLength (by decide),
   C31_unmarshal_is_atomic_on_failure.2.2.2.2.2.2.2.2.2.2.2.2.2.2.2.2.2.2.2.2.2.1 ⟨7⟩ [0x61, 0x62, 0x63] ⟨7⟩ (GoError.NumError "ParseUint" [0x61, 0x62, 0x63] StrconvErr.syntaxError) (by decide),
   C31_unmarshal_is_atomic_on_failure.2.2.2.2.2.2.2.2.2.2.2.2.2.2.2.2.2.2.2.2.2.2.1 ⟨7⟩ [0x01] GoError.ErrInt56InvalidByteLength (by decide)⟩

/-- C32: decoder byte-order symmetry. For each of the eight types and every byte sequence `b`, of any
length, `FromXLittleEndianBytes b` gives the same result, value or error, as `FromXBytes` on the
reversal of `b`. -/
theorem C32_decoder_byte_order_symmetry :
    (∀ b : List Byte, FromInt24LittleEndianBytes b = FromInt24Bytes b.reverse) ∧
    (∀ b : List Byte, FromUint24LittleEndianBytes b = FromUint24Bytes b.reverse) ∧
    (∀ b : List Byte, FromInt40LittleEndianBytes b = FromInt40Bytes b.reverse) ∧
    (∀ b : List Byte, FromUint40LittleEndianBytes b = FromUint40Bytes b.reverse) ∧
    (∀ b : List Byte, FromInt48LittleEndianBytes b = FromInt48Bytes b.reverse) ∧
    (∀ b : List Byte, FromUint48LittleEndianBytes b = FromUint48Bytes b.reverse) ∧
    (∀ b : List Byte, FromInt56LittleEndianBytes b = FromInt56Bytes b.reverse) ∧
    (∀ b : List Byte, FromUint56LittleEndianBytes b = FromUint56Bytes b.reverse) :=
  ⟨FromInt24LittleEndianBytes_reverse,
   FromUint24LittleEndianBytes_reverse,
   FromInt40LittleEndianBytes_reverse,
   FromUint40LittleEndianBytes_reverse,
   FromInt48LittleEndianBytes_reverse,
   FromUint48LittleEndianBytes_reverse,
   FromInt56LittleEndianBytes_reverse,
   FromUint56LittleEndianBytes_reverse⟩

/-- C33: the big-endian encoding of unsigned values preserves order. For each unsigned type and all
values `u` and `v` returned by a successful `NewX`, `u.Uint64 < v.Uint64` exactly when `u.ToBytes`
comes strictly before `v.ToBytes` in the lexicographic order of bytes. -/
theorem C33_unsigned_bigEndian_encoding_preserves_order :
    (∀ u v : Nat, (NewUint24 u).2 = none → (NewUint24 v).2 = none →
      ((NewUint24 u).1.Uint64 < (NewUint24 v).1.Uint64 ↔
        lexLess (NewUint24 u).1.ToBytes (NewUint24 v).1.ToBytes = true)) ∧
    (∀ u v : Nat, (NewUint40 u).2 = none → (NewUint40 v).2 = none →
      ((NewUint40 u).1.Uint64 < (NewUint40 v).1.Uint64 ↔
        lexLess (NewUint40 u).1.ToBytes (NewUint40 v).1.ToBytes = true)) ∧
    (∀ u v : Nat, (NewUint48 u).2 = none → (NewUint48 v).2 = none →
      ((NewUint48 u).1.Uint64 < (NewUint48 v).1.Uint64 ↔
        lexLess (NewUint48 u).1.ToBytes (NewUint48 v).1.ToBytes = true)) ∧
    (∀ u v : Nat, (NewUint56 u).2 = none → (NewUint56 v).2 = none →
      ((NewUint56 u).1.Uint64 < (NewUint56 v).1.Uint64 ↔
        lexLess (NewUint56 u).1.ToBytes (NewUint56 v).1.ToBytes = true)) :=
  ⟨Uint24_order_New,
   Uint40_order_New,
   Uint48_order_New,
   Uint56_order_New⟩

/-- Instances of `C33_unsigned_bigEndian_encoding_preserves_order` at concrete inputs, one for each type. -/
theorem C33_unsigned_bigEndian_encoding_preserves_order_witness :
    (((NewUint24 255).1.Uint64 < (NewUint24 256).1.Uint64 ↔
        lexLess (NewUint24 255).1.ToBytes (NewUint24 256).1.ToBytes = true)) ∧
    (((NewUint40 255).1.Uint64 < (NewUint40 256).1.Uint64 ↔
        lexLess (NewUint40 255).1.ToBytes (NewUint40 256).1.ToBytes = true)) ∧
    (((NewUint48 255).1.Uint64 < (NewUint48 256).1.Uint64 ↔
        lexLess (NewUint48 255).1.ToBytes (NewUint48 256).1.ToBytes = true)) ∧
    (((NewUint56 255).1.Uint64 < (NewUint56 256).1.Uint64 ↔
        lexLess (NewUint56 255).1.ToBytes (NewUint56 256).1.ToBytes = true)) :=
  ⟨C33_unsigned_bigEndian_encoding_preserves_order.1 255 256 (by decide) (by decide),
   C33_unsigned_bigEndian_encoding_preserves_order.2.1 255 256 (by decide) (by decide),
   C33_unsigned_bigEndian_encoding_preserves_order.2.2.1 255 256 (by decide) (by decide),
   C33_unsigned_bigEndian_encoding_preserves_order.2.2.2 255 256 (by decide) (by decide)⟩

/-- C34, evaluation at the failing input: `MustUint24` on an out-of-range input such as `0x1000000`
panics with the text `value exceeds range for Uint24`, while the error of `NewUint24` carries the
text `value exceeds maximum for Uint24`; for the other seven types the text of the panic is the
text of the out-of-range error. -/
theorem C34_MustUint24_panics_with_another_message :
    (MustUint24 0x1000000 = Run.panic (.text "value exceeds range for Uint24") ∧
      (NewUint24 0x1000000).2 = some GoError.ErrUint24OutOfRange ∧
      GoError.ErrUint24OutOfRange.message = some "value exceeds maximum for Uint24" ∧
      "value exceeds range for Uint24" ≠ "value exceeds maximum for Uint24") ∧
    (∀ v : Int, (-(2 ^ 23) ≤ v ∧ v ≤ 2 ^ 23 - 1) ∨
      (MustInt24 v = Run.panic (.text "value exceeds range for Int24") ∧ (NewInt24 v).2 = some GoError.ErrInt24OutOfRange ∧
        GoError.ErrInt24OutOfRange.message = some "value exceeds range for Int24")) ∧
    (∀ v : Nat, (v ≤ 2 ^ 24 - 1) ∨
      (MustUint24 v = Run.panic (.text "value exceeds range for Uint24") ∧ (NewUint24 v).2 = some GoError.ErrUint24OutOfRange ∧
        GoError.ErrUint24OutOfRange.message = some "value exceeds maximum for Uint24")) ∧
    (∀ v : Int, (-(2 ^ 39) ≤ v ∧ v ≤ 2 ^ 39 - 1) ∨
      (MustInt40 v = Run.panic (.text "value exceeds range for Int40") ∧ (NewInt40 v).2 = some GoError.ErrInt40OutOfRange ∧
        GoError.ErrInt40OutOfRange.message = some "value exceeds range for Int40")) ∧
    (∀ v : Nat, (v ≤ 2 ^ 40 - 1) ∨
      (MustUint40 v = Run.panic (.text "value exceeds maximum for Uint40") ∧ (NewUint40 v).2 = some GoError.ErrUint40OutOfRange ∧
        GoError.ErrUint40OutOfRange.message = some "value exceeds maximum for Uint40")) ∧
    (∀ v : Int, (-(2 ^ 47) ≤ v ∧ v ≤ 2 ^ 47 - 1) ∨
      (MustInt48 v = Run.panic (.text "value exceeds range for Int48") ∧ (NewInt48 v).2 = some GoError.ErrInt48OutOfRange ∧
        GoError.ErrInt48OutOfRange.message = some "value exceeds range for Int48")) ∧
    (∀ v : Nat, (v ≤ 2 ^ 48 - 1) ∨
      (MustUint48 v = Run.panic (.text "value exceeds maximum for Uint48") ∧ (NewUint48 v).2 = some GoError.ErrUint48OutOfRange ∧
        GoError.ErrUint48OutOfRange.message = some "value exceeds maximum for Uint48")) ∧
    (∀ v : Int, (-(2 ^ 55) ≤ v ∧ v ≤ 2 ^ 55 - 1) ∨
      (MustInt56 v = Run.panic (.text "value exceeds range for Int56") ∧ (NewInt56 v).2 = some GoError.ErrInt56OutOfRange ∧
        GoError.ErrInt56OutOfRange.message = some "value exceeds range for Int56")) ∧
    (∀ v : Nat, (v ≤ 2 ^ 56 - 1) ∨
      (MustUint56 v = Run.panic (.text "value exceeds maximum for Uint56") ∧ (NewUint56 v).2 = some GoError.ErrUint56OutOfRange ∧
        GoError.ErrUint56OutOfRange.message = some "value exceeds maximum for Uint56")) :=
  ⟨by decide,
   fun v => by
     by_cases h : -(2 ^ 23) ≤ v ∧ v ≤ 2 ^ 23 - 1
     · exact Or.inl h
     · exact Or.inr ⟨MustInt24_out v h, by rw [NewInt24_out v h], rfl⟩,
   fun v => by
     by_cases h : v ≤ 2 ^ 24 - 1
     · exact Or.inl h
     · exact Or.inr ⟨MustUint24_out v h, by rw [NewUint24_out v h], rfl⟩,
   fun v => by
     by_cases h : -(2 ^ 39) ≤ v ∧ v ≤ 2 ^ 39 - 1
     · exact Or.inl h
     · exact Or.inr ⟨MustInt40_out v h, by rw [NewInt40_out v h], rfl⟩,
   fun v => by
     by_cases h : v ≤ 2 ^ 40 - 1
     · exact Or.inl h
     · exact Or.inr ⟨MustUint40_out v h, by rw [NewUint40_out v h], rfl⟩,
   fun v => by
     by_cases h : -(2 ^ 47) ≤ v ∧ v ≤ 2 ^ 47 - 1
     · exact Or.inl h
     · exact Or.inr ⟨MustInt48_out v h, by rw [NewInt48_out v h], rfl⟩,
   fun v => by
     by_cases h : v ≤ 2 ^ 48 - 1
     · exact Or.inl h
     · exact Or.inr ⟨MustUint48_out v h, by rw [NewUint48_out v h], rfl⟩,
   fun v => by
     by_cases h : -(2 ^ 55) ≤ v ∧ v ≤ 2 ^ 55 - 1
     · exact Or.inl h
     · exact Or.inr ⟨MustInt56_out v h, by rw [NewInt56_out v h], rfl⟩,
   fun v => by
     by_cases h : v ≤ 2 ^ 56 - 1
     · exact Or.inl h
     · exact Or.inr ⟨MustUint56_out v h, by rw [NewUint56_out v h], rfl⟩⟩

end Intx
